import Mathlib

/-!
# IDP template projection (`internal/query/projection/idp_template.go`)

A shallow embedding of the reducers of the identity-provider template projection:
the dispatch table `reducers`, the seventeen reducer methods and the column
builders they share.  Events are values of an inductive type whose constructors
are the concrete Go event types the reducers switch on; a reducer returns
`Except Error Statement` for Go's `(*handler.Statement, error)`.
-/

namespace projection

/-! ## Column values -/

/-- The encrypted secret `crypto.CryptoValue`: a ciphertext blob together with the
key it was encrypted under.  The projection never looks inside it. -/
structure crypto.CryptoValue where
  Algorithm : String
  KeyID : String
  Crypted : List Nat
deriving DecidableEq

/-- The state enum `domain.IDPState` of a provider configuration. -/
inductive domain.IDPState
  | IDPStateUnspecified
  | IDPStateActive
  | IDPStateInactive
  | IDPStateRemoved
deriving DecidableEq

/-- The type discriminant `domain.IDPType` of the primary row. -/
inductive domain.IDPType
  | IDPTypeUnspecified
  | IDPTypeOIDC
  | IDPTypeJWT
  | IDPTypeOAuth
  | IDPTypeLDAP
  | IDPTypeGoogle
deriving DecidableEq

/-- The owner-type enum `domain.IdentityProviderType`. -/
inductive domain.IdentityProviderType
  | IdentityProviderTypeSystem
  | IdentityProviderTypeOrg
deriving DecidableEq

/-- The values a reducer hands to `handler.NewCol` / `handler.NewCond` (Go `interface{}`).
A `*crypto.CryptoValue` and the value it points to are the same column value
(`crypto (some v)`); a nil pointer is `crypto none`.  `stringArray` is
`database.StringArray`, `none` being the nil slice. -/
inductive Value
  | text (s : String)
  | bool (b : Bool)
  | timestamp (t : Nat)
  | uint64 (n : Nat)
  | idpState (s : domain.IDPState)
  | idpType (t : domain.IDPType)
  | ownerType (t : domain.IdentityProviderType)
  | crypto (v : Option crypto.CryptoValue)
  | stringArray (a : Option (List String))
deriving DecidableEq

/-- The conversion `database.StringArray(scopes)` of a `[]string` (nil is `none`). -/
def database.StringArray (a : Option (List String)) : Value := Value.stringArray a

/-! ## Events -/

/-- The aggregate types (`instance.AggregateType`, `org.AggregateType`, and those of
other aggregates flowing through the same log). -/
inductive eventstore.AggregateType
  | instanceAggregateType
  | orgAggregateType
  | otherAggregateType (name : String)
deriving DecidableEq

/-- The aggregate descriptor `eventstore.Aggregate` of an event. -/
structure eventstore.Aggregate where
  ID : String
  Typ : eventstore.AggregateType
  ResourceOwner : String
  InstanceID : String
deriving DecidableEq

/-- The metadata every event embeds (`eventstore.BaseEvent`), read through the
methods `Aggregate()`, `Sequence()` and `CreationDate()`. -/
structure eventstore.BaseEvent where
  Aggregate : eventstore.Aggregate
  Sequence : Nat
  CreationDate : Nat
deriving DecidableEq

/-- The capability flags `idp.Options` embedded in every Added event. -/
structure idp.Options where
  IsCreationAllowed : Bool
  IsLinkingAllowed : Bool
  IsAutoCreation : Bool
  IsAutoUpdate : Bool
deriving DecidableEq

/-- The optional capability flags `idp.OptionChanges` of a Changed event (nil is `none`). -/
structure idp.OptionChanges where
  IsCreationAllowed : Option Bool
  IsLinkingAllowed : Option Bool
  IsAutoCreation : Option Bool
  IsAutoUpdate : Option Bool
deriving DecidableEq

/-- Payload `idp.OAuthIDPAddedEvent`. -/
structure idp.OAuthIDPAddedEvent extends eventstore.BaseEvent, idp.Options where
  ID : String
  Name : String
  ClientID : String
  ClientSecret : Option crypto.CryptoValue
  AuthorizationEndpoint : String
  TokenEndpoint : String
  UserEndpoint : String
  Scopes : Option (List String)
deriving DecidableEq

/-- Payload `idp.OAuthIDPChangedEvent`: every mutable field is a pointer or a slice. -/
structure idp.OAuthIDPChangedEvent extends eventstore.BaseEvent where
  ID : String
  Name : Option String
  ClientID : Option String
  ClientSecret : Option crypto.CryptoValue
  AuthorizationEndpoint : Option String
  TokenEndpoint : Option String
  UserEndpoint : Option String
  Scopes : Option (List String)
  OptionChanges : idp.OptionChanges
deriving DecidableEq

/-- Payload `idp.OIDCIDPAddedEvent`. -/
structure idp.OIDCIDPAddedEvent extends eventstore.BaseEvent, idp.Options where
  ID : String
  Name : String
  Issuer : String
  ClientID : String
  ClientSecret : Option crypto.CryptoValue
  Scopes : Option (List String)
deriving DecidableEq

/-- Payload `idp.OIDCIDPChangedEvent`. -/
structure idp.OIDCIDPChangedEvent extends eventstore.BaseEvent where
  ID : String
  Name : Option String
  Issuer : Option String
  ClientID : Option String
  ClientSecret : Option crypto.CryptoValue
  Scopes : Option (List String)
  OptionChanges : idp.OptionChanges
deriving DecidableEq

/-- Payload `idp.JWTIDPAddedEvent`. -/
structure idp.JWTIDPAddedEvent extends eventstore.BaseEvent, idp.Options where
  ID : String
  Name : String
  Issuer : String
  JWTEndpoint : String
  KeysEndpoint : String
  HeaderName : String
deriving DecidableEq

/-- Payload `idp.JWTIDPChangedEvent`. -/
structure idp.JWTIDPChangedEvent extends eventstore.BaseEvent where
  ID : String
  Name : Option String
  Issuer : Option String
  JWTEndpoint : Option String
  KeysEndpoint : Option String
  HeaderName : Option String
  OptionChanges : idp.OptionChanges
deriving DecidableEq

/-- Payload `idp.GoogleIDPAddedEvent`. -/
structure idp.GoogleIDPAddedEvent extends eventstore.BaseEvent, idp.Options where
  ID : String
  Name : String
  ClientID : String
  ClientSecret : Option crypto.CryptoValue
  Scopes : Option (List String)
deriving DecidableEq

/-- Payload `idp.GoogleIDPChangedEvent`. -/
structure idp.GoogleIDPChangedEvent extends eventstore.BaseEvent where
  ID : String
  Name : Option String
  ClientID : Option String
  ClientSecret : Option crypto.CryptoValue
  Scopes : Option (List String)
  OptionChanges : idp.OptionChanges
deriving DecidableEq

/-- The attribute mapping `idp.LDAPAttributes` embedded in the LDAP Added event. -/
structure idp.LDAPAttributes where
  IDAttribute : String
  FirstNameAttribute : String
  LastNameAttribute : String
  DisplayNameAttribute : String
  NickNameAttribute : String
  PreferredUsernameAttribute : String
  EmailAttribute : String
  EmailVerifiedAttribute : String
  PhoneAttribute : String
  PhoneVerifiedAttribute : String
  PreferredLanguageAttribute : String
  AvatarURLAttribute : String
  ProfileAttribute : String
deriving DecidableEq

/-- The optional attribute mapping `idp.LDAPAttributeChanges` of the LDAP Changed event. -/
structure idp.LDAPAttributeChanges where
  IDAttribute : Option String
  FirstNameAttribute : Option String
  LastNameAttribute : Option String
  DisplayNameAttribute : Option String
  NickNameAttribute : Option String
  PreferredUsernameAttribute : Option String
  EmailAttribute : Option String
  EmailVerifiedAttribute : Option String
  PhoneAttribute : Option String
  PhoneVerifiedAttribute : Option String
  PreferredLanguageAttribute : Option String
  AvatarURLAttribute : Option String
  ProfileAttribute : Option String
deriving DecidableEq

/-- Payload `idp.LDAPIDPAddedEvent`. -/
structure idp.LDAPIDPAddedEvent extends eventstore.BaseEvent, idp.Options, idp.LDAPAttributes where
  ID : String
  Name : String
  Host : String
  Port : String
  TLS : Bool
  BaseDN : String
  UserObjectClass : String
  UserUniqueAttribute : String
  Admin : String
  Password : Option crypto.CryptoValue
deriving DecidableEq

/-- Payload `idp.LDAPIDPChangedEvent`. -/
structure idp.LDAPIDPChangedEvent extends eventstore.BaseEvent, idp.LDAPAttributeChanges where
  ID : String
  Name : Option String
  Host : Option String
  Port : Option String
  TLS : Option Bool
  BaseDN : Option String
  UserObjectClass : Option String
  UserUniqueAttribute : Option String
  Admin : Option String
  Password : Option crypto.CryptoValue
  OptionChanges : idp.OptionChanges
deriving DecidableEq

/-- Payload `idp.RemovedEvent`. -/
structure idp.RemovedEvent extends eventstore.BaseEvent where
  ID : String
deriving DecidableEq

/-- Legacy payload `idpconfig.IDPConfigAddedEvent` (the fields the projection reads). -/
structure idpconfig.IDPConfigAddedEvent extends eventstore.BaseEvent where
  ConfigID : String
  Name : String
  AutoRegister : Bool
deriving DecidableEq

/-- Legacy payload `idpconfig.IDPConfigChangedEvent`. -/
structure idpconfig.IDPConfigChangedEvent extends eventstore.BaseEvent where
  ConfigID : String
  Name : Option String
  AutoRegister : Option Bool
deriving DecidableEq

/-- Legacy payload `idpconfig.OIDCConfigAddedEvent`. -/
structure idpconfig.OIDCConfigAddedEvent extends eventstore.BaseEvent where
  IDPConfigID : String
  ClientID : String
  ClientSecret : Option crypto.CryptoValue
  Issuer : String
  Scopes : Option (List String)
deriving DecidableEq

/-- Legacy payload `idpconfig.OIDCConfigChangedEvent`. -/
structure idpconfig.OIDCConfigChangedEvent extends eventstore.BaseEvent where
  IDPConfigID : String
  ClientID : Option String
  ClientSecret : Option crypto.CryptoValue
  Issuer : Option String
  Scopes : Option (List String)
deriving DecidableEq

/-- Legacy payload `idpconfig.JWTConfigAddedEvent`. -/
structure idpconfig.JWTConfigAddedEvent extends eventstore.BaseEvent where
  IDPConfigID : String
  JWTEndpoint : String
  Issuer : String
  KeysEndpoint : String
  HeaderName : String
deriving DecidableEq

/-- Legacy payload `idpconfig.JWTConfigChangedEvent`. -/
structure idpconfig.JWTConfigChangedEvent extends eventstore.BaseEvent where
  IDPConfigID : String
  JWTEndpoint : Option String
  Issuer : Option String
  KeysEndpoint : Option String
  HeaderName : Option String
deriving DecidableEq

/-- The struct an `org.<Name>` or `instance.<Name>` event wraps: the packages `org` and
`instance` declare one event type per payload, each embedding the `idp` /
`idpconfig` struct of the same business meaning. -/
inductive Payload
  | OAuthIDPAddedEvent (e : idp.OAuthIDPAddedEvent)
  | OAuthIDPChangedEvent (e : idp.OAuthIDPChangedEvent)
  | OIDCIDPAddedEvent (e : idp.OIDCIDPAddedEvent)
  | OIDCIDPChangedEvent (e : idp.OIDCIDPChangedEvent)
  | JWTIDPAddedEvent (e : idp.JWTIDPAddedEvent)
  | JWTIDPChangedEvent (e : idp.JWTIDPChangedEvent)
  | IDPConfigAddedEvent (e : idpconfig.IDPConfigAddedEvent)
  | IDPConfigChangedEvent (e : idpconfig.IDPConfigChangedEvent)
  | IDPOIDCConfigAddedEvent (e : idpconfig.OIDCConfigAddedEvent)
  | IDPOIDCConfigChangedEvent (e : idpconfig.OIDCConfigChangedEvent)
  | IDPJWTConfigAddedEvent (e : idpconfig.JWTConfigAddedEvent)
  | IDPJWTConfigChangedEvent (e : idpconfig.JWTConfigChangedEvent)
  | GoogleIDPAddedEvent (e : idp.GoogleIDPAddedEvent)
  | GoogleIDPChangedEvent (e : idp.GoogleIDPChangedEvent)
  | LDAPIDPAddedEvent (e : idp.LDAPIDPAddedEvent)
  | LDAPIDPChangedEvent (e : idp.LDAPIDPChangedEvent)
  | IDPRemovedEvent (e : idp.RemovedEvent)
deriving DecidableEq

/-- The wire tags (`eventstore.EventType`) the source names: the constants of package
`instance` and of package `org`, and `other` for the tags of unrelated events. -/
inductive eventstore.EventType
  | instanceOAuthIDPAddedEventType
  | instanceOAuthIDPChangedEventType
  | instanceOIDCIDPAddedEventType
  | instanceOIDCIDPChangedEventType
  | instanceJWTIDPAddedEventType
  | instanceJWTIDPChangedEventType
  | instanceIDPConfigAddedEventType
  | instanceIDPConfigChangedEventType
  | instanceIDPOIDCConfigAddedEventType
  | instanceIDPOIDCConfigChangedEventType
  | instanceIDPJWTConfigAddedEventType
  | instanceIDPJWTConfigChangedEventType
  | instanceGoogleIDPAddedEventType
  | instanceGoogleIDPChangedEventType
  | instanceLDAPIDPAddedEventType
  | instanceLDAPIDPChangedEventType
  | instanceIDPRemovedEventType
  | instanceInstanceRemovedEventType
  | orgOAuthIDPAddedEventType
  | orgOAuthIDPChangedEventType
  | orgOIDCIDPAddedEventType
  | orgOIDCIDPChangedEventType
  | orgJWTIDPAddedEventType
  | orgJWTIDPChangedEventType
  | orgIDPConfigAddedEventType
  | orgIDPConfigChangedEventType
  | orgIDPOIDCConfigAddedEventType
  | orgIDPOIDCConfigChangedEventType
  | orgIDPJWTConfigAddedEventType
  | orgIDPJWTConfigChangedEventType
  | orgGoogleIDPAddedEventType
  | orgGoogleIDPChangedEventType
  | orgLDAPIDPAddedEventType
  | orgLDAPIDPChangedEventType
  | orgIDPRemovedEventType
  | orgOrgRemovedEventType
  | other (name : String)
deriving DecidableEq

/-- The interface `eventstore.Event`, as the closed set of concrete types the reducers
switch on: `org p` is `*org.<Name>`, `inst p` is `*instance.<Name>`,
`OrgRemovedEvent` is `*org.OrgRemovedEvent`, `InstanceRemovedEvent` is
`*instance.InstanceRemovedEvent`, and `other` stands for every event type of an
unrelated projection. -/
inductive eventstore.Event
  | org (p : Payload)
  | inst (p : Payload)
  | OrgRemovedEvent (e : eventstore.BaseEvent)
  | InstanceRemovedEvent (e : eventstore.BaseEvent)
  | other (name : String) (e : eventstore.BaseEvent)
deriving DecidableEq

/-- Modelled from the spec: the event-type tag under which each concrete event type is
stored and decoded (the event mappers of packages `org` and `instance` are not
part of this file).  "They emit structurally identical event payloads under
distinct wire event-type tags": `*org.<Name>Event` carries `org.<Name>EventType`
and `*instance.<Name>Event` carries `instance.<Name>EventType`. -/
def eventstore.Event.Type : eventstore.Event → eventstore.EventType
  | .org (.OAuthIDPAddedEvent _) => .orgOAuthIDPAddedEventType
  | .org (.OAuthIDPChangedEvent _) => .orgOAuthIDPChangedEventType
  | .org (.OIDCIDPAddedEvent _) => .orgOIDCIDPAddedEventType
  | .org (.OIDCIDPChangedEvent _) => .orgOIDCIDPChangedEventType
  | .org (.JWTIDPAddedEvent _) => .orgJWTIDPAddedEventType
  | .org (.JWTIDPChangedEvent _) => .orgJWTIDPChangedEventType
  | .org (.IDPConfigAddedEvent _) => .orgIDPConfigAddedEventType
  | .org (.IDPConfigChangedEvent _) => .orgIDPConfigChangedEventType
  | .org (.IDPOIDCConfigAddedEvent _) => .orgIDPOIDCConfigAddedEventType
  | .org (.IDPOIDCConfigChangedEvent _) => .orgIDPOIDCConfigChangedEventType
  | .org (.IDPJWTConfigAddedEvent _) => .orgIDPJWTConfigAddedEventType
  | .org (.IDPJWTConfigChangedEvent _) => .orgIDPJWTConfigChangedEventType
  | .org (.GoogleIDPAddedEvent _) => .orgGoogleIDPAddedEventType
  | .org (.GoogleIDPChangedEvent _) => .orgGoogleIDPChangedEventType
  | .org (.LDAPIDPAddedEvent _) => .orgLDAPIDPAddedEventType
  | .org (.LDAPIDPChangedEvent _) => .orgLDAPIDPChangedEventType
  | .org (.IDPRemovedEvent _) => .orgIDPRemovedEventType
  | .inst (.OAuthIDPAddedEvent _) => .instanceOAuthIDPAddedEventType
  | .inst (.OAuthIDPChangedEvent _) => .instanceOAuthIDPChangedEventType
  | .inst (.OIDCIDPAddedEvent _) => .instanceOIDCIDPAddedEventType
  | .inst (.OIDCIDPChangedEvent _) => .instanceOIDCIDPChangedEventType
  | .inst (.JWTIDPAddedEvent _) => .instanceJWTIDPAddedEventType
  | .inst (.JWTIDPChangedEvent _) => .instanceJWTIDPChangedEventType
  | .inst (.IDPConfigAddedEvent _) => .instanceIDPConfigAddedEventType
  | .inst (.IDPConfigChangedEvent _) => .instanceIDPConfigChangedEventType
  | .inst (.IDPOIDCConfigAddedEvent _) => .instanceIDPOIDCConfigAddedEventType
  | .inst (.IDPOIDCConfigChangedEvent _) => .instanceIDPOIDCConfigChangedEventType
  | .inst (.IDPJWTConfigAddedEvent _) => .instanceIDPJWTConfigAddedEventType
  | .inst (.IDPJWTConfigChangedEvent _) => .instanceIDPJWTConfigChangedEventType
  | .inst (.GoogleIDPAddedEvent _) => .instanceGoogleIDPAddedEventType
  | .inst (.GoogleIDPChangedEvent _) => .instanceGoogleIDPChangedEventType
  | .inst (.LDAPIDPAddedEvent _) => .instanceLDAPIDPAddedEventType
  | .inst (.LDAPIDPChangedEvent _) => .instanceLDAPIDPChangedEventType
  | .inst (.IDPRemovedEvent _) => .instanceIDPRemovedEventType
  | .OrgRemovedEvent _ => .orgOrgRemovedEventType
  | .InstanceRemovedEvent _ => .instanceInstanceRemovedEventType
  | .other name _ => .other name

/-! ## Statements -/

/-- A column assignment `handler.Column`. -/
structure handler.Column where
  Name : String
  Value : Value
deriving DecidableEq

/-- An equality condition `handler.Condition`. -/
structure handler.Condition where
  Name : String
  Value : Value
deriving DecidableEq

/-- The constructor `handler.NewCol(name, value)`. -/
def handler.NewCol (name : String) (value : Value) : handler.Column := ⟨name, value⟩

/-- The constructor `handler.NewCond(name, value)`. -/
def handler.NewCond (name : String) (value : Value) : handler.Condition := ⟨name, value⟩

/-- Modelled from the spec: the statement options of package `crdb`, of which the
projection uses the satellite selector `crdb.WithTableSuffix` ("table + optional
suffix (satellite selector)"). -/
inductive crdb.execOption
  | WithTableSuffix (name : String)
deriving DecidableEq

/-- Modelled from the spec: the option `crdb.WithTableSuffix(name)`. -/
abbrev crdb.WithTableSuffix (name : String) : crdb.execOption := .WithTableSuffix name

/-- Modelled from the spec: the suffix a list of options selects; without an option the
statement targets the primary table (`none`). -/
def crdb.tableSuffix (opts : List crdb.execOption) : Option String :=
  opts.foldl (fun _ o => match o with | .WithTableSuffix name => some name) none

/-- Modelled from the spec: a single-table mutation (section 4.3).  "Create: a full set
of column to value assignments for a new row, table + optional suffix; Update: a
partial set of column to value assignments plus a set of equality conditions;
Delete: equality conditions only."  The table is the projection table followed by
the suffix, when there is one. -/
inductive crdb.Exec
  | create (suffix : Option String) (values : List handler.Column)
  | update (suffix : Option String) (values : List handler.Column) (conditions : List handler.Condition)
  | delete (suffix : Option String) (conditions : List handler.Condition)
deriving DecidableEq

/-- Modelled from the spec: the unit returned for one event, `handler.Statement`
(section 4.4): the single-table mutations in order, "tagged with the source event's
sequence number" and with the instance id of its aggregate. -/
structure handler.Statement where
  Sequence : Nat
  InstanceID : String
  Execute : List crdb.Exec
deriving DecidableEq

/-- Modelled from the spec: `crdb.AddCreateStatement(values, opts...)`, one Create of a
multi-statement unit. -/
def crdb.AddCreateStatement (values : List handler.Column) (opts : List crdb.execOption) : crdb.Exec :=
  .create (crdb.tableSuffix opts) values

/-- Modelled from the spec: `crdb.AddUpdateStatement(values, conditions, opts...)`, one
Update of a multi-statement unit. -/
def crdb.AddUpdateStatement (values : List handler.Column) (conditions : List handler.Condition)
    (opts : List crdb.execOption) : crdb.Exec :=
  .update (crdb.tableSuffix opts) values conditions

/-- Modelled from the spec: `crdb.NewMultiStatement(event, ops...)`, the ordered
all-or-nothing unit built for one event. -/
def crdb.NewMultiStatement (event : eventstore.BaseEvent) (ops : List crdb.Exec) : handler.Statement :=
  { Sequence := event.Sequence, InstanceID := event.Aggregate.InstanceID, Execute := ops }

/-- Modelled from the spec: `crdb.NewCreateStatement(event, values, opts...)`, a unit
holding one Create. -/
def crdb.NewCreateStatement (event : eventstore.BaseEvent) (values : List handler.Column)
    (opts : List crdb.execOption) : handler.Statement :=
  { Sequence := event.Sequence, InstanceID := event.Aggregate.InstanceID,
    Execute := [.create (crdb.tableSuffix opts) values] }

/-- Modelled from the spec: `crdb.NewUpdateStatement(event, values, conditions, opts...)`,
a unit holding one Update. -/
def crdb.NewUpdateStatement (event : eventstore.BaseEvent) (values : List handler.Column)
    (conditions : List handler.Condition) (opts : List crdb.execOption) : handler.Statement :=
  { Sequence := event.Sequence, InstanceID := event.Aggregate.InstanceID,
    Execute := [.update (crdb.tableSuffix opts) values conditions] }

/-- Modelled from the spec: `crdb.NewDeleteStatement(event, conditions, opts...)`, a unit
holding one Delete. -/
def crdb.NewDeleteStatement (event : eventstore.BaseEvent) (conditions : List handler.Condition)
    (opts : List crdb.execOption) : handler.Statement :=
  { Sequence := event.Sequence, InstanceID := event.Aggregate.InstanceID,
    Execute := [.delete (crdb.tableSuffix opts) conditions] }

/-- The error `errors.ThrowInvalidArgumentf(nil, id, format, types)` a reducer returns for
an event shape it does not declare (the spec's `UnexpectedEventShape`). -/
structure Error where
  ID : String
  Message : String
  Types : List eventstore.EventType
deriving DecidableEq

/-- The call `errors.ThrowInvalidArgumentf(nil, id, format, types)`. -/
def errors.ThrowInvalidArgumentf (id : String) (format : String) (types : List eventstore.EventType) : Error :=
  ⟨id, format, types⟩

/-- The reducer signature `handler.Reduce`. -/
abbrev handler.Reduce := eventstore.Event → Except Error handler.Statement

/-- One entry `handler.EventReducer` of the dispatch table. -/
structure handler.EventReducer where
  Event : eventstore.EventType
  Reduce : handler.Reduce

/-- The entries `handler.AggregateReducer` registered for one aggregate type. -/
structure handler.AggregateReducer where
  Aggregate : eventstore.AggregateType
  EventRedusers : List handler.EventReducer

/-! ## Table and column names -/

def IDPTemplateTable : String := "projections.idp_templates2"
def IDPTemplateOAuthSuffix : String := "oauth"
def IDPTemplateOIDCSuffix : String := "oidc"
def IDPTemplateJWTSuffix : String := "jwt"
def IDPTemplateGoogleSuffix : String := "google"
def IDPTemplateLDAPSuffix : String := "ldap"
def IDPTemplateOAuthTable : String := IDPTemplateTable ++ "_" ++ IDPTemplateOAuthSuffix
def IDPTemplateOIDCTable : String := IDPTemplateTable ++ "_" ++ IDPTemplateOIDCSuffix
def IDPTemplateJWTTable : String := IDPTemplateTable ++ "_" ++ IDPTemplateJWTSuffix
def IDPTemplateGoogleTable : String := IDPTemplateTable ++ "_" ++ IDPTemplateGoogleSuffix
def IDPTemplateLDAPTable : String := IDPTemplateTable ++ "_" ++ IDPTemplateLDAPSuffix

def IDPTemplateIDCol : String := "id"
def IDPTemplateCreationDateCol : String := "creation_date"
def IDPTemplateChangeDateCol : String := "change_date"
def IDPTemplateSequenceCol : String := "sequence"
def IDPTemplateResourceOwnerCol : String := "resource_owner"
def IDPTemplateInstanceIDCol : String := "instance_id"
def IDPTemplateStateCol : String := "state"
def IDPTemplateNameCol : String := "name"
def IDPTemplateOwnerTypeCol : String := "owner_type"
def IDPTemplateTypeCol : String := "type"
def IDPTemplateOwnerRemovedCol : String := "owner_removed"
def IDPTemplateIsCreationAllowedCol : String := "is_creation_allowed"
def IDPTemplateIsLinkingAllowedCol : String := "is_linking_allowed"
def IDPTemplateIsAutoCreationCol : String := "is_auto_creation"
def IDPTemplateIsAutoUpdateCol : String := "is_auto_update"

def OAuthIDCol : String := "idp_id"
def OAuthInstanceIDCol : String := "instance_id"
def OAuthClientIDCol : String := "client_id"
def OAuthClientSecretCol : String := "client_secret"
def OAuthAuthorizationEndpointCol : String := "authorization_endpoint"
def OAuthTokenEndpointCol : String := "token_endpoint"
def OAuthUserEndpointCol : String := "user_endpoint"
def OAuthScopesCol : String := "scopes"

def OIDCIDCol : String := "idp_id"
def OIDCInstanceIDCol : String := "instance_id"
def OIDCIssuerCol : String := "issuer"
def OIDCClientIDCol : String := "client_id"
def OIDCClientSecretCol : String := "client_secret"
def OIDCScopesCol : String := "scopes"

def JWTIDCol : String := "idp_id"
def JWTInstanceIDCol : String := "instance_id"
def JWTIssuerCol : String := "issuer"
def JWTEndpointCol : String := "jwt_endpoint"
def JWTKeysEndpointCol : String := "keys_endpoint"
def JWTHeaderNameCol : String := "header_name"

def GoogleIDCol : String := "idp_id"
def GoogleInstanceIDCol : String := "instance_id"
def GoogleClientIDCol : String := "client_id"
def GoogleClientSecretCol : String := "client_secret"
def GoogleScopesCol : String := "scopes"

def LDAPIDCol : String := "idp_id"
def LDAPInstanceIDCol : String := "instance_id"
def LDAPHostCol : String := "host"
def LDAPPortCol : String := "port"
def LDAPTlsCol : String := "tls"
def LDAPBaseDNCol : String := "base_dn"
def LDAPUserObjectClassCol : String := "user_object_class"
def LDAPUserUniqueAttributeCol : String := "user_unique_attribute"
def LDAPAdminCol : String := "admin"
def LDAPPasswordCol : String := "password"
def LDAPIDAttributeCol : String := "id_attribute"
def LDAPFirstNameAttributeCol : String := "first_name_attribute"
def LDAPLastNameAttributeCol : String := "last_name_attribute"
def LDAPDisplayNameAttributeCol : String := "display_name_attribute"
def LDAPNickNameAttributeCol : String := "nick_name_attribute"
def LDAPPreferredUsernameAttributeCol : String := "preferred_username_attribute"
def LDAPEmailAttributeCol : String := "email_attribute"
def LDAPEmailVerifiedAttributeCol : String := "email_verified"
def LDAPPhoneAttributeCol : String := "phone_attribute"
def LDAPPhoneVerifiedAttributeCol : String := "phone_verified_attribute"
def LDAPPreferredLanguageAttributeCol : String := "preferred_language_attribute"
def LDAPAvatarURLAttributeCol : String := "avatar_url_attribute"
def LDAPProfileAttributeCol : String := "profile_attribute"


/-! ## Column builders -/

/-- The Go idiom `if field != nil { cols = append(cols, handler.NewCol(name, *field)) }`
(for a slice, `handler.NewCol(name, database.StringArray(field))`). -/
def appendIfNotNil {α : Type} (cols : List handler.Column) (name : String) (field : Option α)
    (value : α → Value) : List handler.Column :=
  match field with
  | some v => cols ++ [handler.NewCol name (value v)]
  | none => cols

/-- The column builder `reduceIDPChangedTemplateColumns` of the primary-table Update of a
typed Changed event. -/
def reduceIDPChangedTemplateColumns (name : Option String) (creationDate : Nat) (sequence : Nat)
    (optionChanges : idp.OptionChanges) : List handler.Column :=
  let cols : List handler.Column := []
  let cols := appendIfNotNil cols IDPTemplateNameCol name Value.text
  let cols := appendIfNotNil cols IDPTemplateIsCreationAllowedCol optionChanges.IsCreationAllowed Value.bool
  let cols := appendIfNotNil cols IDPTemplateIsLinkingAllowedCol optionChanges.IsLinkingAllowed Value.bool
  let cols := appendIfNotNil cols IDPTemplateIsAutoCreationCol optionChanges.IsAutoCreation Value.bool
  let cols := appendIfNotNil cols IDPTemplateIsAutoUpdateCol optionChanges.IsAutoUpdate Value.bool
  cols ++ [
    handler.NewCol IDPTemplateChangeDateCol (.timestamp creationDate),
    handler.NewCol IDPTemplateSequenceCol (.uint64 sequence)]

/-- The column builder `reduceOAuthIDPChangedColumns`. -/
def reduceOAuthIDPChangedColumns (idpEvent : idp.OAuthIDPChangedEvent) : List handler.Column :=
  let oauthCols : List handler.Column := []
  let oauthCols := appendIfNotNil oauthCols OAuthClientIDCol idpEvent.ClientID Value.text
  let oauthCols := appendIfNotNil oauthCols OAuthClientSecretCol idpEvent.ClientSecret (fun v => Value.crypto (some v))
  let oauthCols := appendIfNotNil oauthCols OAuthAuthorizationEndpointCol idpEvent.AuthorizationEndpoint Value.text
  let oauthCols := appendIfNotNil oauthCols OAuthTokenEndpointCol idpEvent.TokenEndpoint Value.text
  let oauthCols := appendIfNotNil oauthCols OAuthUserEndpointCol idpEvent.UserEndpoint Value.text
  let oauthCols := appendIfNotNil oauthCols OAuthScopesCol idpEvent.Scopes (fun v => database.StringArray (some v))
  oauthCols

/-- The column builder `reduceOIDCIDPChangedColumns`. -/
def reduceOIDCIDPChangedColumns (idpEvent : idp.OIDCIDPChangedEvent) : List handler.Column :=
  let oidcCols : List handler.Column := []
  let oidcCols := appendIfNotNil oidcCols OIDCClientIDCol idpEvent.ClientID Value.text
  let oidcCols := appendIfNotNil oidcCols OIDCClientSecretCol idpEvent.ClientSecret (fun v => Value.crypto (some v))
  let oidcCols := appendIfNotNil oidcCols OIDCIssuerCol idpEvent.Issuer Value.text
  let oidcCols := appendIfNotNil oidcCols OIDCScopesCol idpEvent.Scopes (fun v => database.StringArray (some v))
  oidcCols

/-- The column builder `reduceJWTIDPChangedColumns`. -/
def reduceJWTIDPChangedColumns (idpEvent : idp.JWTIDPChangedEvent) : List handler.Column :=
  let jwtCols : List handler.Column := []
  let jwtCols := appendIfNotNil jwtCols JWTEndpointCol idpEvent.JWTEndpoint Value.text
  let jwtCols := appendIfNotNil jwtCols JWTKeysEndpointCol idpEvent.KeysEndpoint Value.text
  let jwtCols := appendIfNotNil jwtCols JWTHeaderNameCol idpEvent.HeaderName Value.text
  let jwtCols := appendIfNotNil jwtCols JWTIssuerCol idpEvent.Issuer Value.text
  jwtCols

/-- The column builder `reduceGoogleIDPChangedColumns`. -/
def reduceGoogleIDPChangedColumns (idpEvent : idp.GoogleIDPChangedEvent) : List handler.Column :=
  let googleCols : List handler.Column := []
  let googleCols := appendIfNotNil googleCols GoogleClientIDCol idpEvent.ClientID Value.text
  let googleCols := appendIfNotNil googleCols GoogleClientSecretCol idpEvent.ClientSecret (fun v => Value.crypto (some v))
  let googleCols := appendIfNotNil googleCols GoogleScopesCol idpEvent.Scopes (fun v => database.StringArray (some v))
  googleCols

/-- The column builder `reduceLDAPIDPChangedColumns`. -/
def reduceLDAPIDPChangedColumns (idpEvent : idp.LDAPIDPChangedEvent) : List handler.Column :=
  let ldapCols : List handler.Column := []
  let ldapCols := appendIfNotNil ldapCols LDAPHostCol idpEvent.Host Value.text
  let ldapCols := appendIfNotNil ldapCols LDAPPortCol idpEvent.Port Value.text
  let ldapCols := appendIfNotNil ldapCols LDAPTlsCol idpEvent.TLS Value.bool
  let ldapCols := appendIfNotNil ldapCols LDAPBaseDNCol idpEvent.BaseDN Value.text
  let ldapCols := appendIfNotNil ldapCols LDAPUserObjectClassCol idpEvent.UserObjectClass Value.text
  let ldapCols := appendIfNotNil ldapCols LDAPUserUniqueAttributeCol idpEvent.UserUniqueAttribute Value.text
  let ldapCols := appendIfNotNil ldapCols LDAPAdminCol idpEvent.Admin Value.text
  let ldapCols := appendIfNotNil ldapCols LDAPPasswordCol idpEvent.Password (fun v => Value.crypto (some v))
  let ldapCols := appendIfNotNil ldapCols LDAPIDAttributeCol idpEvent.IDAttribute Value.text
  let ldapCols := appendIfNotNil ldapCols LDAPFirstNameAttributeCol idpEvent.FirstNameAttribute Value.text
  let ldapCols := appendIfNotNil ldapCols LDAPLastNameAttributeCol idpEvent.LastNameAttribute Value.text
  let ldapCols := appendIfNotNil ldapCols LDAPDisplayNameAttributeCol idpEvent.DisplayNameAttribute Value.text
  let ldapCols := appendIfNotNil ldapCols LDAPNickNameAttributeCol idpEvent.NickNameAttribute Value.text
  let ldapCols := appendIfNotNil ldapCols LDAPPreferredUsernameAttributeCol idpEvent.PreferredUsernameAttribute Value.text
  let ldapCols := appendIfNotNil ldapCols LDAPEmailAttributeCol idpEvent.EmailAttribute Value.text
  let ldapCols := appendIfNotNil ldapCols LDAPEmailVerifiedAttributeCol idpEvent.EmailVerifiedAttribute Value.text
  let ldapCols := appendIfNotNil ldapCols LDAPPhoneAttributeCol idpEvent.PhoneAttribute Value.text
  let ldapCols := appendIfNotNil ldapCols LDAPPhoneVerifiedAttributeCol idpEvent.PhoneVerifiedAttribute Value.text
  let ldapCols := appendIfNotNil ldapCols LDAPPreferredLanguageAttributeCol idpEvent.PreferredLanguageAttribute Value.text
  let ldapCols := appendIfNotNil ldapCols LDAPAvatarURLAttributeCol idpEvent.AvatarURLAttribute Value.text
  let ldapCols := appendIfNotNil ldapCols LDAPProfileAttributeCol idpEvent.ProfileAttribute Value.text
  ldapCols

/-! ## Reducers -/

/-- The reducer `reduceOAuthIDPAdded`. -/
def reduceOAuthIDPAdded (event : eventstore.Event) : Except Error handler.Statement :=
  match (match event with
      | .org (.OAuthIDPAddedEvent e) => some (e, domain.IdentityProviderType.IdentityProviderTypeOrg)
      | .inst (.OAuthIDPAddedEvent e) => some (e, domain.IdentityProviderType.IdentityProviderTypeSystem)
      | _ => none) with
  | none => .error (errors.ThrowInvalidArgumentf "HANDL-ap9ihb" "reduce.wrong.event.type %v"
      [.orgOAuthIDPAddedEventType, .instanceOAuthIDPAddedEventType])
  | some (idpEvent, idpOwnerType) => .ok (crdb.NewMultiStatement idpEvent.toBaseEvent [
      crdb.AddCreateStatement [
          handler.NewCol IDPTemplateIDCol (.text idpEvent.ID),
          handler.NewCol IDPTemplateCreationDateCol (.timestamp idpEvent.CreationDate),
          handler.NewCol IDPTemplateChangeDateCol (.timestamp idpEvent.CreationDate),
          handler.NewCol IDPTemplateSequenceCol (.uint64 idpEvent.Sequence),
          handler.NewCol IDPTemplateResourceOwnerCol (.text idpEvent.Aggregate.ResourceOwner),
          handler.NewCol IDPTemplateInstanceIDCol (.text idpEvent.Aggregate.InstanceID),
          handler.NewCol IDPTemplateStateCol (.idpState .IDPStateActive),
          handler.NewCol IDPTemplateNameCol (.text idpEvent.Name),
          handler.NewCol IDPTemplateOwnerTypeCol (.ownerType idpOwnerType),
          handler.NewCol IDPTemplateTypeCol (.idpType .IDPTypeOAuth),
          handler.NewCol IDPTemplateIsCreationAllowedCol (.bool idpEvent.IsCreationAllowed),
          handler.NewCol IDPTemplateIsLinkingAllowedCol (.bool idpEvent.IsLinkingAllowed),
          handler.NewCol IDPTemplateIsAutoCreationCol (.bool idpEvent.IsAutoCreation),
          handler.NewCol IDPTemplateIsAutoUpdateCol (.bool idpEvent.IsAutoUpdate)]
        [],
      crdb.AddCreateStatement [
          handler.NewCol OAuthIDCol (.text idpEvent.ID),
          handler.NewCol OAuthInstanceIDCol (.text idpEvent.Aggregate.InstanceID),
          handler.NewCol OAuthClientIDCol (.text idpEvent.ClientID),
          handler.NewCol OAuthClientSecretCol (.crypto idpEvent.ClientSecret),
          handler.NewCol OAuthAuthorizationEndpointCol (.text idpEvent.AuthorizationEndpoint),
          handler.NewCol OAuthTokenEndpointCol (.text idpEvent.TokenEndpoint),
          handler.NewCol OAuthUserEndpointCol (.text idpEvent.UserEndpoint),
          handler.NewCol OAuthScopesCol (database.StringArray idpEvent.Scopes)]
        [crdb.WithTableSuffix IDPTemplateOAuthSuffix]])

/-- The reducer `reduceOAuthIDPChanged`. -/
def reduceOAuthIDPChanged (event : eventstore.Event) : Except Error handler.Statement :=
  match (match event with
      | .org (.OAuthIDPChangedEvent e) => some e
      | .inst (.OAuthIDPChangedEvent e) => some e
      | _ => none) with
  | none => .error (errors.ThrowInvalidArgumentf "HANDL-p1582ks" "reduce.wrong.event.type %v"
      [.orgOAuthIDPChangedEventType, .instanceOAuthIDPChangedEventType])
  | some idpEvent =>
    let ops : List crdb.Exec := []
    let ops := ops ++ [
      crdb.AddUpdateStatement
        (reduceIDPChangedTemplateColumns idpEvent.Name idpEvent.CreationDate idpEvent.Sequence
          idpEvent.OptionChanges)
        [handler.NewCond IDPTemplateIDCol (.text idpEvent.ID),
         handler.NewCond IDPTemplateInstanceIDCol (.text idpEvent.Aggregate.InstanceID)]
        []]
    let oauthCols := reduceOAuthIDPChangedColumns idpEvent
    let ops := if oauthCols.length > 0 then
      ops ++ [
        crdb.AddUpdateStatement oauthCols
          [handler.NewCond OAuthIDCol (.text idpEvent.ID),
           handler.NewCond OAuthInstanceIDCol (.text idpEvent.Aggregate.InstanceID)]
          [crdb.WithTableSuffix IDPTemplateOAuthSuffix]]
      else ops
    .ok (crdb.NewMultiStatement idpEvent.toBaseEvent ops)

/-- The reducer `reduceOIDCIDPAdded`. -/
def reduceOIDCIDPAdded (event : eventstore.Event) : Except Error handler.Statement :=
  match (match event with
      | .org (.OIDCIDPAddedEvent e) => some (e, domain.IdentityProviderType.IdentityProviderTypeOrg)
      | .inst (.OIDCIDPAddedEvent e) => some (e, domain.IdentityProviderType.IdentityProviderTypeSystem)
      | _ => none) with
  | none => .error (errors.ThrowInvalidArgumentf "HANDL-9s02m1" "reduce.wrong.event.type %v"
      [.orgOIDCIDPAddedEventType, .instanceOIDCIDPAddedEventType])
  | some (idpEvent, idpOwnerType) => .ok (crdb.NewMultiStatement idpEvent.toBaseEvent [
      crdb.AddCreateStatement [
          handler.NewCol IDPTemplateIDCol (.text idpEvent.ID),
          handler.NewCol IDPTemplateCreationDateCol (.timestamp idpEvent.CreationDate),
          handler.NewCol IDPTemplateChangeDateCol (.timestamp idpEvent.CreationDate),
          handler.NewCol IDPTemplateSequenceCol (.uint64 idpEvent.Sequence),
          handler.NewCol IDPTemplateResourceOwnerCol (.text idpEvent.Aggregate.ResourceOwner),
          handler.NewCol IDPTemplateInstanceIDCol (.text idpEvent.Aggregate.InstanceID),
          handler.NewCol IDPTemplateStateCol (.idpState .IDPStateActive),
          handler.NewCol IDPTemplateNameCol (.text idpEvent.Name),
          handler.NewCol IDPTemplateOwnerTypeCol (.ownerType idpOwnerType),
          handler.NewCol IDPTemplateTypeCol (.idpType .IDPTypeOIDC),
          handler.NewCol IDPTemplateIsCreationAllowedCol (.bool idpEvent.IsCreationAllowed),
          handler.NewCol IDPTemplateIsLinkingAllowedCol (.bool idpEvent.IsLinkingAllowed),
          handler.NewCol IDPTemplateIsAutoCreationCol (.bool idpEvent.IsAutoCreation),
          handler.NewCol IDPTemplateIsAutoUpdateCol (.bool idpEvent.IsAutoUpdate)]
        [],
      crdb.AddCreateStatement [
          handler.NewCol OIDCIDCol (.text idpEvent.ID),
          handler.NewCol OIDCInstanceIDCol (.text idpEvent.Aggregate.InstanceID),
          handler.NewCol OIDCIssuerCol (.text idpEvent.Issuer),
          handler.NewCol OIDCClientIDCol (.text idpEvent.ClientID),
          handler.NewCol OIDCClientSecretCol (.crypto idpEvent.ClientSecret),
          handler.NewCol OIDCScopesCol (database.StringArray idpEvent.Scopes)]
        [crdb.WithTableSuffix IDPTemplateOIDCSuffix]])

/-- The reducer `reduceOIDCIDPChanged`. -/
def reduceOIDCIDPChanged (event : eventstore.Event) : Except Error handler.Statement :=
  match (match event with
      | .org (.OIDCIDPChangedEvent e) => some e
      | .inst (.OIDCIDPChangedEvent e) => some e
      | _ => none) with
  | none => .error (errors.ThrowInvalidArgumentf "HANDL-p1582ks" "reduce.wrong.event.type %v"
      [.orgOIDCIDPChangedEventType, .instanceOIDCIDPChangedEventType])
  | some idpEvent =>
    let ops : List crdb.Exec := []
    let ops := ops ++ [
      crdb.AddUpdateStatement
        (reduceIDPChangedTemplateColumns idpEvent.Name idpEvent.CreationDate idpEvent.Sequence
          idpEvent.OptionChanges)
        [handler.NewCond IDPTemplateIDCol (.text idpEvent.ID),
         handler.NewCond IDPTemplateInstanceIDCol (.text idpEvent.Aggregate.InstanceID)]
        []]
    let oidcCols := reduceOIDCIDPChangedColumns idpEvent
    let ops := if oidcCols.length > 0 then
      ops ++ [
        crdb.AddUpdateStatement oidcCols
          [handler.NewCond OIDCIDCol (.text idpEvent.ID),
           handler.NewCond OIDCInstanceIDCol (.text idpEvent.Aggregate.InstanceID)]
          [crdb.WithTableSuffix IDPTemplateOIDCSuffix]]
      else ops
    .ok (crdb.NewMultiStatement idpEvent.toBaseEvent ops)

/-- The reducer `reduceJWTIDPAdded`. -/
def reduceJWTIDPAdded (event : eventstore.Event) : Except Error handler.Statement :=
  match (match event with
      | .org (.JWTIDPAddedEvent e) => some (e, domain.IdentityProviderType.IdentityProviderTypeOrg)
      | .inst (.JWTIDPAddedEvent e) => some (e, domain.IdentityProviderType.IdentityProviderTypeSystem)
      | _ => none) with
  | none => .error (errors.ThrowInvalidArgumentf "HANDL-xopi2s" "reduce.wrong.event.type %v"
      [.orgJWTIDPAddedEventType, .instanceJWTIDPAddedEventType])
  | some (idpEvent, idpOwnerType) => .ok (crdb.NewMultiStatement idpEvent.toBaseEvent [
      crdb.AddCreateStatement [
          handler.NewCol IDPTemplateIDCol (.text idpEvent.ID),
          handler.NewCol IDPTemplateCreationDateCol (.timestamp idpEvent.CreationDate),
          handler.NewCol IDPTemplateChangeDateCol (.timestamp idpEvent.CreationDate),
          handler.NewCol IDPTemplateSequenceCol (.uint64 idpEvent.Sequence),
          handler.NewCol IDPTemplateResourceOwnerCol (.text idpEvent.Aggregate.ResourceOwner),
          handler.NewCol IDPTemplateInstanceIDCol (.text idpEvent.Aggregate.InstanceID),
          handler.NewCol IDPTemplateStateCol (.idpState .IDPStateActive),
          handler.NewCol IDPTemplateNameCol (.text idpEvent.Name),
          handler.NewCol IDPTemplateOwnerTypeCol (.ownerType idpOwnerType),
          handler.NewCol IDPTemplateTypeCol (.idpType .IDPTypeJWT),
          handler.NewCol IDPTemplateIsCreationAllowedCol (.bool idpEvent.IsCreationAllowed),
          handler.NewCol IDPTemplateIsLinkingAllowedCol (.bool idpEvent.IsLinkingAllowed),
          handler.NewCol IDPTemplateIsAutoCreationCol (.bool idpEvent.IsAutoCreation),
          handler.NewCol IDPTemplateIsAutoUpdateCol (.bool idpEvent.IsAutoUpdate)]
        [],
      crdb.AddCreateStatement [
          handler.NewCol JWTIDCol (.text idpEvent.ID),
          handler.NewCol JWTInstanceIDCol (.text idpEvent.Aggregate.InstanceID),
          handler.NewCol JWTIssuerCol (.text idpEvent.Issuer),
          handler.NewCol JWTEndpointCol (.text idpEvent.JWTEndpoint),
          handler.NewCol JWTKeysEndpointCol (.text idpEvent.KeysEndpoint),
          handler.NewCol JWTHeaderNameCol (.text idpEvent.HeaderName)]
        [crdb.WithTableSuffix IDPTemplateJWTSuffix]])

/-- The reducer `reduceJWTIDPChanged`. -/
def reduceJWTIDPChanged (event : eventstore.Event) : Except Error handler.Statement :=
  match (match event with
      | .org (.JWTIDPChangedEvent e) => some e
      | .inst (.JWTIDPChangedEvent e) => some e
      | _ => none) with
  | none => .error (errors.ThrowInvalidArgumentf "HANDL-p1582ks" "reduce.wrong.event.type %v"
      [.orgJWTIDPChangedEventType, .instanceJWTIDPChangedEventType])
  | some idpEvent =>
    let ops : List crdb.Exec := []
    let ops := ops ++ [
      crdb.AddUpdateStatement
        (reduceIDPChangedTemplateColumns idpEvent.Name idpEvent.CreationDate idpEvent.Sequence
          idpEvent.OptionChanges)
        [handler.NewCond IDPTemplateIDCol (.text idpEvent.ID),
         handler.NewCond IDPTemplateInstanceIDCol (.text idpEvent.Aggregate.InstanceID)]
        []]
    let jwtCols := reduceJWTIDPChangedColumns idpEvent
    let ops := if jwtCols.length > 0 then
      ops ++ [
        crdb.AddUpdateStatement jwtCols
          [handler.NewCond JWTIDCol (.text idpEvent.ID),
           handler.NewCond JWTInstanceIDCol (.text idpEvent.Aggregate.InstanceID)]
          [crdb.WithTableSuffix IDPTemplateJWTSuffix]]
      else ops
    .ok (crdb.NewMultiStatement idpEvent.toBaseEvent ops)

/-- The reducer `reduceOldConfigAdded`.  The Create is built from `event` itself, whose
metadata is the `BaseEvent` embedded in `idpEvent`. -/
def reduceOldConfigAdded (event : eventstore.Event) : Except Error handler.Statement :=
  match (match event with
      | .org (.IDPConfigAddedEvent e) => some (e, domain.IdentityProviderType.IdentityProviderTypeOrg)
      | .inst (.IDPConfigAddedEvent e) => some (e, domain.IdentityProviderType.IdentityProviderTypeSystem)
      | _ => none) with
  | none => .error (errors.ThrowInvalidArgumentf "HANDL-ADfeg" "reduce.wrong.event.type %v"
      [.orgIDPConfigAddedEventType, .instanceIDPConfigAddedEventType])
  | some (idpEvent, idpOwnerType) => .ok (crdb.NewCreateStatement idpEvent.toBaseEvent [
      handler.NewCol IDPTemplateIDCol (.text idpEvent.ConfigID),
      handler.NewCol IDPTemplateCreationDateCol (.timestamp idpEvent.CreationDate),
      handler.NewCol IDPTemplateChangeDateCol (.timestamp idpEvent.CreationDate),
      handler.NewCol IDPTemplateSequenceCol (.uint64 idpEvent.Sequence),
      handler.NewCol IDPTemplateResourceOwnerCol (.text idpEvent.Aggregate.ResourceOwner),
      handler.NewCol IDPTemplateInstanceIDCol (.text idpEvent.Aggregate.InstanceID),
      handler.NewCol IDPTemplateStateCol (.idpState .IDPStateActive),
      handler.NewCol IDPTemplateNameCol (.text idpEvent.Name),
      handler.NewCol IDPTemplateOwnerTypeCol (.ownerType idpOwnerType),
      handler.NewCol IDPTemplateTypeCol (.idpType .IDPTypeUnspecified),
      handler.NewCol IDPTemplateIsCreationAllowedCol (.bool true),
      handler.NewCol IDPTemplateIsLinkingAllowedCol (.bool true),
      handler.NewCol IDPTemplateIsAutoCreationCol (.bool idpEvent.AutoRegister),
      handler.NewCol IDPTemplateIsAutoUpdateCol (.bool false)]
    [])

/-- The reducer `reduceOldConfigChanged`.  The Update is built from `event` itself, whose
metadata is the `BaseEvent` embedded in `idpEvent`; its conditions name `OIDCIDCol` and
`OIDCInstanceIDCol`, as the source does. -/
def reduceOldConfigChanged (event : eventstore.Event) : Except Error handler.Statement :=
  match (match event with
      | .org (.IDPConfigChangedEvent e) => some e
      | .inst (.IDPConfigChangedEvent e) => some e
      | _ => none) with
  | none => .error (errors.ThrowInvalidArgumentf "HANDL-SAfg2" "reduce.wrong.event.type %v"
      [.orgIDPConfigChangedEventType, .instanceIDPConfigChangedEventType])
  | some idpEvent =>
    let cols : List handler.Column := []
    let cols := appendIfNotNil cols IDPTemplateNameCol idpEvent.Name Value.text
    let cols := appendIfNotNil cols IDPTemplateIsAutoCreationCol idpEvent.AutoRegister Value.bool
    let cols := cols ++ [
      handler.NewCol IDPTemplateChangeDateCol (.timestamp idpEvent.CreationDate),
      handler.NewCol IDPTemplateSequenceCol (.uint64 idpEvent.Sequence)]
    .ok (crdb.NewUpdateStatement idpEvent.toBaseEvent cols
      [handler.NewCond OIDCIDCol (.text idpEvent.ConfigID),
       handler.NewCond OIDCInstanceIDCol (.text idpEvent.Aggregate.InstanceID)]
      [])

/-- The reducer `reduceOldOIDCConfigAdded`. -/
def reduceOldOIDCConfigAdded (event : eventstore.Event) : Except Error handler.Statement :=
  match (match event with
      | .org (.IDPOIDCConfigAddedEvent e) => some e
      | .inst (.IDPOIDCConfigAddedEvent e) => some e
      | _ => none) with
  | none => .error (errors.ThrowInvalidArgumentf "HANDL-ASFdq2" "reduce.wrong.event.type %v"
      [.orgIDPOIDCConfigAddedEventType, .instanceIDPOIDCConfigAddedEventType])
  | some idpEvent => .ok (crdb.NewMultiStatement idpEvent.toBaseEvent [
      crdb.AddUpdateStatement [
          handler.NewCol IDPTemplateChangeDateCol (.timestamp idpEvent.CreationDate),
          handler.NewCol IDPTemplateSequenceCol (.uint64 idpEvent.Sequence),
          handler.NewCol IDPTemplateTypeCol (.idpType .IDPTypeOIDC)]
        [handler.NewCond IDPTemplateIDCol (.text idpEvent.IDPConfigID),
         handler.NewCond IDPTemplateInstanceIDCol (.text idpEvent.Aggregate.InstanceID)]
        [],
      crdb.AddCreateStatement [
          handler.NewCol OIDCIDCol (.text idpEvent.IDPConfigID),
          handler.NewCol OIDCInstanceIDCol (.text idpEvent.Aggregate.InstanceID),
          handler.NewCol OIDCIssuerCol (.text idpEvent.Issuer),
          handler.NewCol OIDCClientIDCol (.text idpEvent.ClientID),
          handler.NewCol OIDCClientSecretCol (.crypto idpEvent.ClientSecret),
          handler.NewCol OIDCScopesCol (database.StringArray idpEvent.Scopes)]
        [crdb.WithTableSuffix IDPTemplateOIDCSuffix]])

/-- The reducer `reduceOldOIDCConfigChanged`. -/
def reduceOldOIDCConfigChanged (event : eventstore.Event) : Except Error handler.Statement :=
  match (match event with
      | .org (.IDPOIDCConfigChangedEvent e) => some e
      | .inst (.IDPOIDCConfigChangedEvent e) => some e
      | _ => none) with
  | none => .error (errors.ThrowInvalidArgumentf "HANDL-p1582ks" "reduce.wrong.event.type %v"
      [.orgOIDCIDPChangedEventType, .instanceOIDCIDPChangedEventType])
  | some idpEvent =>
    let ops : List crdb.Exec := []
    let ops := ops ++ [
      crdb.AddUpdateStatement [
          handler.NewCol IDPTemplateChangeDateCol (.timestamp idpEvent.CreationDate),
          handler.NewCol IDPTemplateSequenceCol (.uint64 idpEvent.Sequence)]
        [handler.NewCond IDPTemplateIDCol (.text idpEvent.IDPConfigID),
         handler.NewCond IDPTemplateInstanceIDCol (.text idpEvent.Aggregate.InstanceID)]
        []]
    let oidcCols : List handler.Column := []
    let oidcCols := appendIfNotNil oidcCols OIDCClientIDCol idpEvent.ClientID Value.text
    let oidcCols := appendIfNotNil oidcCols OIDCClientSecretCol idpEvent.ClientSecret (fun v => Value.crypto (some v))
    let oidcCols := appendIfNotNil oidcCols OIDCIssuerCol idpEvent.Issuer Value.text
    let oidcCols := appendIfNotNil oidcCols OIDCScopesCol idpEvent.Scopes (fun v => database.StringArray (some v))
    let ops := if oidcCols.length > 0 then
      ops ++ [
        crdb.AddUpdateStatement oidcCols
          [handler.NewCond OIDCIDCol (.text idpEvent.IDPConfigID),
           handler.NewCond OIDCInstanceIDCol (.text idpEvent.Aggregate.InstanceID)]
          [crdb.WithTableSuffix IDPTemplateOIDCSuffix]]
      else ops
    .ok (crdb.NewMultiStatement idpEvent.toBaseEvent ops)

/-- The reducer `reduceOldJWTConfigAdded`. -/
def reduceOldJWTConfigAdded (event : eventstore.Event) : Except Error handler.Statement :=
  match (match event with
      | .org (.IDPJWTConfigAddedEvent e) => some e
      | .inst (.IDPJWTConfigAddedEvent e) => some e
      | _ => none) with
  | none => .error (errors.ThrowInvalidArgumentf "HANDL-ASFdq2" "reduce.wrong.event.type %v"
      [.orgIDPJWTConfigAddedEventType, .instanceIDPJWTConfigAddedEventType])
  | some idpEvent => .ok (crdb.NewMultiStatement idpEvent.toBaseEvent [
      crdb.AddUpdateStatement [
          handler.NewCol IDPTemplateChangeDateCol (.timestamp idpEvent.CreationDate),
          handler.NewCol IDPTemplateSequenceCol (.uint64 idpEvent.Sequence),
          handler.NewCol IDPTemplateTypeCol (.idpType .IDPTypeJWT)]
        [handler.NewCond IDPTemplateIDCol (.text idpEvent.IDPConfigID),
         handler.NewCond IDPTemplateInstanceIDCol (.text idpEvent.Aggregate.InstanceID)]
        [],
      crdb.AddCreateStatement [
          handler.NewCol JWTIDCol (.text idpEvent.IDPConfigID),
          handler.NewCol JWTInstanceIDCol (.text idpEvent.Aggregate.InstanceID),
          handler.NewCol JWTIssuerCol (.text idpEvent.Issuer),
          handler.NewCol JWTEndpointCol (.text idpEvent.JWTEndpoint),
          handler.NewCol JWTKeysEndpointCol (.text idpEvent.KeysEndpoint),
          handler.NewCol JWTHeaderNameCol (.text idpEvent.HeaderName)]
        [crdb.WithTableSuffix IDPTemplateJWTSuffix]])

/-- The reducer `reduceOldJWTConfigChanged`. -/
def reduceOldJWTConfigChanged (event : eventstore.Event) : Except Error handler.Statement :=
  match (match event with
      | .org (.IDPJWTConfigChangedEvent e) => some e
      | .inst (.IDPJWTConfigChangedEvent e) => some e
      | _ => none) with
  | none => .error (errors.ThrowInvalidArgumentf "HANDL-p1582ks" "reduce.wrong.event.type %v"
      [.orgJWTIDPChangedEventType, .instanceJWTIDPChangedEventType])
  | some idpEvent =>
    let ops : List crdb.Exec := []
    let ops := ops ++ [
      crdb.AddUpdateStatement [
          handler.NewCol IDPTemplateChangeDateCol (.timestamp idpEvent.CreationDate),
          handler.NewCol IDPTemplateSequenceCol (.uint64 idpEvent.Sequence)]
        [handler.NewCond IDPTemplateIDCol (.text idpEvent.IDPConfigID),
         handler.NewCond IDPTemplateInstanceIDCol (.text idpEvent.Aggregate.InstanceID)]
        []]
    let jwtCols : List handler.Column := []
    let jwtCols := appendIfNotNil jwtCols JWTEndpointCol idpEvent.JWTEndpoint Value.text
    let jwtCols := appendIfNotNil jwtCols JWTKeysEndpointCol idpEvent.KeysEndpoint Value.text
    let jwtCols := appendIfNotNil jwtCols JWTHeaderNameCol idpEvent.HeaderName Value.text
    let jwtCols := appendIfNotNil jwtCols JWTIssuerCol idpEvent.Issuer Value.text
    let ops := if jwtCols.length > 0 then
      ops ++ [
        crdb.AddUpdateStatement jwtCols
          [handler.NewCond JWTIDCol (.text idpEvent.IDPConfigID),
           handler.NewCond JWTInstanceIDCol (.text idpEvent.Aggregate.InstanceID)]
          [crdb.WithTableSuffix IDPTemplateJWTSuffix]]
      else ops
    .ok (crdb.NewMultiStatement idpEvent.toBaseEvent ops)

/-- The reducer `reduceGoogleIDPAdded`. -/
def reduceGoogleIDPAdded (event : eventstore.Event) : Except Error handler.Statement :=
  match (match event with
      | .org (.GoogleIDPAddedEvent e) => some (e, domain.IdentityProviderType.IdentityProviderTypeOrg)
      | .inst (.GoogleIDPAddedEvent e) => some (e, domain.IdentityProviderType.IdentityProviderTypeSystem)
      | _ => none) with
  | none => .error (errors.ThrowInvalidArgumentf "HANDL-ap9ihb" "reduce.wrong.event.type %v"
      [.orgGoogleIDPAddedEventType, .instanceGoogleIDPAddedEventType])
  | some (idpEvent, idpOwnerType) => .ok (crdb.NewMultiStatement idpEvent.toBaseEvent [
      crdb.AddCreateStatement [
          handler.NewCol IDPTemplateIDCol (.text idpEvent.ID),
          handler.NewCol IDPTemplateCreationDateCol (.timestamp idpEvent.CreationDate),
          handler.NewCol IDPTemplateChangeDateCol (.timestamp idpEvent.CreationDate),
          handler.NewCol IDPTemplateSequenceCol (.uint64 idpEvent.Sequence),
          handler.NewCol IDPTemplateResourceOwnerCol (.text idpEvent.Aggregate.ResourceOwner),
          handler.NewCol IDPTemplateInstanceIDCol (.text idpEvent.Aggregate.InstanceID),
          handler.NewCol IDPTemplateStateCol (.idpState .IDPStateActive),
          handler.NewCol IDPTemplateNameCol (.text idpEvent.Name),
          handler.NewCol IDPTemplateOwnerTypeCol (.ownerType idpOwnerType),
          handler.NewCol IDPTemplateTypeCol (.idpType .IDPTypeGoogle),
          handler.NewCol IDPTemplateIsCreationAllowedCol (.bool idpEvent.IsCreationAllowed),
          handler.NewCol IDPTemplateIsLinkingAllowedCol (.bool idpEvent.IsLinkingAllowed),
          handler.NewCol IDPTemplateIsAutoCreationCol (.bool idpEvent.IsAutoCreation),
          handler.NewCol IDPTemplateIsAutoUpdateCol (.bool idpEvent.IsAutoUpdate)]
        [],
      crdb.AddCreateStatement [
          handler.NewCol GoogleIDCol (.text idpEvent.ID),
          handler.NewCol GoogleInstanceIDCol (.text idpEvent.Aggregate.InstanceID),
          handler.NewCol GoogleClientIDCol (.text idpEvent.ClientID),
          handler.NewCol GoogleClientSecretCol (.crypto idpEvent.ClientSecret),
          handler.NewCol GoogleScopesCol (database.StringArray idpEvent.Scopes)]
        [crdb.WithTableSuffix IDPTemplateGoogleSuffix]])

/-- The reducer `reduceGoogleIDPChanged`. -/
def reduceGoogleIDPChanged (event : eventstore.Event) : Except Error handler.Statement :=
  match (match event with
      | .org (.GoogleIDPChangedEvent e) => some e
      | .inst (.GoogleIDPChangedEvent e) => some e
      | _ => none) with
  | none => .error (errors.ThrowInvalidArgumentf "HANDL-p1582ks" "reduce.wrong.event.type %v"
      [.orgGoogleIDPChangedEventType, .instanceGoogleIDPChangedEventType])
  | some idpEvent =>
    let ops : List crdb.Exec := []
    let ops := ops ++ [
      crdb.AddUpdateStatement
        (reduceIDPChangedTemplateColumns idpEvent.Name idpEvent.CreationDate idpEvent.Sequence
          idpEvent.OptionChanges)
        [handler.NewCond IDPTemplateIDCol (.text idpEvent.ID),
         handler.NewCond IDPTemplateInstanceIDCol (.text idpEvent.Aggregate.InstanceID)]
        []]
    let googleCols := reduceGoogleIDPChangedColumns idpEvent
    let ops := if googleCols.length > 0 then
      ops ++ [
        crdb.AddUpdateStatement googleCols
          [handler.NewCond GoogleIDCol (.text idpEvent.ID),
           handler.NewCond GoogleInstanceIDCol (.text idpEvent.Aggregate.InstanceID)]
          [crdb.WithTableSuffix IDPTemplateGoogleSuffix]]
      else ops
    .ok (crdb.NewMultiStatement idpEvent.toBaseEvent ops)

/-- The reducer `reduceLDAPIDPAdded`. -/
def reduceLDAPIDPAdded (event : eventstore.Event) : Except Error handler.Statement :=
  match (match event with
      | .org (.LDAPIDPAddedEvent e) => some (e, domain.IdentityProviderType.IdentityProviderTypeOrg)
      | .inst (.LDAPIDPAddedEvent e) => some (e, domain.IdentityProviderType.IdentityProviderTypeSystem)
      | _ => none) with
  | none => .error (errors.ThrowInvalidArgumentf "HANDL-9s02m1" "reduce.wrong.event.type %v"
      [.orgLDAPIDPAddedEventType, .instanceLDAPIDPAddedEventType])
  | some (idpEvent, idpOwnerType) => .ok (crdb.NewMultiStatement idpEvent.toBaseEvent [
      crdb.AddCreateStatement [
          handler.NewCol IDPTemplateIDCol (.text idpEvent.ID),
          handler.NewCol IDPTemplateCreationDateCol (.timestamp idpEvent.CreationDate),
          handler.NewCol IDPTemplateChangeDateCol (.timestamp idpEvent.CreationDate),
          handler.NewCol IDPTemplateSequenceCol (.uint64 idpEvent.Sequence),
          handler.NewCol IDPTemplateResourceOwnerCol (.text idpEvent.Aggregate.ResourceOwner),
          handler.NewCol IDPTemplateInstanceIDCol (.text idpEvent.Aggregate.InstanceID),
          handler.NewCol IDPTemplateStateCol (.idpState .IDPStateActive),
          handler.NewCol IDPTemplateNameCol (.text idpEvent.Name),
          handler.NewCol IDPTemplateOwnerTypeCol (.ownerType idpOwnerType),
          handler.NewCol IDPTemplateTypeCol (.idpType .IDPTypeLDAP),
          handler.NewCol IDPTemplateIsCreationAllowedCol (.bool idpEvent.IsCreationAllowed),
          handler.NewCol IDPTemplateIsLinkingAllowedCol (.bool idpEvent.IsLinkingAllowed),
          handler.NewCol IDPTemplateIsAutoCreationCol (.bool idpEvent.IsAutoCreation),
          handler.NewCol IDPTemplateIsAutoUpdateCol (.bool idpEvent.IsAutoUpdate)]
        [],
      crdb.AddCreateStatement [
          handler.NewCol LDAPIDCol (.text idpEvent.ID),
          handler.NewCol LDAPInstanceIDCol (.text idpEvent.Aggregate.InstanceID),
          handler.NewCol LDAPHostCol (.text idpEvent.Host),
          handler.NewCol LDAPPortCol (.text idpEvent.Port),
          handler.NewCol LDAPTlsCol (.bool idpEvent.TLS),
          handler.NewCol LDAPBaseDNCol (.text idpEvent.BaseDN),
          handler.NewCol LDAPUserObjectClassCol (.text idpEvent.UserObjectClass),
          handler.NewCol LDAPUserUniqueAttributeCol (.text idpEvent.UserUniqueAttribute),
          handler.NewCol LDAPAdminCol (.text idpEvent.Admin),
          handler.NewCol LDAPPasswordCol (.crypto idpEvent.Password),
          handler.NewCol LDAPIDAttributeCol (.text idpEvent.IDAttribute),
          handler.NewCol LDAPFirstNameAttributeCol (.text idpEvent.FirstNameAttribute),
          handler.NewCol LDAPLastNameAttributeCol (.text idpEvent.LastNameAttribute),
          handler.NewCol LDAPDisplayNameAttributeCol (.text idpEvent.DisplayNameAttribute),
          handler.NewCol LDAPNickNameAttributeCol (.text idpEvent.NickNameAttribute),
          handler.NewCol LDAPPreferredUsernameAttributeCol (.text idpEvent.PreferredUsernameAttribute),
          handler.NewCol LDAPEmailAttributeCol (.text idpEvent.EmailAttribute),
          handler.NewCol LDAPEmailVerifiedAttributeCol (.text idpEvent.EmailVerifiedAttribute),
          handler.NewCol LDAPPhoneAttributeCol (.text idpEvent.PhoneAttribute),
          handler.NewCol LDAPPhoneVerifiedAttributeCol (.text idpEvent.PhoneVerifiedAttribute),
          handler.NewCol LDAPPreferredLanguageAttributeCol (.text idpEvent.PreferredLanguageAttribute),
          handler.NewCol LDAPAvatarURLAttributeCol (.text idpEvent.AvatarURLAttribute),
          handler.NewCol LDAPProfileAttributeCol (.text idpEvent.ProfileAttribute)]
        [crdb.WithTableSuffix IDPTemplateLDAPSuffix]])

/-- The reducer `reduceLDAPIDPChanged`. -/
def reduceLDAPIDPChanged (event : eventstore.Event) : Except Error handler.Statement :=
  match (match event with
      | .org (.LDAPIDPChangedEvent e) => some e
      | .inst (.LDAPIDPChangedEvent e) => some e
      | _ => none) with
  | none => .error (errors.ThrowInvalidArgumentf "HANDL-p1582ks" "reduce.wrong.event.type %v"
      [.orgLDAPIDPChangedEventType, .instanceLDAPIDPChangedEventType])
  | some idpEvent =>
    let ops : List crdb.Exec := []
    let ops := ops ++ [
      crdb.AddUpdateStatement
        (reduceIDPChangedTemplateColumns idpEvent.Name idpEvent.CreationDate idpEvent.Sequence
          idpEvent.OptionChanges)
        [handler.NewCond IDPTemplateIDCol (.text idpEvent.ID),
         handler.NewCond IDPTemplateInstanceIDCol (.text idpEvent.Aggregate.InstanceID)]
        []]
    let ldapCols := reduceLDAPIDPChangedColumns idpEvent
    let ops := if ldapCols.length > 0 then
      ops ++ [
        crdb.AddUpdateStatement ldapCols
          [handler.NewCond LDAPIDCol (.text idpEvent.ID),
           handler.NewCond LDAPInstanceIDCol (.text idpEvent.Aggregate.InstanceID)]
          [crdb.WithTableSuffix IDPTemplateLDAPSuffix]]
      else ops
    .ok (crdb.NewMultiStatement idpEvent.toBaseEvent ops)

/-- The reducer `reduceIDPRemoved`. -/
def reduceIDPRemoved (event : eventstore.Event) : Except Error handler.Statement :=
  match (match event with
      | .org (.IDPRemovedEvent e) => some e
      | .inst (.IDPRemovedEvent e) => some e
      | _ => none) with
  | none => .error (errors.ThrowInvalidArgumentf "HANDL-xbcvwin2" "reduce.wrong.event.type %v"
      [.orgIDPRemovedEventType, .instanceIDPRemovedEventType])
  | some idpEvent => .ok (crdb.NewDeleteStatement idpEvent.toBaseEvent
      [handler.NewCond IDPTemplateIDCol (.text idpEvent.ID),
       handler.NewCond IDPTemplateInstanceIDCol (.text idpEvent.Aggregate.InstanceID)]
      [])

/-- The reducer `reduceOwnerRemoved`. -/
def reduceOwnerRemoved (event : eventstore.Event) : Except Error handler.Statement :=
  match event with
  | .OrgRemovedEvent e => .ok (crdb.NewUpdateStatement e
      [handler.NewCol IDPTemplateChangeDateCol (.timestamp e.CreationDate),
       handler.NewCol IDPTemplateSequenceCol (.uint64 e.Sequence),
       handler.NewCol IDPTemplateOwnerRemovedCol (.bool true)]
      [handler.NewCond IDPTemplateInstanceIDCol (.text e.Aggregate.InstanceID),
       handler.NewCond IDPTemplateResourceOwnerCol (.text e.Aggregate.ID)]
      [])
  | _ => .error (errors.ThrowInvalidArgumentf "PROJE-Jp0D2K" "reduce.wrong.event.type %s"
      [.orgOrgRemovedEventType])

/-- Modelled from the spec: the shared helper `reduceInstanceRemovedHelper(instanceIDCol)`
of the package, which is not part of this file.  "Rows are hard-deleted by a
Removed event and by an instance-removal event (bulk delete of every row scoped
to that instance)": one Delete of the rows whose `instanceIDCol` is the instance
of the event; any other event shape is an unexpected shape. -/
def reduceInstanceRemovedHelper (instanceIDCol : String) (event : eventstore.Event) :
    Except Error handler.Statement :=
  match event with
  | .InstanceRemovedEvent e => .ok (crdb.NewDeleteStatement e
      [handler.NewCond instanceIDCol (.text e.Aggregate.InstanceID)]
      [])
  | _ => .error (errors.ThrowInvalidArgumentf "PROJE-SAFht" "reduce.wrong.event.type %s"
      [.instanceInstanceRemovedEventType])

/-! ## Dispatch table -/

/-- The dispatch table `reducers()`, entry for entry. -/
def reducers : List handler.AggregateReducer := [
  { Aggregate := .instanceAggregateType,
    EventRedusers := [
      { Event := .instanceOAuthIDPAddedEventType, Reduce := reduceOAuthIDPAdded },
      { Event := .instanceOAuthIDPChangedEventType, Reduce := reduceOAuthIDPChanged },
      { Event := .instanceOIDCIDPAddedEventType, Reduce := reduceOIDCIDPAdded },
      { Event := .instanceOIDCIDPChangedEventType, Reduce := reduceOIDCIDPChanged },
      { Event := .instanceJWTIDPAddedEventType, Reduce := reduceJWTIDPAdded },
      { Event := .instanceJWTIDPAddedEventType, Reduce := reduceJWTIDPChanged },
      { Event := .instanceIDPConfigAddedEventType, Reduce := reduceOldConfigAdded },
      { Event := .instanceIDPConfigChangedEventType, Reduce := reduceOldConfigChanged },
      { Event := .instanceIDPOIDCConfigAddedEventType, Reduce := reduceOldOIDCConfigAdded },
      { Event := .instanceIDPOIDCConfigChangedEventType, Reduce := reduceOldOIDCConfigChanged },
      { Event := .instanceIDPJWTConfigAddedEventType, Reduce := reduceOldJWTConfigAdded },
      { Event := .instanceIDPJWTConfigChangedEventType, Reduce := reduceOldJWTConfigChanged },
      { Event := .instanceGoogleIDPAddedEventType, Reduce := reduceGoogleIDPAdded },
      { Event := .instanceGoogleIDPChangedEventType, Reduce := reduceGoogleIDPChanged },
      { Event := .instanceLDAPIDPAddedEventType, Reduce := reduceLDAPIDPAdded },
      { Event := .instanceLDAPIDPChangedEventType, Reduce := reduceLDAPIDPChanged },
      { Event := .instanceIDPRemovedEventType, Reduce := reduceIDPRemoved },
      { Event := .instanceInstanceRemovedEventType,
        Reduce := reduceInstanceRemovedHelper IDPTemplateInstanceIDCol }] },
  { Aggregate := .orgAggregateType,
    EventRedusers := [
      { Event := .orgOAuthIDPAddedEventType, Reduce := reduceOAuthIDPAdded },
      { Event := .orgOAuthIDPChangedEventType, Reduce := reduceOAuthIDPChanged },
      { Event := .orgOIDCIDPAddedEventType, Reduce := reduceOIDCIDPAdded },
      { Event := .orgOIDCIDPChangedEventType, Reduce := reduceOIDCIDPChanged },
      { Event := .orgJWTIDPAddedEventType, Reduce := reduceJWTIDPAdded },
      { Event := .orgJWTIDPAddedEventType, Reduce := reduceJWTIDPChanged },
      { Event := .orgIDPConfigAddedEventType, Reduce := reduceOldConfigAdded },
      { Event := .orgIDPConfigChangedEventType, Reduce := reduceOldConfigChanged },
      { Event := .orgIDPOIDCConfigAddedEventType, Reduce := reduceOldOIDCConfigAdded },
      { Event := .orgIDPOIDCConfigChangedEventType, Reduce := reduceOldOIDCConfigChanged },
      { Event := .orgIDPJWTConfigAddedEventType, Reduce := reduceOldJWTConfigAdded },
      { Event := .orgIDPJWTConfigChangedEventType, Reduce := reduceOldJWTConfigChanged },
      { Event := .orgGoogleIDPAddedEventType, Reduce := reduceGoogleIDPAdded },
      { Event := .orgGoogleIDPChangedEventType, Reduce := reduceGoogleIDPChanged },
      { Event := .orgLDAPIDPAddedEventType, Reduce := reduceLDAPIDPAdded },
      { Event := .orgLDAPIDPChangedEventType, Reduce := reduceLDAPIDPChanged },
      { Event := .orgIDPRemovedEventType, Reduce := reduceIDPRemoved },
      { Event := .orgOrgRemovedEventType, Reduce := reduceOwnerRemoved }] }]

/-! ## Vocabulary of the properties -/

/-- The values a column list assigns to the column `name`, in order. -/
def handler.valuesOf (cols : List handler.Column) (name : String) : List Value :=
  (cols.filter (fun c => c.Name == name)).map (fun c => c.Value)

/-- The column names a column list assigns, in order. -/
def handler.namesOf (cols : List handler.Column) : List String :=
  cols.map (fun c => c.Name)

/-- The result of a reducer is an Added unit for the key `(inst, id)`, the discriminant `t`
and the satellite `suffix`: no error, and exactly two Creates, the first against the
primary table and the second against the satellite table, which both assign the key
once, the primary one assigning `type` once, to `t`. -/
def IsAddedUnit (r : Except Error handler.Statement) (id inst : String) (t : domain.IDPType)
    (suffix : String) : Prop :=
  ∃ s primary satellite, r = .ok s ∧
    s.Execute = [.create none primary, .create (some suffix) satellite] ∧
    handler.valuesOf primary "id" = [.text id] ∧
    handler.valuesOf primary "instance_id" = [.text inst] ∧
    handler.valuesOf primary "type" = [.idpType t] ∧
    handler.valuesOf satellite "idp_id" = [.text id] ∧
    handler.valuesOf satellite "instance_id" = [.text inst]

/-- The column `appendIfNotNil` adds for one field: none when the field is nil. -/
def optCol {α : Type} (name : String) (field : Option α) (value : α → Value) : List handler.Column :=
  match field with
  | some v => [handler.NewCol name (value v)]
  | none => []

/-- The reducers of the projection: the functions registered in the dispatch table. -/
def tableReducers : List handler.Reduce :=
  reducers.flatMap (fun ar => ar.EventRedusers.map (fun er => er.Reduce))

/-- The event types registered in the dispatch table, in table order. -/
def registeredTypes : List eventstore.EventType :=
  reducers.flatMap (fun ar => ar.EventRedusers.map (fun er => er.Event))

/-- The event shapes each reducer declares, by the tag of the shape: the org-scoped and the
instance-scoped variant of its event, the org-removed event alone for
`reduceOwnerRemoved` and the instance-removed event alone for the instance-removed
helper. -/
def declaredShapes : List (handler.Reduce × List eventstore.EventType) := [
  (reduceOAuthIDPAdded, [.orgOAuthIDPAddedEventType, .instanceOAuthIDPAddedEventType]),
  (reduceOAuthIDPChanged, [.orgOAuthIDPChangedEventType, .instanceOAuthIDPChangedEventType]),
  (reduceOIDCIDPAdded, [.orgOIDCIDPAddedEventType, .instanceOIDCIDPAddedEventType]),
  (reduceOIDCIDPChanged, [.orgOIDCIDPChangedEventType, .instanceOIDCIDPChangedEventType]),
  (reduceJWTIDPAdded, [.orgJWTIDPAddedEventType, .instanceJWTIDPAddedEventType]),
  (reduceJWTIDPChanged, [.orgJWTIDPChangedEventType, .instanceJWTIDPChangedEventType]),
  (reduceOldConfigAdded, [.orgIDPConfigAddedEventType, .instanceIDPConfigAddedEventType]),
  (reduceOldConfigChanged, [.orgIDPConfigChangedEventType, .instanceIDPConfigChangedEventType]),
  (reduceOldOIDCConfigAdded, [.orgIDPOIDCConfigAddedEventType, .instanceIDPOIDCConfigAddedEventType]),
  (reduceOldOIDCConfigChanged, [.orgIDPOIDCConfigChangedEventType, .instanceIDPOIDCConfigChangedEventType]),
  (reduceOldJWTConfigAdded, [.orgIDPJWTConfigAddedEventType, .instanceIDPJWTConfigAddedEventType]),
  (reduceOldJWTConfigChanged, [.orgIDPJWTConfigChangedEventType, .instanceIDPJWTConfigChangedEventType]),
  (reduceGoogleIDPAdded, [.orgGoogleIDPAddedEventType, .instanceGoogleIDPAddedEventType]),
  (reduceGoogleIDPChanged, [.orgGoogleIDPChangedEventType, .instanceGoogleIDPChangedEventType]),
  (reduceLDAPIDPAdded, [.orgLDAPIDPAddedEventType, .instanceLDAPIDPAddedEventType]),
  (reduceLDAPIDPChanged, [.orgLDAPIDPChangedEventType, .instanceLDAPIDPChangedEventType]),
  (reduceIDPRemoved, [.orgIDPRemovedEventType, .instanceIDPRemovedEventType]),
  (reduceOwnerRemoved, [.orgOrgRemovedEventType]),
  (reduceInstanceRemovedHelper IDPTemplateInstanceIDCol, [.instanceInstanceRemovedEventType])]

/-- Every Update of the unit against the primary table assigns `change_date` and `sequence`. -/
def PrimaryUpdatesAudited (s : handler.Statement) : Prop :=
  ∀ values conds, crdb.Exec.update none values conds ∈ s.Execute →
    "change_date" ∈ handler.namesOf values ∧ "sequence" ∈ handler.namesOf values

/-- The option changes with no flag set. -/
def noOptionChanges : idp.OptionChanges :=
  { IsCreationAllowed := none, IsLinkingAllowed := none, IsAutoCreation := none,
    IsAutoUpdate := none }

/-- The OAuth Changed event for `id` in which nothing is set. -/
def unsetOAuthIDPChangedEvent (b : eventstore.BaseEvent) (id : String) : idp.OAuthIDPChangedEvent :=
  { toBaseEvent := b, ID := id, Name := none, ClientID := none, ClientSecret := none,
    AuthorizationEndpoint := none, TokenEndpoint := none, UserEndpoint := none, Scopes := none,
    OptionChanges := noOptionChanges }

/-- The OIDC Changed event for `id` in which nothing is set. -/
def unsetOIDCIDPChangedEvent (b : eventstore.BaseEvent) (id : String) : idp.OIDCIDPChangedEvent :=
  { toBaseEvent := b, ID := id, Name := none, Issuer := none, ClientID := none,
    ClientSecret := none, Scopes := none, OptionChanges := noOptionChanges }

/-- The JWT Changed event for `id` in which nothing is set. -/
def unsetJWTIDPChangedEvent (b : eventstore.BaseEvent) (id : String) : idp.JWTIDPChangedEvent :=
  { toBaseEvent := b, ID := id, Name := none, Issuer := none, JWTEndpoint := none,
    KeysEndpoint := none, HeaderName := none, OptionChanges := noOptionChanges }

/-- The Google Changed event for `id` in which nothing is set. -/
def unsetGoogleIDPChangedEvent (b : eventstore.BaseEvent) (id : String) : idp.GoogleIDPChangedEvent :=
  { toBaseEvent := b, ID := id, Name := none, ClientID := none, ClientSecret := none,
    Scopes := none, OptionChanges := noOptionChanges }

/-- The LDAP Changed event for `id` in which nothing is set. -/
def unsetLDAPIDPChangedEvent (b : eventstore.BaseEvent) (id : String) : idp.LDAPIDPChangedEvent :=
  { toBaseEvent := b, ID := id, Name := none, Host := none, Port := none, TLS := none,
    BaseDN := none, UserObjectClass := none, UserUniqueAttribute := none, Admin := none,
    Password := none, IDAttribute := none, FirstNameAttribute := none,
    LastNameAttribute := none, DisplayNameAttribute := none, NickNameAttribute := none,
    PreferredUsernameAttribute := none, EmailAttribute := none, EmailVerifiedAttribute := none,
    PhoneAttribute := none, PhoneVerifiedAttribute := none, PreferredLanguageAttribute := none,
    AvatarURLAttribute := none, ProfileAttribute := none, OptionChanges := noOptionChanges }

/-- The primary-table Update of a Changed event in which nothing is set: it assigns
`change_date` and `sequence` and selects the row by `id` and `instance_id`. -/
def auditOnlyUnit (b : eventstore.BaseEvent) (id : String) : handler.Statement :=
  { Sequence := b.Sequence, InstanceID := b.Aggregate.InstanceID,
    Execute := [.update none
      [⟨"change_date", .timestamp b.CreationDate⟩, ⟨"sequence", .uint64 b.Sequence⟩]
      [⟨"id", .text id⟩, ⟨"instance_id", .text b.Aggregate.InstanceID⟩]] }

/-- Sample metadata: sequence 7 of an aggregate of instance `inst1`. -/
def sampleBase : eventstore.BaseEvent :=
  { Aggregate := { ID := "agg1", Typ := .instanceAggregateType, ResourceOwner := "ro1",
                   InstanceID := "inst1" },
    Sequence := 7, CreationDate := 1000 }

/-- Sample OAuth Changed event for `idp1` in which only the client id is set. -/
def sampleOAuthChangedClientID : idp.OAuthIDPChangedEvent :=
  { unsetOAuthIDPChangedEvent sampleBase "idp1" with ClientID := some "c1" }

/-! ## Schema -/

/-- Modelled from the spec: the column types of package `crdb` the schema uses. -/
inductive crdb.ColumnType
  | ColumnTypeText
  | ColumnTypeTimestamp
  | ColumnTypeInt64
  | ColumnTypeEnum
  | ColumnTypeBool
  | ColumnTypeJSONB
  | ColumnTypeTextArray
deriving DecidableEq

/-- Modelled from the spec: the column options `crdb.Nullable()` and `crdb.Default(value)`. -/
inductive crdb.ColumnOption
  | Nullable
  | Default (value : Value)
deriving DecidableEq

/-- Modelled from the spec: a declared column (name, type, nullability, default). -/
structure crdb.Column where
  Name : String
  Typ : crdb.ColumnType
  nullable : Bool
  defaultValue : Option Value
deriving DecidableEq

/-- Modelled from the spec: `crdb.NewColumn(name, type, opts...)`. -/
def crdb.NewColumn (name : String) (columnType : crdb.ColumnType) (opts : List crdb.ColumnOption) :
    crdb.Column :=
  opts.foldl
    (fun col opt => match opt with
      | .Nullable => { col with nullable := true }
      | .Default value => { col with defaultValue := some value })
    { Name := name, Typ := columnType, nullable := false, defaultValue := none }

/-- Modelled from the spec: `crdb.NewPrimaryKey(columns...)`, the key columns in order. -/
def crdb.NewPrimaryKey (columns : List String) : List String := columns

/-- Modelled from the spec: a secondary index `crdb.NewIndex(name, columns)`. -/
structure crdb.Index where
  Name : String
  Columns : List String
deriving DecidableEq

/-- Modelled from the spec: `crdb.NewIndex(name, columns)`. -/
def crdb.NewIndex (name : String) (columns : List String) : crdb.Index := ⟨name, columns⟩

/-- Modelled from the spec: the foreign key `crdb.NewForeignKeyOfPublicKeys()` of a satellite
table: its own primary-key columns reference the primary-key columns of the primary
table, in order, so that a satellite row is "foreign-key-owned by the primary row". -/
inductive crdb.ForeignKey
  | ofPublicKeys
deriving DecidableEq

/-- Modelled from the spec: `crdb.NewForeignKeyOfPublicKeys()`. -/
def crdb.NewForeignKeyOfPublicKeys : crdb.ForeignKey := .ofPublicKeys

/-- Modelled from the spec: the table options `crdb.WithIndex` and `crdb.WithForeignKey`. -/
inductive crdb.TableOption
  | WithIndex (index : crdb.Index)
  | WithForeignKey (key : crdb.ForeignKey)
deriving DecidableEq

/-- Modelled from the spec: a declared table: columns, primary key, secondary indexes,
foreign keys and the suffix selecting it (`none` for the primary table). -/
structure crdb.SuffixedTable where
  columns : List crdb.Column
  primaryKey : List String
  indices : List crdb.Index
  foreignKeys : List crdb.ForeignKey
  suffix : Option String
deriving DecidableEq

/-- Modelled from the spec: the indexes among a list of table options. -/
def crdb.indicesOf (opts : List crdb.TableOption) : List crdb.Index :=
  opts.filterMap (fun o => match o with | .WithIndex i => some i | .WithForeignKey _ => none)

/-- Modelled from the spec: the foreign keys among a list of table options. -/
def crdb.foreignKeysOf (opts : List crdb.TableOption) : List crdb.ForeignKey :=
  opts.filterMap (fun o => match o with | .WithForeignKey k => some k | .WithIndex _ => none)

/-- Modelled from the spec: `crdb.NewTable(columns, key, opts...)`, the primary table. -/
def crdb.NewTable (columns : List crdb.Column) (key : List String) (opts : List crdb.TableOption) :
    crdb.SuffixedTable :=
  { columns := columns, primaryKey := key, indices := crdb.indicesOf opts,
    foreignKeys := crdb.foreignKeysOf opts, suffix := none }

/-- Modelled from the spec: `crdb.NewSuffixedTable(columns, key, suffix, opts...)`, a
satellite table. -/
def crdb.NewSuffixedTable (columns : List crdb.Column) (key : List String) (suffix : String)
    (opts : List crdb.TableOption) : crdb.SuffixedTable :=
  { columns := columns, primaryKey := key, indices := crdb.indicesOf opts,
    foreignKeys := crdb.foreignKeysOf opts, suffix := some suffix }

/-- Modelled from the spec: `crdb.NewMultiTableCheck(primary, secondaries...)`, the declared
tables, the primary one first. -/
def crdb.NewMultiTableCheck (primary : crdb.SuffixedTable) (secondaries : List crdb.SuffixedTable) :
    List crdb.SuffixedTable :=
  primary :: secondaries

/-- Modelled from the spec: the part of `crdb.StatementHandlerConfig` the constructor sets. -/
structure crdb.StatementHandlerConfig where
  ProjectionName : String
  Reducers : List handler.AggregateReducer
  InitCheck : List crdb.SuffixedTable

/-- The constructor `newIDPTemplateProjection`, as the configuration it hands to
`crdb.NewStatementHandler`: projection name, dispatch table and declared schema. -/
def newIDPTemplateProjection : crdb.StatementHandlerConfig :=
  { ProjectionName := IDPTemplateTable,
    Reducers := reducers,
    InitCheck := crdb.NewMultiTableCheck
      (crdb.NewTable [
          crdb.NewColumn IDPTemplateIDCol .ColumnTypeText [],
          crdb.NewColumn IDPTemplateCreationDateCol .ColumnTypeTimestamp [],
          crdb.NewColumn IDPTemplateChangeDateCol .ColumnTypeTimestamp [],
          crdb.NewColumn IDPTemplateSequenceCol .ColumnTypeInt64 [],
          crdb.NewColumn IDPTemplateResourceOwnerCol .ColumnTypeText [],
          crdb.NewColumn IDPTemplateInstanceIDCol .ColumnTypeText [],
          crdb.NewColumn IDPTemplateStateCol .ColumnTypeEnum [],
          crdb.NewColumn IDPTemplateNameCol .ColumnTypeText [.Nullable],
          crdb.NewColumn IDPTemplateOwnerTypeCol .ColumnTypeEnum [],
          crdb.NewColumn IDPTemplateTypeCol .ColumnTypeEnum [],
          crdb.NewColumn IDPTemplateOwnerRemovedCol .ColumnTypeBool [.Default (.bool false)],
          crdb.NewColumn IDPTemplateIsCreationAllowedCol .ColumnTypeBool [.Default (.bool false)],
          crdb.NewColumn IDPTemplateIsLinkingAllowedCol .ColumnTypeBool [.Default (.bool false)],
          crdb.NewColumn IDPTemplateIsAutoCreationCol .ColumnTypeBool [.Default (.bool false)],
          crdb.NewColumn IDPTemplateIsAutoUpdateCol .ColumnTypeBool [.Default (.bool false)]]
        (crdb.NewPrimaryKey [IDPTemplateInstanceIDCol, IDPTemplateIDCol])
        [.WithIndex (crdb.NewIndex "resource_owner" [IDPTemplateResourceOwnerCol]),
         .WithIndex (crdb.NewIndex "owner_removed" [IDPTemplateOwnerRemovedCol])])
      [crdb.NewSuffixedTable [
          crdb.NewColumn OAuthIDCol .ColumnTypeText [],
          crdb.NewColumn OAuthInstanceIDCol .ColumnTypeText [],
          crdb.NewColumn OAuthClientIDCol .ColumnTypeText [],
          crdb.NewColumn OAuthClientSecretCol .ColumnTypeJSONB [],
          crdb.NewColumn OAuthAuthorizationEndpointCol .ColumnTypeText [],
          crdb.NewColumn OAuthTokenEndpointCol .ColumnTypeText [],
          crdb.NewColumn OAuthUserEndpointCol .ColumnTypeText [],
          crdb.NewColumn OAuthScopesCol .ColumnTypeTextArray [.Nullable]]
        (crdb.NewPrimaryKey [OAuthInstanceIDCol, OAuthIDCol])
        IDPTemplateOAuthSuffix
        [.WithForeignKey crdb.NewForeignKeyOfPublicKeys],
       crdb.NewSuffixedTable [
          crdb.NewColumn OIDCIDCol .ColumnTypeText [],
          crdb.NewColumn OIDCInstanceIDCol .ColumnTypeText [],
          crdb.NewColumn OIDCIssuerCol .ColumnTypeText [],
          crdb.NewColumn OIDCClientIDCol .ColumnTypeText [],
          crdb.NewColumn OIDCClientSecretCol .ColumnTypeJSONB [],
          crdb.NewColumn OIDCScopesCol .ColumnTypeTextArray [.Nullable]]
        (crdb.NewPrimaryKey [OIDCInstanceIDCol, OIDCIDCol])
        IDPTemplateOIDCSuffix
        [.WithForeignKey crdb.NewForeignKeyOfPublicKeys],
       crdb.NewSuffixedTable [
          crdb.NewColumn JWTIDCol .ColumnTypeText [],
          crdb.NewColumn JWTInstanceIDCol .ColumnTypeText [],
          crdb.NewColumn JWTIssuerCol .ColumnTypeText [],
          crdb.NewColumn JWTEndpointCol .ColumnTypeText [],
          crdb.NewColumn JWTKeysEndpointCol .ColumnTypeText [],
          crdb.NewColumn JWTHeaderNameCol .ColumnTypeText [.Nullable]]
        (crdb.NewPrimaryKey [JWTInstanceIDCol, JWTIDCol])
        IDPTemplateJWTSuffix
        [.WithForeignKey crdb.NewForeignKeyOfPublicKeys],
       crdb.NewSuffixedTable [
          crdb.NewColumn GoogleIDCol .ColumnTypeText [],
          crdb.NewColumn GoogleInstanceIDCol .ColumnTypeText [],
          crdb.NewColumn GoogleClientIDCol .ColumnTypeText [],
          crdb.NewColumn GoogleClientSecretCol .ColumnTypeJSONB [],
          crdb.NewColumn GoogleScopesCol .ColumnTypeTextArray [.Nullable]]
        (crdb.NewPrimaryKey [GoogleInstanceIDCol, GoogleIDCol])
        IDPTemplateGoogleSuffix
        [.WithForeignKey crdb.NewForeignKeyOfPublicKeys],
       crdb.NewSuffixedTable [
          crdb.NewColumn LDAPIDCol .ColumnTypeText [],
          crdb.NewColumn LDAPInstanceIDCol .ColumnTypeText [],
          crdb.NewColumn LDAPHostCol .ColumnTypeText [.Nullable],
          crdb.NewColumn LDAPPortCol .ColumnTypeText [.Nullable],
          crdb.NewColumn LDAPTlsCol .ColumnTypeBool [.Nullable],
          crdb.NewColumn LDAPBaseDNCol .ColumnTypeText [.Nullable],
          crdb.NewColumn LDAPUserObjectClassCol .ColumnTypeText [.Nullable],
          crdb.NewColumn LDAPUserUniqueAttributeCol .ColumnTypeText [.Nullable],
          crdb.NewColumn LDAPAdminCol .ColumnTypeText [.Nullable],
          crdb.NewColumn LDAPPasswordCol .ColumnTypeJSONB [.Nullable],
          crdb.NewColumn LDAPIDAttributeCol .ColumnTypeText [.Nullable],
          crdb.NewColumn LDAPFirstNameAttributeCol .ColumnTypeText [.Nullable],
          crdb.NewColumn LDAPLastNameAttributeCol .ColumnTypeText [.Nullable],
          crdb.NewColumn LDAPDisplayNameAttributeCol .ColumnTypeText [.Nullable],
          crdb.NewColumn LDAPNickNameAttributeCol .ColumnTypeText [.Nullable],
          crdb.NewColumn LDAPPreferredUsernameAttributeCol .ColumnTypeText [.Nullable],
          crdb.NewColumn LDAPEmailAttributeCol .ColumnTypeText [.Nullable],
          crdb.NewColumn LDAPEmailVerifiedAttributeCol .ColumnTypeText [.Nullable],
          crdb.NewColumn LDAPPhoneAttributeCol .ColumnTypeText [.Nullable],
          crdb.NewColumn LDAPPhoneVerifiedAttributeCol .ColumnTypeText [.Nullable],
          crdb.NewColumn LDAPPreferredLanguageAttributeCol .ColumnTypeText [.Nullable],
          crdb.NewColumn LDAPAvatarURLAttributeCol .ColumnTypeText [.Nullable],
          crdb.NewColumn LDAPProfileAttributeCol .ColumnTypeText [.Nullable]]
        (crdb.NewPrimaryKey [LDAPInstanceIDCol, LDAPIDCol])
        IDPTemplateLDAPSuffix
        [.WithForeignKey crdb.NewForeignKeyOfPublicKeys]] }

/-! ## Table state -/

/-- Modelled from the spec: a stored row, read column by column; `none` is a column the row
holds no value for. -/
abbrev Row := String → Option Value

/-- Modelled from the spec: the row a Create inserts, "a full set of column to value
assignments for a new row". -/
def Row.ofColumns (values : List handler.Column) : Row :=
  fun name => (values.find? (fun c => c.Name == name)).map (fun c => c.Value)

/-- Modelled from the spec: a row matches "a set of equality conditions" when it holds the
value of every condition. -/
def Row.satisfies (row : Row) (conditions : List handler.Condition) : Bool :=
  conditions.all (fun c => row c.Name == some c.Value)

/-- Modelled from the spec: an Update overwrites the assigned columns of a row and leaves
the other columns as they are. -/
def Row.overwrite (row : Row) (values : List handler.Column) : Row :=
  fun name => match Row.ofColumns values name with
    | some v => some v
    | none => row name

/-- Modelled from the spec: a row together with the table that stores it, the primary
table (`none`) or the satellite table of a suffix. -/
structure StoredRow where
  suffix : Option String
  row : Row

/-- Modelled from the spec: the state of the projected tables, the stored rows in
insertion order. -/
abbrev Tables := List StoredRow

/-- The primary-key columns the schema declares for a table; `none` for a table the
schema does not declare. -/
def primaryKeyOf (suffix : Option String) : Option (List String) :=
  (newIDPTemplateProjection.InitCheck.find? (fun t => t.suffix == suffix)).map
    (fun t => t.primaryKey)

/-- Whether the schema declares a foreign key for a table. -/
def hasForeignKey (suffix : Option String) : Bool :=
  match newIDPTemplateProjection.InitCheck.find? (fun t => t.suffix == suffix) with
  | some t => !t.foreignKeys.isEmpty
  | none => false

/-- The primary-key value of a stored row: the values of the key columns of its table. -/
def StoredRow.key (r : StoredRow) : Option (List (Option Value)) :=
  (primaryKeyOf r.suffix).map (fun ks => ks.map r.row)

/-- Two stored rows of one table with the same primary-key value. -/
def StoredRow.conflicts (a b : StoredRow) : Bool :=
  a.suffix == b.suffix && a.key == b.key

/-- Modelled from the spec: the primary row `p` owns the satellite row `c` ("satellite
rows ... foreign-key-owned by the primary row"): the table of `c` declares the
foreign key and the key value of `c` is the key value of `p`. -/
def StoredRow.owns (p c : StoredRow) : Bool :=
  p.suffix == none && hasForeignKey c.suffix && p.key == c.key

/-- Modelled from the spec: the effect of an Update on one stored row: it "overwrites the
assigned columns of every row matching all conditions" in the table it targets. -/
def StoredRow.update (suffix : Option String) (values : List handler.Column)
    (conditions : List handler.Condition) (r : StoredRow) : StoredRow :=
  if r.suffix == suffix && r.row.satisfies conditions then ⟨r.suffix, r.row.overwrite values⟩
  else r

/-- Modelled from the spec: a Delete selects the rows of the table it targets that match
all its conditions. -/
def StoredRow.hit (suffix : Option String) (conditions : List handler.Condition)
    (r : StoredRow) : Bool :=
  r.suffix == suffix && r.row.satisfies conditions

/-- Modelled from the spec: the rows a Delete removes from the tables: the rows it selects
and, "satellite rows are expected to cascade", the satellite rows they own. -/
def Tables.removes (t : Tables) (suffix : Option String) (conditions : List handler.Condition)
    (r : StoredRow) : Bool :=
  r.hit suffix conditions || t.any (fun p => p.hit suffix conditions && p.owns r)

/-- Modelled from the spec: the effect of one single-table mutation on the tables, `none`
when the store rejects it.  "Create inserts a row": into a declared table, unless a
row with the same primary key is stored or the foreign key has no primary row to
refer to (`StoreFatal`, a constraint violation).  "Update overwrites the assigned
columns of every row matching all conditions."  "Delete removes matching rows",
together with the satellite rows they own. -/
def applyExec (t : Tables) : crdb.Exec → Option Tables
  | .create suffix values =>
    let new : StoredRow := ⟨suffix, Row.ofColumns values⟩
    if (primaryKeyOf suffix).isNone then none
    else if t.any (fun r => r.conflicts new) then none
    else if hasForeignKey suffix && !(t.any (fun p => p.owns new)) then none
    else some (t ++ [new])
  | .update suffix values conditions =>
    some (t.map (StoredRow.update suffix values conditions))
  | .delete suffix conditions =>
    some (t.filter (fun r => !t.removes suffix conditions r))

/-- Modelled from the spec: the single-table mutations of a unit applied in order; `none`
as soon as one is rejected. -/
def applyExecs : Tables → List crdb.Exec → Option Tables
  | t, [] => some t
  | t, x :: xs =>
    match applyExec t x with
    | some t1 => applyExecs t1 xs
    | none => none

/-- Modelled from the spec: the unit of one event applied to the tables: "the unit either
fully applies or fully rolls back", so a rejected unit leaves the tables as they were. -/
def applyStatement (t : Tables) (s : handler.Statement) : Tables :=
  (applyExecs t s.Execute).getD t

/-- The unit a reducer returns for an event applied to the tables; an event the reducer
rejects changes nothing. -/
def applyReduce (t : Tables) (r : handler.Reduce) (event : eventstore.Event) : Tables :=
  match r event with
  | .ok s => applyStatement t s
  | .error _ => t

/-- The rows of one table, each read at the given columns. -/
def Tables.project (t : Tables) (suffix : Option String) (cols : List String) :
    List (List (Option Value)) :=
  (t.filter (fun r => r.suffix == suffix)).map (fun r => cols.map r.row)

/-- Sample OAuth Added event: provider `idp1` with client id `c1`. -/
def sampleOAuthAdded : idp.OAuthIDPAddedEvent :=
  { toBaseEvent := sampleBase, ID := "idp1", Name := "n1", ClientID := "c1",
    ClientSecret := none, AuthorizationEndpoint := "a", TokenEndpoint := "t",
    UserEndpoint := "u", Scopes := none, IsCreationAllowed := true, IsLinkingAllowed := true,
    IsAutoCreation := false, IsAutoUpdate := false }

/-- Sample OAuth Changed event for `idp1`: only the scopes, at sequence 8. -/
def sampleOAuthChangedScopes : idp.OAuthIDPChangedEvent :=
  { unsetOAuthIDPChangedEvent { sampleBase with Sequence := 8, CreationDate := 2000 } "idp1" with
    Scopes := some ["openid", "email"] }

/-- Sample IDP Removed event for `idp1`, at sequence 9. -/
def sampleRemoved : idp.RemovedEvent :=
  { toBaseEvent := { sampleBase with Sequence := 9, CreationDate := 3000 }, ID := "idp1" }

/-! ## Vocabulary of the properties: units and table states -/

/-- The unit with the owner type of its primary-table Creates replaced by `v`. -/
def handler.Statement.withOwnerType (v : domain.IdentityProviderType) (s : handler.Statement) :
    handler.Statement :=
  { s with Execute := s.Execute.map (fun x => match x with
      | .create none values => .create none
          (values.map (fun c => if c.Name == "owner_type" then ⟨c.Name, .ownerType v⟩ else c))
      | x => x) }

/-- The values the first statement of a unit assigns to `owner_type`, when that statement is
a Create against the primary table. -/
def handler.Statement.ownerTypes (s : handler.Statement) : List Value :=
  match s.Execute with
  | .create none values :: _ => handler.valuesOf values "owner_type"
  | _ => []

/-- Two reducer results are one unit up to the owner type: neither is an error, the
org-scoped one assigns `owner_type` org, the instance-scoped one system, and each is
the other with the owner type replaced. -/
def SameUpToOwnerType (org inst : Except Error handler.Statement) : Prop :=
  ∃ so si, org = .ok so ∧ inst = .ok si ∧
    so.ownerTypes = [.ownerType .IdentityProviderTypeOrg] ∧
    si.ownerTypes = [.ownerType .IdentityProviderTypeSystem] ∧
    si = so.withOwnerType .IdentityProviderTypeSystem ∧
    so = si.withOwnerType .IdentityProviderTypeOrg

/-- The unit of a legacy typed config-added event: the primary Update of `change_date`,
`sequence` and `type`, then the Create of the satellite row. -/
def legacyUpgradeUnit (b : eventstore.BaseEvent) (id : String) (t : domain.IDPType)
    (suffix : String) (satellite : List handler.Column) : handler.Statement :=
  { Sequence := b.Sequence, InstanceID := b.Aggregate.InstanceID,
    Execute := [
      .update none
        [⟨"change_date", .timestamp b.CreationDate⟩, ⟨"sequence", .uint64 b.Sequence⟩,
         ⟨"type", .idpType t⟩]
        [⟨"id", .text id⟩, ⟨"instance_id", .text b.Aggregate.InstanceID⟩],
      .create (some suffix) satellite] }

/-- The unit of a legacy typed config-changed event: the primary Update of `change_date`
and `sequence`, then the satellite Update of `cols` when `cols` is not empty. -/
def legacyChangedUnit (b : eventstore.BaseEvent) (id : String) (suffix : String)
    (cols : List handler.Column) : handler.Statement :=
  { Sequence := b.Sequence, InstanceID := b.Aggregate.InstanceID,
    Execute :=
      .update none
        [⟨"change_date", .timestamp b.CreationDate⟩, ⟨"sequence", .uint64 b.Sequence⟩]
        [⟨"id", .text id⟩, ⟨"instance_id", .text b.Aggregate.InstanceID⟩] ::
      (if cols = [] then []
       else [.update (some suffix) cols
        [⟨"idp_id", .text id⟩, ⟨"instance_id", .text b.Aggregate.InstanceID⟩]]) }

/-- Sample legacy OIDC config-changed event: only the issuer is set. -/
def sampleOIDCConfigChanged : idpconfig.OIDCConfigChangedEvent :=
  { toBaseEvent := sampleBase, IDPConfigID := "cfg1", ClientID := none, ClientSecret := none,
    Issuer := some "https://issuer", Scopes := none }

/-- Sample legacy JWT config-changed event: only the header name is set. -/
def sampleJWTConfigChanged : idpconfig.JWTConfigChangedEvent :=
  { toBaseEvent := sampleBase, IDPConfigID := "cfg1", JWTEndpoint := none, Issuer := none,
    KeysEndpoint := none, HeaderName := some "x-auth" }

/-- Sample generic legacy config-added event for `cfg1`. -/
def sampleConfigAdded : idpconfig.IDPConfigAddedEvent :=
  { toBaseEvent := sampleBase, ConfigID := "cfg1", Name := "n", AutoRegister := true }

/-- Sample legacy OIDC config-added event for `cfg1`, at sequence 8. -/
def sampleOIDCConfigAdded : idpconfig.OIDCConfigAddedEvent :=
  { toBaseEvent := { sampleBase with Sequence := 8, CreationDate := 2000 }, IDPConfigID := "cfg1",
    ClientID := "c1", ClientSecret := none, Issuer := "https://issuer", Scopes := some ["openid"] }

/-- Sample legacy JWT config-added event for `cfg1`, at sequence 9. -/
def sampleJWTConfigAdded : idpconfig.JWTConfigAddedEvent :=
  { toBaseEvent := { sampleBase with Sequence := 9, CreationDate := 3000 }, IDPConfigID := "cfg1",
    JWTEndpoint := "https://jwt", Issuer := "https://issuer", KeysEndpoint := "https://keys",
    HeaderName := "x-auth" }

/-- Event processing: the units the given reducers return for the given events, applied to
the tables one event after the other. -/
def processEvents (t : Tables) (steps : List (handler.Reduce × eventstore.Event)) : Tables :=
  steps.foldl (fun t step => applyReduce t step.1 step.2) t

/-- The satellite table of a discriminant: `none` for unspecified. -/
def satelliteSuffix : domain.IDPType → Option String
  | .IDPTypeUnspecified => none
  | .IDPTypeOIDC => some "oidc"
  | .IDPTypeJWT => some "jwt"
  | .IDPTypeOAuth => some "oauth"
  | .IDPTypeLDAP => some "ldap"
  | .IDPTypeGoogle => some "google"

/-- The columns that identify or classify a row: key columns, discriminant and resource
owner.  Conditions of the reducers name only these; Updates of Changed events assign
none of them. -/
def protectedColumns : List String := ["id", "instance_id", "idp_id", "type", "resource_owner"]

/-- No assigned column is a protected column. -/
def avoidsProtected (values : List handler.Column) : Bool :=
  values.all (fun c => !protectedColumns.contains c.Name)

/-- Every condition is on a protected column. -/
def onlyProtected (conditions : List handler.Condition) : Bool :=
  conditions.all (fun c => protectedColumns.contains c.Name)

/-- The Update of a legacy typed config-added event. -/
def upgradeUpdate (changeDate sequence : Value) (ty : domain.IDPType) (inst id : String) :
    crdb.Exec :=
  .update none [⟨"change_date", changeDate⟩, ⟨"sequence", sequence⟩, ⟨"type", .idpType ty⟩]
    [⟨"id", .text id⟩, ⟨"instance_id", .text inst⟩]

/-- The forms of the units the reducers return: the two Creates of a typed Added event, the
Create of a generic legacy config-added event, the Update and Create of a legacy typed
config-added event, one or two Updates that assign no protected column, and one
Delete against the primary table.  The index is the discriminant a legacy typed
config-added unit sets, `none` for the other forms. -/
inductive UnitShape : Option domain.IDPType → List crdb.Exec → Prop
  | added (primary satellite : List handler.Column) (ty : domain.IDPType)
      (suffix inst id : String) :
      satelliteSuffix ty = some suffix →
      Row.ofColumns primary "type" = some (.idpType ty) →
      Row.ofColumns primary "instance_id" = some (.text inst) →
      Row.ofColumns primary "id" = some (.text id) →
      Row.ofColumns satellite "instance_id" = some (.text inst) →
      Row.ofColumns satellite "idp_id" = some (.text id) →
      UnitShape none [.create none primary, .create (some suffix) satellite]
  | generic (primary : List handler.Column) :
      Row.ofColumns primary "type" = some (.idpType .IDPTypeUnspecified) →
      UnitShape none [.create none primary]
  | upgrade (changeDate sequence : Value) (ty : domain.IDPType) (suffix inst id : String)
      (satellite : List handler.Column) :
      satelliteSuffix ty = some suffix →
      ty = .IDPTypeOIDC ∨ ty = .IDPTypeJWT →
      Row.ofColumns satellite "instance_id" = some (.text inst) →
      Row.ofColumns satellite "idp_id" = some (.text id) →
      UnitShape (some ty)
        [upgradeUpdate changeDate sequence ty inst id, .create (some suffix) satellite]
  | change (values : List handler.Column) (conditions : List handler.Condition) :
      avoidsProtected values = true → onlyProtected conditions = true →
      UnitShape none [.update none values conditions]
  | change2 (values : List handler.Column) (conditions : List handler.Condition)
      (suffix : String) (values2 : List handler.Column) (conditions2 : List handler.Condition) :
      avoidsProtected values = true → onlyProtected conditions = true →
      avoidsProtected values2 = true → onlyProtected conditions2 = true →
      UnitShape none [.update none values conditions, .update (some suffix) values2 conditions2]
  | remove (conditions : List handler.Condition) :
      UnitShape none [.delete none conditions]

/-- The effect of an org-removed unit on one stored row: a primary row of the instance
`inst` with resource owner `owner` gets `owner_removed` true and the audit columns of
the event and keeps every other column; every other row is unchanged. -/
def OwnerRemovedEffect (inst owner : String) (changeDate sequence : Nat) (r r' : StoredRow) :
    Prop :=
  r'.suffix = r.suffix ∧
  ((r.suffix = none ∧ r.row "instance_id" = some (.text inst) ∧
      r.row "resource_owner" = some (.text owner)) →
    r'.row "owner_removed" = some (.bool true) ∧
    r'.row "change_date" = some (.timestamp changeDate) ∧
    r'.row "sequence" = some (.uint64 sequence) ∧
    ∀ name, name ∉ ["change_date", "sequence", "owner_removed"] → r'.row name = r.row name) ∧
  (¬(r.suffix = none ∧ r.row "instance_id" = some (.text inst) ∧
      r.row "resource_owner" = some (.text owner)) → r' = r)

/-- The primary rows of the tables. -/
def Tables.primaryRows (t : Tables) : List StoredRow :=
  t.filter (fun r => r.suffix == none)

/-- Sample tables: two primary rows of instance `inst1`, the first owned by `agg1`. -/
def sampleOwnedTables : Tables :=
  [⟨none, Row.ofColumns [⟨"id", .text "idp1"⟩, ⟨"instance_id", .text "inst1"⟩,
      ⟨"resource_owner", .text "agg1"⟩, ⟨"owner_removed", .bool false⟩]⟩,
   ⟨none, Row.ofColumns [⟨"id", .text "idp2"⟩, ⟨"instance_id", .text "inst1"⟩,
      ⟨"resource_owner", .text "other"⟩, ⟨"owner_removed", .bool false⟩]⟩]

/-- The `(instance_id, id, type)` of every primary row, in table order. -/
def Tables.types (t : Tables) : List (List (Option Value)) :=
  t.project none ["instance_id", "id", "type"]

/-- Sample legacy OIDC config-added event whose IDP config id is the OAuth provider `idp1`. -/
def sampleOIDCConfigAddedForIdp1 : idpconfig.OIDCConfigAddedEvent :=
  { sampleOIDCConfigAdded with IDPConfigID := "idp1" }

/-- The key and discriminant of `idp1` once a legacy OIDC config-added unit has set it. -/
def sampleUpgradedKey : List (Option Value) :=
  [some (.text "inst1"), some (.text "idp1"), some (.idpType .IDPTypeOIDC)]

/-- Primary/satellite consistency as event processing keeps it: (a) a primary row whose
`type` is a concrete type has exactly one row with its `(instance_id, id)` in the
satellite table of that type, and (b) every satellite row has a primary row with its
`(instance_id, idp_id)`. -/
def Consistent (t : Tables) : Prop :=
  (∀ p ∈ t, p.suffix = none → ∀ ty suffix, satelliteSuffix ty = some suffix →
    p.row "type" = some (.idpType ty) →
    (t.filter (fun q => q.suffix == some suffix &&
      q.row "instance_id" == p.row "instance_id" && q.row "idp_id" == p.row "id")).length = 1) ∧
  (∀ q ∈ t, ∀ ty suffix, satelliteSuffix ty = some suffix → q.suffix = some suffix →
    ∃ p ∈ t, p.suffix = none ∧ p.row "instance_id" = q.row "instance_id" ∧
      p.row "id" = q.row "idp_id")

/-- The invariant of event processing in terms of the declared keys: no two rows of a
table share a primary-key value, every row of a table with a foreign key is owned by a
primary row, and every primary row with a concrete `type` owns a row of the satellite
table of that type. -/
def Invariant (t : Tables) : Prop :=
  t.Pairwise (fun a b => a.conflicts b = false) ∧
  (∀ q ∈ t, hasForeignKey q.suffix = true → ∃ p ∈ t, p.owns q = true) ∧
  (∀ p ∈ t, p.suffix = none → ∀ ty suffix, satelliteSuffix ty = some suffix →
    p.row "type" = some (.idpType ty) → ∃ q ∈ t, q.suffix = some suffix ∧ p.owns q = true)

/-- The exclusion half of primary/satellite consistency: a satellite row with the
`(instance_id, id)` of a primary row whose `type` is a concrete type lies in the
satellite table of that type, so the other four tables hold no row for it. -/
def Exclusive (t : Tables) : Prop :=
  ∀ p ∈ t, p.suffix = none → ∀ ty suffix, satelliteSuffix ty = some suffix →
    p.row "type" = some (.idpType ty) →
    ∀ q ∈ t, ∀ ty2 suffix2, satelliteSuffix ty2 = some suffix2 → q.suffix = some suffix2 →
      q.row "instance_id" = p.row "instance_id" → q.row "idp_id" = p.row "id" → ty2 = ty

/-- Every satellite row is owned by a primary row whose `type` is the type of the
satellite table. -/
def Matched (t : Tables) : Prop :=
  ∀ q ∈ t, ∀ ty suffix, satelliteSuffix ty = some suffix → q.suffix = some suffix →
    ∃ p ∈ t, p.owns q = true ∧ p.row "type" = some (.idpType ty)

/-- Sample event sequence: the generic legacy config-added event for `cfg1`, then the legacy
OIDC config-added event and the legacy JWT config-added event for the same config. -/
def sampleDoubleUpgrade : List (handler.Reduce × eventstore.Event) :=
  [(reduceOldConfigAdded, .inst (.IDPConfigAddedEvent sampleConfigAdded)),
   (reduceOldOIDCConfigAdded, .inst (.IDPOIDCConfigAddedEvent sampleOIDCConfigAdded)),
   (reduceOldJWTConfigAdded, .inst (.IDPJWTConfigAddedEvent sampleJWTConfigAdded))]

/-- Sample event sequence: the OAuth Added event for `idp1`, then the OAuth Changed event
that sets its scopes. -/
def sampleAddedChanged : List (handler.Reduce × eventstore.Event) :=
  [(reduceOAuthIDPAdded, .inst (.OAuthIDPAddedEvent sampleOAuthAdded)),
   (reduceOAuthIDPChanged, .inst (.OAuthIDPChangedEvent sampleOAuthChangedScopes))]

/-! ## Vocabulary of the properties: metadata, dispatch keys and schema conformance -/

/-- The `BaseEvent` the struct of a payload embeds. -/
def Payload.toBaseEvent : Payload → eventstore.BaseEvent
  | .OAuthIDPAddedEvent e => e.toBaseEvent
  | .OAuthIDPChangedEvent e => e.toBaseEvent
  | .OIDCIDPAddedEvent e => e.toBaseEvent
  | .OIDCIDPChangedEvent e => e.toBaseEvent
  | .JWTIDPAddedEvent e => e.toBaseEvent
  | .JWTIDPChangedEvent e => e.toBaseEvent
  | .IDPConfigAddedEvent e => e.toBaseEvent
  | .IDPConfigChangedEvent e => e.toBaseEvent
  | .IDPOIDCConfigAddedEvent e => e.toBaseEvent
  | .IDPOIDCConfigChangedEvent e => e.toBaseEvent
  | .IDPJWTConfigAddedEvent e => e.toBaseEvent
  | .IDPJWTConfigChangedEvent e => e.toBaseEvent
  | .GoogleIDPAddedEvent e => e.toBaseEvent
  | .GoogleIDPChangedEvent e => e.toBaseEvent
  | .LDAPIDPAddedEvent e => e.toBaseEvent
  | .LDAPIDPChangedEvent e => e.toBaseEvent
  | .IDPRemovedEvent e => e.toBaseEvent

/-- The metadata of an event, as the interface methods `Sequence()`, `CreationDate()` and
`Aggregate()` read it: the `BaseEvent` the concrete event type embeds. -/
def eventstore.Event.toBaseEvent : eventstore.Event → eventstore.BaseEvent
  | .org p => p.toBaseEvent
  | .inst p => p.toBaseEvent
  | .OrgRemovedEvent e => e
  | .InstanceRemovedEvent e => e
  | .other _ e => e

/-- The reducers the source gives an Update against the primary table. -/
def primaryUpdateReducers : List handler.Reduce :=
  [reduceOAuthIDPChanged, reduceOIDCIDPChanged, reduceJWTIDPChanged, reduceGoogleIDPChanged,
   reduceLDAPIDPChanged, reduceOldConfigChanged, reduceOldOIDCConfigChanged,
   reduceOldJWTConfigChanged, reduceOldOIDCConfigAdded, reduceOldJWTConfigAdded,
   reduceOwnerRemoved]

/-- The unit the OAuth Added reducer returns for the sample event `sampleOAuthAdded` of the
instance aggregate. -/
def sampleOAuthAddedUnit : handler.Statement :=
  { Sequence := 7, InstanceID := "inst1",
    Execute := [
      .create none [
        ⟨"id", .text "idp1"⟩, ⟨"creation_date", .timestamp 1000⟩,
        ⟨"change_date", .timestamp 1000⟩, ⟨"sequence", .uint64 7⟩,
        ⟨"resource_owner", .text "ro1"⟩, ⟨"instance_id", .text "inst1"⟩,
        ⟨"state", .idpState .IDPStateActive⟩, ⟨"name", .text "n1"⟩,
        ⟨"owner_type", .ownerType .IdentityProviderTypeSystem⟩,
        ⟨"type", .idpType .IDPTypeOAuth⟩, ⟨"is_creation_allowed", .bool true⟩,
        ⟨"is_linking_allowed", .bool true⟩, ⟨"is_auto_creation", .bool false⟩,
        ⟨"is_auto_update", .bool false⟩],
      .create (some "oauth") [
        ⟨"idp_id", .text "idp1"⟩, ⟨"instance_id", .text "inst1"⟩, ⟨"client_id", .text "c1"⟩,
        ⟨"client_secret", .crypto none⟩, ⟨"authorization_endpoint", .text "a"⟩,
        ⟨"token_endpoint", .text "t"⟩, ⟨"user_endpoint", .text "u"⟩,
        ⟨"scopes", .stringArray none⟩]] }

/-- The unit of a typed Changed event: the primary Update of `primary`, keyed by `id` and
`instance_id`, then the Update of `cols` against the satellite table `suffix`, keyed by
`idp_id` and `instance_id`, when `cols` is not empty. -/
def typedChangedUnit (b : eventstore.BaseEvent) (id : String) (primary : List handler.Column)
    (suffix : String) (cols : List handler.Column) : handler.Statement :=
  { Sequence := b.Sequence, InstanceID := b.Aggregate.InstanceID,
    Execute :=
      .update none primary
        [⟨"id", .text id⟩, ⟨"instance_id", .text b.Aggregate.InstanceID⟩] ::
      (if cols = [] then []
       else [.update (some suffix) cols
        [⟨"idp_id", .text id⟩, ⟨"instance_id", .text b.Aggregate.InstanceID⟩]]) }

/-- The fourteen columns of the primary row of a typed Added event, in the order the
reducers list them. -/
def addedPrimaryColumns (b : eventstore.BaseEvent) (id name : String)
    (ownerType : domain.IdentityProviderType) (ty : domain.IDPType) (o : idp.Options) :
    List handler.Column :=
  [⟨"id", .text id⟩, ⟨"creation_date", .timestamp b.CreationDate⟩,
   ⟨"change_date", .timestamp b.CreationDate⟩, ⟨"sequence", .uint64 b.Sequence⟩,
   ⟨"resource_owner", .text b.Aggregate.ResourceOwner⟩,
   ⟨"instance_id", .text b.Aggregate.InstanceID⟩, ⟨"state", .idpState .IDPStateActive⟩,
   ⟨"name", .text name⟩, ⟨"owner_type", .ownerType ownerType⟩, ⟨"type", .idpType ty⟩,
   ⟨"is_creation_allowed", .bool o.IsCreationAllowed⟩,
   ⟨"is_linking_allowed", .bool o.IsLinkingAllowed⟩,
   ⟨"is_auto_creation", .bool o.IsAutoCreation⟩, ⟨"is_auto_update", .bool o.IsAutoUpdate⟩]

/-- The result of a reducer is the unit of a typed Added event whose primary Create assigns
the fourteen columns of `addedPrimaryColumns`, followed by a Create against the
satellite table `suffix`. -/
def CreatesPrimaryRow (r : Except Error handler.Statement) (b : eventstore.BaseEvent)
    (id name : String) (ownerType : domain.IdentityProviderType) (ty : domain.IDPType)
    (o : idp.Options) (suffix : String) : Prop :=
  ∃ satellite, r = .ok ⟨b.Sequence, b.Aggregate.InstanceID,
    [.create none (addedPrimaryColumns b id name ownerType ty o),
     .create (some suffix) satellite]⟩

/-- The columns of the twenty-one LDAP satellite fields, in the order the source declares
them: connection settings first, then the thirteen attribute mappings. -/
def ldapFieldColumns : List String :=
  [LDAPHostCol, LDAPPortCol, LDAPTlsCol, LDAPBaseDNCol, LDAPUserObjectClassCol,
   LDAPUserUniqueAttributeCol, LDAPAdminCol, LDAPPasswordCol, LDAPIDAttributeCol,
   LDAPFirstNameAttributeCol, LDAPLastNameAttributeCol, LDAPDisplayNameAttributeCol,
   LDAPNickNameAttributeCol, LDAPPreferredUsernameAttributeCol, LDAPEmailAttributeCol,
   LDAPEmailVerifiedAttributeCol, LDAPPhoneAttributeCol, LDAPPhoneVerifiedAttributeCol,
   LDAPPreferredLanguageAttributeCol, LDAPAvatarURLAttributeCol, LDAPProfileAttributeCol]

/-- The satellite row of an LDAP Added event: the key, then one column for each of the
twenty-one fields. -/
def ldapAddedColumns (e : idp.LDAPIDPAddedEvent) : List handler.Column :=
  [⟨"idp_id", .text e.ID⟩, ⟨"instance_id", .text e.Aggregate.InstanceID⟩,
   ⟨"host", .text e.Host⟩, ⟨"port", .text e.Port⟩, ⟨"tls", .bool e.TLS⟩,
   ⟨"base_dn", .text e.BaseDN⟩, ⟨"user_object_class", .text e.UserObjectClass⟩,
   ⟨"user_unique_attribute", .text e.UserUniqueAttribute⟩, ⟨"admin", .text e.Admin⟩,
   ⟨"password", .crypto e.Password⟩, ⟨"id_attribute", .text e.IDAttribute⟩,
   ⟨"first_name_attribute", .text e.FirstNameAttribute⟩,
   ⟨"last_name_attribute", .text e.LastNameAttribute⟩,
   ⟨"display_name_attribute", .text e.DisplayNameAttribute⟩,
   ⟨"nick_name_attribute", .text e.NickNameAttribute⟩,
   ⟨"preferred_username_attribute", .text e.PreferredUsernameAttribute⟩,
   ⟨"email_attribute", .text e.EmailAttribute⟩,
   ⟨"email_verified", .text e.EmailVerifiedAttribute⟩,
   ⟨"phone_attribute", .text e.PhoneAttribute⟩,
   ⟨"phone_verified_attribute", .text e.PhoneVerifiedAttribute⟩,
   ⟨"preferred_language_attribute", .text e.PreferredLanguageAttribute⟩,
   ⟨"avatar_url_attribute", .text e.AvatarURLAttribute⟩,
   ⟨"profile_attribute", .text e.ProfileAttribute⟩]

/-- The columns of an LDAP Changed event, field by field: one column for each present
field, none for an absent one, in the declared order. -/
def ldapChangedColumns (e : idp.LDAPIDPChangedEvent) : List handler.Column :=
  optCol "host" e.Host Value.text ++ optCol "port" e.Port Value.text ++
  optCol "tls" e.TLS Value.bool ++ optCol "base_dn" e.BaseDN Value.text ++
  optCol "user_object_class" e.UserObjectClass Value.text ++
  optCol "user_unique_attribute" e.UserUniqueAttribute Value.text ++
  optCol "admin" e.Admin Value.text ++
  optCol "password" e.Password (fun v => Value.crypto (some v)) ++
  optCol "id_attribute" e.IDAttribute Value.text ++
  optCol "first_name_attribute" e.FirstNameAttribute Value.text ++
  optCol "last_name_attribute" e.LastNameAttribute Value.text ++
  optCol "display_name_attribute" e.DisplayNameAttribute Value.text ++
  optCol "nick_name_attribute" e.NickNameAttribute Value.text ++
  optCol "preferred_username_attribute" e.PreferredUsernameAttribute Value.text ++
  optCol "email_attribute" e.EmailAttribute Value.text ++
  optCol "email_verified" e.EmailVerifiedAttribute Value.text ++
  optCol "phone_attribute" e.PhoneAttribute Value.text ++
  optCol "phone_verified_attribute" e.PhoneVerifiedAttribute Value.text ++
  optCol "preferred_language_attribute" e.PreferredLanguageAttribute Value.text ++
  optCol "avatar_url_attribute" e.AvatarURLAttribute Value.text ++
  optCol "profile_attribute" e.ProfileAttribute Value.text

/-- The event types an aggregate's entry of the dispatch table registers, in table order. -/
def handler.AggregateReducer.eventTypes (ar : handler.AggregateReducer) :
    List eventstore.EventType :=
  ar.EventRedusers.map (fun er => er.Event)

/-- Sample JWT Added event: provider `idp1`. -/
def sampleJWTAdded : idp.JWTIDPAddedEvent :=
  { toBaseEvent := sampleBase, ID := "idp1", Name := "n1", Issuer := "https://issuer",
    JWTEndpoint := "https://jwt", KeysEndpoint := "https://keys", HeaderName := "x-auth",
    IsCreationAllowed := true, IsLinkingAllowed := true, IsAutoCreation := false,
    IsAutoUpdate := false }

/-- The table the schema declares for a suffix (`none` is the primary table), if any. -/
def declaredTable (suffix : Option String) : Option crdb.SuffixedTable :=
  newIDPTemplateProjection.InitCheck.find? (fun t => t.suffix == suffix)

/-- The names of the columns the schema declares for a table, in declaration order. -/
def declaredColumns (suffix : Option String) : Option (List String) :=
  (declaredTable suffix).map (fun t => t.columns.map (fun c => c.Name))

/-- The names of the columns of a table that the schema declares neither nullable nor with a
default. -/
def requiredColumns (suffix : Option String) : Option (List String) :=
  (declaredTable suffix).map (fun t =>
    (t.columns.filter (fun c => !c.nullable && c.defaultValue.isNone)).map (fun c => c.Name))

/-- The table a statement targets. -/
def crdb.Exec.suffix : crdb.Exec → Option String
  | .create suffix _ => suffix
  | .update suffix _ _ => suffix
  | .delete suffix _ => suffix

/-- The column names a statement uses: those it assigns, then those of its conditions. -/
def crdb.Exec.columnNames : crdb.Exec → List String
  | .create _ values => handler.namesOf values
  | .update _ values conditions => handler.namesOf values ++ conditions.map (fun c => c.Name)
  | .delete _ conditions => conditions.map (fun c => c.Name)

/-- The statement targets a declared table and uses only columns declared for it. -/
def crdb.Exec.agreesWithSchema (x : crdb.Exec) : Bool :=
  match declaredColumns x.suffix with
  | some cols => x.columnNames.all (fun n => cols.contains n)
  | none => false

/-- A Create is complete for its table: the table is declared, the Create assigns every
column declared neither nullable nor with a default and every primary-key column, and
it assigns no column twice. -/
def CompleteCreate (suffix : Option String) (values : List handler.Column) : Prop :=
  ∃ required key, requiredColumns suffix = some required ∧ primaryKeyOf suffix = some key ∧
    required ⊆ handler.namesOf values ∧ key ⊆ handler.namesOf values ∧
    (handler.namesOf values).Nodup

/-- The reducers the source gives a Create. -/
def createReducers : List handler.Reduce :=
  [reduceOAuthIDPAdded, reduceOIDCIDPAdded, reduceJWTIDPAdded, reduceGoogleIDPAdded,
   reduceLDAPIDPAdded, reduceOldConfigAdded, reduceOldOIDCConfigAdded, reduceOldJWTConfigAdded]

/-- Sample generic legacy config-changed event for `cfg1`: only the name is set. -/
def sampleConfigChanged : idpconfig.IDPConfigChangedEvent :=
  { toBaseEvent := sampleBase, ConfigID := "cfg1", Name := some "n", AutoRegister := none }

/-- The column names a statement uses that the schema does not declare for its table. -/
def crdb.Exec.undeclaredColumns (x : crdb.Exec) : List String :=
  match declaredColumns x.suffix with
  | some cols => x.columnNames.filter (fun n => !cols.contains n)
  | none => x.columnNames

/-! ## Vocabulary of the properties: instance isolation and write-once columns -/

/-- The statement is scoped to the instance `inst`: a Create assigns `instance_id` once, to
`inst`; an Update and a Delete carry the equality condition `instance_id = inst`. -/
def crdb.Exec.scopedTo (inst : String) : crdb.Exec → Prop
  | .create _ values => handler.valuesOf values "instance_id" = [.text inst]
  | .update _ _ conditions => handler.NewCond "instance_id" (.text inst) ∈ conditions
  | .delete _ conditions => handler.NewCond "instance_id" (.text inst) ∈ conditions

/-- The identity and provenance columns of a table: of the primary table (`none`) and of a
satellite table. -/
def identityColumns : Option String → List String
  | none => ["id", "instance_id", "creation_date", "resource_owner", "owner_type", "state"]
  | some _ => ["idp_id", "instance_id"]

/-- An Update assigns no identity or provenance column of its table; a Create and a Delete
are not Updates. -/
def crdb.Exec.keepsIdentity : crdb.Exec → Bool
  | .update suffix values _ => values.all (fun c => !(identityColumns suffix).contains c.Name)
  | _ => true

/-- The stored row does not hold `inst` in its `instance_id` column. -/
def StoredRow.ofOtherInstance (inst : String) (r : StoredRow) : Bool :=
  r.row "instance_id" != some (.text inst)

/-- The rows of the tables, primary and satellite, whose `instance_id` is not `inst`, in
table order. -/
def Tables.ofOtherInstances (t : Tables) (inst : String) : Tables :=
  t.filter (StoredRow.ofOtherInstance inst)

/-- Sample tables: the rows of provider `idp1` of instance `inst1` and a primary row of
instance `inst2` with the same id. -/
def sampleTwoInstances : Tables :=
  [⟨none, Row.ofColumns [⟨"id", .text "idp1"⟩, ⟨"instance_id", .text "inst1"⟩,
      ⟨"type", .idpType .IDPTypeOAuth⟩]⟩,
   ⟨some "oauth", Row.ofColumns [⟨"idp_id", .text "idp1"⟩, ⟨"instance_id", .text "inst1"⟩,
      ⟨"client_id", .text "c1"⟩]⟩,
   ⟨none, Row.ofColumns [⟨"id", .text "idp1"⟩, ⟨"instance_id", .text "inst2"⟩,
      ⟨"type", .idpType .IDPTypeUnspecified⟩]⟩]

/-- Two reducer results are one and the same unit: neither is an error and both return
it. -/
def SameUnit (org inst : Except Error handler.Statement) : Prop :=
  ∃ s, org = .ok s ∧ inst = .ok s

/-! ## Vocabulary of the properties: an Added event replayed as a Changed event -/

/-- The rows of the satellite table `suffix`, in table order. -/
def Tables.satelliteRows (t : Tables) (suffix : String) : List StoredRow :=
  t.filter (fun r => r.suffix == some suffix)

/-- The two scopes of an event of the projection: the event type of package `org` and the
event type of package `instance` that wrap a payload. -/
def scopes : List (Payload → eventstore.Event) := [eventstore.Event.org, eventstore.Event.inst]

/-- The OAuth Changed event with metadata `b` in which the name, the four option flags and
every type-specific field are present with the values of the Added payload `p`; the
secret and the scopes are present when `p` has them. -/
def idp.OAuthIDPAddedEvent.asChanged (p : idp.OAuthIDPAddedEvent) (b : eventstore.BaseEvent) :
    idp.OAuthIDPChangedEvent :=
  { toBaseEvent := b, ID := p.ID, Name := some p.Name, ClientID := some p.ClientID,
    ClientSecret := p.ClientSecret, AuthorizationEndpoint := some p.AuthorizationEndpoint,
    TokenEndpoint := some p.TokenEndpoint, UserEndpoint := some p.UserEndpoint,
    Scopes := p.Scopes,
    OptionChanges := { IsCreationAllowed := some p.IsCreationAllowed,
                       IsLinkingAllowed := some p.IsLinkingAllowed,
                       IsAutoCreation := some p.IsAutoCreation,
                       IsAutoUpdate := some p.IsAutoUpdate } }

/-- The satellite row of an OAuth Added event. -/
def oauthAddedColumns (e : idp.OAuthIDPAddedEvent) : List handler.Column :=
  [⟨"idp_id", .text e.ID⟩, ⟨"instance_id", .text e.Aggregate.InstanceID⟩,
   ⟨"client_id", .text e.ClientID⟩, ⟨"client_secret", .crypto e.ClientSecret⟩,
   ⟨"authorization_endpoint", .text e.AuthorizationEndpoint⟩,
   ⟨"token_endpoint", .text e.TokenEndpoint⟩, ⟨"user_endpoint", .text e.UserEndpoint⟩,
   ⟨"scopes", .stringArray e.Scopes⟩]

/-- The OIDC Changed event with metadata `b` in which the name, the four option flags and
every type-specific field are present with the values of the Added payload `p`; the
secret and the scopes are present when `p` has them. -/
def idp.OIDCIDPAddedEvent.asChanged (p : idp.OIDCIDPAddedEvent) (b : eventstore.BaseEvent) :
    idp.OIDCIDPChangedEvent :=
  { toBaseEvent := b, ID := p.ID, Name := some p.Name, ClientID := some p.ClientID,
    ClientSecret := p.ClientSecret, Issuer := some p.Issuer, Scopes := p.Scopes,
    OptionChanges :=
      { IsCreationAllowed := some p.IsCreationAllowed,
        IsLinkingAllowed := some p.IsLinkingAllowed, IsAutoCreation := some p.IsAutoCreation,
        IsAutoUpdate := some p.IsAutoUpdate } }

/-- The satellite row of an OIDC Added event. -/
def oidcAddedColumns (e : idp.OIDCIDPAddedEvent) : List handler.Column :=
  [⟨"idp_id", .text e.ID⟩, ⟨"instance_id", .text e.Aggregate.InstanceID⟩,
   ⟨"issuer", .text e.Issuer⟩, ⟨"client_id", .text e.ClientID⟩,
   ⟨"client_secret", .crypto e.ClientSecret⟩, ⟨"scopes", .stringArray e.Scopes⟩]

/-- The JWT Changed event with metadata `b` in which the name, the four option flags and
every type-specific field are present with the values of the Added payload `p`. -/
def idp.JWTIDPAddedEvent.asChanged (p : idp.JWTIDPAddedEvent) (b : eventstore.BaseEvent) :
    idp.JWTIDPChangedEvent :=
  { toBaseEvent := b, ID := p.ID, Name := some p.Name, JWTEndpoint := some p.JWTEndpoint,
    KeysEndpoint := some p.KeysEndpoint, HeaderName := some p.HeaderName,
    Issuer := some p.Issuer,
    OptionChanges :=
      { IsCreationAllowed := some p.IsCreationAllowed,
        IsLinkingAllowed := some p.IsLinkingAllowed, IsAutoCreation := some p.IsAutoCreation,
        IsAutoUpdate := some p.IsAutoUpdate } }

/-- The satellite row of a JWT Added event. -/
def jwtAddedColumns (e : idp.JWTIDPAddedEvent) : List handler.Column :=
  [⟨"idp_id", .text e.ID⟩, ⟨"instance_id", .text e.Aggregate.InstanceID⟩,
   ⟨"issuer", .text e.Issuer⟩, ⟨"jwt_endpoint", .text e.JWTEndpoint⟩,
   ⟨"keys_endpoint", .text e.KeysEndpoint⟩, ⟨"header_name", .text e.HeaderName⟩]

/-- The Google Changed event with metadata `b` in which the name, the four option flags and
every type-specific field are present with the values of the Added payload `p`; the
secret and the scopes are present when `p` has them. -/
def idp.GoogleIDPAddedEvent.asChanged (p : idp.GoogleIDPAddedEvent) (b : eventstore.BaseEvent) :
    idp.GoogleIDPChangedEvent :=
  { toBaseEvent := b, ID := p.ID, Name := some p.Name, ClientID := some p.ClientID,
    ClientSecret := p.ClientSecret, Scopes := p.Scopes,
    OptionChanges :=
      { IsCreationAllowed := some p.IsCreationAllowed,
        IsLinkingAllowed := some p.IsLinkingAllowed, IsAutoCreation := some p.IsAutoCreation,
        IsAutoUpdate := some p.IsAutoUpdate } }

/-- The satellite row of a Google Added event. -/
def googleAddedColumns (e : idp.GoogleIDPAddedEvent) : List handler.Column :=
  [⟨"idp_id", .text e.ID⟩, ⟨"instance_id", .text e.Aggregate.InstanceID⟩,
   ⟨"client_id", .text e.ClientID⟩, ⟨"client_secret", .crypto e.ClientSecret⟩,
   ⟨"scopes", .stringArray e.Scopes⟩]

/-- The LDAP Changed event with metadata `b` in which the name, the four option flags,
every connection setting and every attribute mapping are present with the values of the
Added payload `p`; the password is present when `p` has one. -/
def idp.LDAPIDPAddedEvent.asChanged (p : idp.LDAPIDPAddedEvent) (b : eventstore.BaseEvent) :
    idp.LDAPIDPChangedEvent :=
  { toBaseEvent := b, ID := p.ID, Name := some p.Name, Host := some p.Host, Port := some p.Port,
    TLS := some p.TLS, BaseDN := some p.BaseDN, UserObjectClass := some p.UserObjectClass,
    UserUniqueAttribute := some p.UserUniqueAttribute, Admin := some p.Admin,
    Password := p.Password,
    toLDAPAttributeChanges :=
      { IDAttribute := some p.IDAttribute, FirstNameAttribute := some p.FirstNameAttribute,
        LastNameAttribute := some p.LastNameAttribute,
        DisplayNameAttribute := some p.DisplayNameAttribute,
        NickNameAttribute := some p.NickNameAttribute,
        PreferredUsernameAttribute := some p.PreferredUsernameAttribute,
        EmailAttribute := some p.EmailAttribute,
        EmailVerifiedAttribute := some p.EmailVerifiedAttribute,
        PhoneAttribute := some p.PhoneAttribute,
        PhoneVerifiedAttribute := some p.PhoneVerifiedAttribute,
        PreferredLanguageAttribute := some p.PreferredLanguageAttribute,
        AvatarURLAttribute := some p.AvatarURLAttribute,
        ProfileAttribute := some p.ProfileAttribute },
    OptionChanges :=
      { IsCreationAllowed := some p.IsCreationAllowed,
        IsLinkingAllowed := some p.IsLinkingAllowed, IsAutoCreation := some p.IsAutoCreation,
        IsAutoUpdate := some p.IsAutoUpdate } }

/-- Sample OAuth Added payload for provider `idp1` of instance `inst1` with other values
than `sampleOAuthAdded`, a secret and a scope list. -/
def sampleOAuthReplacement : idp.OAuthIDPAddedEvent :=
  { toBaseEvent := sampleBase, ID := "idp1", Name := "n2", ClientID := "c2",
    ClientSecret := some ⟨"aes256", "key1", [1, 2, 3]⟩, AuthorizationEndpoint := "a2",
    TokenEndpoint := "t2", UserEndpoint := "u2", Scopes := some ["openid"],
    IsCreationAllowed := false, IsLinkingAllowed := false, IsAutoCreation := true,
    IsAutoUpdate := true }

/-! ## Vocabulary of the properties: guarded legacy upgrades, re-delivery and stored audit columns -/

/-- An Update against the primary table that assigns `type` meets, in the tables `t`, only
primary rows whose `type` is unspecified; every other statement passes. -/
def crdb.Exec.retypesOnlyUnspecified (t : Tables) : crdb.Exec → Bool
  | .update none values conditions =>
    !(handler.namesOf values).contains "type" ||
      t.all (fun p => !(p.suffix == none && p.row.satisfies conditions) ||
        p.row "type" == some (.idpType .IDPTypeUnspecified))
  | _ => true

/-- The unit applied to the tables `t` retypes no row with a concrete `type`: the store
rejects the unit, or every Update of it that assigns `type` meets only primary rows
whose `type` is unspecified. -/
def handler.Statement.guardedOn (s : handler.Statement) (t : Tables) : Bool :=
  (applyExecs t s.Execute).isNone || s.Execute.all (crdb.Exec.retypesOnlyUnspecified t)

/-- Event processing from the tables `t` in which every unit is guarded on the state it is
applied to. -/
def guardedUpgrades : Tables → List (handler.Reduce × eventstore.Event) → Bool
  | _, [] => true
  | t, step :: rest =>
    (match step.1 step.2 with
      | .ok s => s.guardedOn t
      | .error _ => true) &&
    guardedUpgrades (applyReduce t step.1 step.2) rest

/-- Sample event sequence, the legacy upgrade path: the generic legacy config-added event
for `cfg1`, then the legacy OIDC config-added event for the same config. -/
def sampleLegacyUpgrade : List (handler.Reduce × eventstore.Event) :=
  [(reduceOldConfigAdded, .inst (.IDPConfigAddedEvent sampleConfigAdded)),
   (reduceOldOIDCConfigAdded, .inst (.IDPOIDCConfigAddedEvent sampleOIDCConfigAdded))]

/-- Sample generic legacy config-changed event for `cfg1`: a new name, at sequence 8 with
creation date 2000. -/
def sampleConfigRenamed : idpconfig.IDPConfigChangedEvent :=
  { toBaseEvent := { sampleBase with Sequence := 8, CreationDate := 2000 }, ConfigID := "cfg1",
    Name := some "renamed", AutoRegister := none }

/-- Sample legacy OIDC config-changed event for `cfg1`: only the issuer, at sequence 8 with
creation date 2000. -/
def sampleOIDCConfigChangedLater : idpconfig.OIDCConfigChangedEvent :=
  { sampleOIDCConfigChanged with
    toBaseEvent := { sampleBase with Sequence := 8, CreationDate := 2000 } }

/-! ## Theorems -/

/-! ## Shared lemmas: which events each reducer accepts -/

/-- The reducer `reduceOAuthIDPAdded` returns a statement only for the two events it switches on. -/
theorem reduceOAuthIDPAdded_accepts {event : eventstore.Event} {s : handler.Statement}
    (h : reduceOAuthIDPAdded event = .ok s) :
    ∃ e, event = .org (.OAuthIDPAddedEvent e) ∨ event = .inst (.OAuthIDPAddedEvent e) := by
  cases event with
  | org p => cases p <;> first | exact ⟨_, Or.inl rfl⟩ | simp [reduceOAuthIDPAdded] at h
  | inst p => cases p <;> first | exact ⟨_, Or.inr rfl⟩ | simp [reduceOAuthIDPAdded] at h
  | _ => simp [reduceOAuthIDPAdded] at h

/-- The reducer `reduceOAuthIDPAdded` fails exactly off the two event types it switches on. -/
theorem reduceOAuthIDPAdded_declared (event : eventstore.Event) :
    ((∃ err, reduceOAuthIDPAdded event = .error err) ↔
      event.Type ∉ [.orgOAuthIDPAddedEventType, .instanceOAuthIDPAddedEventType]) ∧
    ((∃ s, reduceOAuthIDPAdded event = .ok s) ↔
      event.Type ∈ [.orgOAuthIDPAddedEventType, .instanceOAuthIDPAddedEventType]) := by
  cases event with
  | org p => cases p <;> simp [reduceOAuthIDPAdded, eventstore.Event.Type]
  | inst p => cases p <;> simp [reduceOAuthIDPAdded, eventstore.Event.Type]
  | _ => simp [reduceOAuthIDPAdded, eventstore.Event.Type]

/-- The reducer `reduceOAuthIDPChanged` returns a statement only for the two events it switches on. -/
theorem reduceOAuthIDPChanged_accepts {event : eventstore.Event} {s : handler.Statement}
    (h : reduceOAuthIDPChanged event = .ok s) :
    ∃ e, event = .org (.OAuthIDPChangedEvent e) ∨ event = .inst (.OAuthIDPChangedEvent e) := by
  cases event with
  | org p => cases p <;> first | exact ⟨_, Or.inl rfl⟩ | simp [reduceOAuthIDPChanged] at h
  | inst p => cases p <;> first | exact ⟨_, Or.inr rfl⟩ | simp [reduceOAuthIDPChanged] at h
  | _ => simp [reduceOAuthIDPChanged] at h

/-- The reducer `reduceOAuthIDPChanged` fails exactly off the two event types it switches on. -/
theorem reduceOAuthIDPChanged_declared (event : eventstore.Event) :
    ((∃ err, reduceOAuthIDPChanged event = .error err) ↔
      event.Type ∉ [.orgOAuthIDPChangedEventType, .instanceOAuthIDPChangedEventType]) ∧
    ((∃ s, reduceOAuthIDPChanged event = .ok s) ↔
      event.Type ∈ [.orgOAuthIDPChangedEventType, .instanceOAuthIDPChangedEventType]) := by
  cases event with
  | org p => cases p <;> simp [reduceOAuthIDPChanged, eventstore.Event.Type]
  | inst p => cases p <;> simp [reduceOAuthIDPChanged, eventstore.Event.Type]
  | _ => simp [reduceOAuthIDPChanged, eventstore.Event.Type]

/-- The reducer `reduceOIDCIDPAdded` returns a statement only for the two events it switches on. -/
theorem reduceOIDCIDPAdded_accepts {event : eventstore.Event} {s : handler.Statement}
    (h : reduceOIDCIDPAdded event = .ok s) :
    ∃ e, event = .org (.OIDCIDPAddedEvent e) ∨ event = .inst (.OIDCIDPAddedEvent e) := by
  cases event with
  | org p => cases p <;> first | exact ⟨_, Or.inl rfl⟩ | simp [reduceOIDCIDPAdded] at h
  | inst p => cases p <;> first | exact ⟨_, Or.inr rfl⟩ | simp [reduceOIDCIDPAdded] at h
  | _ => simp [reduceOIDCIDPAdded] at h

/-- The reducer `reduceOIDCIDPAdded` fails exactly off the two event types it switches on. -/
theorem reduceOIDCIDPAdded_declared (event : eventstore.Event) :
    ((∃ err, reduceOIDCIDPAdded event = .error err) ↔
      event.Type ∉ [.orgOIDCIDPAddedEventType, .instanceOIDCIDPAddedEventType]) ∧
    ((∃ s, reduceOIDCIDPAdded event = .ok s) ↔
      event.Type ∈ [.orgOIDCIDPAddedEventType, .instanceOIDCIDPAddedEventType]) := by
  cases event with
  | org p => cases p <;> simp [reduceOIDCIDPAdded, eventstore.Event.Type]
  | inst p => cases p <;> simp [reduceOIDCIDPAdded, eventstore.Event.Type]
  | _ => simp [reduceOIDCIDPAdded, eventstore.Event.Type]

/-- The reducer `reduceOIDCIDPChanged` returns a statement only for the two events it switches on. -/
theorem reduceOIDCIDPChanged_accepts {event : eventstore.Event} {s : handler.Statement}
    (h : reduceOIDCIDPChanged event = .ok s) :
    ∃ e, event = .org (.OIDCIDPChangedEvent e) ∨ event = .inst (.OIDCIDPChangedEvent e) := by
  cases event with
  | org p => cases p <;> first | exact ⟨_, Or.inl rfl⟩ | simp [reduceOIDCIDPChanged] at h
  | inst p => cases p <;> first | exact ⟨_, Or.inr rfl⟩ | simp [reduceOIDCIDPChanged] at h
  | _ => simp [reduceOIDCIDPChanged] at h

/-- The reducer `reduceOIDCIDPChanged` fails exactly off the two event types it switches on. -/
theorem reduceOIDCIDPChanged_declared (event : eventstore.Event) :
    ((∃ err, reduceOIDCIDPChanged event = .error err) ↔
      event.Type ∉ [.orgOIDCIDPChangedEventType, .instanceOIDCIDPChangedEventType]) ∧
    ((∃ s, reduceOIDCIDPChanged event = .ok s) ↔
      event.Type ∈ [.orgOIDCIDPChangedEventType, .instanceOIDCIDPChangedEventType]) := by
  cases event with
  | org p => cases p <;> simp [reduceOIDCIDPChanged, eventstore.Event.Type]
  | inst p => cases p <;> simp [reduceOIDCIDPChanged, eventstore.Event.Type]
  | _ => simp [reduceOIDCIDPChanged, eventstore.Event.Type]

/-- The reducer `reduceJWTIDPAdded` returns a statement only for the two events it switches on. -/
theorem reduceJWTIDPAdded_accepts {event : eventstore.Event} {s : handler.Statement}
    (h : reduceJWTIDPAdded event = .ok s) :
    ∃ e, event = .org (.JWTIDPAddedEvent e) ∨ event = .inst (.JWTIDPAddedEvent e) := by
  cases event with
  | org p => cases p <;> first | exact ⟨_, Or.inl rfl⟩ | simp [reduceJWTIDPAdded] at h
  | inst p => cases p <;> first | exact ⟨_, Or.inr rfl⟩ | simp [reduceJWTIDPAdded] at h
  | _ => simp [reduceJWTIDPAdded] at h

/-- The reducer `reduceJWTIDPAdded` fails exactly off the two event types it switches on. -/
theorem reduceJWTIDPAdded_declared (event : eventstore.Event) :
    ((∃ err, reduceJWTIDPAdded event = .error err) ↔
      event.Type ∉ [.orgJWTIDPAddedEventType, .instanceJWTIDPAddedEventType]) ∧
    ((∃ s, reduceJWTIDPAdded event = .ok s) ↔
      event.Type ∈ [.orgJWTIDPAddedEventType, .instanceJWTIDPAddedEventType]) := by
  cases event with
  | org p => cases p <;> simp [reduceJWTIDPAdded, eventstore.Event.Type]
  | inst p => cases p <;> simp [reduceJWTIDPAdded, eventstore.Event.Type]
  | _ => simp [reduceJWTIDPAdded, eventstore.Event.Type]

/-- The reducer `reduceJWTIDPChanged` returns a statement only for the two events it switches on. -/
theorem reduceJWTIDPChanged_accepts {event : eventstore.Event} {s : handler.Statement}
    (h : reduceJWTIDPChanged event = .ok s) :
    ∃ e, event = .org (.JWTIDPChangedEvent e) ∨ event = .inst (.JWTIDPChangedEvent e) := by
  cases event with
  | org p => cases p <;> first | exact ⟨_, Or.inl rfl⟩ | simp [reduceJWTIDPChanged] at h
  | inst p => cases p <;> first | exact ⟨_, Or.inr rfl⟩ | simp [reduceJWTIDPChanged] at h
  | _ => simp [reduceJWTIDPChanged] at h

/-- The reducer `reduceJWTIDPChanged` fails exactly off the two event types it switches on. -/
theorem reduceJWTIDPChanged_declared (event : eventstore.Event) :
    ((∃ err, reduceJWTIDPChanged event = .error err) ↔
      event.Type ∉ [.orgJWTIDPChangedEventType, .instanceJWTIDPChangedEventType]) ∧
    ((∃ s, reduceJWTIDPChanged event = .ok s) ↔
      event.Type ∈ [.orgJWTIDPChangedEventType, .instanceJWTIDPChangedEventType]) := by
  cases event with
  | org p => cases p <;> simp [reduceJWTIDPChanged, eventstore.Event.Type]
  | inst p => cases p <;> simp [reduceJWTIDPChanged, eventstore.Event.Type]
  | _ => simp [reduceJWTIDPChanged, eventstore.Event.Type]

/-- The reducer `reduceOldConfigAdded` returns a statement only for the two events it switches on. -/
theorem reduceOldConfigAdded_accepts {event : eventstore.Event} {s : handler.Statement}
    (h : reduceOldConfigAdded event = .ok s) :
    ∃ e, event = .org (.IDPConfigAddedEvent e) ∨ event = .inst (.IDPConfigAddedEvent e) := by
  cases event with
  | org p => cases p <;> first | exact ⟨_, Or.inl rfl⟩ | simp [reduceOldConfigAdded] at h
  | inst p => cases p <;> first | exact ⟨_, Or.inr rfl⟩ | simp [reduceOldConfigAdded] at h
  | _ => simp [reduceOldConfigAdded] at h

/-- The reducer `reduceOldConfigAdded` fails exactly off the two event types it switches on. -/
theorem reduceOldConfigAdded_declared (event : eventstore.Event) :
    ((∃ err, reduceOldConfigAdded event = .error err) ↔
      event.Type ∉ [.orgIDPConfigAddedEventType, .instanceIDPConfigAddedEventType]) ∧
    ((∃ s, reduceOldConfigAdded event = .ok s) ↔
      event.Type ∈ [.orgIDPConfigAddedEventType, .instanceIDPConfigAddedEventType]) := by
  cases event with
  | org p => cases p <;> simp [reduceOldConfigAdded, eventstore.Event.Type]
  | inst p => cases p <;> simp [reduceOldConfigAdded, eventstore.Event.Type]
  | _ => simp [reduceOldConfigAdded, eventstore.Event.Type]

/-- The reducer `reduceOldConfigChanged` returns a statement only for the two events it switches on. -/
theorem reduceOldConfigChanged_accepts {event : eventstore.Event} {s : handler.Statement}
    (h : reduceOldConfigChanged event = .ok s) :
    ∃ e, event = .org (.IDPConfigChangedEvent e) ∨ event = .inst (.IDPConfigChangedEvent e) := by
  cases event with
  | org p => cases p <;> first | exact ⟨_, Or.inl rfl⟩ | simp [reduceOldConfigChanged] at h
  | inst p => cases p <;> first | exact ⟨_, Or.inr rfl⟩ | simp [reduceOldConfigChanged] at h
  | _ => simp [reduceOldConfigChanged] at h

/-- The reducer `reduceOldConfigChanged` fails exactly off the two event types it switches on. -/
theorem reduceOldConfigChanged_declared (event : eventstore.Event) :
    ((∃ err, reduceOldConfigChanged event = .error err) ↔
      event.Type ∉ [.orgIDPConfigChangedEventType, .instanceIDPConfigChangedEventType]) ∧
    ((∃ s, reduceOldConfigChanged event = .ok s) ↔
      event.Type ∈ [.orgIDPConfigChangedEventType, .instanceIDPConfigChangedEventType]) := by
  cases event with
  | org p => cases p <;> simp [reduceOldConfigChanged, eventstore.Event.Type]
  | inst p => cases p <;> simp [reduceOldConfigChanged, eventstore.Event.Type]
  | _ => simp [reduceOldConfigChanged, eventstore.Event.Type]

/-- The reducer `reduceOldOIDCConfigAdded` returns a statement only for the two events it switches on. -/
theorem reduceOldOIDCConfigAdded_accepts {event : eventstore.Event} {s : handler.Statement}
    (h : reduceOldOIDCConfigAdded event = .ok s) :
    ∃ e, event = .org (.IDPOIDCConfigAddedEvent e) ∨ event = .inst (.IDPOIDCConfigAddedEvent e) := by
  cases event with
  | org p => cases p <;> first | exact ⟨_, Or.inl rfl⟩ | simp [reduceOldOIDCConfigAdded] at h
  | inst p => cases p <;> first | exact ⟨_, Or.inr rfl⟩ | simp [reduceOldOIDCConfigAdded] at h
  | _ => simp [reduceOldOIDCConfigAdded] at h

/-- The reducer `reduceOldOIDCConfigAdded` fails exactly off the two event types it switches on. -/
theorem reduceOldOIDCConfigAdded_declared (event : eventstore.Event) :
    ((∃ err, reduceOldOIDCConfigAdded event = .error err) ↔
      event.Type ∉ [.orgIDPOIDCConfigAddedEventType, .instanceIDPOIDCConfigAddedEventType]) ∧
    ((∃ s, reduceOldOIDCConfigAdded event = .ok s) ↔
      event.Type ∈ [.orgIDPOIDCConfigAddedEventType, .instanceIDPOIDCConfigAddedEventType]) := by
  cases event with
  | org p => cases p <;> simp [reduceOldOIDCConfigAdded, eventstore.Event.Type]
  | inst p => cases p <;> simp [reduceOldOIDCConfigAdded, eventstore.Event.Type]
  | _ => simp [reduceOldOIDCConfigAdded, eventstore.Event.Type]

/-- The reducer `reduceOldOIDCConfigChanged` returns a statement only for the two events it switches on. -/
theorem reduceOldOIDCConfigChanged_accepts {event : eventstore.Event} {s : handler.Statement}
    (h : reduceOldOIDCConfigChanged event = .ok s) :
    ∃ e, event = .org (.IDPOIDCConfigChangedEvent e) ∨ event = .inst (.IDPOIDCConfigChangedEvent e) := by
  cases event with
  | org p => cases p <;> first | exact ⟨_, Or.inl rfl⟩ | simp [reduceOldOIDCConfigChanged] at h
  | inst p => cases p <;> first | exact ⟨_, Or.inr rfl⟩ | simp [reduceOldOIDCConfigChanged] at h
  | _ => simp [reduceOldOIDCConfigChanged] at h

/-- The reducer `reduceOldOIDCConfigChanged` fails exactly off the two event types it switches on. -/
theorem reduceOldOIDCConfigChanged_declared (event : eventstore.Event) :
    ((∃ err, reduceOldOIDCConfigChanged event = .error err) ↔
      event.Type ∉ [.orgIDPOIDCConfigChangedEventType, .instanceIDPOIDCConfigChangedEventType]) ∧
    ((∃ s, reduceOldOIDCConfigChanged event = .ok s) ↔
      event.Type ∈ [.orgIDPOIDCConfigChangedEventType, .instanceIDPOIDCConfigChangedEventType]) := by
  cases event with
  | org p => cases p <;> simp [reduceOldOIDCConfigChanged, eventstore.Event.Type]
  | inst p => cases p <;> simp [reduceOldOIDCConfigChanged, eventstore.Event.Type]
  | _ => simp [reduceOldOIDCConfigChanged, eventstore.Event.Type]

/-- The reducer `reduceOldJWTConfigAdded` returns a statement only for the two events it switches on. -/
theorem reduceOldJWTConfigAdded_accepts {event : eventstore.Event} {s : handler.Statement}
    (h : reduceOldJWTConfigAdded event = .ok s) :
    ∃ e, event = .org (.IDPJWTConfigAddedEvent e) ∨ event = .inst (.IDPJWTConfigAddedEvent e) := by
  cases event with
  | org p => cases p <;> first | exact ⟨_, Or.inl rfl⟩ | simp [reduceOldJWTConfigAdded] at h
  | inst p => cases p <;> first | exact ⟨_, Or.inr rfl⟩ | simp [reduceOldJWTConfigAdded] at h
  | _ => simp [reduceOldJWTConfigAdded] at h

/-- The reducer `reduceOldJWTConfigAdded` fails exactly off the two event types it switches on. -/
theorem reduceOldJWTConfigAdded_declared (event : eventstore.Event) :
    ((∃ err, reduceOldJWTConfigAdded event = .error err) ↔
      event.Type ∉ [.orgIDPJWTConfigAddedEventType, .instanceIDPJWTConfigAddedEventType]) ∧
    ((∃ s, reduceOldJWTConfigAdded event = .ok s) ↔
      event.Type ∈ [.orgIDPJWTConfigAddedEventType, .instanceIDPJWTConfigAddedEventType]) := by
  cases event with
  | org p => cases p <;> simp [reduceOldJWTConfigAdded, eventstore.Event.Type]
  | inst p => cases p <;> simp [reduceOldJWTConfigAdded, eventstore.Event.Type]
  | _ => simp [reduceOldJWTConfigAdded, eventstore.Event.Type]

/-- The reducer `reduceOldJWTConfigChanged` returns a statement only for the two events it switches on. -/
theorem reduceOldJWTConfigChanged_accepts {event : eventstore.Event} {s : handler.Statement}
    (h : reduceOldJWTConfigChanged event = .ok s) :
    ∃ e, event = .org (.IDPJWTConfigChangedEvent e) ∨ event = .inst (.IDPJWTConfigChangedEvent e) := by
  cases event with
  | org p => cases p <;> first | exact ⟨_, Or.inl rfl⟩ | simp [reduceOldJWTConfigChanged] at h
  | inst p => cases p <;> first | exact ⟨_, Or.inr rfl⟩ | simp [reduceOldJWTConfigChanged] at h
  | _ => simp [reduceOldJWTConfigChanged] at h

/-- The reducer `reduceOldJWTConfigChanged` fails exactly off the two event types it switches on. -/
theorem reduceOldJWTConfigChanged_declared (event : eventstore.Event) :
    ((∃ err, reduceOldJWTConfigChanged event = .error err) ↔
      event.Type ∉ [.orgIDPJWTConfigChangedEventType, .instanceIDPJWTConfigChangedEventType]) ∧
    ((∃ s, reduceOldJWTConfigChanged event = .ok s) ↔
      event.Type ∈ [.orgIDPJWTConfigChangedEventType, .instanceIDPJWTConfigChangedEventType]) := by
  cases event with
  | org p => cases p <;> simp [reduceOldJWTConfigChanged, eventstore.Event.Type]
  | inst p => cases p <;> simp [reduceOldJWTConfigChanged, eventstore.Event.Type]
  | _ => simp [reduceOldJWTConfigChanged, eventstore.Event.Type]

/-- The reducer `reduceGoogleIDPAdded` returns a statement only for the two events it switches on. -/
theorem reduceGoogleIDPAdded_accepts {event : eventstore.Event} {s : handler.Statement}
    (h : reduceGoogleIDPAdded event = .ok s) :
    ∃ e, event = .org (.GoogleIDPAddedEvent e) ∨ event = .inst (.GoogleIDPAddedEvent e) := by
  cases event with
  | org p => cases p <;> first | exact ⟨_, Or.inl rfl⟩ | simp [reduceGoogleIDPAdded] at h
  | inst p => cases p <;> first | exact ⟨_, Or.inr rfl⟩ | simp [reduceGoogleIDPAdded] at h
  | _ => simp [reduceGoogleIDPAdded] at h

/-- The reducer `reduceGoogleIDPAdded` fails exactly off the two event types it switches on. -/
theorem reduceGoogleIDPAdded_declared (event : eventstore.Event) :
    ((∃ err, reduceGoogleIDPAdded event = .error err) ↔
      event.Type ∉ [.orgGoogleIDPAddedEventType, .instanceGoogleIDPAddedEventType]) ∧
    ((∃ s, reduceGoogleIDPAdded event = .ok s) ↔
      event.Type ∈ [.orgGoogleIDPAddedEventType, .instanceGoogleIDPAddedEventType]) := by
  cases event with
  | org p => cases p <;> simp [reduceGoogleIDPAdded, eventstore.Event.Type]
  | inst p => cases p <;> simp [reduceGoogleIDPAdded, eventstore.Event.Type]
  | _ => simp [reduceGoogleIDPAdded, eventstore.Event.Type]

/-- The reducer `reduceGoogleIDPChanged` returns a statement only for the two events it switches on. -/
theorem reduceGoogleIDPChanged_accepts {event : eventstore.Event} {s : handler.Statement}
    (h : reduceGoogleIDPChanged event = .ok s) :
    ∃ e, event = .org (.GoogleIDPChangedEvent e) ∨ event = .inst (.GoogleIDPChangedEvent e) := by
  cases event with
  | org p => cases p <;> first | exact ⟨_, Or.inl rfl⟩ | simp [reduceGoogleIDPChanged] at h
  | inst p => cases p <;> first | exact ⟨_, Or.inr rfl⟩ | simp [reduceGoogleIDPChanged] at h
  | _ => simp [reduceGoogleIDPChanged] at h

/-- The reducer `reduceGoogleIDPChanged` fails exactly off the two event types it switches on. -/
theorem reduceGoogleIDPChanged_declared (event : eventstore.Event) :
    ((∃ err, reduceGoogleIDPChanged event = .error err) ↔
      event.Type ∉ [.orgGoogleIDPChangedEventType, .instanceGoogleIDPChangedEventType]) ∧
    ((∃ s, reduceGoogleIDPChanged event = .ok s) ↔
      event.Type ∈ [.orgGoogleIDPChangedEventType, .instanceGoogleIDPChangedEventType]) := by
  cases event with
  | org p => cases p <;> simp [reduceGoogleIDPChanged, eventstore.Event.Type]
  | inst p => cases p <;> simp [reduceGoogleIDPChanged, eventstore.Event.Type]
  | _ => simp [reduceGoogleIDPChanged, eventstore.Event.Type]

/-- The reducer `reduceLDAPIDPAdded` returns a statement only for the two events it switches on. -/
theorem reduceLDAPIDPAdded_accepts {event : eventstore.Event} {s : handler.Statement}
    (h : reduceLDAPIDPAdded event = .ok s) :
    ∃ e, event = .org (.LDAPIDPAddedEvent e) ∨ event = .inst (.LDAPIDPAddedEvent e) := by
  cases event with
  | org p => cases p <;> first | exact ⟨_, Or.inl rfl⟩ | simp [reduceLDAPIDPAdded] at h
  | inst p => cases p <;> first | exact ⟨_, Or.inr rfl⟩ | simp [reduceLDAPIDPAdded] at h
  | _ => simp [reduceLDAPIDPAdded] at h

/-- The reducer `reduceLDAPIDPAdded` fails exactly off the two event types it switches on. -/
theorem reduceLDAPIDPAdded_declared (event : eventstore.Event) :
    ((∃ err, reduceLDAPIDPAdded event = .error err) ↔
      event.Type ∉ [.orgLDAPIDPAddedEventType, .instanceLDAPIDPAddedEventType]) ∧
    ((∃ s, reduceLDAPIDPAdded event = .ok s) ↔
      event.Type ∈ [.orgLDAPIDPAddedEventType, .instanceLDAPIDPAddedEventType]) := by
  cases event with
  | org p => cases p <;> simp [reduceLDAPIDPAdded, eventstore.Event.Type]
  | inst p => cases p <;> simp [reduceLDAPIDPAdded, eventstore.Event.Type]
  | _ => simp [reduceLDAPIDPAdded, eventstore.Event.Type]

/-- The reducer `reduceLDAPIDPChanged` returns a statement only for the two events it switches on. -/
theorem reduceLDAPIDPChanged_accepts {event : eventstore.Event} {s : handler.Statement}
    (h : reduceLDAPIDPChanged event = .ok s) :
    ∃ e, event = .org (.LDAPIDPChangedEvent e) ∨ event = .inst (.LDAPIDPChangedEvent e) := by
  cases event with
  | org p => cases p <;> first | exact ⟨_, Or.inl rfl⟩ | simp [reduceLDAPIDPChanged] at h
  | inst p => cases p <;> first | exact ⟨_, Or.inr rfl⟩ | simp [reduceLDAPIDPChanged] at h
  | _ => simp [reduceLDAPIDPChanged] at h

/-- The reducer `reduceLDAPIDPChanged` fails exactly off the two event types it switches on. -/
theorem reduceLDAPIDPChanged_declared (event : eventstore.Event) :
    ((∃ err, reduceLDAPIDPChanged event = .error err) ↔
      event.Type ∉ [.orgLDAPIDPChangedEventType, .instanceLDAPIDPChangedEventType]) ∧
    ((∃ s, reduceLDAPIDPChanged event = .ok s) ↔
      event.Type ∈ [.orgLDAPIDPChangedEventType, .instanceLDAPIDPChangedEventType]) := by
  cases event with
  | org p => cases p <;> simp [reduceLDAPIDPChanged, eventstore.Event.Type]
  | inst p => cases p <;> simp [reduceLDAPIDPChanged, eventstore.Event.Type]
  | _ => simp [reduceLDAPIDPChanged, eventstore.Event.Type]

/-- The reducer `reduceIDPRemoved` returns a statement only for the two events it switches on. -/
theorem reduceIDPRemoved_accepts {event : eventstore.Event} {s : handler.Statement}
    (h : reduceIDPRemoved event = .ok s) :
    ∃ e, event = .org (.IDPRemovedEvent e) ∨ event = .inst (.IDPRemovedEvent e) := by
  cases event with
  | org p => cases p <;> first | exact ⟨_, Or.inl rfl⟩ | simp [reduceIDPRemoved] at h
  | inst p => cases p <;> first | exact ⟨_, Or.inr rfl⟩ | simp [reduceIDPRemoved] at h
  | _ => simp [reduceIDPRemoved] at h

/-- The reducer `reduceIDPRemoved` fails exactly off the two event types it switches on. -/
theorem reduceIDPRemoved_declared (event : eventstore.Event) :
    ((∃ err, reduceIDPRemoved event = .error err) ↔
      event.Type ∉ [.orgIDPRemovedEventType, .instanceIDPRemovedEventType]) ∧
    ((∃ s, reduceIDPRemoved event = .ok s) ↔
      event.Type ∈ [.orgIDPRemovedEventType, .instanceIDPRemovedEventType]) := by
  cases event with
  | org p => cases p <;> simp [reduceIDPRemoved, eventstore.Event.Type]
  | inst p => cases p <;> simp [reduceIDPRemoved, eventstore.Event.Type]
  | _ => simp [reduceIDPRemoved, eventstore.Event.Type]

/-- The reducer `reduceOwnerRemoved` returns a statement only for the org-removed event. -/
theorem reduceOwnerRemoved_accepts {event : eventstore.Event} {s : handler.Statement}
    (h : reduceOwnerRemoved event = .ok s) : ∃ e, event = .OrgRemovedEvent e := by
  cases event with
  | OrgRemovedEvent e => exact ⟨e, rfl⟩
  | _ => simp [reduceOwnerRemoved] at h

/-- The reducer `reduceOwnerRemoved` fails exactly off the org-removed event. -/
theorem reduceOwnerRemoved_declared (event : eventstore.Event) :
    ((∃ err, reduceOwnerRemoved event = .error err) ↔
      event.Type ∉ [.orgOrgRemovedEventType]) ∧
    ((∃ s, reduceOwnerRemoved event = .ok s) ↔
      event.Type ∈ [.orgOrgRemovedEventType]) := by
  cases event with
  | org p => cases p <;> simp [reduceOwnerRemoved, eventstore.Event.Type]
  | inst p => cases p <;> simp [reduceOwnerRemoved, eventstore.Event.Type]
  | _ => simp [reduceOwnerRemoved, eventstore.Event.Type]

/-- The instance-removed helper returns a statement only for the instance-removed event. -/
theorem reduceInstanceRemovedHelper_accepts {col : String} {event : eventstore.Event}
    {s : handler.Statement} (h : reduceInstanceRemovedHelper col event = .ok s) :
    ∃ e, event = .InstanceRemovedEvent e := by
  cases event with
  | InstanceRemovedEvent e => exact ⟨e, rfl⟩
  | _ => simp [reduceInstanceRemovedHelper] at h

/-- The instance-removed helper fails exactly off the instance-removed event. -/
theorem reduceInstanceRemovedHelper_declared (col : String) (event : eventstore.Event) :
    ((∃ err, reduceInstanceRemovedHelper col event = .error err) ↔
      event.Type ∉ [.instanceInstanceRemovedEventType]) ∧
    ((∃ s, reduceInstanceRemovedHelper col event = .ok s) ↔
      event.Type ∈ [.instanceInstanceRemovedEventType]) := by
  cases event with
  | org p => cases p <;> simp [reduceInstanceRemovedHelper, eventstore.Event.Type]
  | inst p => cases p <;> simp [reduceInstanceRemovedHelper, eventstore.Event.Type]
  | _ => simp [reduceInstanceRemovedHelper, eventstore.Event.Type]

/-- Every reducer registered in the dispatch table is one of the eighteen reducers. -/
theorem tableReducers_cases {r : handler.Reduce} (hr : r ∈ tableReducers) :
    r = reduceOAuthIDPAdded ∨ r = reduceOAuthIDPChanged ∨
    r = reduceOIDCIDPAdded ∨ r = reduceOIDCIDPChanged ∨
    r = reduceJWTIDPAdded ∨ r = reduceJWTIDPChanged ∨
    r = reduceOldConfigAdded ∨ r = reduceOldConfigChanged ∨
    r = reduceOldOIDCConfigAdded ∨ r = reduceOldOIDCConfigChanged ∨
    r = reduceOldJWTConfigAdded ∨ r = reduceOldJWTConfigChanged ∨
    r = reduceGoogleIDPAdded ∨ r = reduceGoogleIDPChanged ∨
    r = reduceLDAPIDPAdded ∨ r = reduceLDAPIDPChanged ∨
    r = reduceIDPRemoved ∨ r = reduceOwnerRemoved ∨
    r = reduceInstanceRemovedHelper IDPTemplateInstanceIDCol := by
  simp only [tableReducers, reducers, List.flatMap_cons, List.flatMap_nil, List.map_cons,
    List.map_nil, List.append_nil, List.cons_append, List.nil_append, List.mem_cons,
    List.mem_singleton, List.not_mem_nil, or_false] at hr
  rcases hr with rfl | rfl | rfl | rfl | rfl | rfl | rfl | rfl | rfl | rfl | rfl | rfl | rfl |
    rfl | rfl | rfl | rfl | rfl | rfl | rfl | rfl | rfl | rfl | rfl | rfl | rfl | rfl | rfl |
    rfl | rfl | rfl | rfl | rfl | rfl | rfl | rfl <;> simp

/-! ## Shared lemmas: column lists -/

theorem appendIfNotNil_eq {α : Type} (cols : List handler.Column) (name : String)
    (field : Option α) (value : α → Value) :
    appendIfNotNil cols name field value = cols ++ optCol name field value := by
  cases field <;> simp [appendIfNotNil, optCol]

theorem namesOf_append (a b : List handler.Column) :
    handler.namesOf (a ++ b) = handler.namesOf a ++ handler.namesOf b := by
  simp [handler.namesOf]

theorem valuesOf_nil (name : String) : handler.valuesOf [] name = [] := rfl

theorem valuesOf_append (a b : List handler.Column) (name : String) :
    handler.valuesOf (a ++ b) name = handler.valuesOf a name ++ handler.valuesOf b name := by
  simp [handler.valuesOf]

theorem valuesOf_optCol {α : Type} (n name : String) (field : Option α) (value : α → Value) :
    handler.valuesOf (optCol n field value) name =
      if n = name then (field.map value).toList else [] := by
  cases field <;> by_cases h : n = name <;> simp [handler.valuesOf, optCol, handler.NewCol, h]

theorem namesOf_optCol_subset {α : Type} {l : List String} {n : String} (field : Option α)
    (value : α → Value) (h : n ∈ l) : handler.namesOf (optCol n field value) ⊆ l := by
  cases field <;> simp [handler.namesOf, optCol, handler.NewCol, h]

theorem namesOf_optCol {α : Type} (n : String) (field : Option α) (value : α → Value) :
    ∀ x ∈ handler.namesOf (optCol n field value), x = n := by
  cases field <;> simp [handler.namesOf, optCol, handler.NewCol]

/-- The primary-table column list of a typed Changed event ends with `change_date` and
`sequence`. -/
theorem reduceIDPChangedTemplateColumns_audit (name : Option String) (creationDate sequence : Nat)
    (optionChanges : idp.OptionChanges) :
    "change_date" ∈ handler.namesOf
        (reduceIDPChangedTemplateColumns name creationDate sequence optionChanges) ∧
    "sequence" ∈ handler.namesOf
        (reduceIDPChangedTemplateColumns name creationDate sequence optionChanges) := by
  simp [reduceIDPChangedTemplateColumns, handler.namesOf, handler.NewCol,
    IDPTemplateChangeDateCol, IDPTemplateSequenceCol]

/-! ## Shared lemmas: primary-table Updates carry the audit columns -/

theorem reduceOAuthIDPAdded_audited {event : eventstore.Event} {s : handler.Statement}
    (h : reduceOAuthIDPAdded event = .ok s) : PrimaryUpdatesAudited s := by
  obtain ⟨e, rfl | rfl⟩ := reduceOAuthIDPAdded_accepts h <;>
  · simp only [reduceOAuthIDPAdded, Except.ok.injEq] at h
    subst h
    intro values conds hx
    simp [crdb.NewMultiStatement, crdb.NewUpdateStatement, crdb.NewCreateStatement,
      crdb.NewDeleteStatement, crdb.AddUpdateStatement, crdb.AddCreateStatement, crdb.tableSuffix] at hx

theorem reduceOIDCIDPAdded_audited {event : eventstore.Event} {s : handler.Statement}
    (h : reduceOIDCIDPAdded event = .ok s) : PrimaryUpdatesAudited s := by
  obtain ⟨e, rfl | rfl⟩ := reduceOIDCIDPAdded_accepts h <;>
  · simp only [reduceOIDCIDPAdded, Except.ok.injEq] at h
    subst h
    intro values conds hx
    simp [crdb.NewMultiStatement, crdb.NewUpdateStatement, crdb.NewCreateStatement,
      crdb.NewDeleteStatement, crdb.AddUpdateStatement, crdb.AddCreateStatement, crdb.tableSuffix] at hx

theorem reduceJWTIDPAdded_audited {event : eventstore.Event} {s : handler.Statement}
    (h : reduceJWTIDPAdded event = .ok s) : PrimaryUpdatesAudited s := by
  obtain ⟨e, rfl | rfl⟩ := reduceJWTIDPAdded_accepts h <;>
  · simp only [reduceJWTIDPAdded, Except.ok.injEq] at h
    subst h
    intro values conds hx
    simp [crdb.NewMultiStatement, crdb.NewUpdateStatement, crdb.NewCreateStatement,
      crdb.NewDeleteStatement, crdb.AddUpdateStatement, crdb.AddCreateStatement, crdb.tableSuffix] at hx

theorem reduceGoogleIDPAdded_audited {event : eventstore.Event} {s : handler.Statement}
    (h : reduceGoogleIDPAdded event = .ok s) : PrimaryUpdatesAudited s := by
  obtain ⟨e, rfl | rfl⟩ := reduceGoogleIDPAdded_accepts h <;>
  · simp only [reduceGoogleIDPAdded, Except.ok.injEq] at h
    subst h
    intro values conds hx
    simp [crdb.NewMultiStatement, crdb.NewUpdateStatement, crdb.NewCreateStatement,
      crdb.NewDeleteStatement, crdb.AddUpdateStatement, crdb.AddCreateStatement, crdb.tableSuffix] at hx

theorem reduceLDAPIDPAdded_audited {event : eventstore.Event} {s : handler.Statement}
    (h : reduceLDAPIDPAdded event = .ok s) : PrimaryUpdatesAudited s := by
  obtain ⟨e, rfl | rfl⟩ := reduceLDAPIDPAdded_accepts h <;>
  · simp only [reduceLDAPIDPAdded, Except.ok.injEq] at h
    subst h
    intro values conds hx
    simp [crdb.NewMultiStatement, crdb.NewUpdateStatement, crdb.NewCreateStatement,
      crdb.NewDeleteStatement, crdb.AddUpdateStatement, crdb.AddCreateStatement, crdb.tableSuffix] at hx

theorem reduceOldConfigAdded_audited {event : eventstore.Event} {s : handler.Statement}
    (h : reduceOldConfigAdded event = .ok s) : PrimaryUpdatesAudited s := by
  obtain ⟨e, rfl | rfl⟩ := reduceOldConfigAdded_accepts h <;>
  · simp only [reduceOldConfigAdded, Except.ok.injEq] at h
    subst h
    intro values conds hx
    simp [crdb.NewMultiStatement, crdb.NewUpdateStatement, crdb.NewCreateStatement,
      crdb.NewDeleteStatement, crdb.AddUpdateStatement, crdb.AddCreateStatement, crdb.tableSuffix] at hx

theorem reduceIDPRemoved_audited {event : eventstore.Event} {s : handler.Statement}
    (h : reduceIDPRemoved event = .ok s) : PrimaryUpdatesAudited s := by
  obtain ⟨e, rfl | rfl⟩ := reduceIDPRemoved_accepts h <;>
  · simp only [reduceIDPRemoved, Except.ok.injEq] at h
    subst h
    intro values conds hx
    simp [crdb.NewMultiStatement, crdb.NewUpdateStatement, crdb.NewCreateStatement,
      crdb.NewDeleteStatement, crdb.AddUpdateStatement, crdb.AddCreateStatement, crdb.tableSuffix] at hx

theorem reduceOAuthIDPChanged_audited {event : eventstore.Event} {s : handler.Statement}
    (h : reduceOAuthIDPChanged event = .ok s) : PrimaryUpdatesAudited s := by
  obtain ⟨e, rfl | rfl⟩ := reduceOAuthIDPChanged_accepts h <;>
  · simp only [reduceOAuthIDPChanged, Except.ok.injEq] at h
    subst h
    intro values conds hx
    simp [crdb.NewMultiStatement, crdb.NewUpdateStatement, crdb.NewCreateStatement,
      crdb.NewDeleteStatement, crdb.AddUpdateStatement, crdb.AddCreateStatement, crdb.tableSuffix] at hx
    split at hx <;> simp at hx <;> obtain ⟨rfl, -⟩ := hx <;>
      exact reduceIDPChangedTemplateColumns_audit _ _ _ _

theorem reduceOIDCIDPChanged_audited {event : eventstore.Event} {s : handler.Statement}
    (h : reduceOIDCIDPChanged event = .ok s) : PrimaryUpdatesAudited s := by
  obtain ⟨e, rfl | rfl⟩ := reduceOIDCIDPChanged_accepts h <;>
  · simp only [reduceOIDCIDPChanged, Except.ok.injEq] at h
    subst h
    intro values conds hx
    simp [crdb.NewMultiStatement, crdb.NewUpdateStatement, crdb.NewCreateStatement,
      crdb.NewDeleteStatement, crdb.AddUpdateStatement, crdb.AddCreateStatement, crdb.tableSuffix] at hx
    split at hx <;> simp at hx <;> obtain ⟨rfl, -⟩ := hx <;>
      exact reduceIDPChangedTemplateColumns_audit _ _ _ _

theorem reduceJWTIDPChanged_audited {event : eventstore.Event} {s : handler.Statement}
    (h : reduceJWTIDPChanged event = .ok s) : PrimaryUpdatesAudited s := by
  obtain ⟨e, rfl | rfl⟩ := reduceJWTIDPChanged_accepts h <;>
  · simp only [reduceJWTIDPChanged, Except.ok.injEq] at h
    subst h
    intro values conds hx
    simp [crdb.NewMultiStatement, crdb.NewUpdateStatement, crdb.NewCreateStatement,
      crdb.NewDeleteStatement, crdb.AddUpdateStatement, crdb.AddCreateStatement, crdb.tableSuffix] at hx
    split at hx <;> simp at hx <;> obtain ⟨rfl, -⟩ := hx <;>
      exact reduceIDPChangedTemplateColumns_audit _ _ _ _

theorem reduceGoogleIDPChanged_audited {event : eventstore.Event} {s : handler.Statement}
    (h : reduceGoogleIDPChanged event = .ok s) : PrimaryUpdatesAudited s := by
  obtain ⟨e, rfl | rfl⟩ := reduceGoogleIDPChanged_accepts h <;>
  · simp only [reduceGoogleIDPChanged, Except.ok.injEq] at h
    subst h
    intro values conds hx
    simp [crdb.NewMultiStatement, crdb.NewUpdateStatement, crdb.NewCreateStatement,
      crdb.NewDeleteStatement, crdb.AddUpdateStatement, crdb.AddCreateStatement, crdb.tableSuffix] at hx
    split at hx <;> simp at hx <;> obtain ⟨rfl, -⟩ := hx <;>
      exact reduceIDPChangedTemplateColumns_audit _ _ _ _

theorem reduceLDAPIDPChanged_audited {event : eventstore.Event} {s : handler.Statement}
    (h : reduceLDAPIDPChanged event = .ok s) : PrimaryUpdatesAudited s := by
  obtain ⟨e, rfl | rfl⟩ := reduceLDAPIDPChanged_accepts h <;>
  · simp only [reduceLDAPIDPChanged, Except.ok.injEq] at h
    subst h
    intro values conds hx
    simp [crdb.NewMultiStatement, crdb.NewUpdateStatement, crdb.NewCreateStatement,
      crdb.NewDeleteStatement, crdb.AddUpdateStatement, crdb.AddCreateStatement, crdb.tableSuffix] at hx
    split at hx <;> simp at hx <;> obtain ⟨rfl, -⟩ := hx <;>
      exact reduceIDPChangedTemplateColumns_audit _ _ _ _

theorem reduceOldOIDCConfigChanged_audited {event : eventstore.Event} {s : handler.Statement}
    (h : reduceOldOIDCConfigChanged event = .ok s) : PrimaryUpdatesAudited s := by
  obtain ⟨e, rfl | rfl⟩ := reduceOldOIDCConfigChanged_accepts h <;>
  · simp only [reduceOldOIDCConfigChanged, Except.ok.injEq] at h
    subst h
    intro values conds hx
    simp [crdb.NewMultiStatement, crdb.NewUpdateStatement, crdb.NewCreateStatement,
      crdb.NewDeleteStatement, crdb.AddUpdateStatement, crdb.AddCreateStatement, crdb.tableSuffix] at hx
    split at hx <;> simp at hx <;> obtain ⟨rfl, -⟩ := hx <;>
      simp [handler.namesOf, handler.NewCol, IDPTemplateChangeDateCol, IDPTemplateSequenceCol]

theorem reduceOldJWTConfigChanged_audited {event : eventstore.Event} {s : handler.Statement}
    (h : reduceOldJWTConfigChanged event = .ok s) : PrimaryUpdatesAudited s := by
  obtain ⟨e, rfl | rfl⟩ := reduceOldJWTConfigChanged_accepts h <;>
  · simp only [reduceOldJWTConfigChanged, Except.ok.injEq] at h
    subst h
    intro values conds hx
    simp [crdb.NewMultiStatement, crdb.NewUpdateStatement, crdb.NewCreateStatement,
      crdb.NewDeleteStatement, crdb.AddUpdateStatement, crdb.AddCreateStatement, crdb.tableSuffix] at hx
    split at hx <;> simp at hx <;> obtain ⟨rfl, -⟩ := hx <;>
      simp [handler.namesOf, handler.NewCol, IDPTemplateChangeDateCol, IDPTemplateSequenceCol]

theorem reduceOldOIDCConfigAdded_audited {event : eventstore.Event} {s : handler.Statement}
    (h : reduceOldOIDCConfigAdded event = .ok s) : PrimaryUpdatesAudited s := by
  obtain ⟨e, rfl | rfl⟩ := reduceOldOIDCConfigAdded_accepts h <;>
  · simp only [reduceOldOIDCConfigAdded, Except.ok.injEq] at h
    subst h
    intro values conds hx
    simp [crdb.NewMultiStatement, crdb.NewUpdateStatement, crdb.NewCreateStatement,
      crdb.NewDeleteStatement, crdb.AddUpdateStatement, crdb.AddCreateStatement, crdb.tableSuffix] at hx
    obtain ⟨rfl, -⟩ := hx
    simp [handler.namesOf, handler.NewCol, IDPTemplateChangeDateCol, IDPTemplateSequenceCol]

theorem reduceOldJWTConfigAdded_audited {event : eventstore.Event} {s : handler.Statement}
    (h : reduceOldJWTConfigAdded event = .ok s) : PrimaryUpdatesAudited s := by
  obtain ⟨e, rfl | rfl⟩ := reduceOldJWTConfigAdded_accepts h <;>
  · simp only [reduceOldJWTConfigAdded, Except.ok.injEq] at h
    subst h
    intro values conds hx
    simp [crdb.NewMultiStatement, crdb.NewUpdateStatement, crdb.NewCreateStatement,
      crdb.NewDeleteStatement, crdb.AddUpdateStatement, crdb.AddCreateStatement, crdb.tableSuffix] at hx
    obtain ⟨rfl, -⟩ := hx
    simp [handler.namesOf, handler.NewCol, IDPTemplateChangeDateCol, IDPTemplateSequenceCol]

theorem reduceOldConfigChanged_audited {event : eventstore.Event} {s : handler.Statement}
    (h : reduceOldConfigChanged event = .ok s) : PrimaryUpdatesAudited s := by
  obtain ⟨e, rfl | rfl⟩ := reduceOldConfigChanged_accepts h <;>
  · simp only [reduceOldConfigChanged, Except.ok.injEq] at h
    subst h
    intro values conds hx
    simp [crdb.NewMultiStatement, crdb.NewUpdateStatement, crdb.NewCreateStatement,
      crdb.NewDeleteStatement, crdb.AddUpdateStatement, crdb.AddCreateStatement, crdb.tableSuffix] at hx
    obtain ⟨rfl, -⟩ := hx
    simp [handler.namesOf, handler.NewCol, IDPTemplateChangeDateCol, IDPTemplateSequenceCol]

theorem reduceOwnerRemoved_audited {event : eventstore.Event} {s : handler.Statement}
    (h : reduceOwnerRemoved event = .ok s) : PrimaryUpdatesAudited s := by
  obtain ⟨e, rfl⟩ := reduceOwnerRemoved_accepts h
  simp only [reduceOwnerRemoved, Except.ok.injEq] at h
  subst h
  intro values conds hx
  simp [crdb.NewMultiStatement, crdb.NewUpdateStatement, crdb.NewCreateStatement,
      crdb.NewDeleteStatement, crdb.AddUpdateStatement, crdb.AddCreateStatement, crdb.tableSuffix] at hx
  obtain ⟨rfl, -⟩ := hx
  simp [handler.namesOf, handler.NewCol, IDPTemplateChangeDateCol, IDPTemplateSequenceCol]

theorem reduceInstanceRemovedHelper_audited {col : String} {event : eventstore.Event}
    {s : handler.Statement} (h : reduceInstanceRemovedHelper col event = .ok s) :
    PrimaryUpdatesAudited s := by
  obtain ⟨e, rfl⟩ := reduceInstanceRemovedHelper_accepts h
  simp only [reduceInstanceRemovedHelper, Except.ok.injEq] at h
  subst h
  intro values conds hx
  simp [crdb.NewMultiStatement, crdb.NewUpdateStatement, crdb.NewCreateStatement,
      crdb.NewDeleteStatement, crdb.AddUpdateStatement, crdb.AddCreateStatement, crdb.tableSuffix] at hx

/-! ## Shared lemmas: the declared keys -/

theorem primaryKeyOf_none : primaryKeyOf none = some ["instance_id", "id"] := by decide

theorem primaryKeyOf_oauth : primaryKeyOf (some "oauth") = some ["instance_id", "idp_id"] := by
  decide

theorem primaryKeyOf_oidc : primaryKeyOf (some "oidc") = some ["instance_id", "idp_id"] := by
  decide

theorem primaryKeyOf_jwt : primaryKeyOf (some "jwt") = some ["instance_id", "idp_id"] := by
  decide

theorem primaryKeyOf_google : primaryKeyOf (some "google") = some ["instance_id", "idp_id"] := by
  decide

theorem primaryKeyOf_ldap : primaryKeyOf (some "ldap") = some ["instance_id", "idp_id"] := by
  decide

theorem hasForeignKey_none : hasForeignKey none = false := by decide

theorem hasForeignKey_oauth : hasForeignKey (some "oauth") = true := by decide

theorem hasForeignKey_oidc : hasForeignKey (some "oidc") = true := by decide

theorem hasForeignKey_jwt : hasForeignKey (some "jwt") = true := by decide

theorem hasForeignKey_google : hasForeignKey (some "google") = true := by decide

theorem hasForeignKey_ldap : hasForeignKey (some "ldap") = true := by decide

/-! ## Shared lemmas: rows and single-table mutations -/

theorem Row.ofColumns_eq_none {values : List handler.Column} {name : String}
    (h : name ∉ handler.namesOf values) : Row.ofColumns values name = none := by
  simp only [Row.ofColumns, Option.map_eq_none', List.find?_eq_none]
  intro c hc hn
  apply h
  simp only [handler.namesOf, List.mem_map]
  exact ⟨c, hc, by simpa using hn⟩

theorem Row.overwrite_of_not_mem (row : Row) {values : List handler.Column} {name : String}
    (h : name ∉ handler.namesOf values) : row.overwrite values name = row name := by
  simp [Row.overwrite, Row.ofColumns_eq_none h]

theorem not_mem_namesOf_of_avoidsProtected {values : List handler.Column} {name : String}
    (h : avoidsProtected values = true) (hn : name ∈ protectedColumns) :
    name ∉ handler.namesOf values := by
  intro hmem
  simp only [handler.namesOf, List.mem_map] at hmem
  obtain ⟨c, hc, rfl⟩ := hmem
  simp only [avoidsProtected, List.all_eq_true] at h
  have := h c hc
  simp [hn] at this

theorem StoredRow.update_suffix (suffix : Option String) (values : List handler.Column)
    (conditions : List handler.Condition) (r : StoredRow) :
    (r.update suffix values conditions).suffix = r.suffix := by
  unfold StoredRow.update
  split <;> rfl

theorem StoredRow.update_of_suffix_ne {suffix : Option String} {values : List handler.Column}
    {conditions : List handler.Condition} {r : StoredRow} (h : r.suffix ≠ suffix) :
    r.update suffix values conditions = r := by
  simp [StoredRow.update, h]

theorem applyExec_create_eq {t t' : Tables} {suffix : Option String}
    {values : List handler.Column} (h : applyExec t (.create suffix values) = some t') :
    t' = t ++ [⟨suffix, Row.ofColumns values⟩] := by
  simp only [applyExec] at h
  split at h
  · cases h
  · split at h
    · cases h
    · split at h
      · cases h
      · exact (Option.some.inj h).symm

theorem applyExec_update (t : Tables) (suffix : Option String) (values : List handler.Column)
    (conditions : List handler.Condition) :
    applyExec t (.update suffix values conditions) =
      some (t.map (StoredRow.update suffix values conditions)) := rfl

theorem applyExec_delete (t : Tables) (suffix : Option String)
    (conditions : List handler.Condition) :
    applyExec t (.delete suffix conditions) =
      some (t.filter (fun r => !t.removes suffix conditions r)) := rfl

theorem avoidsProtected_appendIfNotNil {α : Type} (cols : List handler.Column) (name : String)
    (field : Option α) (value : α → Value) :
    avoidsProtected (appendIfNotNil cols name field value) =
      (avoidsProtected cols && (field.isNone || !protectedColumns.contains name)) := by
  cases field <;> simp [appendIfNotNil, avoidsProtected, handler.NewCol]

theorem avoidsProtected_nil : avoidsProtected [] = true := rfl

theorem avoidsProtected_cons (c : handler.Column) (cs : List handler.Column) :
    avoidsProtected (c :: cs) = (!protectedColumns.contains c.Name && avoidsProtected cs) := by
  simp [avoidsProtected]

theorem avoidsProtected_append (a b : List handler.Column) :
    avoidsProtected (a ++ b) = (avoidsProtected a && avoidsProtected b) := by
  simp [avoidsProtected]

theorem avoidsProtected_templateColumns (name : Option String) (creationDate sequence : Nat)
    (optionChanges : idp.OptionChanges) :
    avoidsProtected (reduceIDPChangedTemplateColumns name creationDate sequence optionChanges)
      = true := by
  simp [reduceIDPChangedTemplateColumns, avoidsProtected_appendIfNotNil, avoidsProtected_append,
    avoidsProtected_nil, avoidsProtected_cons, protectedColumns, handler.NewCol,
    IDPTemplateIDCol, IDPTemplateCreationDateCol, IDPTemplateChangeDateCol,
    IDPTemplateSequenceCol, IDPTemplateResourceOwnerCol, IDPTemplateInstanceIDCol,
    IDPTemplateStateCol, IDPTemplateNameCol, IDPTemplateOwnerTypeCol, IDPTemplateTypeCol,
    IDPTemplateOwnerRemovedCol, IDPTemplateIsCreationAllowedCol, IDPTemplateIsLinkingAllowedCol,
    IDPTemplateIsAutoCreationCol, IDPTemplateIsAutoUpdateCol]

theorem avoidsProtected_OAuthColumns (e : idp.OAuthIDPChangedEvent) :
    avoidsProtected (reduceOAuthIDPChangedColumns e) = true := by
  simp [reduceOAuthIDPChangedColumns, avoidsProtected_appendIfNotNil, avoidsProtected_nil,
    protectedColumns,
    OAuthIDCol, OAuthInstanceIDCol, OAuthClientIDCol, OAuthClientSecretCol,
    OAuthAuthorizationEndpointCol, OAuthTokenEndpointCol, OAuthUserEndpointCol, OAuthScopesCol]

theorem avoidsProtected_OIDCColumns (e : idp.OIDCIDPChangedEvent) :
    avoidsProtected (reduceOIDCIDPChangedColumns e) = true := by
  simp [reduceOIDCIDPChangedColumns, avoidsProtected_appendIfNotNil, avoidsProtected_nil,
    protectedColumns,
    OIDCIDCol, OIDCInstanceIDCol, OIDCIssuerCol, OIDCClientIDCol, OIDCClientSecretCol,
    OIDCScopesCol]

theorem avoidsProtected_JWTColumns (e : idp.JWTIDPChangedEvent) :
    avoidsProtected (reduceJWTIDPChangedColumns e) = true := by
  simp [reduceJWTIDPChangedColumns, avoidsProtected_appendIfNotNil, avoidsProtected_nil,
    protectedColumns,
    JWTIDCol, JWTInstanceIDCol, JWTIssuerCol, JWTEndpointCol, JWTKeysEndpointCol,
    JWTHeaderNameCol]

theorem avoidsProtected_GoogleColumns (e : idp.GoogleIDPChangedEvent) :
    avoidsProtected (reduceGoogleIDPChangedColumns e) = true := by
  simp [reduceGoogleIDPChangedColumns, avoidsProtected_appendIfNotNil, avoidsProtected_nil,
    protectedColumns,
    GoogleIDCol, GoogleInstanceIDCol, GoogleClientIDCol, GoogleClientSecretCol, GoogleScopesCol]

theorem avoidsProtected_LDAPColumns (e : idp.LDAPIDPChangedEvent) :
    avoidsProtected (reduceLDAPIDPChangedColumns e) = true := by
  simp [reduceLDAPIDPChangedColumns, avoidsProtected_appendIfNotNil, avoidsProtected_nil,
    protectedColumns,
    LDAPIDCol, LDAPInstanceIDCol, LDAPHostCol, LDAPPortCol, LDAPTlsCol, LDAPBaseDNCol,
    LDAPUserObjectClassCol, LDAPUserUniqueAttributeCol, LDAPAdminCol, LDAPPasswordCol,
    LDAPIDAttributeCol, LDAPFirstNameAttributeCol, LDAPLastNameAttributeCol,
    LDAPDisplayNameAttributeCol, LDAPNickNameAttributeCol, LDAPPreferredUsernameAttributeCol,
    LDAPEmailAttributeCol, LDAPEmailVerifiedAttributeCol, LDAPPhoneAttributeCol,
    LDAPPhoneVerifiedAttributeCol, LDAPPreferredLanguageAttributeCol, LDAPAvatarURLAttributeCol,
    LDAPProfileAttributeCol]

theorem reduceOAuthIDPAdded_shape {event : eventstore.Event} {s : handler.Statement}
    (h : reduceOAuthIDPAdded event = .ok s) : UnitShape none s.Execute := by
  obtain ⟨e, rfl | rfl⟩ := reduceOAuthIDPAdded_accepts h <;>
  · simp only [reduceOAuthIDPAdded, Except.ok.injEq] at h
    subst h
    exact UnitShape.added _ _ .IDPTypeOAuth "oauth" e.Aggregate.InstanceID e.ID rfl rfl rfl rfl rfl rfl

theorem reduceOIDCIDPAdded_shape {event : eventstore.Event} {s : handler.Statement}
    (h : reduceOIDCIDPAdded event = .ok s) : UnitShape none s.Execute := by
  obtain ⟨e, rfl | rfl⟩ := reduceOIDCIDPAdded_accepts h <;>
  · simp only [reduceOIDCIDPAdded, Except.ok.injEq] at h
    subst h
    exact UnitShape.added _ _ .IDPTypeOIDC "oidc" e.Aggregate.InstanceID e.ID rfl rfl rfl rfl rfl rfl

theorem reduceJWTIDPAdded_shape {event : eventstore.Event} {s : handler.Statement}
    (h : reduceJWTIDPAdded event = .ok s) : UnitShape none s.Execute := by
  obtain ⟨e, rfl | rfl⟩ := reduceJWTIDPAdded_accepts h <;>
  · simp only [reduceJWTIDPAdded, Except.ok.injEq] at h
    subst h
    exact UnitShape.added _ _ .IDPTypeJWT "jwt" e.Aggregate.InstanceID e.ID rfl rfl rfl rfl rfl rfl

theorem reduceGoogleIDPAdded_shape {event : eventstore.Event} {s : handler.Statement}
    (h : reduceGoogleIDPAdded event = .ok s) : UnitShape none s.Execute := by
  obtain ⟨e, rfl | rfl⟩ := reduceGoogleIDPAdded_accepts h <;>
  · simp only [reduceGoogleIDPAdded, Except.ok.injEq] at h
    subst h
    exact UnitShape.added _ _ .IDPTypeGoogle "google" e.Aggregate.InstanceID e.ID rfl rfl rfl rfl rfl rfl

theorem reduceLDAPIDPAdded_shape {event : eventstore.Event} {s : handler.Statement}
    (h : reduceLDAPIDPAdded event = .ok s) : UnitShape none s.Execute := by
  obtain ⟨e, rfl | rfl⟩ := reduceLDAPIDPAdded_accepts h <;>
  · simp only [reduceLDAPIDPAdded, Except.ok.injEq] at h
    subst h
    exact UnitShape.added _ _ .IDPTypeLDAP "ldap" e.Aggregate.InstanceID e.ID rfl rfl rfl rfl rfl rfl

theorem reduceOAuthIDPChanged_shape {event : eventstore.Event} {s : handler.Statement}
    (h : reduceOAuthIDPChanged event = .ok s) : UnitShape none s.Execute := by
  obtain ⟨e, rfl | rfl⟩ := reduceOAuthIDPChanged_accepts h <;>
  · simp only [reduceOAuthIDPChanged, Except.ok.injEq] at h
    subst h
    simp only [crdb.NewMultiStatement, List.nil_append]
    split
    · exact UnitShape.change2 _ _ _ _ _ (avoidsProtected_templateColumns _ _ _ _) rfl
        (avoidsProtected_OAuthColumns e) rfl
    · exact UnitShape.change _ _ (avoidsProtected_templateColumns _ _ _ _) rfl

theorem reduceOIDCIDPChanged_shape {event : eventstore.Event} {s : handler.Statement}
    (h : reduceOIDCIDPChanged event = .ok s) : UnitShape none s.Execute := by
  obtain ⟨e, rfl | rfl⟩ := reduceOIDCIDPChanged_accepts h <;>
  · simp only [reduceOIDCIDPChanged, Except.ok.injEq] at h
    subst h
    simp only [crdb.NewMultiStatement, List.nil_append]
    split
    · exact UnitShape.change2 _ _ _ _ _ (avoidsProtected_templateColumns _ _ _ _) rfl
        (avoidsProtected_OIDCColumns e) rfl
    · exact UnitShape.change _ _ (avoidsProtected_templateColumns _ _ _ _) rfl

theorem reduceJWTIDPChanged_shape {event : eventstore.Event} {s : handler.Statement}
    (h : reduceJWTIDPChanged event = .ok s) : UnitShape none s.Execute := by
  obtain ⟨e, rfl | rfl⟩ := reduceJWTIDPChanged_accepts h <;>
  · simp only [reduceJWTIDPChanged, Except.ok.injEq] at h
    subst h
    simp only [crdb.NewMultiStatement, List.nil_append]
    split
    · exact UnitShape.change2 _ _ _ _ _ (avoidsProtected_templateColumns _ _ _ _) rfl
        (avoidsProtected_JWTColumns e) rfl
    · exact UnitShape.change _ _ (avoidsProtected_templateColumns _ _ _ _) rfl

theorem reduceGoogleIDPChanged_shape {event : eventstore.Event} {s : handler.Statement}
    (h : reduceGoogleIDPChanged event = .ok s) : UnitShape none s.Execute := by
  obtain ⟨e, rfl | rfl⟩ := reduceGoogleIDPChanged_accepts h <;>
  · simp only [reduceGoogleIDPChanged, Except.ok.injEq] at h
    subst h
    simp only [crdb.NewMultiStatement, List.nil_append]
    split
    · exact UnitShape.change2 _ _ _ _ _ (avoidsProtected_templateColumns _ _ _ _) rfl
        (avoidsProtected_GoogleColumns e) rfl
    · exact UnitShape.change _ _ (avoidsProtected_templateColumns _ _ _ _) rfl

theorem reduceLDAPIDPChanged_shape {event : eventstore.Event} {s : handler.Statement}
    (h : reduceLDAPIDPChanged event = .ok s) : UnitShape none s.Execute := by
  obtain ⟨e, rfl | rfl⟩ := reduceLDAPIDPChanged_accepts h <;>
  · simp only [reduceLDAPIDPChanged, Except.ok.injEq] at h
    subst h
    simp only [crdb.NewMultiStatement, List.nil_append]
    split
    · exact UnitShape.change2 _ _ _ _ _ (avoidsProtected_templateColumns _ _ _ _) rfl
        (avoidsProtected_LDAPColumns e) rfl
    · exact UnitShape.change _ _ (avoidsProtected_templateColumns _ _ _ _) rfl

theorem reduceOldConfigAdded_shape {event : eventstore.Event} {s : handler.Statement}
    (h : reduceOldConfigAdded event = .ok s) : UnitShape none s.Execute := by
  obtain ⟨e, rfl | rfl⟩ := reduceOldConfigAdded_accepts h <;>
  · simp only [reduceOldConfigAdded, Except.ok.injEq] at h
    subst h
    exact UnitShape.generic _ rfl

theorem reduceOldConfigChanged_shape {event : eventstore.Event} {s : handler.Statement}
    (h : reduceOldConfigChanged event = .ok s) : UnitShape none s.Execute := by
  obtain ⟨e, rfl | rfl⟩ := reduceOldConfigChanged_accepts h <;>
  · simp only [reduceOldConfigChanged, Except.ok.injEq] at h
    subst h
    refine UnitShape.change _ _ ?_ rfl
    simp [avoidsProtected_appendIfNotNil, avoidsProtected_append, avoidsProtected_nil,
      avoidsProtected_cons, protectedColumns, handler.NewCol, IDPTemplateNameCol, IDPTemplateIsAutoCreationCol,
      IDPTemplateChangeDateCol, IDPTemplateSequenceCol]

theorem reduceOldOIDCConfigAdded_shape {event : eventstore.Event} {s : handler.Statement}
    (h : reduceOldOIDCConfigAdded event = .ok s) :
    UnitShape (some .IDPTypeOIDC) s.Execute := by
  obtain ⟨e, rfl | rfl⟩ := reduceOldOIDCConfigAdded_accepts h <;>
  · simp only [reduceOldOIDCConfigAdded, Except.ok.injEq] at h
    subst h
    exact UnitShape.upgrade (.timestamp e.CreationDate) (.uint64 e.Sequence) .IDPTypeOIDC "oidc"
      e.Aggregate.InstanceID e.IDPConfigID _ rfl (Or.inl rfl) rfl rfl

theorem reduceOldOIDCConfigChanged_shape {event : eventstore.Event} {s : handler.Statement}
    (h : reduceOldOIDCConfigChanged event = .ok s) : UnitShape none s.Execute := by
  obtain ⟨e, rfl | rfl⟩ := reduceOldOIDCConfigChanged_accepts h <;>
  · simp only [reduceOldOIDCConfigChanged, Except.ok.injEq] at h
    subst h
    simp only [crdb.NewMultiStatement, List.nil_append]
    split
    · refine UnitShape.change2 _ _ _ _ _ rfl rfl ?_ rfl
      simp [avoidsProtected_appendIfNotNil, avoidsProtected_nil, protectedColumns,
        OIDCIDCol, OIDCInstanceIDCol, OIDCIssuerCol, OIDCClientIDCol, OIDCClientSecretCol,
        OIDCScopesCol]
    · exact UnitShape.change _ _ rfl rfl

theorem reduceOldJWTConfigAdded_shape {event : eventstore.Event} {s : handler.Statement}
    (h : reduceOldJWTConfigAdded event = .ok s) :
    UnitShape (some .IDPTypeJWT) s.Execute := by
  obtain ⟨e, rfl | rfl⟩ := reduceOldJWTConfigAdded_accepts h <;>
  · simp only [reduceOldJWTConfigAdded, Except.ok.injEq] at h
    subst h
    exact UnitShape.upgrade (.timestamp e.CreationDate) (.uint64 e.Sequence) .IDPTypeJWT "jwt"
      e.Aggregate.InstanceID e.IDPConfigID _ rfl (Or.inr rfl) rfl rfl

theorem reduceOldJWTConfigChanged_shape {event : eventstore.Event} {s : handler.Statement}
    (h : reduceOldJWTConfigChanged event = .ok s) : UnitShape none s.Execute := by
  obtain ⟨e, rfl | rfl⟩ := reduceOldJWTConfigChanged_accepts h <;>
  · simp only [reduceOldJWTConfigChanged, Except.ok.injEq] at h
    subst h
    simp only [crdb.NewMultiStatement, List.nil_append]
    split
    · refine UnitShape.change2 _ _ _ _ _ rfl rfl ?_ rfl
      simp [avoidsProtected_appendIfNotNil, avoidsProtected_nil, protectedColumns,
        JWTIDCol, JWTInstanceIDCol, JWTIssuerCol, JWTEndpointCol, JWTKeysEndpointCol,
        JWTHeaderNameCol]
    · exact UnitShape.change _ _ rfl rfl

theorem reduceIDPRemoved_shape {event : eventstore.Event} {s : handler.Statement}
    (h : reduceIDPRemoved event = .ok s) : UnitShape none s.Execute := by
  obtain ⟨e, rfl | rfl⟩ := reduceIDPRemoved_accepts h <;>
  · simp only [reduceIDPRemoved, Except.ok.injEq] at h
    subst h
    exact UnitShape.remove _

theorem reduceOwnerRemoved_shape {event : eventstore.Event} {s : handler.Statement}
    (h : reduceOwnerRemoved event = .ok s) : UnitShape none s.Execute := by
  obtain ⟨e, rfl⟩ := reduceOwnerRemoved_accepts h
  simp only [reduceOwnerRemoved, Except.ok.injEq] at h
  subst h
  exact UnitShape.change _ _ rfl rfl

theorem reduceInstanceRemovedHelper_shape {col : String} {event : eventstore.Event}
    {s : handler.Statement} (h : reduceInstanceRemovedHelper col event = .ok s) :
    UnitShape none s.Execute := by
  obtain ⟨e, rfl⟩ := reduceInstanceRemovedHelper_accepts h
  simp only [reduceInstanceRemovedHelper, Except.ok.injEq] at h
  subst h
  exact UnitShape.remove _

/-- Every unit a reducer of the projection returns has one of the known forms; the form of
a legacy typed config-added unit comes from the two legacy typed config-added reducers
only. -/
theorem unitShape_of_reducer {r : handler.Reduce} (hr : r ∈ tableReducers)
    {event : eventstore.Event} {s : handler.Statement} (h : r event = .ok s) :
    ∃ o, UnitShape o s.Execute ∧ ∀ ty, o = some ty →
      (r = reduceOldOIDCConfigAdded ∧ ty = .IDPTypeOIDC) ∨
      (r = reduceOldJWTConfigAdded ∧ ty = .IDPTypeJWT) := by
  rcases tableReducers_cases hr with rfl | rfl | rfl | rfl | rfl | rfl | rfl | rfl | rfl | rfl |
    rfl | rfl | rfl | rfl | rfl | rfl | rfl | rfl | rfl
  · exact ⟨none, reduceOAuthIDPAdded_shape h, by simp⟩
  · exact ⟨none, reduceOAuthIDPChanged_shape h, by simp⟩
  · exact ⟨none, reduceOIDCIDPAdded_shape h, by simp⟩
  · exact ⟨none, reduceOIDCIDPChanged_shape h, by simp⟩
  · exact ⟨none, reduceJWTIDPAdded_shape h, by simp⟩
  · exact ⟨none, reduceJWTIDPChanged_shape h, by simp⟩
  · exact ⟨none, reduceOldConfigAdded_shape h, by simp⟩
  · exact ⟨none, reduceOldConfigChanged_shape h, by simp⟩
  · exact ⟨_, reduceOldOIDCConfigAdded_shape h, fun ty hty => Or.inl ⟨rfl, (Option.some.inj hty).symm⟩⟩
  · exact ⟨none, reduceOldOIDCConfigChanged_shape h, by simp⟩
  · exact ⟨_, reduceOldJWTConfigAdded_shape h, fun ty hty => Or.inr ⟨rfl, (Option.some.inj hty).symm⟩⟩
  · exact ⟨none, reduceOldJWTConfigChanged_shape h, by simp⟩
  · exact ⟨none, reduceGoogleIDPAdded_shape h, by simp⟩
  · exact ⟨none, reduceGoogleIDPChanged_shape h, by simp⟩
  · exact ⟨none, reduceLDAPIDPAdded_shape h, by simp⟩
  · exact ⟨none, reduceLDAPIDPChanged_shape h, by simp⟩
  · exact ⟨none, reduceIDPRemoved_shape h, by simp⟩
  · exact ⟨none, reduceOwnerRemoved_shape h, by simp⟩
  · exact ⟨none, reduceInstanceRemovedHelper_shape h, by simp⟩

/-! ## Shared lemmas: what a unit does to the discriminant -/

theorem Tables.mem_types {t : Tables} {k : List (Option Value)} :
    k ∈ t.types ↔ ∃ r ∈ t, r.suffix = none ∧
      k = [r.row "instance_id", r.row "id", r.row "type"] := by
  simp only [Tables.types, Tables.project, List.mem_map, List.mem_filter, beq_iff_eq,
    List.map_cons, List.map_nil]
  constructor
  · rintro ⟨r, ⟨hr, hs⟩, rfl⟩
    exact ⟨r, hr, hs, rfl⟩
  · rintro ⟨r, hr, hs, rfl⟩
    exact ⟨r, ⟨hr, hs⟩, rfl⟩

theorem StoredRow.update_row_of_not_mem {suffix : Option String} {values : List handler.Column}
    {conditions : List handler.Condition} (r : StoredRow) {name : String}
    (h : name ∉ handler.namesOf values) :
    (r.update suffix values conditions).row name = r.row name := by
  unfold StoredRow.update
  split
  · exact Row.overwrite_of_not_mem _ h
  · rfl

theorem Tables.types_map_update {t : Tables} {suffix : Option String}
    {values : List handler.Column} {conditions : List handler.Condition}
    (hv : avoidsProtected values = true) :
    Tables.types (t.map (StoredRow.update suffix values conditions)) = t.types := by
  induction t with
  | nil => rfl
  | cons r rs ih =>
    simp only [Tables.types, Tables.project, List.map_cons, List.map_nil, List.filter_cons,
      StoredRow.update_suffix] at ih ⊢
    split
    · simp only [List.map_cons, List.map_nil, ih,
        StoredRow.update_row_of_not_mem r
          (not_mem_namesOf_of_avoidsProtected hv (by decide : "instance_id" ∈ protectedColumns)),
        StoredRow.update_row_of_not_mem r
          (not_mem_namesOf_of_avoidsProtected hv (by decide : "id" ∈ protectedColumns)),
        StoredRow.update_row_of_not_mem r
          (not_mem_namesOf_of_avoidsProtected hv (by decide : "type" ∈ protectedColumns))]
    · exact ih

theorem Tables.types_append_satellite (t : Tables) (suffix : String) (row : Row) :
    Tables.types (t ++ [⟨some suffix, row⟩]) = t.types := by
  simp [Tables.types, Tables.project, List.filter_append]

theorem Tables.types_append_primary (t : Tables) (row : Row) :
    Tables.types (t ++ [⟨none, row⟩]) =
      t.types ++ [[row "instance_id", row "id", row "type"]] := by
  simp [Tables.types, Tables.project, List.filter_append]

theorem types_of_shape {o : Option domain.IDPType} {s : handler.Statement}
    (h : UnitShape o s.Execute) (t : Tables) :
    ∀ k ∈ (applyStatement t s).types, k ∈ t.types ∨
      (∃ values, crdb.Exec.create none values ∈ s.Execute ∧
        k = [Row.ofColumns values "instance_id", Row.ofColumns values "id",
          Row.ofColumns values "type"]) ∨
      (∃ changeDate sequence ty inst id,
        upgradeUpdate changeDate sequence ty inst id ∈ s.Execute ∧ o = some ty ∧
        k = [some (.text inst), some (.text id), some (.idpType ty)]) := by
  intro k hk
  cases hres : applyExecs t s.Execute with
  | none =>
    left
    simpa [applyStatement, hres] using hk
  | some t' =>
    have ht' : applyStatement t s = t' := by simp [applyStatement, hres]
    rw [ht'] at hk
    generalize hx : s.Execute = xs at h hres
    cases h with
    | added primary satellite ty suffix inst id =>
      simp only [applyExecs] at hres
      cases h1 : applyExec t (.create none primary) with
      | none => simp [h1] at hres
      | some t1 =>
        simp only [h1] at hres
        cases h2 : applyExec t1 (.create (some suffix) satellite) with
        | none => simp [h2] at hres
        | some t2 =>
          simp only [h2, Option.some.injEq] at hres
          subst hres
          rw [applyExec_create_eq h2, applyExec_create_eq h1, Tables.types_append_satellite,
            Tables.types_append_primary, List.mem_append, List.mem_singleton] at hk
          rcases hk with hk | hk
          · exact Or.inl hk
          · exact Or.inr (Or.inl ⟨primary, by simp, hk⟩)
    | generic primary =>
      simp only [applyExecs] at hres
      cases h1 : applyExec t (.create none primary) with
      | none => simp [h1] at hres
      | some t1 =>
        simp only [h1, Option.some.injEq] at hres
        subst hres
        rw [applyExec_create_eq h1, Tables.types_append_primary, List.mem_append,
          List.mem_singleton] at hk
        rcases hk with hk | hk
        · exact Or.inl hk
        · exact Or.inr (Or.inl ⟨primary, by simp, hk⟩)
    | upgrade changeDate sequence ty suffix inst id satellite =>
      simp only [applyExecs, upgradeUpdate, applyExec_update] at hres
      cases h2 : applyExec (t.map (StoredRow.update none
          [⟨"change_date", changeDate⟩, ⟨"sequence", sequence⟩, ⟨"type", .idpType ty⟩]
          [⟨"id", .text id⟩, ⟨"instance_id", .text inst⟩])) (.create (some suffix) satellite) with
      | none => simp [h2] at hres
      | some t2 =>
        simp only [h2, Option.some.injEq] at hres
        subst hres
        rw [applyExec_create_eq h2, Tables.types_append_satellite, Tables.mem_types] at hk
        obtain ⟨r', hr', hs', rfl⟩ := hk
        obtain ⟨r, hr, rfl⟩ := List.mem_map.1 hr'
        by_cases hhit : (r.suffix == none && r.row.satisfies
            [⟨"id", .text id⟩, ⟨"instance_id", .text inst⟩]) = true
        · right; right
          refine ⟨changeDate, sequence, ty, inst, id, by simp [upgradeUpdate], rfl, ?_⟩
          have hsat := hhit
          simp only [Row.satisfies, List.all_cons, List.all_nil, Bool.and_true,
            Bool.and_eq_true, beq_iff_eq] at hsat
          simp only [StoredRow.update, hhit, if_true]
          have e1 : Row.overwrite r.row
              [⟨"change_date", changeDate⟩, ⟨"sequence", sequence⟩, ⟨"type", .idpType ty⟩]
              "instance_id" = r.row "instance_id" :=
            Row.overwrite_of_not_mem _ (by simp [handler.namesOf])
          have e2 : Row.overwrite r.row
              [⟨"change_date", changeDate⟩, ⟨"sequence", sequence⟩, ⟨"type", .idpType ty⟩]
              "id" = r.row "id" :=
            Row.overwrite_of_not_mem _ (by simp [handler.namesOf])
          have e3 : Row.overwrite r.row
              [⟨"change_date", changeDate⟩, ⟨"sequence", sequence⟩, ⟨"type", .idpType ty⟩]
              "type" = some (.idpType ty) := rfl
          rw [e1, e2, e3, hsat.2.1, hsat.2.2]
        · left
          have hsame : r.update none
              [⟨"change_date", changeDate⟩, ⟨"sequence", sequence⟩, ⟨"type", .idpType ty⟩]
              [⟨"id", .text id⟩, ⟨"instance_id", .text inst⟩] = r := by
            simp only [StoredRow.update, hhit]
            simp
          rw [hsame] at hs' ⊢
          exact Tables.mem_types.2 ⟨r, hr, hs', rfl⟩
    | change values conditions hv hc =>
      simp only [applyExecs, applyExec_update, Option.some.injEq] at hres
      subst hres
      rw [Tables.types_map_update hv] at hk
      exact Or.inl hk
    | change2 values conditions suffix values2 conditions2 hv hc hv2 hc2 =>
      simp only [applyExecs, applyExec_update, Option.some.injEq] at hres
      subst hres
      rw [Tables.types_map_update hv2, Tables.types_map_update hv] at hk
      exact Or.inl hk
    | remove conditions =>
      simp only [applyExecs, applyExec_delete, Option.some.injEq] at hres
      subst hres
      left
      obtain ⟨r, hr, hs, rfl⟩ := Tables.mem_types.1 hk
      exact Tables.mem_types.2 ⟨r, (List.mem_filter.1 hr).1, hs, rfl⟩

/-! ## Shared lemmas: keys -/

theorem primaryKeyOf_cases (suffix : Option String) :
    primaryKeyOf suffix = none ∨ primaryKeyOf suffix = some ["instance_id", "id"] ∨
      primaryKeyOf suffix = some ["instance_id", "idp_id"] := by
  rcases suffix with _ | s
  · exact Or.inr (Or.inl primaryKeyOf_none)
  · by_cases h1 : s = "oauth"
    · subst h1; exact Or.inr (Or.inr primaryKeyOf_oauth)
    by_cases h2 : s = "oidc"
    · subst h2; exact Or.inr (Or.inr primaryKeyOf_oidc)
    by_cases h3 : s = "jwt"
    · subst h3; exact Or.inr (Or.inr primaryKeyOf_jwt)
    by_cases h4 : s = "google"
    · subst h4; exact Or.inr (Or.inr primaryKeyOf_google)
    by_cases h5 : s = "ldap"
    · subst h5; exact Or.inr (Or.inr primaryKeyOf_ldap)
    left
    have b1 : ("oauth" == s) = false := beq_eq_false_iff_ne.2 (fun h => h1 h.symm)
    have b2 : ("oidc" == s) = false := beq_eq_false_iff_ne.2 (fun h => h2 h.symm)
    have b3 : ("jwt" == s) = false := beq_eq_false_iff_ne.2 (fun h => h3 h.symm)
    have b4 : ("google" == s) = false := beq_eq_false_iff_ne.2 (fun h => h4 h.symm)
    have b5 : ("ldap" == s) = false := beq_eq_false_iff_ne.2 (fun h => h5 h.symm)
    simp [primaryKeyOf, newIDPTemplateProjection, crdb.NewMultiTableCheck, crdb.NewTable,
      crdb.NewSuffixedTable, List.find?, IDPTemplateOAuthSuffix, IDPTemplateOIDCSuffix,
      IDPTemplateJWTSuffix, IDPTemplateGoogleSuffix, IDPTemplateLDAPSuffix, b1, b2, b3, b4, b5]

theorem satelliteSuffix_declared {ty : domain.IDPType} {suffix : String}
    (h : satelliteSuffix ty = some suffix) :
    primaryKeyOf (some suffix) = some ["instance_id", "idp_id"] ∧
      hasForeignKey (some suffix) = true := by
  cases ty <;> simp [satelliteSuffix] at h <;> subst h <;> exact ⟨by decide, by decide⟩

theorem StoredRow.key_primary {r : StoredRow} (h : r.suffix = none) :
    r.key = some [r.row "instance_id", r.row "id"] := by
  simp [StoredRow.key, h, primaryKeyOf_none]

theorem StoredRow.key_satellite {r : StoredRow} {ty : domain.IDPType} {suffix : String}
    (hs : satelliteSuffix ty = some suffix) (h : r.suffix = some suffix) :
    r.key = some [r.row "instance_id", r.row "idp_id"] := by
  simp [StoredRow.key, h, (satelliteSuffix_declared hs).1]

theorem StoredRow.key_update {suffix : Option String} {values : List handler.Column}
    {conditions : List handler.Condition} (r : StoredRow)
    (h1 : "instance_id" ∉ handler.namesOf values) (h2 : "id" ∉ handler.namesOf values)
    (h3 : "idp_id" ∉ handler.namesOf values) :
    (r.update suffix values conditions).key = r.key := by
  simp only [StoredRow.key, StoredRow.update_suffix]
  rcases primaryKeyOf_cases r.suffix with h | h | h <;>
    simp [h, StoredRow.update_row_of_not_mem r h1, StoredRow.update_row_of_not_mem r h2,
      StoredRow.update_row_of_not_mem r h3]

theorem StoredRow.owns_columns {p q : StoredRow} {ty : domain.IDPType} {suffix : String}
    (hs : satelliteSuffix ty = some suffix) (hq : q.suffix = some suffix)
    (h : p.owns q = true) :
    p.suffix = none ∧ p.row "instance_id" = q.row "instance_id" ∧ p.row "id" = q.row "idp_id" := by
  simp only [StoredRow.owns, Bool.and_eq_true, beq_iff_eq] at h
  obtain ⟨⟨hp, -⟩, hk⟩ := h
  rw [StoredRow.key_primary hp, StoredRow.key_satellite hs hq] at hk
  simp only [Option.some.injEq, List.cons.injEq, and_true] at hk
  exact ⟨hp, hk.1, hk.2⟩

theorem StoredRow.owns_of_columns {p q : StoredRow} {ty : domain.IDPType} {suffix : String}
    (hs : satelliteSuffix ty = some suffix) (hq : q.suffix = some suffix) (hp : p.suffix = none)
    (h1 : p.row "instance_id" = q.row "instance_id") (h2 : p.row "id" = q.row "idp_id") :
    p.owns q = true := by
  simp [StoredRow.owns, hp, hq, (satelliteSuffix_declared hs).2, StoredRow.key_primary hp,
    StoredRow.key_satellite hs hq, h1, h2]

/-! ## Shared lemmas: the invariant under single-table mutations -/

theorem applyExec_create_spec {t t' : Tables} {suffix : Option String}
    {values : List handler.Column} (h : applyExec t (.create suffix values) = some t') :
    t' = t ++ [⟨suffix, Row.ofColumns values⟩] ∧
    (∀ r ∈ t, r.conflicts ⟨suffix, Row.ofColumns values⟩ = false) ∧
    (hasForeignKey suffix = true → ∃ p ∈ t, p.owns ⟨suffix, Row.ofColumns values⟩ = true) := by
  refine ⟨applyExec_create_eq h, ?_, ?_⟩
  · simp only [applyExec] at h
    split at h
    · cases h
    · split at h
      · cases h
      · rename_i hany
        intro r hr
        apply Bool.eq_false_iff.2
        intro hc
        exact hany (List.any_eq_true.2 ⟨r, hr, hc⟩)
  · intro hfk
    simp only [applyExec] at h
    split at h
    · cases h
    · split at h
      · cases h
      · split at h
        · cases h
        · rename_i hno
          simp only [hfk, Bool.true_and, Bool.not_eq_true', Bool.not_eq_false] at hno
          exact List.any_eq_true.1 hno

theorem pairwise_append_one {t : Tables} {new : StoredRow}
    (h : t.Pairwise (fun a b => a.conflicts b = false))
    (hnew : ∀ r ∈ t, r.conflicts new = false) :
    (t ++ [new]).Pairwise (fun a b => a.conflicts b = false) := by
  rw [List.pairwise_append]
  refine ⟨h, List.pairwise_singleton _ _, ?_⟩
  intro a ha b hb
  rw [List.mem_singleton] at hb
  subst hb
  exact hnew a ha

theorem owned_append_one {t : Tables} {new : StoredRow}
    (h : ∀ q ∈ t, hasForeignKey q.suffix = true → ∃ p ∈ t, p.owns q = true)
    (hnew : hasForeignKey new.suffix = true → ∃ p ∈ t, p.owns new = true) :
    ∀ q ∈ t ++ [new], hasForeignKey q.suffix = true → ∃ p ∈ t ++ [new], p.owns q = true := by
  intro q hq hfk
  rcases List.mem_append.1 hq with hq | hq
  · obtain ⟨p, hp, hpq⟩ := h q hq hfk
    exact ⟨p, List.mem_append_left _ hp, hpq⟩
  · rw [List.mem_singleton] at hq
    subst hq
    obtain ⟨p, hp, hpq⟩ := hnew hfk
    exact ⟨p, List.mem_append_left _ hp, hpq⟩

theorem StoredRow.conflicts_update {suffix : Option String} {values : List handler.Column}
    {conditions : List handler.Condition} (a b : StoredRow)
    (h1 : "instance_id" ∉ handler.namesOf values) (h2 : "id" ∉ handler.namesOf values)
    (h3 : "idp_id" ∉ handler.namesOf values) :
    (a.update suffix values conditions).conflicts (b.update suffix values conditions) =
      a.conflicts b := by
  simp only [StoredRow.conflicts, StoredRow.update_suffix, StoredRow.key_update _ h1 h2 h3]

theorem StoredRow.owns_update {suffix : Option String} {values : List handler.Column}
    {conditions : List handler.Condition} (a b : StoredRow)
    (h1 : "instance_id" ∉ handler.namesOf values) (h2 : "id" ∉ handler.namesOf values)
    (h3 : "idp_id" ∉ handler.namesOf values) :
    (a.update suffix values conditions).owns (b.update suffix values conditions) =
      a.owns b := by
  simp only [StoredRow.owns, StoredRow.update_suffix, StoredRow.key_update _ h1 h2 h3]

theorem pairwise_map_update {t : Tables} {suffix : Option String} {values : List handler.Column}
    {conditions : List handler.Condition}
    (h1 : "instance_id" ∉ handler.namesOf values) (h2 : "id" ∉ handler.namesOf values)
    (h3 : "idp_id" ∉ handler.namesOf values)
    (h : t.Pairwise (fun a b => a.conflicts b = false)) :
    (t.map (StoredRow.update suffix values conditions)).Pairwise
      (fun a b => a.conflicts b = false) := by
  rw [List.pairwise_map]
  refine h.imp ?_
  intro a b hab
  rw [StoredRow.conflicts_update a b h1 h2 h3]
  exact hab

theorem owned_map_update {t : Tables} {suffix : Option String} {values : List handler.Column}
    {conditions : List handler.Condition}
    (h1 : "instance_id" ∉ handler.namesOf values) (h2 : "id" ∉ handler.namesOf values)
    (h3 : "idp_id" ∉ handler.namesOf values)
    (h : ∀ q ∈ t, hasForeignKey q.suffix = true → ∃ p ∈ t, p.owns q = true) :
    ∀ q ∈ t.map (StoredRow.update suffix values conditions), hasForeignKey q.suffix = true →
      ∃ p ∈ t.map (StoredRow.update suffix values conditions), p.owns q = true := by
  intro q' hq' hfk
  obtain ⟨q, hq, rfl⟩ := List.mem_map.1 hq'
  rw [StoredRow.update_suffix] at hfk
  obtain ⟨p, hp, hpq⟩ := h q hq hfk
  exact ⟨_, List.mem_map_of_mem _ hp, by rw [StoredRow.owns_update p q h1 h2 h3]; exact hpq⟩

theorem invariant_map_update {t : Tables} {suffix : Option String} {values : List handler.Column}
    {conditions : List handler.Condition} (hv : avoidsProtected values = true)
    (h : Invariant t) : Invariant (t.map (StoredRow.update suffix values conditions)) := by
  have h1 := not_mem_namesOf_of_avoidsProtected hv (by decide : "instance_id" ∈ protectedColumns)
  have h2 := not_mem_namesOf_of_avoidsProtected hv (by decide : "id" ∈ protectedColumns)
  have h3 := not_mem_namesOf_of_avoidsProtected hv (by decide : "idp_id" ∈ protectedColumns)
  have h4 := not_mem_namesOf_of_avoidsProtected hv (by decide : "type" ∈ protectedColumns)
  refine ⟨pairwise_map_update h1 h2 h3 h.1, owned_map_update h1 h2 h3 h.2.1, ?_⟩
  intro p' hp' hs ty sfx hty htype
  obtain ⟨p, hp, rfl⟩ := List.mem_map.1 hp'
  rw [StoredRow.update_suffix] at hs
  rw [StoredRow.update_row_of_not_mem p h4] at htype
  obtain ⟨q, hq, hqs, hpq⟩ := h.2.2 p hp hs ty sfx hty htype
  exact ⟨_, List.mem_map_of_mem _ hq, by rw [StoredRow.update_suffix]; exact hqs,
    by rw [StoredRow.owns_update p q h1 h2 h3]; exact hpq⟩

/-! ## Shared lemmas: the invariant of event processing -/

theorem StoredRow.owns_suffix {p q : StoredRow} (h : p.owns q = true) : p.suffix = none := by
  simp only [StoredRow.owns, Bool.and_eq_true, beq_iff_eq] at h
  exact h.1.1

theorem StoredRow.owns_key {p q : StoredRow} (h : p.owns q = true) : p.key = q.key := by
  simp only [StoredRow.owns, Bool.and_eq_true, beq_iff_eq] at h
  exact h.2

theorem invariant_delete {t : Tables} (conditions : List handler.Condition) (h : Invariant t) :
    Invariant (t.filter (fun r => !t.removes none conditions r)) := by
  refine ⟨h.1.filter _, ?_, ?_⟩
  · intro q hq hfk
    obtain ⟨hqt, hkeep⟩ := List.mem_filter.1 hq
    obtain ⟨p, hp, hpq⟩ := h.2.1 q hqt hfk
    simp only [Tables.removes, Bool.not_eq_true', Bool.or_eq_false_iff] at hkeep
    refine ⟨p, List.mem_filter.2 ⟨hp, ?_⟩, hpq⟩
    simp only [Tables.removes, Bool.not_eq_true', Bool.or_eq_false_iff]
    constructor
    · apply Bool.eq_false_iff.2
      intro hhit
      have hany : t.any (fun p => p.hit none conditions && p.owns q) = true :=
        List.any_eq_true.2 ⟨p, hp, by simp [hhit, hpq]⟩
      rw [hkeep.2] at hany
      cases hany
    · apply Bool.eq_false_iff.2
      intro hany
      obtain ⟨p', _, h'⟩ := List.any_eq_true.1 hany
      simp [StoredRow.owns, StoredRow.owns_suffix hpq, hasForeignKey_none] at h'
  · intro p hp hs ty sfx hty htype
    obtain ⟨hpt, hkeep⟩ := List.mem_filter.1 hp
    obtain ⟨q, hq, hqs, hpq⟩ := h.2.2 p hpt hs ty sfx hty htype
    simp only [Tables.removes, Bool.not_eq_true', Bool.or_eq_false_iff] at hkeep
    refine ⟨q, List.mem_filter.2 ⟨hq, ?_⟩, hqs, hpq⟩
    simp only [Tables.removes, Bool.not_eq_true', Bool.or_eq_false_iff]
    constructor
    · simp [StoredRow.hit, hqs]
    · apply Bool.eq_false_iff.2
      intro hany
      obtain ⟨p', hp', h'⟩ := List.any_eq_true.1 hany
      simp only [Bool.and_eq_true] at h'
      obtain ⟨hhit, hown⟩ := h'
      have hconf : p'.conflicts p = true := by
        simp [StoredRow.conflicts, StoredRow.owns_suffix hown, hs, StoredRow.owns_key hown,
          StoredRow.owns_key hpq]
      by_cases heq : p' = p
      · subst heq
        rw [hkeep.1] at hhit
        cases hhit
      · have hsymm : Symmetric (fun a b : StoredRow => a.conflicts b = false) := by
          intro a b hab
          simp only [StoredRow.conflicts, Bool.and_eq_false_iff, beq_eq_false_iff_ne, ne_eq] at hab ⊢
          rcases hab with hab | hab
          · exact Or.inl (fun h => hab h.symm)
          · exact Or.inr (fun h => hab h.symm)
        have := h.1.forall hsymm hp' hpt heq
        rw [hconf] at this
        cases this

theorem invariant_of_shape {o : Option domain.IDPType} {s : handler.Statement}
    (h : UnitShape o s.Execute) {t : Tables} (hinv : Invariant t) :
    Invariant (applyStatement t s) := by
  cases hres : applyExecs t s.Execute with
  | none => simpa [applyStatement, hres] using hinv
  | some t' =>
    have ht' : applyStatement t s = t' := by simp [applyStatement, hres]
    rw [ht']
    generalize hx : s.Execute = xs at h hres
    cases h with
    | added primary satellite ty suffix inst id hty htype hpi hpid hsi hsid =>
      simp only [applyExecs] at hres
      cases h1 : applyExec t (.create none primary) with
      | none => simp [h1] at hres
      | some t1 =>
        simp only [h1] at hres
        cases h2 : applyExec t1 (.create (some suffix) satellite) with
        | none => simp [h2] at hres
        | some t2 =>
          simp only [h2, Option.some.injEq] at hres
          subst hres
          obtain ⟨e1, c1, -⟩ := applyExec_create_spec h1
          obtain ⟨e2, c2, f2⟩ := applyExec_create_spec h2
          subst e1
          subst e2
          refine ⟨pairwise_append_one (pairwise_append_one hinv.1 c1) c2,
            owned_append_one (owned_append_one hinv.2.1
              (fun hfk => by simp [hasForeignKey_none] at hfk)) f2, ?_⟩
          intro p hp hs ty' sfx' hty' htype'
          simp only [List.mem_append, List.mem_singleton] at hp
          rcases hp with (hp | hp) | hp
          · obtain ⟨q, hq, hqs, hpq⟩ := hinv.2.2 p hp hs ty' sfx' hty' htype'
            exact ⟨q, by simp [hq], hqs, hpq⟩
          · subst hp
            have hteq : ty' = ty := by
              change Row.ofColumns primary "type" = some (.idpType ty') at htype'
              rw [htype] at htype'
              simpa using htype'.symm
            subst hteq
            rw [hty] at hty'
            cases hty'
            refine ⟨⟨some suffix, Row.ofColumns satellite⟩, by simp, rfl, ?_⟩
            exact StoredRow.owns_of_columns hty rfl rfl (hpi.trans hsi.symm) (hpid.trans hsid.symm)
          · subst hp
            cases hs
    | generic primary htype =>
      simp only [applyExecs] at hres
      cases h1 : applyExec t (.create none primary) with
      | none => simp [h1] at hres
      | some t1 =>
        simp only [h1, Option.some.injEq] at hres
        subst hres
        obtain ⟨e1, c1, -⟩ := applyExec_create_spec h1
        subst e1
        refine ⟨pairwise_append_one hinv.1 c1,
          owned_append_one hinv.2.1 (fun hfk => by simp [hasForeignKey_none] at hfk), ?_⟩
        intro p hp hs ty' sfx' hty' htype'
        simp only [List.mem_append, List.mem_singleton] at hp
        rcases hp with hp | hp
        · obtain ⟨q, hq, hqs, hpq⟩ := hinv.2.2 p hp hs ty' sfx' hty' htype'
          exact ⟨q, by simp [hq], hqs, hpq⟩
        · subst hp
          have hteq : ty' = .IDPTypeUnspecified := by
            change Row.ofColumns primary "type" = some (.idpType ty') at htype'
            rw [htype] at htype'
            simpa using htype'.symm
          subst hteq
          simp [satelliteSuffix] at hty'
    | upgrade changeDate sequence ty suffix inst id satellite hty hkind hsi hsid =>
      simp only [applyExecs, upgradeUpdate, applyExec_update] at hres
      cases h2 : applyExec (t.map (StoredRow.update none
          [⟨"change_date", changeDate⟩, ⟨"sequence", sequence⟩, ⟨"type", .idpType ty⟩]
          [⟨"id", .text id⟩, ⟨"instance_id", .text inst⟩])) (.create (some suffix) satellite) with
      | none => simp [h2] at hres
      | some t2 =>
        simp only [h2, Option.some.injEq] at hres
        subst hres
        obtain ⟨e2, c2, f2⟩ := applyExec_create_spec h2
        subst e2
        have n1 : "instance_id" ∉ handler.namesOf
            [⟨"change_date", changeDate⟩, ⟨"sequence", sequence⟩, ⟨"type", .idpType ty⟩] := by
          simp [handler.namesOf]
        have n2 : "id" ∉ handler.namesOf
            [⟨"change_date", changeDate⟩, ⟨"sequence", sequence⟩, ⟨"type", .idpType ty⟩] := by
          simp [handler.namesOf]
        have n3 : "idp_id" ∉ handler.namesOf
            [⟨"change_date", changeDate⟩, ⟨"sequence", sequence⟩, ⟨"type", .idpType ty⟩] := by
          simp [handler.namesOf]
        refine ⟨pairwise_append_one (pairwise_map_update n1 n2 n3 hinv.1) c2,
          owned_append_one (owned_map_update n1 n2 n3 hinv.2.1) f2, ?_⟩
        intro p hp hs ty' sfx' hty' htype'
        simp only [List.mem_append, List.mem_singleton] at hp
        rcases hp with hp | hp
        · obtain ⟨p0, hp0, rfl⟩ := List.mem_map.1 hp
          rw [StoredRow.update_suffix] at hs
          by_cases hhit : (p0.suffix == none && p0.row.satisfies
              [⟨"id", .text id⟩, ⟨"instance_id", .text inst⟩]) = true
          · have hsat := hhit
            simp only [Row.satisfies, List.all_cons, List.all_nil, Bool.and_true,
              Bool.and_eq_true, beq_iff_eq] at hsat
            have hrow : (p0.update none
                [⟨"change_date", changeDate⟩, ⟨"sequence", sequence⟩, ⟨"type", .idpType ty⟩]
                [⟨"id", .text id⟩, ⟨"instance_id", .text inst⟩]).row "type" =
                some (.idpType ty) := by
              simp only [StoredRow.update, hhit, if_true]
              rfl
            have hteq : ty' = ty := by
              rw [hrow] at htype'
              simpa using htype'.symm
            subst hteq
            rw [hty] at hty'
            cases hty'
            refine ⟨⟨some suffix, Row.ofColumns satellite⟩, by simp, rfl, ?_⟩
            refine StoredRow.owns_of_columns hty rfl (by rw [StoredRow.update_suffix]; exact hs)
              ?_ ?_
            · rw [StoredRow.update_row_of_not_mem p0 n1, hsat.2.2]
              exact hsi.symm
            · rw [StoredRow.update_row_of_not_mem p0 n2, hsat.2.1]
              exact hsid.symm
          · have hsame : p0.update none
                [⟨"change_date", changeDate⟩, ⟨"sequence", sequence⟩, ⟨"type", .idpType ty⟩]
                [⟨"id", .text id⟩, ⟨"instance_id", .text inst⟩] = p0 := by
              simp only [StoredRow.update, hhit]
              simp
            rw [hsame] at htype'
            obtain ⟨q, hq, hqs, hpq⟩ := hinv.2.2 p0 hp0 hs ty' sfx' hty' htype'
            refine ⟨q.update none
                [⟨"change_date", changeDate⟩, ⟨"sequence", sequence⟩, ⟨"type", .idpType ty⟩]
                [⟨"id", .text id⟩, ⟨"instance_id", .text inst⟩], ?_, ?_, ?_⟩
            · exact List.mem_append_left _ (List.mem_map_of_mem _ hq)
            · rw [StoredRow.update_suffix]; exact hqs
            · rw [StoredRow.owns_update p0 q n1 n2 n3]; exact hpq
        · subst hp
          cases hs
    | change values conditions hv hc =>
      simp only [applyExecs, applyExec_update, Option.some.injEq] at hres
      subst hres
      exact invariant_map_update hv hinv
    | change2 values conditions suffix values2 conditions2 hv hc hv2 hc2 =>
      simp only [applyExecs, applyExec_update, Option.some.injEq] at hres
      subst hres
      exact invariant_map_update hv2 (invariant_map_update hv hinv)
    | remove conditions =>
      simp only [applyExecs, applyExec_delete, Option.some.injEq] at hres
      subst hres
      exact invariant_delete conditions hinv

theorem invariant_applyReduce {r : handler.Reduce} (hr : r ∈ tableReducers)
    (event : eventstore.Event) {t : Tables} (hinv : Invariant t) :
    Invariant (applyReduce t r event) := by
  cases h : r event with
  | error err => simpa [applyReduce, h] using hinv
  | ok s =>
    simp only [applyReduce, h]
    obtain ⟨o, ho, -⟩ := unitShape_of_reducer hr h
    exact invariant_of_shape ho hinv

theorem invariant_processEvents (steps : List (handler.Reduce × eventstore.Event))
    (hsteps : ∀ step ∈ steps, step.1 ∈ tableReducers) {t : Tables} (hinv : Invariant t) :
    Invariant (processEvents t steps) := by
  induction steps generalizing t with
  | nil => exact hinv
  | cons step rest ih =>
    simp only [processEvents, List.foldl_cons]
    exact ih (fun x hx => hsteps x (List.mem_cons_of_mem _ hx))
      (invariant_applyReduce (hsteps step (List.mem_cons_self _ _)) step.2 hinv)

theorem consistent_of_invariant {t : Tables} (h : Invariant t) : Consistent t := by
  constructor
  · intro p hp hs ty sfx hty htype
    obtain ⟨q, hq, hqs, hpq⟩ := h.2.2 p hp hs ty sfx hty htype
    obtain ⟨-, hi, hid⟩ := StoredRow.owns_columns hty hqs hpq
    have hmem : q ∈ t.filter (fun q => q.suffix == some sfx &&
        q.row "instance_id" == p.row "instance_id" && q.row "idp_id" == p.row "id") := by
      apply List.mem_filter.2
      refine ⟨hq, ?_⟩
      simp [hqs, hi, hid]
    have hpair := h.1.filter (fun q => q.suffix == some sfx &&
        q.row "instance_id" == p.row "instance_id" && q.row "idp_id" == p.row "id")
    have hall : ∀ a ∈ t.filter (fun q => q.suffix == some sfx &&
        q.row "instance_id" == p.row "instance_id" && q.row "idp_id" == p.row "id"),
        a.suffix = some sfx ∧ a.key = some [p.row "instance_id", p.row "id"] := by
      intro a ha
      have ha' := (List.mem_filter.1 ha).2
      simp only [Bool.and_eq_true, beq_iff_eq] at ha'
      exact ⟨ha'.1.1, by rw [StoredRow.key_satellite hty ha'.1.1, ha'.1.2, ha'.2]⟩
    generalize t.filter (fun q => q.suffix == some sfx &&
        q.row "instance_id" == p.row "instance_id" && q.row "idp_id" == p.row "id") = l
      at hmem hpair hall
    match l, hmem, hpair, hall with
    | [], hmem, _, _ => cases hmem
    | [_], _, _, _ => rfl
    | a :: b :: _, _, hpair, hall =>
      exfalso
      have hab := (List.pairwise_cons.1 hpair).1 b (List.mem_cons_self _ _)
      have ha := hall a (List.mem_cons_self _ _)
      have hb := hall b (List.mem_cons_of_mem _ (List.mem_cons_self _ _))
      simp [StoredRow.conflicts, ha.1, hb.1, ha.2, hb.2] at hab
  · intro q hq ty sfx hty hqs
    have hfk : hasForeignKey q.suffix = true := by
      rw [hqs]; exact (satelliteSuffix_declared hty).2
    obtain ⟨p, hp, hpq⟩ := h.2.1 q hq hfk
    exact ⟨p, hp, StoredRow.owns_columns hty hqs hpq⟩

/-! ## Shared lemmas: satellite rows and the discriminant of their owner -/

theorem satelliteSuffix_injective {a b : domain.IDPType} {suffix : String}
    (ha : satelliteSuffix a = some suffix) (hb : satelliteSuffix b = some suffix) : a = b := by
  rw [← hb] at ha
  cases a <;> cases b <;> first | rfl | simp [satelliteSuffix] at ha hb

theorem Tables.mem_project {t : Tables} {suffix : Option String} {cols : List String}
    {k : List (Option Value)} :
    k ∈ t.project suffix cols ↔ ∃ r ∈ t, r.suffix = suffix ∧ cols.map r.row = k := by
  simp only [Tables.project, List.mem_map, List.mem_filter, beq_iff_eq]
  constructor
  · rintro ⟨r, ⟨hr, hs⟩, rfl⟩
    exact ⟨r, hr, hs, rfl⟩
  · rintro ⟨r, hr, hs, rfl⟩
    exact ⟨r, ⟨hr, hs⟩, rfl⟩

theorem owner_survives_delete {t : Tables} {conditions : List handler.Condition}
    {p q : StoredRow} (hp : p ∈ t) (hpq : p.owns q = true)
    (hq : q ∈ t.filter (fun r => !t.removes none conditions r)) :
    p ∈ t.filter (fun r => !t.removes none conditions r) := by
  obtain ⟨-, hkeep⟩ := List.mem_filter.1 hq
  simp only [Tables.removes, Bool.not_eq_true', Bool.or_eq_false_iff] at hkeep
  refine List.mem_filter.2 ⟨hp, ?_⟩
  simp only [Tables.removes, Bool.not_eq_true', Bool.or_eq_false_iff]
  constructor
  · apply Bool.eq_false_iff.2
    intro hhit
    have hany : t.any (fun p => p.hit none conditions && p.owns q) = true :=
      List.any_eq_true.2 ⟨p, hp, by simp [hhit, hpq]⟩
    rw [hkeep.2] at hany
    cases hany
  · apply Bool.eq_false_iff.2
    intro hany
    obtain ⟨p', _, h'⟩ := List.any_eq_true.1 hany
    simp [StoredRow.owns, StoredRow.owns_suffix hpq, hasForeignKey_none] at h'

theorem matched_map_update {t : Tables} {suffix : Option String} {values : List handler.Column}
    {conditions : List handler.Condition} (hv : avoidsProtected values = true)
    (h : Matched t) : Matched (t.map (StoredRow.update suffix values conditions)) := by
  have h1 := not_mem_namesOf_of_avoidsProtected hv (by decide : "instance_id" ∈ protectedColumns)
  have h2 := not_mem_namesOf_of_avoidsProtected hv (by decide : "id" ∈ protectedColumns)
  have h3 := not_mem_namesOf_of_avoidsProtected hv (by decide : "idp_id" ∈ protectedColumns)
  have h4 := not_mem_namesOf_of_avoidsProtected hv (by decide : "type" ∈ protectedColumns)
  intro q hq ty sfx hty hqs
  obtain ⟨q0, hq0, rfl⟩ := List.mem_map.1 hq
  rw [StoredRow.update_suffix] at hqs
  obtain ⟨p, hp, hpq, hpt⟩ := h q0 hq0 ty sfx hty hqs
  refine ⟨p.update suffix values conditions, List.mem_map_of_mem _ hp, ?_, ?_⟩
  · rw [StoredRow.owns_update p q0 h1 h2 h3]; exact hpq
  · rw [StoredRow.update_row_of_not_mem p h4]; exact hpt

theorem matched_of_shape {s : handler.Statement} (h : UnitShape none s.Execute) {t : Tables}
    (hm : Matched t) : Matched (applyStatement t s) := by
  cases hres : applyExecs t s.Execute with
  | none => simpa [applyStatement, hres] using hm
  | some t' =>
    have ht' : applyStatement t s = t' := by simp [applyStatement, hres]
    rw [ht']
    generalize hx : s.Execute = xs at h hres
    cases h with
    | added primary satellite ty suffix inst id hty htype hpi hpid hsi hsid =>
      simp only [applyExecs] at hres
      cases h1 : applyExec t (.create none primary) with
      | none => simp [h1] at hres
      | some t1 =>
        simp only [h1] at hres
        cases h2 : applyExec t1 (.create (some suffix) satellite) with
        | none => simp [h2] at hres
        | some t2 =>
          simp only [h2, Option.some.injEq] at hres
          subst hres
          have e1 := applyExec_create_eq h1
          subst e1
          have e2 := applyExec_create_eq h2
          subst e2
          intro q hq ty' sfx' hty' hqs
          simp only [List.mem_append, List.mem_singleton] at hq
          rcases hq with (hq | hq) | hq
          · obtain ⟨p, hp, hpq, hpt⟩ := hm q hq ty' sfx' hty' hqs
            exact ⟨p, by simp [hp], hpq, hpt⟩
          · subst hq
            cases hqs
          · subst hq
            have hsfx : suffix = sfx' := by simpa using hqs
            subst hsfx
            have hteq := satelliteSuffix_injective hty' hty
            subst hteq
            refine ⟨⟨none, Row.ofColumns primary⟩, by simp, ?_, htype⟩
            exact StoredRow.owns_of_columns hty rfl rfl (hpi.trans hsi.symm)
              (hpid.trans hsid.symm)
    | generic primary htype =>
      simp only [applyExecs] at hres
      cases h1 : applyExec t (.create none primary) with
      | none => simp [h1] at hres
      | some t1 =>
        simp only [h1, Option.some.injEq] at hres
        subst hres
        have e1 := applyExec_create_eq h1
        subst e1
        intro q hq ty' sfx' hty' hqs
        simp only [List.mem_append, List.mem_singleton] at hq
        rcases hq with hq | hq
        · obtain ⟨p, hp, hpq, hpt⟩ := hm q hq ty' sfx' hty' hqs
          exact ⟨p, by simp [hp], hpq, hpt⟩
        · subst hq
          cases hqs
    | change values conditions hv hc =>
      simp only [applyExecs, applyExec_update, Option.some.injEq] at hres
      subst hres
      exact matched_map_update hv hm
    | change2 values conditions suffix values2 conditions2 hv hc hv2 hc2 =>
      simp only [applyExecs, applyExec_update, Option.some.injEq] at hres
      subst hres
      exact matched_map_update hv2 (matched_map_update hv hm)
    | remove conditions =>
      simp only [applyExecs, applyExec_delete, Option.some.injEq] at hres
      subst hres
      intro q hq ty sfx hty hqs
      obtain ⟨p, hp, hpq, hpt⟩ := hm q (List.mem_filter.1 hq).1 ty sfx hty hqs
      exact ⟨p, owner_survives_delete hp hpq hq, hpq, hpt⟩

theorem matched_applyReduce {r : handler.Reduce} (hr : r ∈ tableReducers)
    (h1 : r ≠ reduceOldOIDCConfigAdded) (h2 : r ≠ reduceOldJWTConfigAdded)
    (event : eventstore.Event) {t : Tables} (hm : Matched t) :
    Matched (applyReduce t r event) := by
  cases h : r event with
  | error err => simpa [applyReduce, h] using hm
  | ok s =>
    simp only [applyReduce, h]
    obtain ⟨o, ho, hattr⟩ := unitShape_of_reducer hr h
    cases o with
    | none => exact matched_of_shape ho hm
    | some ty =>
      rcases hattr ty rfl with ⟨hr1, -⟩ | ⟨hr2, -⟩
      · exact absurd hr1 h1
      · exact absurd hr2 h2

theorem matched_processEvents (steps : List (handler.Reduce × eventstore.Event))
    (hsteps : ∀ step ∈ steps, step.1 ∈ tableReducers)
    (hcur : ∀ step ∈ steps,
      step.1 ≠ reduceOldOIDCConfigAdded ∧ step.1 ≠ reduceOldJWTConfigAdded)
    {t : Tables} (hm : Matched t) : Matched (processEvents t steps) := by
  induction steps generalizing t with
  | nil => exact hm
  | cons step rest ih =>
    simp only [processEvents, List.foldl_cons]
    exact ih (fun x hx => hsteps x (List.mem_cons_of_mem _ hx))
      (fun x hx => hcur x (List.mem_cons_of_mem _ hx))
      (matched_applyReduce (hsteps step (List.mem_cons_self _ _))
        (hcur step (List.mem_cons_self _ _)).1 (hcur step (List.mem_cons_self _ _)).2 step.2 hm)

theorem exclusive_of_matched {t : Tables} (h : Invariant t) (hm : Matched t) : Exclusive t := by
  intro p hp hs ty sfx hty htype q hq ty2 sfx2 hty2 hqs hi hid
  obtain ⟨p', hp', hpq, hpt⟩ := hm q hq ty2 sfx2 hty2 hqs
  obtain ⟨hs', hi', hid'⟩ := StoredRow.owns_columns hty2 hqs hpq
  by_cases heq : p' = p
  · subst heq
    rw [hpt] at htype
    simpa using htype
  · exfalso
    have hconf : p'.conflicts p = true := by
      simp [StoredRow.conflicts, hs, hs', StoredRow.key_primary hs, StoredRow.key_primary hs',
        hi', hid', hi, hid]
    have hsymm : Symmetric (fun a b : StoredRow => a.conflicts b = false) := by
      intro a b hab
      simp only [StoredRow.conflicts, Bool.and_eq_false_iff, beq_eq_false_iff_ne, ne_eq] at hab ⊢
      rcases hab with hab | hab
      · exact Or.inl (fun h => hab h.symm)
      · exact Or.inr (fun h => hab h.symm)
    have := h.1.forall hsymm hp' hp heq
    rw [hconf] at this
    cases this

theorem invariant_nil : Invariant [] := by
  refine ⟨List.Pairwise.nil, ?_, ?_⟩
  · intro q hq
    cases hq
  · intro p hp
    cases hp

theorem matched_nil : Matched [] := by
  intro q hq
  cases hq

/-! ## Shared lemmas: the tags of a unit -/

theorem tags_of_reducer {r : handler.Reduce} (hr : r ∈ tableReducers)
    {event : eventstore.Event} {s : handler.Statement} (h : r event = .ok s) :
    s.Sequence = event.toBaseEvent.Sequence ∧
      s.InstanceID = event.toBaseEvent.Aggregate.InstanceID := by
  rcases tableReducers_cases hr with rfl | rfl | rfl | rfl | rfl | rfl | rfl | rfl | rfl | rfl |
    rfl | rfl | rfl | rfl | rfl | rfl | rfl | rfl | rfl
  · obtain ⟨e, rfl | rfl⟩ := reduceOAuthIDPAdded_accepts h <;>
    · simp only [reduceOAuthIDPAdded, Except.ok.injEq] at h
      subst h
      exact ⟨rfl, rfl⟩
  · obtain ⟨e, rfl | rfl⟩ := reduceOAuthIDPChanged_accepts h <;>
    · simp only [reduceOAuthIDPChanged, Except.ok.injEq] at h
      subst h
      exact ⟨rfl, rfl⟩
  · obtain ⟨e, rfl | rfl⟩ := reduceOIDCIDPAdded_accepts h <;>
    · simp only [reduceOIDCIDPAdded, Except.ok.injEq] at h
      subst h
      exact ⟨rfl, rfl⟩
  · obtain ⟨e, rfl | rfl⟩ := reduceOIDCIDPChanged_accepts h <;>
    · simp only [reduceOIDCIDPChanged, Except.ok.injEq] at h
      subst h
      exact ⟨rfl, rfl⟩
  · obtain ⟨e, rfl | rfl⟩ := reduceJWTIDPAdded_accepts h <;>
    · simp only [reduceJWTIDPAdded, Except.ok.injEq] at h
      subst h
      exact ⟨rfl, rfl⟩
  · obtain ⟨e, rfl | rfl⟩ := reduceJWTIDPChanged_accepts h <;>
    · simp only [reduceJWTIDPChanged, Except.ok.injEq] at h
      subst h
      exact ⟨rfl, rfl⟩
  · obtain ⟨e, rfl | rfl⟩ := reduceOldConfigAdded_accepts h <;>
    · simp only [reduceOldConfigAdded, Except.ok.injEq] at h
      subst h
      exact ⟨rfl, rfl⟩
  · obtain ⟨e, rfl | rfl⟩ := reduceOldConfigChanged_accepts h <;>
    · simp only [reduceOldConfigChanged, Except.ok.injEq] at h
      subst h
      exact ⟨rfl, rfl⟩
  · obtain ⟨e, rfl | rfl⟩ := reduceOldOIDCConfigAdded_accepts h <;>
    · simp only [reduceOldOIDCConfigAdded, Except.ok.injEq] at h
      subst h
      exact ⟨rfl, rfl⟩
  · obtain ⟨e, rfl | rfl⟩ := reduceOldOIDCConfigChanged_accepts h <;>
    · simp only [reduceOldOIDCConfigChanged, Except.ok.injEq] at h
      subst h
      exact ⟨rfl, rfl⟩
  · obtain ⟨e, rfl | rfl⟩ := reduceOldJWTConfigAdded_accepts h <;>
    · simp only [reduceOldJWTConfigAdded, Except.ok.injEq] at h
      subst h
      exact ⟨rfl, rfl⟩
  · obtain ⟨e, rfl | rfl⟩ := reduceOldJWTConfigChanged_accepts h <;>
    · simp only [reduceOldJWTConfigChanged, Except.ok.injEq] at h
      subst h
      exact ⟨rfl, rfl⟩
  · obtain ⟨e, rfl | rfl⟩ := reduceGoogleIDPAdded_accepts h <;>
    · simp only [reduceGoogleIDPAdded, Except.ok.injEq] at h
      subst h
      exact ⟨rfl, rfl⟩
  · obtain ⟨e, rfl | rfl⟩ := reduceGoogleIDPChanged_accepts h <;>
    · simp only [reduceGoogleIDPChanged, Except.ok.injEq] at h
      subst h
      exact ⟨rfl, rfl⟩
  · obtain ⟨e, rfl | rfl⟩ := reduceLDAPIDPAdded_accepts h <;>
    · simp only [reduceLDAPIDPAdded, Except.ok.injEq] at h
      subst h
      exact ⟨rfl, rfl⟩
  · obtain ⟨e, rfl | rfl⟩ := reduceLDAPIDPChanged_accepts h <;>
    · simp only [reduceLDAPIDPChanged, Except.ok.injEq] at h
      subst h
      exact ⟨rfl, rfl⟩
  · obtain ⟨e, rfl | rfl⟩ := reduceIDPRemoved_accepts h <;>
    · simp only [reduceIDPRemoved, Except.ok.injEq] at h
      subst h
      exact ⟨rfl, rfl⟩
  · obtain ⟨e, rfl⟩ := reduceOwnerRemoved_accepts h
    simp only [reduceOwnerRemoved, Except.ok.injEq] at h
    subst h
    exact ⟨rfl, rfl⟩
  · obtain ⟨e, rfl⟩ := reduceInstanceRemovedHelper_accepts h
    simp only [reduceInstanceRemovedHelper, Except.ok.injEq] at h
    subst h
    exact ⟨rfl, rfl⟩

/-! ## Shared lemmas: the audit columns of a primary-table Update -/

theorem reduceIDPChangedTemplateColumns_values (name : Option String)
    (creationDate sequence : Nat) (optionChanges : idp.OptionChanges) :
    handler.valuesOf (reduceIDPChangedTemplateColumns name creationDate sequence optionChanges)
        "change_date" = [.timestamp creationDate] ∧
    handler.valuesOf (reduceIDPChangedTemplateColumns name creationDate sequence optionChanges)
        "sequence" = [.uint64 sequence] := by
  simp only [reduceIDPChangedTemplateColumns, appendIfNotNil_eq, valuesOf_append, valuesOf_optCol,
    IDPTemplateNameCol, IDPTemplateIsCreationAllowedCol, IDPTemplateIsLinkingAllowedCol,
    IDPTemplateIsAutoCreationCol, IDPTemplateIsAutoUpdateCol, IDPTemplateChangeDateCol,
    IDPTemplateSequenceCol]
  simp [handler.valuesOf, handler.NewCol]

/-- The audit values of the first statement of a unit whose later statements target a
satellite table. -/
theorem primary_update_of_unit {values : List handler.Column}
    {conditions : List handler.Condition} {rest : List crdb.Exec} {a b : Value}
    (hrest : ∀ x ∈ rest, ∀ v c, x ≠ crdb.Exec.update none v c)
    (ha : handler.valuesOf values "change_date" = [a])
    (hb : handler.valuesOf values "sequence" = [b]) :
    (∃ v c, crdb.Exec.update none v c ∈ crdb.Exec.update none values conditions :: rest) ∧
    ∀ v c, crdb.Exec.update none v c ∈ crdb.Exec.update none values conditions :: rest →
      handler.valuesOf v "change_date" = [a] ∧ handler.valuesOf v "sequence" = [b] := by
  refine ⟨⟨values, conditions, List.mem_cons_self _ _⟩, ?_⟩
  intro v c hmem
  rcases List.mem_cons.1 hmem with heq | hmem
  · simp only [crdb.Exec.update.injEq, true_and] at heq
    obtain ⟨rfl, -⟩ := heq
    exact ⟨ha, hb⟩
  · exact absurd rfl (hrest _ hmem v c)

theorem reduceOAuthIDPChanged_stamps {event : eventstore.Event} {s : handler.Statement}
    (h : reduceOAuthIDPChanged event = .ok s) :
    (∃ v c, crdb.Exec.update none v c ∈ s.Execute) ∧
    ∀ v c, crdb.Exec.update none v c ∈ s.Execute →
      handler.valuesOf v "change_date" = [.timestamp event.toBaseEvent.CreationDate] ∧
      handler.valuesOf v "sequence" = [.uint64 event.toBaseEvent.Sequence] := by
  obtain ⟨e, rfl | rfl⟩ := reduceOAuthIDPChanged_accepts h <;>
  · simp only [reduceOAuthIDPChanged, Except.ok.injEq] at h
    subst h
    simp only [crdb.NewMultiStatement, List.nil_append, crdb.AddUpdateStatement, crdb.tableSuffix,
      List.foldl_nil]
    split
    · exact primary_update_of_unit (by simp [crdb.tableSuffix])
        (reduceIDPChangedTemplateColumns_values _ _ _ _).1
        (reduceIDPChangedTemplateColumns_values _ _ _ _).2
    · exact primary_update_of_unit (by simp)
        (reduceIDPChangedTemplateColumns_values _ _ _ _).1
        (reduceIDPChangedTemplateColumns_values _ _ _ _).2

theorem reduceOIDCIDPChanged_stamps {event : eventstore.Event} {s : handler.Statement}
    (h : reduceOIDCIDPChanged event = .ok s) :
    (∃ v c, crdb.Exec.update none v c ∈ s.Execute) ∧
    ∀ v c, crdb.Exec.update none v c ∈ s.Execute →
      handler.valuesOf v "change_date" = [.timestamp event.toBaseEvent.CreationDate] ∧
      handler.valuesOf v "sequence" = [.uint64 event.toBaseEvent.Sequence] := by
  obtain ⟨e, rfl | rfl⟩ := reduceOIDCIDPChanged_accepts h <;>
  · simp only [reduceOIDCIDPChanged, Except.ok.injEq] at h
    subst h
    simp only [crdb.NewMultiStatement, List.nil_append, crdb.AddUpdateStatement, crdb.tableSuffix,
      List.foldl_nil]
    split
    · exact primary_update_of_unit (by simp [crdb.tableSuffix])
        (reduceIDPChangedTemplateColumns_values _ _ _ _).1
        (reduceIDPChangedTemplateColumns_values _ _ _ _).2
    · exact primary_update_of_unit (by simp)
        (reduceIDPChangedTemplateColumns_values _ _ _ _).1
        (reduceIDPChangedTemplateColumns_values _ _ _ _).2

theorem reduceJWTIDPChanged_stamps {event : eventstore.Event} {s : handler.Statement}
    (h : reduceJWTIDPChanged event = .ok s) :
    (∃ v c, crdb.Exec.update none v c ∈ s.Execute) ∧
    ∀ v c, crdb.Exec.update none v c ∈ s.Execute →
      handler.valuesOf v "change_date" = [.timestamp event.toBaseEvent.CreationDate] ∧
      handler.valuesOf v "sequence" = [.uint64 event.toBaseEvent.Sequence] := by
  obtain ⟨e, rfl | rfl⟩ := reduceJWTIDPChanged_accepts h <;>
  · simp only [reduceJWTIDPChanged, Except.ok.injEq] at h
    subst h
    simp only [crdb.NewMultiStatement, List.nil_append, crdb.AddUpdateStatement, crdb.tableSuffix,
      List.foldl_nil]
    split
    · exact primary_update_of_unit (by simp [crdb.tableSuffix])
        (reduceIDPChangedTemplateColumns_values _ _ _ _).1
        (reduceIDPChangedTemplateColumns_values _ _ _ _).2
    · exact primary_update_of_unit (by simp)
        (reduceIDPChangedTemplateColumns_values _ _ _ _).1
        (reduceIDPChangedTemplateColumns_values _ _ _ _).2

theorem reduceGoogleIDPChanged_stamps {event : eventstore.Event} {s : handler.Statement}
    (h : reduceGoogleIDPChanged event = .ok s) :
    (∃ v c, crdb.Exec.update none v c ∈ s.Execute) ∧
    ∀ v c, crdb.Exec.update none v c ∈ s.Execute →
      handler.valuesOf v "change_date" = [.timestamp event.toBaseEvent.CreationDate] ∧
      handler.valuesOf v "sequence" = [.uint64 event.toBaseEvent.Sequence] := by
  obtain ⟨e, rfl | rfl⟩ := reduceGoogleIDPChanged_accepts h <;>
  · simp only [reduceGoogleIDPChanged, Except.ok.injEq] at h
    subst h
    simp only [crdb.NewMultiStatement, List.nil_append, crdb.AddUpdateStatement, crdb.tableSuffix,
      List.foldl_nil]
    split
    · exact primary_update_of_unit (by simp [crdb.tableSuffix])
        (reduceIDPChangedTemplateColumns_values _ _ _ _).1
        (reduceIDPChangedTemplateColumns_values _ _ _ _).2
    · exact primary_update_of_unit (by simp)
        (reduceIDPChangedTemplateColumns_values _ _ _ _).1
        (reduceIDPChangedTemplateColumns_values _ _ _ _).2

theorem reduceLDAPIDPChanged_stamps {event : eventstore.Event} {s : handler.Statement}
    (h : reduceLDAPIDPChanged event = .ok s) :
    (∃ v c, crdb.Exec.update none v c ∈ s.Execute) ∧
    ∀ v c, crdb.Exec.update none v c ∈ s.Execute →
      handler.valuesOf v "change_date" = [.timestamp event.toBaseEvent.CreationDate] ∧
      handler.valuesOf v "sequence" = [.uint64 event.toBaseEvent.Sequence] := by
  obtain ⟨e, rfl | rfl⟩ := reduceLDAPIDPChanged_accepts h <;>
  · simp only [reduceLDAPIDPChanged, Except.ok.injEq] at h
    subst h
    simp only [crdb.NewMultiStatement, List.nil_append, crdb.AddUpdateStatement, crdb.tableSuffix,
      List.foldl_nil]
    split
    · exact primary_update_of_unit (by simp [crdb.tableSuffix])
        (reduceIDPChangedTemplateColumns_values _ _ _ _).1
        (reduceIDPChangedTemplateColumns_values _ _ _ _).2
    · exact primary_update_of_unit (by simp)
        (reduceIDPChangedTemplateColumns_values _ _ _ _).1
        (reduceIDPChangedTemplateColumns_values _ _ _ _).2

theorem reduceOldOIDCConfigChanged_stamps {event : eventstore.Event} {s : handler.Statement}
    (h : reduceOldOIDCConfigChanged event = .ok s) :
    (∃ v c, crdb.Exec.update none v c ∈ s.Execute) ∧
    ∀ v c, crdb.Exec.update none v c ∈ s.Execute →
      handler.valuesOf v "change_date" = [.timestamp event.toBaseEvent.CreationDate] ∧
      handler.valuesOf v "sequence" = [.uint64 event.toBaseEvent.Sequence] := by
  obtain ⟨e, rfl | rfl⟩ := reduceOldOIDCConfigChanged_accepts h <;>
  · simp only [reduceOldOIDCConfigChanged, Except.ok.injEq] at h
    subst h
    simp only [crdb.NewMultiStatement, List.nil_append, crdb.AddUpdateStatement, crdb.tableSuffix,
      List.foldl_nil]
    split
    · exact primary_update_of_unit (by simp [crdb.tableSuffix]) rfl rfl
    · exact primary_update_of_unit (by simp) rfl rfl

theorem reduceOldJWTConfigChanged_stamps {event : eventstore.Event} {s : handler.Statement}
    (h : reduceOldJWTConfigChanged event = .ok s) :
    (∃ v c, crdb.Exec.update none v c ∈ s.Execute) ∧
    ∀ v c, crdb.Exec.update none v c ∈ s.Execute →
      handler.valuesOf v "change_date" = [.timestamp event.toBaseEvent.CreationDate] ∧
      handler.valuesOf v "sequence" = [.uint64 event.toBaseEvent.Sequence] := by
  obtain ⟨e, rfl | rfl⟩ := reduceOldJWTConfigChanged_accepts h <;>
  · simp only [reduceOldJWTConfigChanged, Except.ok.injEq] at h
    subst h
    simp only [crdb.NewMultiStatement, List.nil_append, crdb.AddUpdateStatement, crdb.tableSuffix,
      List.foldl_nil]
    split
    · exact primary_update_of_unit (by simp [crdb.tableSuffix]) rfl rfl
    · exact primary_update_of_unit (by simp) rfl rfl

theorem reduceOldOIDCConfigAdded_stamps {event : eventstore.Event} {s : handler.Statement}
    (h : reduceOldOIDCConfigAdded event = .ok s) :
    (∃ v c, crdb.Exec.update none v c ∈ s.Execute) ∧
    ∀ v c, crdb.Exec.update none v c ∈ s.Execute →
      handler.valuesOf v "change_date" = [.timestamp event.toBaseEvent.CreationDate] ∧
      handler.valuesOf v "sequence" = [.uint64 event.toBaseEvent.Sequence] := by
  obtain ⟨e, rfl | rfl⟩ := reduceOldOIDCConfigAdded_accepts h <;>
  · simp only [reduceOldOIDCConfigAdded, Except.ok.injEq] at h
    subst h
    exact primary_update_of_unit (by simp [crdb.AddCreateStatement]) rfl rfl

theorem reduceOldJWTConfigAdded_stamps {event : eventstore.Event} {s : handler.Statement}
    (h : reduceOldJWTConfigAdded event = .ok s) :
    (∃ v c, crdb.Exec.update none v c ∈ s.Execute) ∧
    ∀ v c, crdb.Exec.update none v c ∈ s.Execute →
      handler.valuesOf v "change_date" = [.timestamp event.toBaseEvent.CreationDate] ∧
      handler.valuesOf v "sequence" = [.uint64 event.toBaseEvent.Sequence] := by
  obtain ⟨e, rfl | rfl⟩ := reduceOldJWTConfigAdded_accepts h <;>
  · simp only [reduceOldJWTConfigAdded, Except.ok.injEq] at h
    subst h
    exact primary_update_of_unit (by simp [crdb.AddCreateStatement]) rfl rfl

theorem reduceOldConfigChanged_stamps {event : eventstore.Event} {s : handler.Statement}
    (h : reduceOldConfigChanged event = .ok s) :
    (∃ v c, crdb.Exec.update none v c ∈ s.Execute) ∧
    ∀ v c, crdb.Exec.update none v c ∈ s.Execute →
      handler.valuesOf v "change_date" = [.timestamp event.toBaseEvent.CreationDate] ∧
      handler.valuesOf v "sequence" = [.uint64 event.toBaseEvent.Sequence] := by
  obtain ⟨e, rfl | rfl⟩ := reduceOldConfigChanged_accepts h <;>
  · simp only [reduceOldConfigChanged, Except.ok.injEq] at h
    subst h
    refine primary_update_of_unit (by simp) ?_ ?_
    · simp only [appendIfNotNil_eq, valuesOf_append, valuesOf_optCol, IDPTemplateNameCol,
        IDPTemplateIsAutoCreationCol, IDPTemplateChangeDateCol, IDPTemplateSequenceCol]
      simp [handler.valuesOf, handler.NewCol, eventstore.Event.toBaseEvent, Payload.toBaseEvent]
    · simp only [appendIfNotNil_eq, valuesOf_append, valuesOf_optCol, IDPTemplateNameCol,
        IDPTemplateIsAutoCreationCol, IDPTemplateChangeDateCol, IDPTemplateSequenceCol]
      simp [handler.valuesOf, handler.NewCol, eventstore.Event.toBaseEvent, Payload.toBaseEvent]

theorem reduceOwnerRemoved_stamps {event : eventstore.Event} {s : handler.Statement}
    (h : reduceOwnerRemoved event = .ok s) :
    (∃ v c, crdb.Exec.update none v c ∈ s.Execute) ∧
    ∀ v c, crdb.Exec.update none v c ∈ s.Execute →
      handler.valuesOf v "change_date" = [.timestamp event.toBaseEvent.CreationDate] ∧
      handler.valuesOf v "sequence" = [.uint64 event.toBaseEvent.Sequence] := by
  obtain ⟨e, rfl⟩ := reduceOwnerRemoved_accepts h
  simp only [reduceOwnerRemoved, Except.ok.injEq] at h
  subst h
  exact primary_update_of_unit (by simp) rfl rfl

/-! ## Shared lemmas: optional columns -/

theorem optCol_eq_nil {α : Type} (name : String) (field : Option α) (value : α → Value) :
    optCol name field value = [] ↔ field = none := by
  cases field <;> simp [optCol]

theorem length_optCol {α : Type} (name : String) (field : Option α) (value : α → Value) :
    (optCol name field value).length = field.toList.length := by
  cases field <;> simp [optCol]

theorem namesOf_optCol_sublist {α : Type} (name : String) (field : Option α) (value : α → Value) :
    (handler.namesOf (optCol name field value)).Sublist [name] := by
  cases field <;> simp [handler.namesOf, optCol, handler.NewCol]

theorem reduceIDPChangedTemplateColumns_ne_nil (name : Option String)
    (creationDate sequence : Nat) (optionChanges : idp.OptionChanges) :
    reduceIDPChangedTemplateColumns name creationDate sequence optionChanges ≠ [] := by
  simp [reduceIDPChangedTemplateColumns]

theorem typedChangedUnit_of_length (b : eventstore.BaseEvent) (id : String)
    (primary : List handler.Column) (suffix : String) (cols : List handler.Column) :
    crdb.NewMultiStatement b
      (if cols.length > 0 then
        ([] ++ [crdb.AddUpdateStatement primary
            [handler.NewCond IDPTemplateIDCol (.text id),
             handler.NewCond IDPTemplateInstanceIDCol (.text b.Aggregate.InstanceID)] []]) ++
          [crdb.AddUpdateStatement cols
            [handler.NewCond "idp_id" (.text id),
             handler.NewCond "instance_id" (.text b.Aggregate.InstanceID)]
            [crdb.WithTableSuffix suffix]]
       else [] ++ [crdb.AddUpdateStatement primary
            [handler.NewCond IDPTemplateIDCol (.text id),
             handler.NewCond IDPTemplateInstanceIDCol (.text b.Aggregate.InstanceID)] []]) =
      typedChangedUnit b id primary suffix cols := by
  cases cols <;>
    simp [typedChangedUnit, crdb.NewMultiStatement, crdb.AddUpdateStatement, crdb.tableSuffix,
      handler.NewCond, IDPTemplateIDCol, IDPTemplateInstanceIDCol]

/-! ## Shared lemmas: the declared columns -/

theorem declaredColumns_none : declaredColumns none =
    some ["id", "creation_date", "change_date", "sequence", "resource_owner", "instance_id",
      "state", "name", "owner_type", "type", "owner_removed", "is_creation_allowed",
      "is_linking_allowed", "is_auto_creation", "is_auto_update"] := by decide

theorem declaredColumns_oauth : declaredColumns (some "oauth") =
    some ["idp_id", "instance_id", "client_id", "client_secret", "authorization_endpoint",
      "token_endpoint", "user_endpoint", "scopes"] := by decide

theorem declaredColumns_oidc : declaredColumns (some "oidc") =
    some ["idp_id", "instance_id", "issuer", "client_id", "client_secret", "scopes"] := by decide

theorem declaredColumns_jwt : declaredColumns (some "jwt") =
    some ["idp_id", "instance_id", "issuer", "jwt_endpoint", "keys_endpoint", "header_name"] := by
  decide

theorem declaredColumns_google : declaredColumns (some "google") =
    some ["idp_id", "instance_id", "client_id", "client_secret", "scopes"] := by decide

theorem declaredColumns_ldap : declaredColumns (some "ldap") =
    some ("idp_id" :: "instance_id" :: ldapFieldColumns) := by decide

theorem requiredColumns_none : requiredColumns none =
    some ["id", "creation_date", "change_date", "sequence", "resource_owner", "instance_id",
      "state", "owner_type", "type"] := by decide

theorem requiredColumns_oauth : requiredColumns (some "oauth") =
    some ["idp_id", "instance_id", "client_id", "client_secret", "authorization_endpoint",
      "token_endpoint", "user_endpoint"] := by decide

theorem requiredColumns_oidc : requiredColumns (some "oidc") =
    some ["idp_id", "instance_id", "issuer", "client_id", "client_secret"] := by decide

theorem requiredColumns_jwt : requiredColumns (some "jwt") =
    some ["idp_id", "instance_id", "issuer", "jwt_endpoint", "keys_endpoint"] := by decide

theorem requiredColumns_google : requiredColumns (some "google") =
    some ["idp_id", "instance_id", "client_id", "client_secret"] := by decide

theorem requiredColumns_ldap : requiredColumns (some "ldap") =
    some ["idp_id", "instance_id"] := by decide

/-! ## Shared lemmas: the Creates of a unit -/

theorem reduceOAuthIDPAdded_creates {event : eventstore.Event} {s : handler.Statement}
    (h : reduceOAuthIDPAdded event = .ok s) :
    (∃ suffix values, crdb.Exec.create suffix values ∈ s.Execute) ∧
    ∀ suffix values, crdb.Exec.create suffix values ∈ s.Execute →
      CompleteCreate suffix values := by
  obtain ⟨e, rfl | rfl⟩ := reduceOAuthIDPAdded_accepts h <;>
  · simp only [reduceOAuthIDPAdded, Except.ok.injEq] at h
    subst h
    refine ⟨⟨_, _, List.mem_cons_self _ _⟩, ?_⟩
    intro suffix values hmem
    simp only [crdb.NewMultiStatement, crdb.AddCreateStatement, crdb.tableSuffix,
      List.foldl_nil, List.foldl_cons, List.mem_cons, crdb.Exec.create.injEq,
      List.mem_singleton, List.not_mem_nil, or_false] at hmem
    rcases hmem with ⟨rfl, rfl⟩ | ⟨rfl, rfl⟩
    · refine ⟨_, _, requiredColumns_none, primaryKeyOf_none, ?_, ?_, ?_⟩ <;>
        simp [handler.namesOf, handler.NewCol, IDPTemplateIDCol, IDPTemplateCreationDateCol,
          IDPTemplateChangeDateCol, IDPTemplateSequenceCol, IDPTemplateResourceOwnerCol,
          IDPTemplateInstanceIDCol, IDPTemplateStateCol, IDPTemplateNameCol,
          IDPTemplateOwnerTypeCol, IDPTemplateTypeCol, IDPTemplateIsCreationAllowedCol,
          IDPTemplateIsLinkingAllowedCol, IDPTemplateIsAutoCreationCol,
          IDPTemplateIsAutoUpdateCol]
    · refine ⟨_, _, requiredColumns_oauth, primaryKeyOf_oauth, ?_, ?_, ?_⟩ <;>
        simp [handler.namesOf, handler.NewCol, OAuthIDCol, OAuthInstanceIDCol, OAuthClientIDCol,
          OAuthClientSecretCol, OAuthAuthorizationEndpointCol, OAuthTokenEndpointCol,
          OAuthUserEndpointCol, OAuthScopesCol]

theorem reduceOIDCIDPAdded_creates {event : eventstore.Event} {s : handler.Statement}
    (h : reduceOIDCIDPAdded event = .ok s) :
    (∃ suffix values, crdb.Exec.create suffix values ∈ s.Execute) ∧
    ∀ suffix values, crdb.Exec.create suffix values ∈ s.Execute →
      CompleteCreate suffix values := by
  obtain ⟨e, rfl | rfl⟩ := reduceOIDCIDPAdded_accepts h <;>
  · simp only [reduceOIDCIDPAdded, Except.ok.injEq] at h
    subst h
    refine ⟨⟨_, _, List.mem_cons_self _ _⟩, ?_⟩
    intro suffix values hmem
    simp only [crdb.NewMultiStatement, crdb.AddCreateStatement, crdb.tableSuffix,
      List.foldl_nil, List.foldl_cons, List.mem_cons, crdb.Exec.create.injEq,
      List.mem_singleton, List.not_mem_nil, or_false] at hmem
    rcases hmem with ⟨rfl, rfl⟩ | ⟨rfl, rfl⟩
    · refine ⟨_, _, requiredColumns_none, primaryKeyOf_none, ?_, ?_, ?_⟩ <;>
        simp [handler.namesOf, handler.NewCol, IDPTemplateIDCol, IDPTemplateCreationDateCol,
          IDPTemplateChangeDateCol, IDPTemplateSequenceCol, IDPTemplateResourceOwnerCol,
          IDPTemplateInstanceIDCol, IDPTemplateStateCol, IDPTemplateNameCol,
          IDPTemplateOwnerTypeCol, IDPTemplateTypeCol, IDPTemplateIsCreationAllowedCol,
          IDPTemplateIsLinkingAllowedCol, IDPTemplateIsAutoCreationCol,
          IDPTemplateIsAutoUpdateCol]
    · refine ⟨_, _, requiredColumns_oidc, primaryKeyOf_oidc, ?_, ?_, ?_⟩ <;>
        simp [handler.namesOf, handler.NewCol, OIDCIDCol, OIDCInstanceIDCol, OIDCIssuerCol,
          OIDCClientIDCol, OIDCClientSecretCol, OIDCScopesCol]

theorem reduceJWTIDPAdded_creates {event : eventstore.Event} {s : handler.Statement}
    (h : reduceJWTIDPAdded event = .ok s) :
    (∃ suffix values, crdb.Exec.create suffix values ∈ s.Execute) ∧
    ∀ suffix values, crdb.Exec.create suffix values ∈ s.Execute →
      CompleteCreate suffix values := by
  obtain ⟨e, rfl | rfl⟩ := reduceJWTIDPAdded_accepts h <;>
  · simp only [reduceJWTIDPAdded, Except.ok.injEq] at h
    subst h
    refine ⟨⟨_, _, List.mem_cons_self _ _⟩, ?_⟩
    intro suffix values hmem
    simp only [crdb.NewMultiStatement, crdb.AddCreateStatement, crdb.tableSuffix,
      List.foldl_nil, List.foldl_cons, List.mem_cons, crdb.Exec.create.injEq,
      List.mem_singleton, List.not_mem_nil, or_false] at hmem
    rcases hmem with ⟨rfl, rfl⟩ | ⟨rfl, rfl⟩
    · refine ⟨_, _, requiredColumns_none, primaryKeyOf_none, ?_, ?_, ?_⟩ <;>
        simp [handler.namesOf, handler.NewCol, IDPTemplateIDCol, IDPTemplateCreationDateCol,
          IDPTemplateChangeDateCol, IDPTemplateSequenceCol, IDPTemplateResourceOwnerCol,
          IDPTemplateInstanceIDCol, IDPTemplateStateCol, IDPTemplateNameCol,
          IDPTemplateOwnerTypeCol, IDPTemplateTypeCol, IDPTemplateIsCreationAllowedCol,
          IDPTemplateIsLinkingAllowedCol, IDPTemplateIsAutoCreationCol,
          IDPTemplateIsAutoUpdateCol]
    · refine ⟨_, _, requiredColumns_jwt, primaryKeyOf_jwt, ?_, ?_, ?_⟩ <;>
        simp [handler.namesOf, handler.NewCol, JWTIDCol, JWTInstanceIDCol, JWTIssuerCol,
          JWTEndpointCol, JWTKeysEndpointCol, JWTHeaderNameCol]

theorem reduceGoogleIDPAdded_creates {event : eventstore.Event} {s : handler.Statement}
    (h : reduceGoogleIDPAdded event = .ok s) :
    (∃ suffix values, crdb.Exec.create suffix values ∈ s.Execute) ∧
    ∀ suffix values, crdb.Exec.create suffix values ∈ s.Execute →
      CompleteCreate suffix values := by
  obtain ⟨e, rfl | rfl⟩ := reduceGoogleIDPAdded_accepts h <;>
  · simp only [reduceGoogleIDPAdded, Except.ok.injEq] at h
    subst h
    refine ⟨⟨_, _, List.mem_cons_self _ _⟩, ?_⟩
    intro suffix values hmem
    simp only [crdb.NewMultiStatement, crdb.AddCreateStatement, crdb.tableSuffix,
      List.foldl_nil, List.foldl_cons, List.mem_cons, crdb.Exec.create.injEq,
      List.mem_singleton, List.not_mem_nil, or_false] at hmem
    rcases hmem with ⟨rfl, rfl⟩ | ⟨rfl, rfl⟩
    · refine ⟨_, _, requiredColumns_none, primaryKeyOf_none, ?_, ?_, ?_⟩ <;>
        simp [handler.namesOf, handler.NewCol, IDPTemplateIDCol, IDPTemplateCreationDateCol,
          IDPTemplateChangeDateCol, IDPTemplateSequenceCol, IDPTemplateResourceOwnerCol,
          IDPTemplateInstanceIDCol, IDPTemplateStateCol, IDPTemplateNameCol,
          IDPTemplateOwnerTypeCol, IDPTemplateTypeCol, IDPTemplateIsCreationAllowedCol,
          IDPTemplateIsLinkingAllowedCol, IDPTemplateIsAutoCreationCol,
          IDPTemplateIsAutoUpdateCol]
    · refine ⟨_, _, requiredColumns_google, primaryKeyOf_google, ?_, ?_, ?_⟩ <;>
        simp [handler.namesOf, handler.NewCol, GoogleIDCol, GoogleInstanceIDCol, GoogleClientIDCol,
          GoogleClientSecretCol, GoogleScopesCol]

theorem reduceLDAPIDPAdded_creates {event : eventstore.Event} {s : handler.Statement}
    (h : reduceLDAPIDPAdded event = .ok s) :
    (∃ suffix values, crdb.Exec.create suffix values ∈ s.Execute) ∧
    ∀ suffix values, crdb.Exec.create suffix values ∈ s.Execute →
      CompleteCreate suffix values := by
  obtain ⟨e, rfl | rfl⟩ := reduceLDAPIDPAdded_accepts h <;>
  · simp only [reduceLDAPIDPAdded, Except.ok.injEq] at h
    subst h
    refine ⟨⟨_, _, List.mem_cons_self _ _⟩, ?_⟩
    intro suffix values hmem
    simp only [crdb.NewMultiStatement, crdb.AddCreateStatement, crdb.tableSuffix,
      List.foldl_nil, List.foldl_cons, List.mem_cons, crdb.Exec.create.injEq,
      List.mem_singleton, List.not_mem_nil, or_false] at hmem
    rcases hmem with ⟨rfl, rfl⟩ | ⟨rfl, rfl⟩
    · refine ⟨_, _, requiredColumns_none, primaryKeyOf_none, ?_, ?_, ?_⟩ <;>
        simp [handler.namesOf, handler.NewCol, IDPTemplateIDCol, IDPTemplateCreationDateCol,
          IDPTemplateChangeDateCol, IDPTemplateSequenceCol, IDPTemplateResourceOwnerCol,
          IDPTemplateInstanceIDCol, IDPTemplateStateCol, IDPTemplateNameCol,
          IDPTemplateOwnerTypeCol, IDPTemplateTypeCol, IDPTemplateIsCreationAllowedCol,
          IDPTemplateIsLinkingAllowedCol, IDPTemplateIsAutoCreationCol,
          IDPTemplateIsAutoUpdateCol]
    · refine ⟨_, _, requiredColumns_ldap, primaryKeyOf_ldap, ?_, ?_, ?_⟩ <;>
        simp [handler.namesOf, handler.NewCol, LDAPIDCol, LDAPInstanceIDCol, LDAPHostCol,
          LDAPPortCol, LDAPTlsCol, LDAPBaseDNCol, LDAPUserObjectClassCol,
          LDAPUserUniqueAttributeCol, LDAPAdminCol, LDAPPasswordCol, LDAPIDAttributeCol,
          LDAPFirstNameAttributeCol, LDAPLastNameAttributeCol, LDAPDisplayNameAttributeCol,
          LDAPNickNameAttributeCol, LDAPPreferredUsernameAttributeCol, LDAPEmailAttributeCol,
          LDAPEmailVerifiedAttributeCol, LDAPPhoneAttributeCol, LDAPPhoneVerifiedAttributeCol,
          LDAPPreferredLanguageAttributeCol, LDAPAvatarURLAttributeCol,
          LDAPProfileAttributeCol]

theorem reduceOldConfigAdded_creates {event : eventstore.Event} {s : handler.Statement}
    (h : reduceOldConfigAdded event = .ok s) :
    (∃ suffix values, crdb.Exec.create suffix values ∈ s.Execute) ∧
    ∀ suffix values, crdb.Exec.create suffix values ∈ s.Execute →
      CompleteCreate suffix values := by
  obtain ⟨e, rfl | rfl⟩ := reduceOldConfigAdded_accepts h <;>
  · simp only [reduceOldConfigAdded, Except.ok.injEq] at h
    subst h
    refine ⟨⟨_, _, List.mem_cons_self _ _⟩, ?_⟩
    intro suffix values hmem
    simp only [crdb.NewCreateStatement, crdb.tableSuffix, List.foldl_nil, List.mem_cons,
      crdb.Exec.create.injEq, List.mem_singleton, List.not_mem_nil, or_false] at hmem
    obtain ⟨rfl, rfl⟩ := hmem
    refine ⟨_, _, requiredColumns_none, primaryKeyOf_none, ?_, ?_, ?_⟩ <;>
      simp [handler.namesOf, handler.NewCol, IDPTemplateIDCol, IDPTemplateCreationDateCol,
          IDPTemplateChangeDateCol, IDPTemplateSequenceCol, IDPTemplateResourceOwnerCol,
          IDPTemplateInstanceIDCol, IDPTemplateStateCol, IDPTemplateNameCol,
          IDPTemplateOwnerTypeCol, IDPTemplateTypeCol, IDPTemplateIsCreationAllowedCol,
          IDPTemplateIsLinkingAllowedCol, IDPTemplateIsAutoCreationCol,
          IDPTemplateIsAutoUpdateCol]

theorem reduceOldOIDCConfigAdded_creates {event : eventstore.Event} {s : handler.Statement}
    (h : reduceOldOIDCConfigAdded event = .ok s) :
    (∃ suffix values, crdb.Exec.create suffix values ∈ s.Execute) ∧
    ∀ suffix values, crdb.Exec.create suffix values ∈ s.Execute →
      CompleteCreate suffix values := by
  obtain ⟨e, rfl | rfl⟩ := reduceOldOIDCConfigAdded_accepts h <;>
  · simp only [reduceOldOIDCConfigAdded, Except.ok.injEq] at h
    subst h
    refine ⟨⟨_, _, List.mem_cons_of_mem _ (List.mem_cons_self _ _)⟩, ?_⟩
    intro suffix values hmem
    simp only [crdb.NewMultiStatement, crdb.AddCreateStatement, crdb.AddUpdateStatement,
      crdb.tableSuffix, List.foldl_nil, List.foldl_cons, List.mem_cons, crdb.Exec.create.injEq,
      List.mem_singleton, List.not_mem_nil, or_false, false_or, reduceCtorEq] at hmem
    obtain ⟨rfl, rfl⟩ := hmem
    refine ⟨_, _, requiredColumns_oidc, primaryKeyOf_oidc, ?_, ?_, ?_⟩ <;>
      simp [handler.namesOf, handler.NewCol, OIDCIDCol, OIDCInstanceIDCol, OIDCIssuerCol,
          OIDCClientIDCol, OIDCClientSecretCol, OIDCScopesCol]

theorem reduceOldJWTConfigAdded_creates {event : eventstore.Event} {s : handler.Statement}
    (h : reduceOldJWTConfigAdded event = .ok s) :
    (∃ suffix values, crdb.Exec.create suffix values ∈ s.Execute) ∧
    ∀ suffix values, crdb.Exec.create suffix values ∈ s.Execute →
      CompleteCreate suffix values := by
  obtain ⟨e, rfl | rfl⟩ := reduceOldJWTConfigAdded_accepts h <;>
  · simp only [reduceOldJWTConfigAdded, Except.ok.injEq] at h
    subst h
    refine ⟨⟨_, _, List.mem_cons_of_mem _ (List.mem_cons_self _ _)⟩, ?_⟩
    intro suffix values hmem
    simp only [crdb.NewMultiStatement, crdb.AddCreateStatement, crdb.AddUpdateStatement,
      crdb.tableSuffix, List.foldl_nil, List.foldl_cons, List.mem_cons, crdb.Exec.create.injEq,
      List.mem_singleton, List.not_mem_nil, or_false, false_or, reduceCtorEq] at hmem
    obtain ⟨rfl, rfl⟩ := hmem
    refine ⟨_, _, requiredColumns_jwt, primaryKeyOf_jwt, ?_, ?_, ?_⟩ <;>
      simp [handler.namesOf, handler.NewCol, JWTIDCol, JWTInstanceIDCol, JWTIssuerCol,
          JWTEndpointCol, JWTKeysEndpointCol, JWTHeaderNameCol]

theorem reduceOAuthIDPChanged_creates {event : eventstore.Event} {s : handler.Statement}
    (h : reduceOAuthIDPChanged event = .ok s) :
    ∀ suffix values, crdb.Exec.create suffix values ∉ s.Execute := by
  obtain ⟨e, rfl | rfl⟩ := reduceOAuthIDPChanged_accepts h <;>
  · simp only [reduceOAuthIDPChanged, Except.ok.injEq] at h
    subst h
    intro suffix values
    simp only [crdb.NewMultiStatement, crdb.AddUpdateStatement, List.nil_append]
    split <;> simp

theorem reduceOIDCIDPChanged_creates {event : eventstore.Event} {s : handler.Statement}
    (h : reduceOIDCIDPChanged event = .ok s) :
    ∀ suffix values, crdb.Exec.create suffix values ∉ s.Execute := by
  obtain ⟨e, rfl | rfl⟩ := reduceOIDCIDPChanged_accepts h <;>
  · simp only [reduceOIDCIDPChanged, Except.ok.injEq] at h
    subst h
    intro suffix values
    simp only [crdb.NewMultiStatement, crdb.AddUpdateStatement, List.nil_append]
    split <;> simp

theorem reduceJWTIDPChanged_creates {event : eventstore.Event} {s : handler.Statement}
    (h : reduceJWTIDPChanged event = .ok s) :
    ∀ suffix values, crdb.Exec.create suffix values ∉ s.Execute := by
  obtain ⟨e, rfl | rfl⟩ := reduceJWTIDPChanged_accepts h <;>
  · simp only [reduceJWTIDPChanged, Except.ok.injEq] at h
    subst h
    intro suffix values
    simp only [crdb.NewMultiStatement, crdb.AddUpdateStatement, List.nil_append]
    split <;> simp

theorem reduceGoogleIDPChanged_creates {event : eventstore.Event} {s : handler.Statement}
    (h : reduceGoogleIDPChanged event = .ok s) :
    ∀ suffix values, crdb.Exec.create suffix values ∉ s.Execute := by
  obtain ⟨e, rfl | rfl⟩ := reduceGoogleIDPChanged_accepts h <;>
  · simp only [reduceGoogleIDPChanged, Except.ok.injEq] at h
    subst h
    intro suffix values
    simp only [crdb.NewMultiStatement, crdb.AddUpdateStatement, List.nil_append]
    split <;> simp

theorem reduceLDAPIDPChanged_creates {event : eventstore.Event} {s : handler.Statement}
    (h : reduceLDAPIDPChanged event = .ok s) :
    ∀ suffix values, crdb.Exec.create suffix values ∉ s.Execute := by
  obtain ⟨e, rfl | rfl⟩ := reduceLDAPIDPChanged_accepts h <;>
  · simp only [reduceLDAPIDPChanged, Except.ok.injEq] at h
    subst h
    intro suffix values
    simp only [crdb.NewMultiStatement, crdb.AddUpdateStatement, List.nil_append]
    split <;> simp

theorem reduceOldOIDCConfigChanged_creates {event : eventstore.Event} {s : handler.Statement}
    (h : reduceOldOIDCConfigChanged event = .ok s) :
    ∀ suffix values, crdb.Exec.create suffix values ∉ s.Execute := by
  obtain ⟨e, rfl | rfl⟩ := reduceOldOIDCConfigChanged_accepts h <;>
  · simp only [reduceOldOIDCConfigChanged, Except.ok.injEq] at h
    subst h
    intro suffix values
    simp only [crdb.NewMultiStatement, crdb.AddUpdateStatement, List.nil_append]
    split <;> simp

theorem reduceOldJWTConfigChanged_creates {event : eventstore.Event} {s : handler.Statement}
    (h : reduceOldJWTConfigChanged event = .ok s) :
    ∀ suffix values, crdb.Exec.create suffix values ∉ s.Execute := by
  obtain ⟨e, rfl | rfl⟩ := reduceOldJWTConfigChanged_accepts h <;>
  · simp only [reduceOldJWTConfigChanged, Except.ok.injEq] at h
    subst h
    intro suffix values
    simp only [crdb.NewMultiStatement, crdb.AddUpdateStatement, List.nil_append]
    split <;> simp

theorem reduceOldConfigChanged_creates {event : eventstore.Event} {s : handler.Statement}
    (h : reduceOldConfigChanged event = .ok s) :
    ∀ suffix values, crdb.Exec.create suffix values ∉ s.Execute := by
  obtain ⟨e, rfl | rfl⟩ := reduceOldConfigChanged_accepts h <;>
  · simp only [reduceOldConfigChanged, Except.ok.injEq] at h
    subst h
    intro suffix values
    simp [crdb.NewUpdateStatement]

theorem reduceIDPRemoved_creates {event : eventstore.Event} {s : handler.Statement}
    (h : reduceIDPRemoved event = .ok s) :
    ∀ suffix values, crdb.Exec.create suffix values ∉ s.Execute := by
  obtain ⟨e, rfl | rfl⟩ := reduceIDPRemoved_accepts h <;>
  · simp only [reduceIDPRemoved, Except.ok.injEq] at h
    subst h
    intro suffix values
    simp [crdb.NewDeleteStatement]

theorem reduceOwnerRemoved_creates {event : eventstore.Event} {s : handler.Statement}
    (h : reduceOwnerRemoved event = .ok s) :
    ∀ suffix values, crdb.Exec.create suffix values ∉ s.Execute := by
  obtain ⟨e, rfl⟩ := reduceOwnerRemoved_accepts h
  simp only [reduceOwnerRemoved, Except.ok.injEq] at h
  subst h
  intro suffix values
  simp [crdb.NewUpdateStatement]

theorem reduceInstanceRemovedHelper_creates {event : eventstore.Event} {s : handler.Statement}
    (h : reduceInstanceRemovedHelper IDPTemplateInstanceIDCol event = .ok s) :
    ∀ suffix values, crdb.Exec.create suffix values ∉ s.Execute := by
  obtain ⟨e, rfl⟩ := reduceInstanceRemovedHelper_accepts h
  simp only [reduceInstanceRemovedHelper, Except.ok.injEq] at h
  subst h
  intro suffix values
  simp [crdb.NewDeleteStatement]

/-! ## Shared lemmas: statements and the declared columns -/

theorem agrees_of_subset {x : crdb.Exec} {l : List String}
    (hl : declaredColumns x.suffix = some l) (h : x.columnNames ⊆ l) :
    x.agreesWithSchema = true := by
  simp only [crdb.Exec.agreesWithSchema, hl, List.all_eq_true]
  intro n hn
  simpa using h hn

theorem subset_of_optCols {l : List String} {cols : List handler.Column} {n : String} {α : Type}
    (field : Option α) (value : α → Value) (h : handler.namesOf cols ⊆ l) (hn : n ∈ l) :
    handler.namesOf (appendIfNotNil cols n field value) ⊆ l := by
  rw [appendIfNotNil_eq, namesOf_append]
  exact List.append_subset.2 ⟨h, namesOf_optCol_subset field value hn⟩

theorem namesOf_nil_subset (l : List String) : handler.namesOf [] ⊆ l := by
  simp [handler.namesOf]

theorem namesOf_templateColumns_subset (name : Option String) (creationDate sequence : Nat)
    (optionChanges : idp.OptionChanges) :
    handler.namesOf (reduceIDPChangedTemplateColumns name creationDate sequence optionChanges) ⊆
      ["id", "creation_date", "change_date", "sequence", "resource_owner", "instance_id",
        "state", "name", "owner_type", "type", "owner_removed", "is_creation_allowed",
        "is_linking_allowed", "is_auto_creation", "is_auto_update"] := by
  simp only [reduceIDPChangedTemplateColumns, namesOf_append]
  refine List.append_subset.2 ⟨?_, by simp [handler.namesOf, handler.NewCol,
    IDPTemplateChangeDateCol, IDPTemplateSequenceCol]⟩
  exact subset_of_optCols _ _ (subset_of_optCols _ _ (subset_of_optCols _ _
    (subset_of_optCols _ _ (subset_of_optCols _ _ (namesOf_nil_subset _) (by decide))
    (by decide)) (by decide)) (by decide)) (by decide)

theorem namesOf_OAuthColumns_subset (e : idp.OAuthIDPChangedEvent) :
    handler.namesOf (reduceOAuthIDPChangedColumns e) ⊆
      ["idp_id", "instance_id", "client_id", "client_secret", "authorization_endpoint",
        "token_endpoint", "user_endpoint", "scopes"] := by
  simp only [reduceOAuthIDPChangedColumns]
  exact subset_of_optCols _ _ (subset_of_optCols _ _ (subset_of_optCols _ _ (subset_of_optCols _ _
      (subset_of_optCols _ _ (subset_of_optCols _ _ (namesOf_nil_subset _) (by decide)) (by decide))
      (by decide)) (by decide)) (by decide)) (by decide)

theorem namesOf_OIDCColumns_subset (e : idp.OIDCIDPChangedEvent) :
    handler.namesOf (reduceOIDCIDPChangedColumns e) ⊆
      ["idp_id", "instance_id", "issuer", "client_id", "client_secret", "scopes"] := by
  simp only [reduceOIDCIDPChangedColumns]
  exact subset_of_optCols _ _ (subset_of_optCols _ _ (subset_of_optCols _ _ (subset_of_optCols _ _
      (namesOf_nil_subset _) (by decide)) (by decide)) (by decide)) (by decide)

theorem namesOf_JWTColumns_subset (e : idp.JWTIDPChangedEvent) :
    handler.namesOf (reduceJWTIDPChangedColumns e) ⊆
      ["idp_id", "instance_id", "issuer", "jwt_endpoint", "keys_endpoint", "header_name"] := by
  simp only [reduceJWTIDPChangedColumns]
  exact subset_of_optCols _ _ (subset_of_optCols _ _ (subset_of_optCols _ _ (subset_of_optCols _ _
      (namesOf_nil_subset _) (by decide)) (by decide)) (by decide)) (by decide)

theorem namesOf_GoogleColumns_subset (e : idp.GoogleIDPChangedEvent) :
    handler.namesOf (reduceGoogleIDPChangedColumns e) ⊆
      ["idp_id", "instance_id", "client_id", "client_secret", "scopes"] := by
  simp only [reduceGoogleIDPChangedColumns]
  exact subset_of_optCols _ _ (subset_of_optCols _ _ (subset_of_optCols _ _ (namesOf_nil_subset _)
      (by decide)) (by decide)) (by decide)

theorem namesOf_LDAPColumns_subset (e : idp.LDAPIDPChangedEvent) :
    handler.namesOf (reduceLDAPIDPChangedColumns e) ⊆
      ("idp_id" :: "instance_id" :: ldapFieldColumns) := by
  simp only [reduceLDAPIDPChangedColumns]
  exact subset_of_optCols _ _ (subset_of_optCols _ _ (subset_of_optCols _ _ (subset_of_optCols _ _
      (subset_of_optCols _ _ (subset_of_optCols _ _ (subset_of_optCols _ _ (subset_of_optCols _ _
      (subset_of_optCols _ _ (subset_of_optCols _ _ (subset_of_optCols _ _ (subset_of_optCols _ _
      (subset_of_optCols _ _ (subset_of_optCols _ _ (subset_of_optCols _ _ (subset_of_optCols _ _
      (subset_of_optCols _ _ (subset_of_optCols _ _ (subset_of_optCols _ _ (subset_of_optCols _ _
      (subset_of_optCols _ _ (namesOf_nil_subset _) (by decide)) (by decide)) (by decide)) (by
      decide)) (by decide)) (by decide)) (by decide)) (by decide)) (by decide)) (by decide)) (by
      decide)) (by decide)) (by decide)) (by decide)) (by decide)) (by decide)) (by decide)) (by
      decide)) (by decide)) (by decide)) (by decide)

theorem agrees_changed_unit {primary cols : List handler.Column}
    {c1 c2 : List handler.Condition} {suffix : String} {l1 l2 : List String}
    (hl1 : declaredColumns none = some l1) (h1 : handler.namesOf primary ⊆ l1)
    (h1c : c1.map (fun c => c.Name) ⊆ l1)
    (hl2 : declaredColumns (some suffix) = some l2) (h2 : handler.namesOf cols ⊆ l2)
    (h2c : c2.map (fun c => c.Name) ⊆ l2) :
    ∀ x ∈ (if cols.length > 0 then
        ([] ++ [crdb.AddUpdateStatement primary c1 []]) ++
          [crdb.AddUpdateStatement cols c2 [crdb.WithTableSuffix suffix]]
       else [] ++ [crdb.AddUpdateStatement primary c1 []]),
      x.agreesWithSchema = true := by
  have hp : (crdb.AddUpdateStatement primary c1 []).agreesWithSchema = true :=
    agrees_of_subset hl1 (List.append_subset.2 ⟨h1, h1c⟩)
  have hs : (crdb.AddUpdateStatement cols c2 [crdb.WithTableSuffix suffix]).agreesWithSchema =
      true :=
    agrees_of_subset hl2 (List.append_subset.2 ⟨h2, h2c⟩)
  intro x hx
  split at hx
  · simp only [List.nil_append, List.cons_append, List.mem_cons, List.mem_singleton,
      List.not_mem_nil, or_false] at hx
    rcases hx with rfl | rfl
    · exact hp
    · exact hs
  · simp only [List.nil_append, List.mem_singleton] at hx
    subst hx
    exact hp

theorem reduceOAuthIDPAdded_agrees {event : eventstore.Event} {s : handler.Statement}
    (h : reduceOAuthIDPAdded event = .ok s) : ∀ x ∈ s.Execute, x.agreesWithSchema = true := by
  obtain ⟨e, rfl | rfl⟩ := reduceOAuthIDPAdded_accepts h <;>
  · simp only [reduceOAuthIDPAdded, Except.ok.injEq] at h
    subst h
    intro x hx
    simp only [crdb.NewMultiStatement, List.mem_cons, List.mem_singleton, List.not_mem_nil,
      or_false] at hx
    rcases hx with rfl | rfl
    · exact agrees_of_subset declaredColumns_none (by
        simp [crdb.Exec.columnNames, crdb.AddCreateStatement, crdb.AddUpdateStatement,
            handler.namesOf, handler.NewCol, IDPTemplateIDCol, IDPTemplateCreationDateCol,
        IDPTemplateChangeDateCol, IDPTemplateSequenceCol, IDPTemplateResourceOwnerCol,
        IDPTemplateInstanceIDCol, IDPTemplateStateCol, IDPTemplateNameCol,
        IDPTemplateOwnerTypeCol, IDPTemplateTypeCol, IDPTemplateOwnerRemovedCol,
        IDPTemplateIsCreationAllowedCol, IDPTemplateIsLinkingAllowedCol,
        IDPTemplateIsAutoCreationCol, IDPTemplateIsAutoUpdateCol])
    · exact agrees_of_subset declaredColumns_oauth (by
        simp [crdb.Exec.columnNames, crdb.AddCreateStatement, crdb.AddUpdateStatement,
            handler.namesOf, handler.NewCol, OAuthIDCol, OAuthInstanceIDCol, OAuthClientIDCol,
        OAuthClientSecretCol, OAuthAuthorizationEndpointCol, OAuthTokenEndpointCol,
        OAuthUserEndpointCol, OAuthScopesCol])

theorem reduceOIDCIDPAdded_agrees {event : eventstore.Event} {s : handler.Statement}
    (h : reduceOIDCIDPAdded event = .ok s) : ∀ x ∈ s.Execute, x.agreesWithSchema = true := by
  obtain ⟨e, rfl | rfl⟩ := reduceOIDCIDPAdded_accepts h <;>
  · simp only [reduceOIDCIDPAdded, Except.ok.injEq] at h
    subst h
    intro x hx
    simp only [crdb.NewMultiStatement, List.mem_cons, List.mem_singleton, List.not_mem_nil,
      or_false] at hx
    rcases hx with rfl | rfl
    · exact agrees_of_subset declaredColumns_none (by
        simp [crdb.Exec.columnNames, crdb.AddCreateStatement, crdb.AddUpdateStatement,
            handler.namesOf, handler.NewCol, IDPTemplateIDCol, IDPTemplateCreationDateCol,
        IDPTemplateChangeDateCol, IDPTemplateSequenceCol, IDPTemplateResourceOwnerCol,
        IDPTemplateInstanceIDCol, IDPTemplateStateCol, IDPTemplateNameCol,
        IDPTemplateOwnerTypeCol, IDPTemplateTypeCol, IDPTemplateOwnerRemovedCol,
        IDPTemplateIsCreationAllowedCol, IDPTemplateIsLinkingAllowedCol,
        IDPTemplateIsAutoCreationCol, IDPTemplateIsAutoUpdateCol])
    · exact agrees_of_subset declaredColumns_oidc (by
        simp [crdb.Exec.columnNames, crdb.AddCreateStatement, crdb.AddUpdateStatement,
            handler.namesOf, handler.NewCol, OIDCIDCol, OIDCInstanceIDCol, OIDCIssuerCol,
        OIDCClientIDCol, OIDCClientSecretCol, OIDCScopesCol])

theorem reduceJWTIDPAdded_agrees {event : eventstore.Event} {s : handler.Statement}
    (h : reduceJWTIDPAdded event = .ok s) : ∀ x ∈ s.Execute, x.agreesWithSchema = true := by
  obtain ⟨e, rfl | rfl⟩ := reduceJWTIDPAdded_accepts h <;>
  · simp only [reduceJWTIDPAdded, Except.ok.injEq] at h
    subst h
    intro x hx
    simp only [crdb.NewMultiStatement, List.mem_cons, List.mem_singleton, List.not_mem_nil,
      or_false] at hx
    rcases hx with rfl | rfl
    · exact agrees_of_subset declaredColumns_none (by
        simp [crdb.Exec.columnNames, crdb.AddCreateStatement, crdb.AddUpdateStatement,
            handler.namesOf, handler.NewCol, IDPTemplateIDCol, IDPTemplateCreationDateCol,
        IDPTemplateChangeDateCol, IDPTemplateSequenceCol, IDPTemplateResourceOwnerCol,
        IDPTemplateInstanceIDCol, IDPTemplateStateCol, IDPTemplateNameCol,
        IDPTemplateOwnerTypeCol, IDPTemplateTypeCol, IDPTemplateOwnerRemovedCol,
        IDPTemplateIsCreationAllowedCol, IDPTemplateIsLinkingAllowedCol,
        IDPTemplateIsAutoCreationCol, IDPTemplateIsAutoUpdateCol])
    · exact agrees_of_subset declaredColumns_jwt (by
        simp [crdb.Exec.columnNames, crdb.AddCreateStatement, crdb.AddUpdateStatement,
            handler.namesOf, handler.NewCol, JWTIDCol, JWTInstanceIDCol, JWTIssuerCol,
        JWTEndpointCol, JWTKeysEndpointCol, JWTHeaderNameCol])

theorem reduceGoogleIDPAdded_agrees {event : eventstore.Event} {s : handler.Statement}
    (h : reduceGoogleIDPAdded event = .ok s) : ∀ x ∈ s.Execute, x.agreesWithSchema = true := by
  obtain ⟨e, rfl | rfl⟩ := reduceGoogleIDPAdded_accepts h <;>
  · simp only [reduceGoogleIDPAdded, Except.ok.injEq] at h
    subst h
    intro x hx
    simp only [crdb.NewMultiStatement, List.mem_cons, List.mem_singleton, List.not_mem_nil,
      or_false] at hx
    rcases hx with rfl | rfl
    · exact agrees_of_subset declaredColumns_none (by
        simp [crdb.Exec.columnNames, crdb.AddCreateStatement, crdb.AddUpdateStatement,
            handler.namesOf, handler.NewCol, IDPTemplateIDCol, IDPTemplateCreationDateCol,
        IDPTemplateChangeDateCol, IDPTemplateSequenceCol, IDPTemplateResourceOwnerCol,
        IDPTemplateInstanceIDCol, IDPTemplateStateCol, IDPTemplateNameCol,
        IDPTemplateOwnerTypeCol, IDPTemplateTypeCol, IDPTemplateOwnerRemovedCol,
        IDPTemplateIsCreationAllowedCol, IDPTemplateIsLinkingAllowedCol,
        IDPTemplateIsAutoCreationCol, IDPTemplateIsAutoUpdateCol])
    · exact agrees_of_subset declaredColumns_google (by
        simp [crdb.Exec.columnNames, crdb.AddCreateStatement, crdb.AddUpdateStatement,
            handler.namesOf, handler.NewCol, GoogleIDCol, GoogleInstanceIDCol, GoogleClientIDCol,
        GoogleClientSecretCol, GoogleScopesCol])

theorem reduceLDAPIDPAdded_agrees {event : eventstore.Event} {s : handler.Statement}
    (h : reduceLDAPIDPAdded event = .ok s) : ∀ x ∈ s.Execute, x.agreesWithSchema = true := by
  obtain ⟨e, rfl | rfl⟩ := reduceLDAPIDPAdded_accepts h <;>
  · simp only [reduceLDAPIDPAdded, Except.ok.injEq] at h
    subst h
    intro x hx
    simp only [crdb.NewMultiStatement, List.mem_cons, List.mem_singleton, List.not_mem_nil,
      or_false] at hx
    rcases hx with rfl | rfl
    · exact agrees_of_subset declaredColumns_none (by
        simp [crdb.Exec.columnNames, crdb.AddCreateStatement, crdb.AddUpdateStatement,
            handler.namesOf, handler.NewCol, IDPTemplateIDCol, IDPTemplateCreationDateCol,
        IDPTemplateChangeDateCol, IDPTemplateSequenceCol, IDPTemplateResourceOwnerCol,
        IDPTemplateInstanceIDCol, IDPTemplateStateCol, IDPTemplateNameCol,
        IDPTemplateOwnerTypeCol, IDPTemplateTypeCol, IDPTemplateOwnerRemovedCol,
        IDPTemplateIsCreationAllowedCol, IDPTemplateIsLinkingAllowedCol,
        IDPTemplateIsAutoCreationCol, IDPTemplateIsAutoUpdateCol])
    · exact agrees_of_subset declaredColumns_ldap (by
        simp [crdb.Exec.columnNames, crdb.AddCreateStatement, crdb.AddUpdateStatement,
            handler.namesOf, handler.NewCol, ldapFieldColumns, LDAPIDCol, LDAPInstanceIDCol,
            LDAPHostCol,
        LDAPPortCol, LDAPTlsCol, LDAPBaseDNCol, LDAPUserObjectClassCol,
        LDAPUserUniqueAttributeCol, LDAPAdminCol, LDAPPasswordCol, LDAPIDAttributeCol,
        LDAPFirstNameAttributeCol, LDAPLastNameAttributeCol, LDAPDisplayNameAttributeCol,
        LDAPNickNameAttributeCol, LDAPPreferredUsernameAttributeCol, LDAPEmailAttributeCol,
        LDAPEmailVerifiedAttributeCol, LDAPPhoneAttributeCol, LDAPPhoneVerifiedAttributeCol,
        LDAPPreferredLanguageAttributeCol, LDAPAvatarURLAttributeCol,
        LDAPProfileAttributeCol])

theorem reduceOAuthIDPChanged_agrees {event : eventstore.Event} {s : handler.Statement}
    (h : reduceOAuthIDPChanged event = .ok s) : ∀ x ∈ s.Execute, x.agreesWithSchema = true := by
  obtain ⟨e, rfl | rfl⟩ := reduceOAuthIDPChanged_accepts h <;>
  · simp only [reduceOAuthIDPChanged, Except.ok.injEq] at h
    subst h
    exact agrees_changed_unit declaredColumns_none (namesOf_templateColumns_subset _ _ _ _)
      (by simp [handler.NewCond, IDPTemplateIDCol, IDPTemplateInstanceIDCol])
      declaredColumns_oauth (namesOf_OAuthColumns_subset e)
      (by simp [handler.NewCond, OAuthIDCol, OAuthInstanceIDCol])

theorem reduceOIDCIDPChanged_agrees {event : eventstore.Event} {s : handler.Statement}
    (h : reduceOIDCIDPChanged event = .ok s) : ∀ x ∈ s.Execute, x.agreesWithSchema = true := by
  obtain ⟨e, rfl | rfl⟩ := reduceOIDCIDPChanged_accepts h <;>
  · simp only [reduceOIDCIDPChanged, Except.ok.injEq] at h
    subst h
    exact agrees_changed_unit declaredColumns_none (namesOf_templateColumns_subset _ _ _ _)
      (by simp [handler.NewCond, IDPTemplateIDCol, IDPTemplateInstanceIDCol])
      declaredColumns_oidc (namesOf_OIDCColumns_subset e)
      (by simp [handler.NewCond, OIDCIDCol, OIDCInstanceIDCol])

theorem reduceJWTIDPChanged_agrees {event : eventstore.Event} {s : handler.Statement}
    (h : reduceJWTIDPChanged event = .ok s) : ∀ x ∈ s.Execute, x.agreesWithSchema = true := by
  obtain ⟨e, rfl | rfl⟩ := reduceJWTIDPChanged_accepts h <;>
  · simp only [reduceJWTIDPChanged, Except.ok.injEq] at h
    subst h
    exact agrees_changed_unit declaredColumns_none (namesOf_templateColumns_subset _ _ _ _)
      (by simp [handler.NewCond, IDPTemplateIDCol, IDPTemplateInstanceIDCol])
      declaredColumns_jwt (namesOf_JWTColumns_subset e)
      (by simp [handler.NewCond, JWTIDCol, JWTInstanceIDCol])

theorem reduceGoogleIDPChanged_agrees {event : eventstore.Event} {s : handler.Statement}
    (h : reduceGoogleIDPChanged event = .ok s) : ∀ x ∈ s.Execute, x.agreesWithSchema = true := by
  obtain ⟨e, rfl | rfl⟩ := reduceGoogleIDPChanged_accepts h <;>
  · simp only [reduceGoogleIDPChanged, Except.ok.injEq] at h
    subst h
    exact agrees_changed_unit declaredColumns_none (namesOf_templateColumns_subset _ _ _ _)
      (by simp [handler.NewCond, IDPTemplateIDCol, IDPTemplateInstanceIDCol])
      declaredColumns_google (namesOf_GoogleColumns_subset e)
      (by simp [handler.NewCond, GoogleIDCol, GoogleInstanceIDCol])

theorem reduceLDAPIDPChanged_agrees {event : eventstore.Event} {s : handler.Statement}
    (h : reduceLDAPIDPChanged event = .ok s) : ∀ x ∈ s.Execute, x.agreesWithSchema = true := by
  obtain ⟨e, rfl | rfl⟩ := reduceLDAPIDPChanged_accepts h <;>
  · simp only [reduceLDAPIDPChanged, Except.ok.injEq] at h
    subst h
    exact agrees_changed_unit declaredColumns_none (namesOf_templateColumns_subset _ _ _ _)
      (by simp [handler.NewCond, IDPTemplateIDCol, IDPTemplateInstanceIDCol])
      declaredColumns_ldap (namesOf_LDAPColumns_subset e)
      (by simp [handler.NewCond, LDAPIDCol, LDAPInstanceIDCol])

theorem reduceOldOIDCConfigChanged_agrees {event : eventstore.Event} {s : handler.Statement}
    (h : reduceOldOIDCConfigChanged event = .ok s) :
    ∀ x ∈ s.Execute, x.agreesWithSchema = true := by
  obtain ⟨e, rfl | rfl⟩ := reduceOldOIDCConfigChanged_accepts h <;>
  · simp only [reduceOldOIDCConfigChanged, Except.ok.injEq] at h
    subst h
    exact agrees_changed_unit declaredColumns_none
      (by simp [handler.namesOf, handler.NewCol, IDPTemplateChangeDateCol,
        IDPTemplateSequenceCol])
      (by simp [handler.NewCond, IDPTemplateIDCol, IDPTemplateInstanceIDCol])
      declaredColumns_oidc
      (subset_of_optCols _ _ (subset_of_optCols _ _ (subset_of_optCols _ _ (subset_of_optCols _ _
          (namesOf_nil_subset _) (by decide)) (by decide)) (by decide)) (by decide))
      (by simp [handler.NewCond, OIDCIDCol, OIDCInstanceIDCol])

theorem reduceOldOIDCConfigAdded_agrees {event : eventstore.Event} {s : handler.Statement}
    (h : reduceOldOIDCConfigAdded event = .ok s) :
    ∀ x ∈ s.Execute, x.agreesWithSchema = true := by
  obtain ⟨e, rfl | rfl⟩ := reduceOldOIDCConfigAdded_accepts h <;>
  · simp only [reduceOldOIDCConfigAdded, Except.ok.injEq] at h
    subst h
    intro x hx
    simp only [crdb.NewMultiStatement, List.mem_cons, List.mem_singleton, List.not_mem_nil,
      or_false] at hx
    rcases hx with rfl | rfl
    · exact agrees_of_subset declaredColumns_none (by
        simp [crdb.Exec.columnNames, crdb.AddCreateStatement, crdb.AddUpdateStatement,
            handler.namesOf, handler.NewCol, handler.NewCond,
          IDPTemplateChangeDateCol, IDPTemplateSequenceCol, IDPTemplateTypeCol,
          IDPTemplateIDCol, IDPTemplateInstanceIDCol])
    · exact agrees_of_subset declaredColumns_oidc (by
        simp [crdb.Exec.columnNames, crdb.AddCreateStatement, crdb.AddUpdateStatement,
            handler.namesOf, handler.NewCol, OIDCIDCol, OIDCInstanceIDCol, OIDCIssuerCol,
        OIDCClientIDCol, OIDCClientSecretCol, OIDCScopesCol])

theorem reduceOldJWTConfigChanged_agrees {event : eventstore.Event} {s : handler.Statement}
    (h : reduceOldJWTConfigChanged event = .ok s) :
    ∀ x ∈ s.Execute, x.agreesWithSchema = true := by
  obtain ⟨e, rfl | rfl⟩ := reduceOldJWTConfigChanged_accepts h <;>
  · simp only [reduceOldJWTConfigChanged, Except.ok.injEq] at h
    subst h
    exact agrees_changed_unit declaredColumns_none
      (by simp [handler.namesOf, handler.NewCol, IDPTemplateChangeDateCol,
        IDPTemplateSequenceCol])
      (by simp [handler.NewCond, IDPTemplateIDCol, IDPTemplateInstanceIDCol])
      declaredColumns_jwt
      (subset_of_optCols _ _ (subset_of_optCols _ _ (subset_of_optCols _ _ (subset_of_optCols _ _
          (namesOf_nil_subset _) (by decide)) (by decide)) (by decide)) (by decide))
      (by simp [handler.NewCond, JWTIDCol, JWTInstanceIDCol])

theorem reduceOldJWTConfigAdded_agrees {event : eventstore.Event} {s : handler.Statement}
    (h : reduceOldJWTConfigAdded event = .ok s) :
    ∀ x ∈ s.Execute, x.agreesWithSchema = true := by
  obtain ⟨e, rfl | rfl⟩ := reduceOldJWTConfigAdded_accepts h <;>
  · simp only [reduceOldJWTConfigAdded, Except.ok.injEq] at h
    subst h
    intro x hx
    simp only [crdb.NewMultiStatement, List.mem_cons, List.mem_singleton, List.not_mem_nil,
      or_false] at hx
    rcases hx with rfl | rfl
    · exact agrees_of_subset declaredColumns_none (by
        simp [crdb.Exec.columnNames, crdb.AddCreateStatement, crdb.AddUpdateStatement,
            handler.namesOf, handler.NewCol, handler.NewCond,
          IDPTemplateChangeDateCol, IDPTemplateSequenceCol, IDPTemplateTypeCol,
          IDPTemplateIDCol, IDPTemplateInstanceIDCol])
    · exact agrees_of_subset declaredColumns_jwt (by
        simp [crdb.Exec.columnNames, crdb.AddCreateStatement, crdb.AddUpdateStatement,
            handler.namesOf, handler.NewCol, JWTIDCol, JWTInstanceIDCol, JWTIssuerCol,
        JWTEndpointCol, JWTKeysEndpointCol, JWTHeaderNameCol])

theorem reduceOldConfigAdded_agrees {event : eventstore.Event} {s : handler.Statement}
    (h : reduceOldConfigAdded event = .ok s) : ∀ x ∈ s.Execute, x.agreesWithSchema = true := by
  obtain ⟨e, rfl | rfl⟩ := reduceOldConfigAdded_accepts h <;>
  · simp only [reduceOldConfigAdded, Except.ok.injEq] at h
    subst h
    intro x hx
    simp only [crdb.NewCreateStatement, List.mem_singleton] at hx
    subst hx
    exact agrees_of_subset declaredColumns_none (by
      simp [crdb.Exec.columnNames, crdb.AddCreateStatement, crdb.AddUpdateStatement,
          handler.namesOf, handler.NewCol, IDPTemplateIDCol, IDPTemplateCreationDateCol,
        IDPTemplateChangeDateCol, IDPTemplateSequenceCol, IDPTemplateResourceOwnerCol,
        IDPTemplateInstanceIDCol, IDPTemplateStateCol, IDPTemplateNameCol,
        IDPTemplateOwnerTypeCol, IDPTemplateTypeCol, IDPTemplateOwnerRemovedCol,
        IDPTemplateIsCreationAllowedCol, IDPTemplateIsLinkingAllowedCol,
        IDPTemplateIsAutoCreationCol, IDPTemplateIsAutoUpdateCol])

theorem reduceIDPRemoved_agrees {event : eventstore.Event} {s : handler.Statement}
    (h : reduceIDPRemoved event = .ok s) : ∀ x ∈ s.Execute, x.agreesWithSchema = true := by
  obtain ⟨e, rfl | rfl⟩ := reduceIDPRemoved_accepts h <;>
  · simp only [reduceIDPRemoved, Except.ok.injEq] at h
    subst h
    intro x hx
    simp only [crdb.NewDeleteStatement, List.mem_singleton] at hx
    subst hx
    exact agrees_of_subset declaredColumns_none (by
      simp [crdb.Exec.columnNames, crdb.AddCreateStatement, crdb.AddUpdateStatement,
          handler.NewCond, IDPTemplateIDCol, IDPTemplateInstanceIDCol])

theorem reduceOwnerRemoved_agrees {event : eventstore.Event} {s : handler.Statement}
    (h : reduceOwnerRemoved event = .ok s) : ∀ x ∈ s.Execute, x.agreesWithSchema = true := by
  obtain ⟨e, rfl⟩ := reduceOwnerRemoved_accepts h
  simp only [reduceOwnerRemoved, Except.ok.injEq] at h
  subst h
  intro x hx
  simp only [crdb.NewUpdateStatement, List.mem_singleton] at hx
  subst hx
  exact agrees_of_subset declaredColumns_none (by
    simp [crdb.Exec.columnNames, crdb.AddCreateStatement, crdb.AddUpdateStatement, handler.namesOf,
        handler.NewCol, handler.NewCond,
      IDPTemplateChangeDateCol, IDPTemplateSequenceCol, IDPTemplateOwnerRemovedCol,
      IDPTemplateInstanceIDCol, IDPTemplateResourceOwnerCol])

theorem reduceInstanceRemovedHelper_agrees {event : eventstore.Event} {s : handler.Statement}
    (h : reduceInstanceRemovedHelper IDPTemplateInstanceIDCol event = .ok s) :
    ∀ x ∈ s.Execute, x.agreesWithSchema = true := by
  obtain ⟨e, rfl⟩ := reduceInstanceRemovedHelper_accepts h
  simp only [reduceInstanceRemovedHelper, Except.ok.injEq] at h
  subst h
  intro x hx
  simp only [crdb.NewDeleteStatement, List.mem_singleton] at hx
  subst hx
  exact agrees_of_subset declaredColumns_none (by
    simp [crdb.Exec.columnNames, crdb.AddCreateStatement, crdb.AddUpdateStatement, handler.NewCond,
        IDPTemplateInstanceIDCol])

/-- Every statement of every reducer but `reduceOldConfigChanged` targets a declared table
and uses only columns the schema declares for it. -/
theorem agrees_of_reducer {r : handler.Reduce} (hr : r ∈ tableReducers)
    (hne : r ≠ reduceOldConfigChanged) {event : eventstore.Event} {s : handler.Statement}
    (h : r event = .ok s) : ∀ x ∈ s.Execute, x.agreesWithSchema = true := by
  rcases tableReducers_cases hr with rfl | rfl | rfl | rfl | rfl | rfl | rfl | rfl | rfl | rfl |
    rfl | rfl | rfl | rfl | rfl | rfl | rfl | rfl | rfl
  · exact reduceOAuthIDPAdded_agrees h
  · exact reduceOAuthIDPChanged_agrees h
  · exact reduceOIDCIDPAdded_agrees h
  · exact reduceOIDCIDPChanged_agrees h
  · exact reduceJWTIDPAdded_agrees h
  · exact reduceJWTIDPChanged_agrees h
  · exact reduceOldConfigAdded_agrees h
  · exact absurd rfl hne
  · exact reduceOldOIDCConfigAdded_agrees h
  · exact reduceOldOIDCConfigChanged_agrees h
  · exact reduceOldJWTConfigAdded_agrees h
  · exact reduceOldJWTConfigChanged_agrees h
  · exact reduceGoogleIDPAdded_agrees h
  · exact reduceGoogleIDPChanged_agrees h
  · exact reduceLDAPIDPAdded_agrees h
  · exact reduceLDAPIDPChanged_agrees h
  · exact reduceIDPRemoved_agrees h
  · exact reduceOwnerRemoved_agrees h
  · exact reduceInstanceRemovedHelper_agrees h

/-! ## Shared lemmas: statements scoped to one instance -/

theorem Row.ofColumns_of_valuesOf {values : List handler.Column} {name : String} {v : Value}
    (h : handler.valuesOf values name = [v]) : Row.ofColumns values name = some v := by
  induction values with
  | nil => simp [handler.valuesOf] at h
  | cons c cs ih =>
    by_cases hc : c.Name = name
    · simp only [handler.valuesOf, List.filter_cons, hc, beq_self_eq_true, if_true,
        List.map_cons, List.cons.injEq] at h
      simp [Row.ofColumns, List.find?_cons, hc, h.1]
    · have hb : (c.Name == name) = false := beq_eq_false_iff_ne.2 hc
      simp only [handler.valuesOf, List.filter_cons, hb] at h
      have := ih h
      simpa [Row.ofColumns, List.find?_cons, hb] using this

theorem Row.satisfies_of_mem {row : Row} {conditions : List handler.Condition}
    {c : handler.Condition} (hc : c ∈ conditions) (h : row.satisfies conditions = true) :
    row c.Name = some c.Value := by
  simp only [Row.satisfies, List.all_eq_true, beq_iff_eq] at h
  exact h c hc

theorem not_mem_of_keepsIdentity {suffix : Option String} {values : List handler.Column}
    {conditions : List handler.Condition} {name : String}
    (h : (crdb.Exec.update suffix values conditions).keepsIdentity = true)
    (hn : name ∈ identityColumns suffix) : name ∉ handler.namesOf values := by
  intro hmem
  simp only [handler.namesOf, List.mem_map] at hmem
  obtain ⟨c, hc, rfl⟩ := hmem
  simp only [crdb.Exec.keepsIdentity, List.all_eq_true] at h
  have := h c hc
  simp [hn] at this

theorem instance_id_mem_identityColumns (suffix : Option String) :
    "instance_id" ∈ identityColumns suffix := by
  cases suffix <;> simp [identityColumns]

theorem StoredRow.key_head {p r : StoredRow} (hp : p.suffix = none) (h : p.key = r.key) :
    r.row "instance_id" = p.row "instance_id" := by
  rw [StoredRow.key_primary hp] at h
  simp only [StoredRow.key] at h
  rcases primaryKeyOf_cases r.suffix with hk | hk | hk <;> rw [hk] at h <;> simp at h
  · exact h.1.symm
  · exact h.1.symm

theorem frame_create {t t' : Tables} {suffix : Option String} {values : List handler.Column}
    {inst : String} (hs : (crdb.Exec.create suffix values).scopedTo inst)
    (h : applyExec t (.create suffix values) = some t') :
    t'.ofOtherInstances inst = t.ofOtherInstances inst := by
  rw [applyExec_create_eq h]
  have hrow : Row.ofColumns values "instance_id" = some (.text inst) :=
    Row.ofColumns_of_valuesOf hs
  simp [Tables.ofOtherInstances, List.filter_append, StoredRow.ofOtherInstance, hrow]

theorem frame_update (t : Tables) {suffix : Option String} {values : List handler.Column}
    {conditions : List handler.Condition} {inst : String}
    (hs : (crdb.Exec.update suffix values conditions).scopedTo inst)
    (hk : (crdb.Exec.update suffix values conditions).keepsIdentity = true) :
    Tables.ofOtherInstances (t.map (StoredRow.update suffix values conditions)) inst =
      t.ofOtherInstances inst := by
  have hn : "instance_id" ∉ handler.namesOf values :=
    not_mem_of_keepsIdentity hk (instance_id_mem_identityColumns suffix)
  induction t with
  | nil => rfl
  | cons r rs ih =>
    simp only [Tables.ofOtherInstances, List.map_cons, List.filter_cons] at ih ⊢
    have hsame : StoredRow.ofOtherInstance inst (r.update suffix values conditions) =
        StoredRow.ofOtherInstance inst r := by
      simp only [StoredRow.ofOtherInstance, StoredRow.update_row_of_not_mem r hn]
    rw [hsame, ih]
    by_cases ho : StoredRow.ofOtherInstance inst r = true
    · have hkeep : r.update suffix values conditions = r := by
        unfold StoredRow.update
        split
        · rename_i hhit
          simp only [Bool.and_eq_true] at hhit
          have := Row.satisfies_of_mem hs hhit.2
          simp [StoredRow.ofOtherInstance, handler.NewCond] at ho this
          exact absurd this ho
        · rfl
      simp [ho, hkeep]
    · simp [ho]

theorem frame_delete (t : Tables) {suffix : Option String}
    {conditions : List handler.Condition} {inst : String}
    (hs : (crdb.Exec.delete suffix conditions).scopedTo inst) :
    Tables.ofOtherInstances (t.filter (fun r => !t.removes suffix conditions r)) inst =
      t.ofOtherInstances inst := by
  simp only [Tables.ofOtherInstances, List.filter_filter]
  apply List.filter_congr
  intro r _
  by_cases ho : StoredRow.ofOtherInstance inst r = true
  · have hne : r.row "instance_id" ≠ some (.text inst) := by
      simpa [StoredRow.ofOtherInstance] using ho
    have hhit : ∀ p : StoredRow, p.hit suffix conditions = true →
        p.row "instance_id" = some (.text inst) := by
      intro p hp
      simp only [StoredRow.hit, Bool.and_eq_true] at hp
      exact Row.satisfies_of_mem hs hp.2
    have hrem : t.removes suffix conditions r = false := by
      apply Bool.eq_false_iff.2
      intro hrem
      simp only [Tables.removes, Bool.or_eq_true, List.any_eq_true, Bool.and_eq_true] at hrem
      rcases hrem with hr | ⟨p, _, hp, hown⟩
      · exact hne (hhit r hr)
      · have := StoredRow.key_head (StoredRow.owns_suffix hown) (StoredRow.owns_key hown)
        exact hne (this.trans (hhit p hp))
    simp [ho, hrem]
  · simp [ho]

theorem frame_applyExec {t t' : Tables} {x : crdb.Exec} {inst : String}
    (hs : x.scopedTo inst) (hk : x.keepsIdentity = true) (h : applyExec t x = some t') :
    t'.ofOtherInstances inst = t.ofOtherInstances inst := by
  cases x with
  | create suffix values => exact frame_create hs h
  | update suffix values conditions =>
    rw [applyExec_update] at h
    cases h
    exact frame_update t hs hk
  | delete suffix conditions =>
    rw [applyExec_delete] at h
    cases h
    exact frame_delete t hs

theorem frame_applyExecs {xs : List crdb.Exec} {inst : String}
    (hs : ∀ x ∈ xs, x.scopedTo inst ∧ x.keepsIdentity = true) {t t' : Tables}
    (h : applyExecs t xs = some t') :
    t'.ofOtherInstances inst = t.ofOtherInstances inst := by
  induction xs generalizing t with
  | nil =>
    simp only [applyExecs, Option.some.injEq] at h
    rw [h]
  | cons x xs ih =>
    simp only [applyExecs] at h
    cases h1 : applyExec t x with
    | none => simp [h1] at h
    | some t1 =>
      simp only [h1] at h
      rw [ih (fun y hy => hs y (List.mem_cons_of_mem _ hy)) h]
      exact frame_applyExec (hs x (List.mem_cons_self _ _)).1 (hs x (List.mem_cons_self _ _)).2 h1

theorem frame_applyStatement {s : handler.Statement} {inst : String}
    (hs : ∀ x ∈ s.Execute, x.scopedTo inst ∧ x.keepsIdentity = true) (t : Tables) :
    (applyStatement t s).ofOtherInstances inst = t.ofOtherInstances inst := by
  cases h : applyExecs t s.Execute with
  | none => simp [applyStatement, h]
  | some t' =>
    simp only [applyStatement, h, Option.getD_some]
    exact frame_applyExecs hs h

/-! ## Shared lemmas: every unit is scoped to the instance of its event -/

theorem keepsIdentity_primary {values : List handler.Column}
    {conditions : List handler.Condition}
    (h : handler.namesOf values ⊆
      ["name", "is_creation_allowed", "is_linking_allowed", "is_auto_creation", "is_auto_update",
        "change_date", "sequence", "type", "owner_removed"]) :
    (crdb.Exec.update none values conditions).keepsIdentity = true := by
  simp only [crdb.Exec.keepsIdentity, List.all_eq_true]
  intro c hc
  have hm := h (List.mem_map_of_mem (fun c => c.Name) hc)
  simp only [List.mem_cons, List.mem_singleton, List.not_mem_nil, or_false] at hm
  rcases hm with hm | hm | hm | hm | hm | hm | hm | hm | hm <;> rw [hm] <;> decide

theorem keepsIdentity_satellite {suffix : String} {values : List handler.Column}
    {conditions : List handler.Condition} (h : avoidsProtected values = true) :
    (crdb.Exec.update (some suffix) values conditions).keepsIdentity = true := by
  simp only [crdb.Exec.keepsIdentity, List.all_eq_true]
  intro c hc
  have h1 := not_mem_namesOf_of_avoidsProtected h (by decide : "idp_id" ∈ protectedColumns)
  have h2 := not_mem_namesOf_of_avoidsProtected h (by decide : "instance_id" ∈ protectedColumns)
  have hm : c.Name ∈ handler.namesOf values := List.mem_map_of_mem (fun c => c.Name) hc
  have n1 : c.Name ≠ "idp_id" := fun he => h1 (he ▸ hm)
  have n2 : c.Name ≠ "instance_id" := fun he => h2 (he ▸ hm)
  simp [identityColumns, n1, n2]

theorem namesOf_templateColumns_mutable (name : Option String) (creationDate sequence : Nat)
    (optionChanges : idp.OptionChanges) :
    handler.namesOf (reduceIDPChangedTemplateColumns name creationDate sequence optionChanges) ⊆
      ["name", "is_creation_allowed", "is_linking_allowed", "is_auto_creation", "is_auto_update",
        "change_date", "sequence", "type", "owner_removed"] := by
  simp only [reduceIDPChangedTemplateColumns, namesOf_append]
  refine List.append_subset.2 ⟨?_, by simp [handler.namesOf, handler.NewCol,
    IDPTemplateChangeDateCol, IDPTemplateSequenceCol]⟩
  exact subset_of_optCols _ _ (subset_of_optCols _ _ (subset_of_optCols _ _
    (subset_of_optCols _ _ (subset_of_optCols _ _ (namesOf_nil_subset _) (by decide))
    (by decide)) (by decide)) (by decide)) (by decide)

theorem isolated_changed_unit {primary cols : List handler.Column}
    {c1 c2 : List handler.Condition} {suffix inst : String}
    (h1 : handler.namesOf primary ⊆
      ["name", "is_creation_allowed", "is_linking_allowed", "is_auto_creation", "is_auto_update",
        "change_date", "sequence", "type", "owner_removed"])
    (hc1 : handler.NewCond "instance_id" (.text inst) ∈ c1)
    (h2 : avoidsProtected cols = true)
    (hc2 : handler.NewCond "instance_id" (.text inst) ∈ c2) :
    ∀ x ∈ (if cols.length > 0 then
        ([] ++ [crdb.AddUpdateStatement primary c1 []]) ++
          [crdb.AddUpdateStatement cols c2 [crdb.WithTableSuffix suffix]]
       else [] ++ [crdb.AddUpdateStatement primary c1 []]),
      x.scopedTo inst ∧ x.keepsIdentity = true := by
  have hp : (crdb.AddUpdateStatement primary c1 []).scopedTo inst ∧
      (crdb.AddUpdateStatement primary c1 []).keepsIdentity = true :=
    ⟨hc1, keepsIdentity_primary h1⟩
  have hs : (crdb.AddUpdateStatement cols c2 [crdb.WithTableSuffix suffix]).scopedTo inst ∧
      (crdb.AddUpdateStatement cols c2 [crdb.WithTableSuffix suffix]).keepsIdentity = true :=
    ⟨hc2, keepsIdentity_satellite h2⟩
  intro x hx
  split at hx
  · simp only [List.nil_append, List.cons_append, List.mem_cons, List.mem_singleton,
      List.not_mem_nil, or_false] at hx
    rcases hx with rfl | rfl
    · exact hp
    · exact hs
  · simp only [List.nil_append, List.mem_singleton] at hx
    subst hx
    exact hp

theorem reduceOAuthIDPAdded_isolated {event : eventstore.Event} {s : handler.Statement}
    (h : reduceOAuthIDPAdded event = .ok s) :
    ∀ x ∈ s.Execute, x.scopedTo event.toBaseEvent.Aggregate.InstanceID ∧
      x.keepsIdentity = true := by
  obtain ⟨e, rfl | rfl⟩ := reduceOAuthIDPAdded_accepts h <;>
  · simp only [reduceOAuthIDPAdded, Except.ok.injEq] at h
    subst h
    intro x hx
    simp only [crdb.NewMultiStatement, List.mem_cons, List.mem_singleton, List.not_mem_nil,
      or_false] at hx
    rcases hx with rfl | rfl
    · exact ⟨rfl, rfl⟩
    · exact ⟨rfl, rfl⟩

theorem reduceOIDCIDPAdded_isolated {event : eventstore.Event} {s : handler.Statement}
    (h : reduceOIDCIDPAdded event = .ok s) :
    ∀ x ∈ s.Execute, x.scopedTo event.toBaseEvent.Aggregate.InstanceID ∧
      x.keepsIdentity = true := by
  obtain ⟨e, rfl | rfl⟩ := reduceOIDCIDPAdded_accepts h <;>
  · simp only [reduceOIDCIDPAdded, Except.ok.injEq] at h
    subst h
    intro x hx
    simp only [crdb.NewMultiStatement, List.mem_cons, List.mem_singleton, List.not_mem_nil,
      or_false] at hx
    rcases hx with rfl | rfl
    · exact ⟨rfl, rfl⟩
    · exact ⟨rfl, rfl⟩

theorem reduceJWTIDPAdded_isolated {event : eventstore.Event} {s : handler.Statement}
    (h : reduceJWTIDPAdded event = .ok s) :
    ∀ x ∈ s.Execute, x.scopedTo event.toBaseEvent.Aggregate.InstanceID ∧
      x.keepsIdentity = true := by
  obtain ⟨e, rfl | rfl⟩ := reduceJWTIDPAdded_accepts h <;>
  · simp only [reduceJWTIDPAdded, Except.ok.injEq] at h
    subst h
    intro x hx
    simp only [crdb.NewMultiStatement, List.mem_cons, List.mem_singleton, List.not_mem_nil,
      or_false] at hx
    rcases hx with rfl | rfl
    · exact ⟨rfl, rfl⟩
    · exact ⟨rfl, rfl⟩

theorem reduceGoogleIDPAdded_isolated {event : eventstore.Event} {s : handler.Statement}
    (h : reduceGoogleIDPAdded event = .ok s) :
    ∀ x ∈ s.Execute, x.scopedTo event.toBaseEvent.Aggregate.InstanceID ∧
      x.keepsIdentity = true := by
  obtain ⟨e, rfl | rfl⟩ := reduceGoogleIDPAdded_accepts h <;>
  · simp only [reduceGoogleIDPAdded, Except.ok.injEq] at h
    subst h
    intro x hx
    simp only [crdb.NewMultiStatement, List.mem_cons, List.mem_singleton, List.not_mem_nil,
      or_false] at hx
    rcases hx with rfl | rfl
    · exact ⟨rfl, rfl⟩
    · exact ⟨rfl, rfl⟩

theorem reduceLDAPIDPAdded_isolated {event : eventstore.Event} {s : handler.Statement}
    (h : reduceLDAPIDPAdded event = .ok s) :
    ∀ x ∈ s.Execute, x.scopedTo event.toBaseEvent.Aggregate.InstanceID ∧
      x.keepsIdentity = true := by
  obtain ⟨e, rfl | rfl⟩ := reduceLDAPIDPAdded_accepts h <;>
  · simp only [reduceLDAPIDPAdded, Except.ok.injEq] at h
    subst h
    intro x hx
    simp only [crdb.NewMultiStatement, List.mem_cons, List.mem_singleton, List.not_mem_nil,
      or_false] at hx
    rcases hx with rfl | rfl
    · exact ⟨rfl, rfl⟩
    · exact ⟨rfl, rfl⟩

theorem reduceOAuthIDPChanged_isolated {event : eventstore.Event} {s : handler.Statement}
    (h : reduceOAuthIDPChanged event = .ok s) :
    ∀ x ∈ s.Execute, x.scopedTo event.toBaseEvent.Aggregate.InstanceID ∧
      x.keepsIdentity = true := by
  obtain ⟨e, rfl | rfl⟩ := reduceOAuthIDPChanged_accepts h <;>
  · simp only [reduceOAuthIDPChanged, Except.ok.injEq] at h
    subst h
    exact isolated_changed_unit (namesOf_templateColumns_mutable _ _ _ _)
      (List.mem_cons_of_mem _ (List.mem_cons_self _ _)) (avoidsProtected_OAuthColumns e)
      (List.mem_cons_of_mem _ (List.mem_cons_self _ _))

theorem reduceOIDCIDPChanged_isolated {event : eventstore.Event} {s : handler.Statement}
    (h : reduceOIDCIDPChanged event = .ok s) :
    ∀ x ∈ s.Execute, x.scopedTo event.toBaseEvent.Aggregate.InstanceID ∧
      x.keepsIdentity = true := by
  obtain ⟨e, rfl | rfl⟩ := reduceOIDCIDPChanged_accepts h <;>
  · simp only [reduceOIDCIDPChanged, Except.ok.injEq] at h
    subst h
    exact isolated_changed_unit (namesOf_templateColumns_mutable _ _ _ _)
      (List.mem_cons_of_mem _ (List.mem_cons_self _ _)) (avoidsProtected_OIDCColumns e)
      (List.mem_cons_of_mem _ (List.mem_cons_self _ _))

theorem reduceJWTIDPChanged_isolated {event : eventstore.Event} {s : handler.Statement}
    (h : reduceJWTIDPChanged event = .ok s) :
    ∀ x ∈ s.Execute, x.scopedTo event.toBaseEvent.Aggregate.InstanceID ∧
      x.keepsIdentity = true := by
  obtain ⟨e, rfl | rfl⟩ := reduceJWTIDPChanged_accepts h <;>
  · simp only [reduceJWTIDPChanged, Except.ok.injEq] at h
    subst h
    exact isolated_changed_unit (namesOf_templateColumns_mutable _ _ _ _)
      (List.mem_cons_of_mem _ (List.mem_cons_self _ _)) (avoidsProtected_JWTColumns e)
      (List.mem_cons_of_mem _ (List.mem_cons_self _ _))

theorem reduceGoogleIDPChanged_isolated {event : eventstore.Event} {s : handler.Statement}
    (h : reduceGoogleIDPChanged event = .ok s) :
    ∀ x ∈ s.Execute, x.scopedTo event.toBaseEvent.Aggregate.InstanceID ∧
      x.keepsIdentity = true := by
  obtain ⟨e, rfl | rfl⟩ := reduceGoogleIDPChanged_accepts h <;>
  · simp only [reduceGoogleIDPChanged, Except.ok.injEq] at h
    subst h
    exact isolated_changed_unit (namesOf_templateColumns_mutable _ _ _ _)
      (List.mem_cons_of_mem _ (List.mem_cons_self _ _)) (avoidsProtected_GoogleColumns e)
      (List.mem_cons_of_mem _ (List.mem_cons_self _ _))

theorem reduceLDAPIDPChanged_isolated {event : eventstore.Event} {s : handler.Statement}
    (h : reduceLDAPIDPChanged event = .ok s) :
    ∀ x ∈ s.Execute, x.scopedTo event.toBaseEvent.Aggregate.InstanceID ∧
      x.keepsIdentity = true := by
  obtain ⟨e, rfl | rfl⟩ := reduceLDAPIDPChanged_accepts h <;>
  · simp only [reduceLDAPIDPChanged, Except.ok.injEq] at h
    subst h
    exact isolated_changed_unit (namesOf_templateColumns_mutable _ _ _ _)
      (List.mem_cons_of_mem _ (List.mem_cons_self _ _)) (avoidsProtected_LDAPColumns e)
      (List.mem_cons_of_mem _ (List.mem_cons_self _ _))

theorem reduceOldOIDCConfigChanged_isolated {event : eventstore.Event} {s : handler.Statement}
    (h : reduceOldOIDCConfigChanged event = .ok s) :
    ∀ x ∈ s.Execute, x.scopedTo event.toBaseEvent.Aggregate.InstanceID ∧
      x.keepsIdentity = true := by
  obtain ⟨e, rfl | rfl⟩ := reduceOldOIDCConfigChanged_accepts h <;>
  · simp only [reduceOldOIDCConfigChanged, Except.ok.injEq] at h
    subst h
    exact isolated_changed_unit
      (by simp [handler.namesOf, handler.NewCol, IDPTemplateChangeDateCol,
        IDPTemplateSequenceCol])
      (List.mem_cons_of_mem _ (List.mem_cons_self _ _))
      (by simp [avoidsProtected_appendIfNotNil, avoidsProtected_nil, protectedColumns,
        OIDCIDCol, OIDCInstanceIDCol, OIDCIssuerCol, OIDCClientIDCol, OIDCClientSecretCol,
        OIDCScopesCol])
      (List.mem_cons_of_mem _ (List.mem_cons_self _ _))

theorem reduceOldOIDCConfigAdded_isolated {event : eventstore.Event} {s : handler.Statement}
    (h : reduceOldOIDCConfigAdded event = .ok s) :
    ∀ x ∈ s.Execute, x.scopedTo event.toBaseEvent.Aggregate.InstanceID ∧
      x.keepsIdentity = true := by
  obtain ⟨e, rfl | rfl⟩ := reduceOldOIDCConfigAdded_accepts h <;>
  · simp only [reduceOldOIDCConfigAdded, Except.ok.injEq] at h
    subst h
    intro x hx
    simp only [crdb.NewMultiStatement, List.mem_cons, List.mem_singleton, List.not_mem_nil,
      or_false] at hx
    rcases hx with rfl | rfl
    · exact ⟨List.mem_cons_of_mem _ (List.mem_cons_self _ _), rfl⟩
    · exact ⟨rfl, rfl⟩

theorem reduceOldJWTConfigChanged_isolated {event : eventstore.Event} {s : handler.Statement}
    (h : reduceOldJWTConfigChanged event = .ok s) :
    ∀ x ∈ s.Execute, x.scopedTo event.toBaseEvent.Aggregate.InstanceID ∧
      x.keepsIdentity = true := by
  obtain ⟨e, rfl | rfl⟩ := reduceOldJWTConfigChanged_accepts h <;>
  · simp only [reduceOldJWTConfigChanged, Except.ok.injEq] at h
    subst h
    exact isolated_changed_unit
      (by simp [handler.namesOf, handler.NewCol, IDPTemplateChangeDateCol,
        IDPTemplateSequenceCol])
      (List.mem_cons_of_mem _ (List.mem_cons_self _ _))
      (by simp [avoidsProtected_appendIfNotNil, avoidsProtected_nil, protectedColumns,
        JWTIDCol, JWTInstanceIDCol, JWTIssuerCol, JWTEndpointCol, JWTKeysEndpointCol,
        JWTHeaderNameCol])
      (List.mem_cons_of_mem _ (List.mem_cons_self _ _))

theorem reduceOldJWTConfigAdded_isolated {event : eventstore.Event} {s : handler.Statement}
    (h : reduceOldJWTConfigAdded event = .ok s) :
    ∀ x ∈ s.Execute, x.scopedTo event.toBaseEvent.Aggregate.InstanceID ∧
      x.keepsIdentity = true := by
  obtain ⟨e, rfl | rfl⟩ := reduceOldJWTConfigAdded_accepts h <;>
  · simp only [reduceOldJWTConfigAdded, Except.ok.injEq] at h
    subst h
    intro x hx
    simp only [crdb.NewMultiStatement, List.mem_cons, List.mem_singleton, List.not_mem_nil,
      or_false] at hx
    rcases hx with rfl | rfl
    · exact ⟨List.mem_cons_of_mem _ (List.mem_cons_self _ _), rfl⟩
    · exact ⟨rfl, rfl⟩

theorem reduceOldConfigAdded_isolated {event : eventstore.Event} {s : handler.Statement}
    (h : reduceOldConfigAdded event = .ok s) :
    ∀ x ∈ s.Execute, x.scopedTo event.toBaseEvent.Aggregate.InstanceID ∧
      x.keepsIdentity = true := by
  obtain ⟨e, rfl | rfl⟩ := reduceOldConfigAdded_accepts h <;>
  · simp only [reduceOldConfigAdded, Except.ok.injEq] at h
    subst h
    intro x hx
    simp only [crdb.NewCreateStatement, List.mem_singleton] at hx
    subst hx
    exact ⟨rfl, rfl⟩

theorem reduceOldConfigChanged_isolated {event : eventstore.Event} {s : handler.Statement}
    (h : reduceOldConfigChanged event = .ok s) :
    ∀ x ∈ s.Execute, x.scopedTo event.toBaseEvent.Aggregate.InstanceID ∧
      x.keepsIdentity = true := by
  obtain ⟨e, rfl | rfl⟩ := reduceOldConfigChanged_accepts h <;>
  · simp only [reduceOldConfigChanged, Except.ok.injEq] at h
    subst h
    intro x hx
    simp only [crdb.NewUpdateStatement, List.mem_singleton] at hx
    subst hx
    refine ⟨List.mem_cons_of_mem _ (List.mem_cons_self _ _), keepsIdentity_primary ?_⟩
    rw [namesOf_append]
    refine List.append_subset.2 ⟨?_, by simp [handler.namesOf, handler.NewCol,
      IDPTemplateChangeDateCol, IDPTemplateSequenceCol]⟩
    exact subset_of_optCols _ _ (subset_of_optCols _ _ (namesOf_nil_subset _) (by decide))
      (by decide)

theorem reduceIDPRemoved_isolated {event : eventstore.Event} {s : handler.Statement}
    (h : reduceIDPRemoved event = .ok s) :
    ∀ x ∈ s.Execute, x.scopedTo event.toBaseEvent.Aggregate.InstanceID ∧
      x.keepsIdentity = true := by
  obtain ⟨e, rfl | rfl⟩ := reduceIDPRemoved_accepts h <;>
  · simp only [reduceIDPRemoved, Except.ok.injEq] at h
    subst h
    intro x hx
    simp only [crdb.NewDeleteStatement, List.mem_singleton] at hx
    subst hx
    exact ⟨List.mem_cons_of_mem _ (List.mem_cons_self _ _), rfl⟩

theorem reduceOwnerRemoved_isolated {event : eventstore.Event} {s : handler.Statement}
    (h : reduceOwnerRemoved event = .ok s) :
    ∀ x ∈ s.Execute, x.scopedTo event.toBaseEvent.Aggregate.InstanceID ∧
      x.keepsIdentity = true := by
  obtain ⟨e, rfl⟩ := reduceOwnerRemoved_accepts h
  simp only [reduceOwnerRemoved, Except.ok.injEq] at h
  subst h
  intro x hx
  simp only [crdb.NewUpdateStatement, List.mem_singleton] at hx
  subst hx
  exact ⟨List.mem_cons_self _ _, rfl⟩

theorem reduceInstanceRemovedHelper_isolated {event : eventstore.Event} {s : handler.Statement}
    (h : reduceInstanceRemovedHelper IDPTemplateInstanceIDCol event = .ok s) :
    ∀ x ∈ s.Execute, x.scopedTo event.toBaseEvent.Aggregate.InstanceID ∧
      x.keepsIdentity = true := by
  obtain ⟨e, rfl⟩ := reduceInstanceRemovedHelper_accepts h
  simp only [reduceInstanceRemovedHelper, Except.ok.injEq] at h
  subst h
  intro x hx
  simp only [crdb.NewDeleteStatement, List.mem_singleton] at hx
  subst hx
  exact ⟨List.mem_cons_self _ _, rfl⟩

theorem isolated_of_reducer {r : handler.Reduce} (hr : r ∈ tableReducers)
    {event : eventstore.Event} {s : handler.Statement} (h : r event = .ok s) :
    ∀ x ∈ s.Execute, x.scopedTo event.toBaseEvent.Aggregate.InstanceID ∧
      x.keepsIdentity = true := by
  rcases tableReducers_cases hr with rfl | rfl | rfl | rfl | rfl | rfl | rfl | rfl | rfl | rfl |
    rfl | rfl | rfl | rfl | rfl | rfl | rfl | rfl | rfl
  · exact reduceOAuthIDPAdded_isolated h
  · exact reduceOAuthIDPChanged_isolated h
  · exact reduceOIDCIDPAdded_isolated h
  · exact reduceOIDCIDPChanged_isolated h
  · exact reduceJWTIDPAdded_isolated h
  · exact reduceJWTIDPChanged_isolated h
  · exact reduceOldConfigAdded_isolated h
  · exact reduceOldConfigChanged_isolated h
  · exact reduceOldOIDCConfigAdded_isolated h
  · exact reduceOldOIDCConfigChanged_isolated h
  · exact reduceOldJWTConfigAdded_isolated h
  · exact reduceOldJWTConfigChanged_isolated h
  · exact reduceGoogleIDPAdded_isolated h
  · exact reduceGoogleIDPChanged_isolated h
  · exact reduceLDAPIDPAdded_isolated h
  · exact reduceLDAPIDPChanged_isolated h
  · exact reduceIDPRemoved_isolated h
  · exact reduceOwnerRemoved_isolated h
  · exact reduceInstanceRemovedHelper_isolated h

/-! ## Shared lemmas: an Added unit followed by a Changed unit -/

theorem Row.ext_on {r1 r2 : Row} (l : List String) (h1 : ∀ n ∈ l, r1 n = r2 n)
    (h2 : ∀ n, n ∉ l → r1 n = none ∧ r2 n = none) : r1 = r2 := by
  funext n
  by_cases hn : n ∈ l
  · exact h1 n hn
  · rw [(h2 n hn).1, (h2 n hn).2]

/-- A row overwritten with columns of its own table is the row of the listed columns, when
the two agree on every column of `l` and name no column outside `l`. -/
theorem Row.overwrite_ofColumns_eq {old new result : List handler.Column} (l : List String)
    (hold : handler.namesOf old ⊆ l) (hnew : handler.namesOf new ⊆ l)
    (hres : handler.namesOf result ⊆ l)
    (h : ∀ n ∈ l, (Row.ofColumns old).overwrite new n = Row.ofColumns result n) :
    (Row.ofColumns old).overwrite new = Row.ofColumns result := by
  refine Row.ext_on l h ?_
  intro n hn
  constructor
  · rw [Row.overwrite_of_not_mem _ (fun hm => hn (hnew hm))]
    exact Row.ofColumns_eq_none (fun hm => hn (hold hm))
  · exact Row.ofColumns_eq_none (fun hm => hn (hres hm))

theorem applyStatement_added_nil (ty : domain.IDPType) {s : handler.Statement}
    {primary satellite : List handler.Column} {suffix : String}
    (hs : s.Execute = [.create none primary, .create (some suffix) satellite])
    (hty : satelliteSuffix ty = some suffix)
    (hi : Row.ofColumns primary "instance_id" = Row.ofColumns satellite "instance_id")
    (hid : Row.ofColumns primary "id" = Row.ofColumns satellite "idp_id") :
    applyStatement [] s =
      [⟨none, Row.ofColumns primary⟩, ⟨some suffix, Row.ofColumns satellite⟩] := by
  have hown : StoredRow.owns ⟨none, Row.ofColumns primary⟩
      ⟨some suffix, Row.ofColumns satellite⟩ = true :=
    StoredRow.owns_of_columns hty rfl rfl hi hid
  simp [applyStatement, hs, applyExecs, applyExec, primaryKeyOf_none, hasForeignKey_none,
    (satelliteSuffix_declared hty).1, (satelliteSuffix_declared hty).2, StoredRow.conflicts,
    hown]

theorem applyStatement_typedChanged {r1 r2 : Row} {b : eventstore.BaseEvent} {id : String}
    {primary cols : List handler.Column} {suffix : String} (hc : cols ≠ [])
    (h1 : r1 "id" = some (.text id))
    (h1i : r1 "instance_id" = some (.text b.Aggregate.InstanceID))
    (h2 : r2 "idp_id" = some (.text id))
    (h2i : r2 "instance_id" = some (.text b.Aggregate.InstanceID)) :
    applyStatement [⟨none, r1⟩, ⟨some suffix, r2⟩]
        (typedChangedUnit b id primary suffix cols) =
      [⟨none, r1.overwrite primary⟩, ⟨some suffix, r2.overwrite cols⟩] := by
  simp [applyStatement, typedChangedUnit, hc, applyExecs, applyExec, StoredRow.update,
    Row.satisfies, h1, h1i, h2, h2i]

theorem processEvents_one (r : handler.Reduce) (event : eventstore.Event) {s : handler.Statement}
    (h : r event = .ok s) : processEvents [] [(r, event)] = applyStatement [] s := by
  simp [processEvents, applyReduce, h]

theorem processEvents_two (r1 r2 : handler.Reduce) (e1 e2 : eventstore.Event)
    {s : handler.Statement} (h : r2 e2 = .ok s) :
    processEvents [] [(r1, e1), (r2, e2)] = applyStatement (processEvents [] [(r1, e1)]) s := by
  simp [processEvents, applyReduce, h]

theorem oauth_added_tables (p : idp.OAuthIDPAddedEvent) {k : Payload → eventstore.Event}
    (hk : k ∈ scopes) :
    ∃ ownerType, processEvents [] [(reduceOAuthIDPAdded, k (.OAuthIDPAddedEvent p))] =
      [⟨none, Row.ofColumns (addedPrimaryColumns p.toBaseEvent p.ID p.Name ownerType
          .IDPTypeOAuth p.toOptions)⟩,
       ⟨some "oauth", Row.ofColumns (oauthAddedColumns p)⟩] := by
  simp only [scopes, List.mem_cons, List.mem_singleton, List.not_mem_nil, or_false] at hk
  rcases hk with rfl | rfl
  · refine ⟨.IdentityProviderTypeOrg, ?_⟩
    rw [processEvents_one reduceOAuthIDPAdded (.org (.OAuthIDPAddedEvent p)) rfl]
    exact applyStatement_added_nil .IDPTypeOAuth rfl rfl rfl rfl
  · refine ⟨.IdentityProviderTypeSystem, ?_⟩
    rw [processEvents_one reduceOAuthIDPAdded (.inst (.OAuthIDPAddedEvent p)) rfl]
    exact applyStatement_added_nil .IDPTypeOAuth rfl rfl rfl rfl

theorem oauth_added_then_changed (p q : idp.OAuthIDPAddedEvent) (b : eventstore.BaseEvent)
    {k1 k2 k3 : Payload → eventstore.Event} (hk1 : k1 ∈ scopes) (hk2 : k2 ∈ scopes)
    (hk3 : k3 ∈ scopes)
    (hid : q.ID = p.ID) (hinst : q.Aggregate.InstanceID = p.Aggregate.InstanceID)
    (hb : b.Aggregate.InstanceID = p.Aggregate.InstanceID)
    (hsecret : q.ClientSecret ≠ none)
    (hscs : q.Scopes ≠ none) :
    (processEvents [] [(reduceOAuthIDPAdded, k1 (.OAuthIDPAddedEvent p)),
        (reduceOAuthIDPChanged, k2 (.OAuthIDPChangedEvent (q.asChanged b)))]).satelliteRows
        "oauth" =
      (processEvents [] [(reduceOAuthIDPAdded, k3 (.OAuthIDPAddedEvent q))]).satelliteRows
        "oauth" ∧
    ((processEvents [] [(reduceOAuthIDPAdded, k3 (.OAuthIDPAddedEvent q))]).satelliteRows
        "oauth").length = 1 ∧
    (processEvents [] [(reduceOAuthIDPAdded, k1 (.OAuthIDPAddedEvent p)),
        (reduceOAuthIDPChanged, k2 (.OAuthIDPChangedEvent (q.asChanged b)))]).project none
        ["name", "is_creation_allowed", "is_linking_allowed", "is_auto_creation",
          "is_auto_update"] =
      (processEvents [] [(reduceOAuthIDPAdded, k3 (.OAuthIDPAddedEvent q))]).project none
        ["name", "is_creation_allowed", "is_linking_allowed", "is_auto_creation",
          "is_auto_update"] := by
  obtain ⟨secret, hsecret⟩ := Option.ne_none_iff_exists'.1 hsecret
  obtain ⟨scs, hscs⟩ := Option.ne_none_iff_exists'.1 hscs
  obtain ⟨o1, h1⟩ := oauth_added_tables p hk1
  obtain ⟨o3, h3⟩ := oauth_added_tables q hk3
  have hcols : reduceOAuthIDPChangedColumns (q.asChanged b) =
      [⟨"client_id", .text q.ClientID⟩, ⟨"client_secret", .crypto (some secret)⟩,
       ⟨"authorization_endpoint", .text q.AuthorizationEndpoint⟩,
       ⟨"token_endpoint", .text q.TokenEndpoint⟩, ⟨"user_endpoint", .text q.UserEndpoint⟩,
       ⟨"scopes", .stringArray (some scs)⟩] := by
    simp [reduceOAuthIDPChangedColumns, idp.OAuthIDPAddedEvent.asChanged, appendIfNotNil,
      handler.NewCol, database.StringArray, hsecret, hscs, OAuthClientIDCol, OAuthClientSecretCol,
      OAuthAuthorizationEndpointCol, OAuthTokenEndpointCol, OAuthUserEndpointCol, OAuthScopesCol]
  have hchg : reduceOAuthIDPChanged (k2 (.OAuthIDPChangedEvent (q.asChanged b))) =
      .ok (typedChangedUnit b q.ID
        (reduceIDPChangedTemplateColumns (some q.Name) b.CreationDate b.Sequence
          (q.asChanged b).OptionChanges) "oauth"
        (reduceOAuthIDPChangedColumns (q.asChanged b))) := by
    simp only [scopes, List.mem_cons, List.mem_singleton, List.not_mem_nil, or_false] at hk2
    rcases hk2 with rfl | rfl <;>
      exact congrArg Except.ok (typedChangedUnit_of_length _ _ _ _ _)
  rw [processEvents_two _ _ _ _ hchg, h1, h3, hcols,
    applyStatement_typedChanged (by simp) (by rw [hid]; rfl) (by rw [hb]; rfl)
      (by rw [hid]; rfl) (by rw [hb]; rfl)]
  refine ⟨?_, rfl, ?_⟩
  · simp only [Tables.satelliteRows, List.filter_cons, List.filter_nil]
    simp only [beq_iff_eq, reduceCtorEq, if_false, if_true]
    congr 2
    refine Row.overwrite_ofColumns_eq
      ["idp_id", "instance_id", "client_id", "client_secret", "authorization_endpoint",
        "token_endpoint", "user_endpoint", "scopes"]
      (by simp [handler.namesOf, oauthAddedColumns]) (by simp [handler.namesOf])
      (by simp [handler.namesOf, oauthAddedColumns]) ?_
    intro n hn
    simp only [List.mem_cons, List.mem_singleton, List.not_mem_nil, or_false] at hn
    rcases hn with rfl | rfl | rfl | rfl | rfl | rfl | rfl | rfl <;>
      simp [Row.overwrite, Row.ofColumns, oauthAddedColumns, hid, hinst, hsecret, hscs]
  · simp [Tables.project, Row.overwrite, Row.ofColumns, addedPrimaryColumns,
      reduceIDPChangedTemplateColumns, appendIfNotNil, handler.NewCol,
      idp.OAuthIDPAddedEvent.asChanged, IDPTemplateNameCol, IDPTemplateIsCreationAllowedCol,
      IDPTemplateIsLinkingAllowedCol, IDPTemplateIsAutoCreationCol, IDPTemplateIsAutoUpdateCol,
      IDPTemplateChangeDateCol, IDPTemplateSequenceCol]

theorem oidc_added_tables (p : idp.OIDCIDPAddedEvent) {k : Payload → eventstore.Event}
    (hk : k ∈ scopes) :
    ∃ ownerType, processEvents [] [(reduceOIDCIDPAdded, k (.OIDCIDPAddedEvent p))] =
      [⟨none, Row.ofColumns (addedPrimaryColumns p.toBaseEvent p.ID p.Name ownerType
          .IDPTypeOIDC p.toOptions)⟩,
       ⟨some "oidc", Row.ofColumns (oidcAddedColumns p)⟩] := by
  simp only [scopes, List.mem_cons, List.mem_singleton, List.not_mem_nil, or_false] at hk
  rcases hk with rfl | rfl
  · refine ⟨.IdentityProviderTypeOrg, ?_⟩
    rw [processEvents_one reduceOIDCIDPAdded (.org (.OIDCIDPAddedEvent p)) rfl]
    exact applyStatement_added_nil .IDPTypeOIDC rfl rfl rfl rfl
  · refine ⟨.IdentityProviderTypeSystem, ?_⟩
    rw [processEvents_one reduceOIDCIDPAdded (.inst (.OIDCIDPAddedEvent p)) rfl]
    exact applyStatement_added_nil .IDPTypeOIDC rfl rfl rfl rfl

theorem oidc_added_then_changed (p q : idp.OIDCIDPAddedEvent) (b : eventstore.BaseEvent)
    {k1 k2 k3 : Payload → eventstore.Event} (hk1 : k1 ∈ scopes) (hk2 : k2 ∈ scopes)
    (hk3 : k3 ∈ scopes)
    (hid : q.ID = p.ID) (hinst : q.Aggregate.InstanceID = p.Aggregate.InstanceID)
    (hb : b.Aggregate.InstanceID = p.Aggregate.InstanceID)
    (hsecret : q.ClientSecret ≠ none)
    (hscs : q.Scopes ≠ none) :
    (processEvents [] [(reduceOIDCIDPAdded, k1 (.OIDCIDPAddedEvent p)),
        (reduceOIDCIDPChanged, k2 (.OIDCIDPChangedEvent (q.asChanged b)))]).satelliteRows
        "oidc" =
      (processEvents [] [(reduceOIDCIDPAdded, k3 (.OIDCIDPAddedEvent q))]).satelliteRows
        "oidc" ∧
    ((processEvents [] [(reduceOIDCIDPAdded, k3 (.OIDCIDPAddedEvent q))]).satelliteRows
        "oidc").length = 1 ∧
    (processEvents [] [(reduceOIDCIDPAdded, k1 (.OIDCIDPAddedEvent p)),
        (reduceOIDCIDPChanged, k2 (.OIDCIDPChangedEvent (q.asChanged b)))]).project none
        ["name", "is_creation_allowed", "is_linking_allowed", "is_auto_creation",
          "is_auto_update"] =
      (processEvents [] [(reduceOIDCIDPAdded, k3 (.OIDCIDPAddedEvent q))]).project none
        ["name", "is_creation_allowed", "is_linking_allowed", "is_auto_creation",
          "is_auto_update"] := by
  obtain ⟨secret, hsecret⟩ := Option.ne_none_iff_exists'.1 hsecret
  obtain ⟨scs, hscs⟩ := Option.ne_none_iff_exists'.1 hscs
  obtain ⟨o1, h1⟩ := oidc_added_tables p hk1
  obtain ⟨o3, h3⟩ := oidc_added_tables q hk3
  have hcols : reduceOIDCIDPChangedColumns (q.asChanged b) =
      [⟨"client_id", .text q.ClientID⟩, ⟨"client_secret", .crypto (some secret)⟩,
       ⟨"issuer", .text q.Issuer⟩, ⟨"scopes", .stringArray (some scs)⟩] := by
    simp [reduceOIDCIDPChangedColumns, idp.OIDCIDPAddedEvent.asChanged, appendIfNotNil,
      handler.NewCol, database.StringArray, hsecret, hscs, OIDCClientIDCol, OIDCClientSecretCol,
      OIDCIssuerCol, OIDCScopesCol]
  have hchg : reduceOIDCIDPChanged (k2 (.OIDCIDPChangedEvent (q.asChanged b))) =
      .ok (typedChangedUnit b q.ID
        (reduceIDPChangedTemplateColumns (some q.Name) b.CreationDate b.Sequence
          (q.asChanged b).OptionChanges) "oidc"
        (reduceOIDCIDPChangedColumns (q.asChanged b))) := by
    simp only [scopes, List.mem_cons, List.mem_singleton, List.not_mem_nil, or_false] at hk2
    rcases hk2 with rfl | rfl <;>
      exact congrArg Except.ok (typedChangedUnit_of_length _ _ _ _ _)
  rw [processEvents_two _ _ _ _ hchg, h1, h3, hcols,
    applyStatement_typedChanged (by simp) (by rw [hid]; rfl) (by rw [hb]; rfl)
      (by rw [hid]; rfl) (by rw [hb]; rfl)]
  refine ⟨?_, rfl, ?_⟩
  · simp only [Tables.satelliteRows, List.filter_cons, List.filter_nil]
    simp only [beq_iff_eq, reduceCtorEq, if_false, if_true]
    congr 2
    refine Row.overwrite_ofColumns_eq
      ["idp_id", "instance_id", "client_id", "client_secret", "issuer", "scopes"]
      (by simp [handler.namesOf, oidcAddedColumns]) (by simp [handler.namesOf])
      (by simp [handler.namesOf, oidcAddedColumns]) ?_
    intro n hn
    simp only [List.mem_cons, List.mem_singleton, List.not_mem_nil, or_false] at hn
    rcases hn with rfl | rfl | rfl | rfl | rfl | rfl <;>
      simp [Row.overwrite, Row.ofColumns, oidcAddedColumns, hid, hinst, hsecret, hscs]
  · simp [Tables.project, Row.overwrite, Row.ofColumns, addedPrimaryColumns,
      reduceIDPChangedTemplateColumns, appendIfNotNil, handler.NewCol,
      idp.OIDCIDPAddedEvent.asChanged, IDPTemplateNameCol, IDPTemplateIsCreationAllowedCol,
      IDPTemplateIsLinkingAllowedCol, IDPTemplateIsAutoCreationCol, IDPTemplateIsAutoUpdateCol,
      IDPTemplateChangeDateCol, IDPTemplateSequenceCol]

theorem jwt_added_tables (p : idp.JWTIDPAddedEvent) {k : Payload → eventstore.Event}
    (hk : k ∈ scopes) :
    ∃ ownerType, processEvents [] [(reduceJWTIDPAdded, k (.JWTIDPAddedEvent p))] =
      [⟨none, Row.ofColumns (addedPrimaryColumns p.toBaseEvent p.ID p.Name ownerType
          .IDPTypeJWT p.toOptions)⟩,
       ⟨some "jwt", Row.ofColumns (jwtAddedColumns p)⟩] := by
  simp only [scopes, List.mem_cons, List.mem_singleton, List.not_mem_nil, or_false] at hk
  rcases hk with rfl | rfl
  · refine ⟨.IdentityProviderTypeOrg, ?_⟩
    rw [processEvents_one reduceJWTIDPAdded (.org (.JWTIDPAddedEvent p)) rfl]
    exact applyStatement_added_nil .IDPTypeJWT rfl rfl rfl rfl
  · refine ⟨.IdentityProviderTypeSystem, ?_⟩
    rw [processEvents_one reduceJWTIDPAdded (.inst (.JWTIDPAddedEvent p)) rfl]
    exact applyStatement_added_nil .IDPTypeJWT rfl rfl rfl rfl

theorem jwt_added_then_changed (p q : idp.JWTIDPAddedEvent) (b : eventstore.BaseEvent)
    {k1 k2 k3 : Payload → eventstore.Event} (hk1 : k1 ∈ scopes) (hk2 : k2 ∈ scopes)
    (hk3 : k3 ∈ scopes)
    (hid : q.ID = p.ID) (hinst : q.Aggregate.InstanceID = p.Aggregate.InstanceID)
    (hb : b.Aggregate.InstanceID = p.Aggregate.InstanceID) :
    (processEvents [] [(reduceJWTIDPAdded, k1 (.JWTIDPAddedEvent p)),
        (reduceJWTIDPChanged, k2 (.JWTIDPChangedEvent (q.asChanged b)))]).satelliteRows
        "jwt" =
      (processEvents [] [(reduceJWTIDPAdded, k3 (.JWTIDPAddedEvent q))]).satelliteRows
        "jwt" ∧
    ((processEvents [] [(reduceJWTIDPAdded, k3 (.JWTIDPAddedEvent q))]).satelliteRows
        "jwt").length = 1 ∧
    (processEvents [] [(reduceJWTIDPAdded, k1 (.JWTIDPAddedEvent p)),
        (reduceJWTIDPChanged, k2 (.JWTIDPChangedEvent (q.asChanged b)))]).project none
        ["name", "is_creation_allowed", "is_linking_allowed", "is_auto_creation",
          "is_auto_update"] =
      (processEvents [] [(reduceJWTIDPAdded, k3 (.JWTIDPAddedEvent q))]).project none
        ["name", "is_creation_allowed", "is_linking_allowed", "is_auto_creation",
          "is_auto_update"] := by
  obtain ⟨o1, h1⟩ := jwt_added_tables p hk1
  obtain ⟨o3, h3⟩ := jwt_added_tables q hk3
  have hcols : reduceJWTIDPChangedColumns (q.asChanged b) =
      [⟨"jwt_endpoint", .text q.JWTEndpoint⟩, ⟨"keys_endpoint", .text q.KeysEndpoint⟩,
       ⟨"header_name", .text q.HeaderName⟩, ⟨"issuer", .text q.Issuer⟩] := by
    simp [reduceJWTIDPChangedColumns, idp.JWTIDPAddedEvent.asChanged, appendIfNotNil,
      handler.NewCol, database.StringArray, JWTEndpointCol, JWTKeysEndpointCol, JWTHeaderNameCol,
      JWTIssuerCol]
  have hchg : reduceJWTIDPChanged (k2 (.JWTIDPChangedEvent (q.asChanged b))) =
      .ok (typedChangedUnit b q.ID
        (reduceIDPChangedTemplateColumns (some q.Name) b.CreationDate b.Sequence
          (q.asChanged b).OptionChanges) "jwt"
        (reduceJWTIDPChangedColumns (q.asChanged b))) := by
    simp only [scopes, List.mem_cons, List.mem_singleton, List.not_mem_nil, or_false] at hk2
    rcases hk2 with rfl | rfl <;>
      exact congrArg Except.ok (typedChangedUnit_of_length _ _ _ _ _)
  rw [processEvents_two _ _ _ _ hchg, h1, h3, hcols,
    applyStatement_typedChanged (by simp) (by rw [hid]; rfl) (by rw [hb]; rfl)
      (by rw [hid]; rfl) (by rw [hb]; rfl)]
  refine ⟨?_, rfl, ?_⟩
  · simp only [Tables.satelliteRows, List.filter_cons, List.filter_nil]
    simp only [beq_iff_eq, reduceCtorEq, if_false, if_true]
    congr 2
    refine Row.overwrite_ofColumns_eq
      ["idp_id", "instance_id", "jwt_endpoint", "keys_endpoint", "header_name", "issuer"]
      (by simp [handler.namesOf, jwtAddedColumns]) (by simp [handler.namesOf])
      (by simp [handler.namesOf, jwtAddedColumns]) ?_
    intro n hn
    simp only [List.mem_cons, List.mem_singleton, List.not_mem_nil, or_false] at hn
    rcases hn with rfl | rfl | rfl | rfl | rfl | rfl <;>
      simp [Row.overwrite, Row.ofColumns, jwtAddedColumns, hid, hinst]
  · simp [Tables.project, Row.overwrite, Row.ofColumns, addedPrimaryColumns,
      reduceIDPChangedTemplateColumns, appendIfNotNil, handler.NewCol,
      idp.JWTIDPAddedEvent.asChanged, IDPTemplateNameCol, IDPTemplateIsCreationAllowedCol,
      IDPTemplateIsLinkingAllowedCol, IDPTemplateIsAutoCreationCol, IDPTemplateIsAutoUpdateCol,
      IDPTemplateChangeDateCol, IDPTemplateSequenceCol]

theorem google_added_tables (p : idp.GoogleIDPAddedEvent) {k : Payload → eventstore.Event}
    (hk : k ∈ scopes) :
    ∃ ownerType, processEvents [] [(reduceGoogleIDPAdded, k (.GoogleIDPAddedEvent p))] =
      [⟨none, Row.ofColumns (addedPrimaryColumns p.toBaseEvent p.ID p.Name ownerType
          .IDPTypeGoogle p.toOptions)⟩,
       ⟨some "google", Row.ofColumns (googleAddedColumns p)⟩] := by
  simp only [scopes, List.mem_cons, List.mem_singleton, List.not_mem_nil, or_false] at hk
  rcases hk with rfl | rfl
  · refine ⟨.IdentityProviderTypeOrg, ?_⟩
    rw [processEvents_one reduceGoogleIDPAdded (.org (.GoogleIDPAddedEvent p)) rfl]
    exact applyStatement_added_nil .IDPTypeGoogle rfl rfl rfl rfl
  · refine ⟨.IdentityProviderTypeSystem, ?_⟩
    rw [processEvents_one reduceGoogleIDPAdded (.inst (.GoogleIDPAddedEvent p)) rfl]
    exact applyStatement_added_nil .IDPTypeGoogle rfl rfl rfl rfl

theorem google_added_then_changed (p q : idp.GoogleIDPAddedEvent) (b : eventstore.BaseEvent)
    {k1 k2 k3 : Payload → eventstore.Event} (hk1 : k1 ∈ scopes) (hk2 : k2 ∈ scopes)
    (hk3 : k3 ∈ scopes)
    (hid : q.ID = p.ID) (hinst : q.Aggregate.InstanceID = p.Aggregate.InstanceID)
    (hb : b.Aggregate.InstanceID = p.Aggregate.InstanceID)
    (hsecret : q.ClientSecret ≠ none)
    (hscs : q.Scopes ≠ none) :
    (processEvents [] [(reduceGoogleIDPAdded, k1 (.GoogleIDPAddedEvent p)),
        (reduceGoogleIDPChanged, k2 (.GoogleIDPChangedEvent (q.asChanged b)))]).satelliteRows
        "google" =
      (processEvents [] [(reduceGoogleIDPAdded, k3 (.GoogleIDPAddedEvent q))]).satelliteRows
        "google" ∧
    ((processEvents [] [(reduceGoogleIDPAdded, k3 (.GoogleIDPAddedEvent q))]).satelliteRows
        "google").length = 1 ∧
    (processEvents [] [(reduceGoogleIDPAdded, k1 (.GoogleIDPAddedEvent p)),
        (reduceGoogleIDPChanged, k2 (.GoogleIDPChangedEvent (q.asChanged b)))]).project none
        ["name", "is_creation_allowed", "is_linking_allowed", "is_auto_creation",
          "is_auto_update"] =
      (processEvents [] [(reduceGoogleIDPAdded, k3 (.GoogleIDPAddedEvent q))]).project none
        ["name", "is_creation_allowed", "is_linking_allowed", "is_auto_creation",
          "is_auto_update"] := by
  obtain ⟨secret, hsecret⟩ := Option.ne_none_iff_exists'.1 hsecret
  obtain ⟨scs, hscs⟩ := Option.ne_none_iff_exists'.1 hscs
  obtain ⟨o1, h1⟩ := google_added_tables p hk1
  obtain ⟨o3, h3⟩ := google_added_tables q hk3
  have hcols : reduceGoogleIDPChangedColumns (q.asChanged b) =
      [⟨"client_id", .text q.ClientID⟩, ⟨"client_secret", .crypto (some secret)⟩,
       ⟨"scopes", .stringArray (some scs)⟩] := by
    simp [reduceGoogleIDPChangedColumns, idp.GoogleIDPAddedEvent.asChanged, appendIfNotNil,
      handler.NewCol, database.StringArray, hsecret, hscs, GoogleClientIDCol,
      GoogleClientSecretCol, GoogleScopesCol]
  have hchg : reduceGoogleIDPChanged (k2 (.GoogleIDPChangedEvent (q.asChanged b))) =
      .ok (typedChangedUnit b q.ID
        (reduceIDPChangedTemplateColumns (some q.Name) b.CreationDate b.Sequence
          (q.asChanged b).OptionChanges) "google"
        (reduceGoogleIDPChangedColumns (q.asChanged b))) := by
    simp only [scopes, List.mem_cons, List.mem_singleton, List.not_mem_nil, or_false] at hk2
    rcases hk2 with rfl | rfl <;>
      exact congrArg Except.ok (typedChangedUnit_of_length _ _ _ _ _)
  rw [processEvents_two _ _ _ _ hchg, h1, h3, hcols,
    applyStatement_typedChanged (by simp) (by rw [hid]; rfl) (by rw [hb]; rfl)
      (by rw [hid]; rfl) (by rw [hb]; rfl)]
  refine ⟨?_, rfl, ?_⟩
  · simp only [Tables.satelliteRows, List.filter_cons, List.filter_nil]
    simp only [beq_iff_eq, reduceCtorEq, if_false, if_true]
    congr 2
    refine Row.overwrite_ofColumns_eq
      ["idp_id", "instance_id", "client_id", "client_secret", "scopes"]
      (by simp [handler.namesOf, googleAddedColumns]) (by simp [handler.namesOf])
      (by simp [handler.namesOf, googleAddedColumns]) ?_
    intro n hn
    simp only [List.mem_cons, List.mem_singleton, List.not_mem_nil, or_false] at hn
    rcases hn with rfl | rfl | rfl | rfl | rfl <;>
      simp [Row.overwrite, Row.ofColumns, googleAddedColumns, hid, hinst, hsecret, hscs]
  · simp [Tables.project, Row.overwrite, Row.ofColumns, addedPrimaryColumns,
      reduceIDPChangedTemplateColumns, appendIfNotNil, handler.NewCol,
      idp.GoogleIDPAddedEvent.asChanged, IDPTemplateNameCol, IDPTemplateIsCreationAllowedCol,
      IDPTemplateIsLinkingAllowedCol, IDPTemplateIsAutoCreationCol, IDPTemplateIsAutoUpdateCol,
      IDPTemplateChangeDateCol, IDPTemplateSequenceCol]

theorem ldap_added_tables (p : idp.LDAPIDPAddedEvent) {k : Payload → eventstore.Event}
    (hk : k ∈ scopes) :
    ∃ ownerType, processEvents [] [(reduceLDAPIDPAdded, k (.LDAPIDPAddedEvent p))] =
      [⟨none, Row.ofColumns (addedPrimaryColumns p.toBaseEvent p.ID p.Name ownerType
          .IDPTypeLDAP p.toOptions)⟩,
       ⟨some "ldap", Row.ofColumns (ldapAddedColumns p)⟩] := by
  simp only [scopes, List.mem_cons, List.mem_singleton, List.not_mem_nil, or_false] at hk
  rcases hk with rfl | rfl
  · refine ⟨.IdentityProviderTypeOrg, ?_⟩
    rw [processEvents_one reduceLDAPIDPAdded (.org (.LDAPIDPAddedEvent p)) rfl]
    exact applyStatement_added_nil .IDPTypeLDAP rfl rfl rfl rfl
  · refine ⟨.IdentityProviderTypeSystem, ?_⟩
    rw [processEvents_one reduceLDAPIDPAdded (.inst (.LDAPIDPAddedEvent p)) rfl]
    exact applyStatement_added_nil .IDPTypeLDAP rfl rfl rfl rfl

theorem ldap_added_then_changed (p q : idp.LDAPIDPAddedEvent) (b : eventstore.BaseEvent)
    {k1 k2 k3 : Payload → eventstore.Event} (hk1 : k1 ∈ scopes) (hk2 : k2 ∈ scopes)
    (hk3 : k3 ∈ scopes)
    (hid : q.ID = p.ID) (hinst : q.Aggregate.InstanceID = p.Aggregate.InstanceID)
    (hb : b.Aggregate.InstanceID = p.Aggregate.InstanceID)
    (hsecret : q.Password ≠ none) :
    (processEvents [] [(reduceLDAPIDPAdded, k1 (.LDAPIDPAddedEvent p)),
        (reduceLDAPIDPChanged, k2 (.LDAPIDPChangedEvent (q.asChanged b)))]).satelliteRows
        "ldap" =
      (processEvents [] [(reduceLDAPIDPAdded, k3 (.LDAPIDPAddedEvent q))]).satelliteRows
        "ldap" ∧
    ((processEvents [] [(reduceLDAPIDPAdded, k3 (.LDAPIDPAddedEvent q))]).satelliteRows
        "ldap").length = 1 ∧
    (processEvents [] [(reduceLDAPIDPAdded, k1 (.LDAPIDPAddedEvent p)),
        (reduceLDAPIDPChanged, k2 (.LDAPIDPChangedEvent (q.asChanged b)))]).project none
        ["name", "is_creation_allowed", "is_linking_allowed", "is_auto_creation",
          "is_auto_update"] =
      (processEvents [] [(reduceLDAPIDPAdded, k3 (.LDAPIDPAddedEvent q))]).project none
        ["name", "is_creation_allowed", "is_linking_allowed", "is_auto_creation",
          "is_auto_update"] := by
  obtain ⟨secret, hsecret⟩ := Option.ne_none_iff_exists'.1 hsecret
  obtain ⟨o1, h1⟩ := ldap_added_tables p hk1
  obtain ⟨o3, h3⟩ := ldap_added_tables q hk3
  have hcols : reduceLDAPIDPChangedColumns (q.asChanged b) =
      [⟨"host", .text q.Host⟩, ⟨"port", .text q.Port⟩, ⟨"tls", .bool q.TLS⟩,
       ⟨"base_dn", .text q.BaseDN⟩, ⟨"user_object_class", .text q.UserObjectClass⟩,
       ⟨"user_unique_attribute", .text q.UserUniqueAttribute⟩, ⟨"admin", .text q.Admin⟩,
       ⟨"password", .crypto (some secret)⟩, ⟨"id_attribute", .text q.IDAttribute⟩,
       ⟨"first_name_attribute", .text q.FirstNameAttribute⟩,
       ⟨"last_name_attribute", .text q.LastNameAttribute⟩,
       ⟨"display_name_attribute", .text q.DisplayNameAttribute⟩,
       ⟨"nick_name_attribute", .text q.NickNameAttribute⟩,
       ⟨"preferred_username_attribute", .text q.PreferredUsernameAttribute⟩,
       ⟨"email_attribute", .text q.EmailAttribute⟩,
       ⟨"email_verified", .text q.EmailVerifiedAttribute⟩,
       ⟨"phone_attribute", .text q.PhoneAttribute⟩,
       ⟨"phone_verified_attribute", .text q.PhoneVerifiedAttribute⟩,
       ⟨"preferred_language_attribute", .text q.PreferredLanguageAttribute⟩,
       ⟨"avatar_url_attribute", .text q.AvatarURLAttribute⟩,
       ⟨"profile_attribute", .text q.ProfileAttribute⟩] := by
    simp [reduceLDAPIDPChangedColumns, idp.LDAPIDPAddedEvent.asChanged, appendIfNotNil,
      handler.NewCol, database.StringArray, hsecret, LDAPHostCol, LDAPPortCol, LDAPTlsCol,
      LDAPBaseDNCol, LDAPUserObjectClassCol, LDAPUserUniqueAttributeCol, LDAPAdminCol,
      LDAPPasswordCol, LDAPIDAttributeCol, LDAPFirstNameAttributeCol, LDAPLastNameAttributeCol,
      LDAPDisplayNameAttributeCol, LDAPNickNameAttributeCol, LDAPPreferredUsernameAttributeCol,
      LDAPEmailAttributeCol, LDAPEmailVerifiedAttributeCol, LDAPPhoneAttributeCol,
      LDAPPhoneVerifiedAttributeCol, LDAPPreferredLanguageAttributeCol, LDAPAvatarURLAttributeCol,
      LDAPProfileAttributeCol]
  have hchg : reduceLDAPIDPChanged (k2 (.LDAPIDPChangedEvent (q.asChanged b))) =
      .ok (typedChangedUnit b q.ID
        (reduceIDPChangedTemplateColumns (some q.Name) b.CreationDate b.Sequence
          (q.asChanged b).OptionChanges) "ldap"
        (reduceLDAPIDPChangedColumns (q.asChanged b))) := by
    simp only [scopes, List.mem_cons, List.mem_singleton, List.not_mem_nil, or_false] at hk2
    rcases hk2 with rfl | rfl <;>
      exact congrArg Except.ok (typedChangedUnit_of_length _ _ _ _ _)
  rw [processEvents_two _ _ _ _ hchg, h1, h3, hcols,
    applyStatement_typedChanged (by simp) (by rw [hid]; rfl) (by rw [hb]; rfl)
      (by rw [hid]; rfl) (by rw [hb]; rfl)]
  refine ⟨?_, rfl, ?_⟩
  · simp only [Tables.satelliteRows, List.filter_cons, List.filter_nil]
    simp only [beq_iff_eq, reduceCtorEq, if_false, if_true]
    congr 2
    refine Row.overwrite_ofColumns_eq
      ["idp_id", "instance_id", "host", "port", "tls", "base_dn", "user_object_class",
        "user_unique_attribute", "admin", "password", "id_attribute", "first_name_attribute",
        "last_name_attribute", "display_name_attribute", "nick_name_attribute",
        "preferred_username_attribute", "email_attribute", "email_verified", "phone_attribute",
        "phone_verified_attribute", "preferred_language_attribute", "avatar_url_attribute",
        "profile_attribute"]
      (by simp [handler.namesOf, ldapAddedColumns]) (by simp [handler.namesOf])
      (by simp [handler.namesOf, ldapAddedColumns]) ?_
    intro n hn
    simp only [List.mem_cons, List.mem_singleton, List.not_mem_nil, or_false] at hn
    rcases hn with rfl | rfl | rfl | rfl | rfl | rfl | rfl | rfl | rfl | rfl | rfl | rfl | rfl |
      rfl | rfl | rfl | rfl | rfl | rfl | rfl | rfl | rfl | rfl <;>
      simp [Row.overwrite, Row.ofColumns, ldapAddedColumns, hid, hinst, hsecret]
  · simp [Tables.project, Row.overwrite, Row.ofColumns, addedPrimaryColumns,
      reduceIDPChangedTemplateColumns, appendIfNotNil, handler.NewCol,
      idp.LDAPIDPAddedEvent.asChanged, IDPTemplateNameCol, IDPTemplateIsCreationAllowedCol,
      IDPTemplateIsLinkingAllowedCol, IDPTemplateIsAutoCreationCol, IDPTemplateIsAutoUpdateCol,
      IDPTemplateChangeDateCol, IDPTemplateSequenceCol]

/-! ## Shared lemmas: satellite rows under guarded legacy upgrades -/

theorem retypesOnlyUnspecified_upgrade {t : Tables} {changeDate sequence : Value}
    {ty : domain.IDPType} {inst id : String}
    (h : (upgradeUpdate changeDate sequence ty inst id).retypesOnlyUnspecified t = true)
    {p : StoredRow} (hp : p ∈ t) (hs : p.suffix = none)
    (hsat : p.row.satisfies [⟨"id", .text id⟩, ⟨"instance_id", .text inst⟩] = true) :
    p.row "type" = some (.idpType .IDPTypeUnspecified) := by
  simp only [upgradeUpdate, crdb.Exec.retypesOnlyUnspecified, handler.namesOf, List.map_cons,
    List.map_nil, List.contains_cons, List.contains_nil, Bool.or_eq_true, Bool.not_eq_true',
    List.all_eq_true, beq_iff_eq] at h
  rcases h with h | h
  · simp at h
  · rcases h p hp with h | h
    · simp [hs, hsat] at h
    · exact h

theorem matched_of_upgrade {s : handler.Statement} {ty : domain.IDPType}
    (h : UnitShape (some ty) s.Execute) {t : Tables} (hg : s.guardedOn t = true)
    (hm : Matched t) : Matched (applyStatement t s) := by
  cases hres : applyExecs t s.Execute with
  | none => simpa [applyStatement, hres] using hm
  | some t' =>
    have ht' : applyStatement t s = t' := by simp [applyStatement, hres]
    rw [ht']
    simp only [handler.Statement.guardedOn, hres, Option.isNone_some, Bool.false_or] at hg
    generalize hx : s.Execute = xs at h hres hg
    cases h with
    | upgrade changeDate sequence ty suffix inst id satellite hty htyc hsi hsid =>
      have hguard := (List.all_eq_true.1 hg) _ (List.mem_cons_self _ _)
      simp only [applyExecs, upgradeUpdate, applyExec_update] at hres
      cases h2 : applyExec (t.map (StoredRow.update none
          [⟨"change_date", changeDate⟩, ⟨"sequence", sequence⟩, ⟨"type", .idpType ty⟩]
          [⟨"id", .text id⟩, ⟨"instance_id", .text inst⟩])) (.create (some suffix) satellite) with
      | none => simp [h2] at hres
      | some t2 =>
        simp only [h2, Option.some.injEq] at hres
        subst hres
        obtain ⟨e2, -, hfk⟩ := applyExec_create_spec h2
        subst e2
        intro q hq ty' sfx' hty' hqs
        simp only [List.mem_append, List.mem_singleton] at hq
        rcases hq with hq | hq
        · obtain ⟨q0, hq0, rfl⟩ := List.mem_map.1 hq
          rw [StoredRow.update_suffix] at hqs
          have hq0' : q0.update none
              [⟨"change_date", changeDate⟩, ⟨"sequence", sequence⟩, ⟨"type", .idpType ty⟩]
              [⟨"id", .text id⟩, ⟨"instance_id", .text inst⟩] = q0 :=
            StoredRow.update_of_suffix_ne (by simp [hqs])
          rw [hq0']
          obtain ⟨p, hp, hpq, hpt⟩ := hm q0 hq0 ty' sfx' hty' hqs
          have hps := StoredRow.owns_suffix hpq
          have hnot : p.row.satisfies [⟨"id", .text id⟩, ⟨"instance_id", .text inst⟩] =
              false := by
            apply Bool.eq_false_iff.2
            intro hsat
            have hun := retypesOnlyUnspecified_upgrade hguard hp hps hsat
            rw [hpt] at hun
            simp only [Option.some.injEq, Value.idpType.injEq] at hun
            subst hun
            simp [satelliteSuffix] at hty'
          refine ⟨p, List.mem_append_left _ (List.mem_map.2 ⟨p, hp, ?_⟩), hpq, hpt⟩
          simp [StoredRow.update, hnot]
        · subst hq
          have hsfx : suffix = sfx' := by simpa using hqs
          subst hsfx
          have hteq := satelliteSuffix_injective hty' hty
          subst hteq
          obtain ⟨p, hp, hpq⟩ := hfk (satelliteSuffix_declared hty).2
          obtain ⟨p0, hp0, rfl⟩ := List.mem_map.1 hp
          refine ⟨_, List.mem_append_left _ hp, hpq, ?_⟩
          obtain ⟨hs', hi', hid'⟩ := StoredRow.owns_columns hty rfl hpq
          rw [StoredRow.update_suffix] at hs'
          rw [StoredRow.update_row_of_not_mem p0 (by simp [handler.namesOf])] at hi' hid'
          have hsat : p0.row.satisfies [⟨"id", .text id⟩, ⟨"instance_id", .text inst⟩] =
              true := by
            simp [Row.satisfies, hi', hid', hsi, hsid]
          simp [StoredRow.update, hs', hsat, Row.overwrite, Row.ofColumns]

theorem retypesOnlyUnspecified_of_shape {xs : List crdb.Exec} (h : UnitShape none xs)
    (t : Tables) : xs.all (crdb.Exec.retypesOnlyUnspecified t) = true := by
  have key : ∀ {values : List handler.Column} {conditions : List handler.Condition}
      {suffix : Option String}, avoidsProtected values = true →
      (crdb.Exec.update suffix values conditions).retypesOnlyUnspecified t = true := by
    intro values conditions suffix hv
    have h4 := not_mem_namesOf_of_avoidsProtected hv (by decide : "type" ∈ protectedColumns)
    cases suffix with
    | some sfx => rfl
    | none => simp [crdb.Exec.retypesOnlyUnspecified, h4]
  cases h with
  | added primary satellite ty suffix inst id => rfl
  | generic primary => rfl
  | change values conditions hv hc => simp [key hv]
  | change2 values conditions suffix values2 conditions2 hv hc hv2 hc2 =>
    simp [key hv, key hv2]
  | remove conditions => rfl

theorem matched_applyReduce_guarded {r : handler.Reduce} (hr : r ∈ tableReducers)
    (event : eventstore.Event) {t : Tables}
    (hg : (match r event with
      | .ok s => s.guardedOn t
      | .error _ => true) = true)
    (hm : Matched t) : Matched (applyReduce t r event) := by
  cases h : r event with
  | error err => simpa [applyReduce, h] using hm
  | ok s =>
    simp only [applyReduce, h]
    simp only [h] at hg
    obtain ⟨o, ho, -⟩ := unitShape_of_reducer hr h
    cases o with
    | none => exact matched_of_shape ho hm
    | some ty => exact matched_of_upgrade ho hg hm

theorem matched_processEvents_guarded (steps : List (handler.Reduce × eventstore.Event))
    (hsteps : ∀ step ∈ steps, step.1 ∈ tableReducers) {t : Tables}
    (hg : guardedUpgrades t steps = true) (hm : Matched t) :
    Matched (processEvents t steps) := by
  induction steps generalizing t with
  | nil => exact hm
  | cons step rest ih =>
    simp only [guardedUpgrades, Bool.and_eq_true] at hg
    simp only [processEvents, List.foldl_cons]
    exact ih (fun x hx => hsteps x (List.mem_cons_of_mem _ hx)) hg.2
      (matched_applyReduce_guarded (hsteps step (List.mem_cons_self _ _)) step.2 hg.1 hm)

theorem guardedUpgrades_of_no_upgrade (steps : List (handler.Reduce × eventstore.Event))
    (hsteps : ∀ step ∈ steps, step.1 ∈ tableReducers)
    (hcur : ∀ step ∈ steps,
      step.1 ≠ reduceOldOIDCConfigAdded ∧ step.1 ≠ reduceOldJWTConfigAdded)
    (t : Tables) : guardedUpgrades t steps = true := by
  induction steps generalizing t with
  | nil => rfl
  | cons step rest ih =>
    simp only [guardedUpgrades, Bool.and_eq_true]
    refine ⟨?_, ih (fun x hx => hsteps x (List.mem_cons_of_mem _ hx))
      (fun x hx => hcur x (List.mem_cons_of_mem _ hx)) _⟩
    cases h : step.1 step.2 with
    | error err => rfl
    | ok s =>
      obtain ⟨o, ho, hattr⟩ := unitShape_of_reducer (hsteps step (List.mem_cons_self _ _)) h
      cases o with
      | none =>
        simp only [handler.Statement.guardedOn, Bool.or_eq_true]
        exact Or.inr (retypesOnlyUnspecified_of_shape ho t)
      | some ty =>
        rcases hattr ty rfl with ⟨hr1, -⟩ | ⟨hr2, -⟩
        · exact absurd hr1 (hcur step (List.mem_cons_self _ _)).1
        · exact absurd hr2 (hcur step (List.mem_cons_self _ _)).2

/-! ## Shared lemmas: a unit delivered again -/

theorem primary_update_stamps_of_reducer (r : handler.Reduce)
    (hr : r ∈ primaryUpdateReducers) (event : eventstore.Event) (s : handler.Statement)
    (h : r event = .ok s) :
    r ∈ tableReducers ∧
    (∃ values conds, crdb.Exec.update none values conds ∈ s.Execute) ∧
    ∀ values conds, crdb.Exec.update none values conds ∈ s.Execute →
      handler.valuesOf values "change_date" = [.timestamp event.toBaseEvent.CreationDate] ∧
      handler.valuesOf values "sequence" = [.uint64 event.toBaseEvent.Sequence] := by
  simp only [primaryUpdateReducers, List.mem_cons, List.mem_singleton, List.not_mem_nil,
    or_false] at hr
  rcases hr with rfl | rfl | rfl | rfl | rfl | rfl | rfl | rfl | rfl | rfl | rfl
  · exact ⟨by simp [tableReducers, reducers], reduceOAuthIDPChanged_stamps h⟩
  · exact ⟨by simp [tableReducers, reducers], reduceOIDCIDPChanged_stamps h⟩
  · exact ⟨by simp [tableReducers, reducers], reduceJWTIDPChanged_stamps h⟩
  · exact ⟨by simp [tableReducers, reducers], reduceGoogleIDPChanged_stamps h⟩
  · exact ⟨by simp [tableReducers, reducers], reduceLDAPIDPChanged_stamps h⟩
  · exact ⟨by simp [tableReducers, reducers], reduceOldConfigChanged_stamps h⟩
  · exact ⟨by simp [tableReducers, reducers], reduceOldOIDCConfigChanged_stamps h⟩
  · exact ⟨by simp [tableReducers, reducers], reduceOldJWTConfigChanged_stamps h⟩
  · exact ⟨by simp [tableReducers, reducers], reduceOldOIDCConfigAdded_stamps h⟩
  · exact ⟨by simp [tableReducers, reducers], reduceOldJWTConfigAdded_stamps h⟩
  · exact ⟨by simp [tableReducers, reducers], reduceOwnerRemoved_stamps h⟩

/-! ## The claims -/

/-- C1: each typed Added reducer (OAuth, OIDC, JWT, Google, LDAP), on the org-scoped and
on the instance-scoped event, returns no error and a unit of exactly two Creates,
primary table first and then the satellite table of the event's own type; both
carry the event's ID and the aggregate's instance id, and the primary `type` column
is the discriminant of that satellite. -/
theorem C1_added_emits_primary_and_satellite_create :
    (∀ e : idp.OAuthIDPAddedEvent,
      IsAddedUnit (reduceOAuthIDPAdded (.org (.OAuthIDPAddedEvent e))) e.ID e.Aggregate.InstanceID
        .IDPTypeOAuth "oauth" ∧
      IsAddedUnit (reduceOAuthIDPAdded (.inst (.OAuthIDPAddedEvent e))) e.ID e.Aggregate.InstanceID
        .IDPTypeOAuth "oauth") ∧
    (∀ e : idp.OIDCIDPAddedEvent,
      IsAddedUnit (reduceOIDCIDPAdded (.org (.OIDCIDPAddedEvent e))) e.ID e.Aggregate.InstanceID
        .IDPTypeOIDC "oidc" ∧
      IsAddedUnit (reduceOIDCIDPAdded (.inst (.OIDCIDPAddedEvent e))) e.ID e.Aggregate.InstanceID
        .IDPTypeOIDC "oidc") ∧
    (∀ e : idp.JWTIDPAddedEvent,
      IsAddedUnit (reduceJWTIDPAdded (.org (.JWTIDPAddedEvent e))) e.ID e.Aggregate.InstanceID
        .IDPTypeJWT "jwt" ∧
      IsAddedUnit (reduceJWTIDPAdded (.inst (.JWTIDPAddedEvent e))) e.ID e.Aggregate.InstanceID
        .IDPTypeJWT "jwt") ∧
    (∀ e : idp.GoogleIDPAddedEvent,
      IsAddedUnit (reduceGoogleIDPAdded (.org (.GoogleIDPAddedEvent e))) e.ID e.Aggregate.InstanceID
        .IDPTypeGoogle "google" ∧
      IsAddedUnit (reduceGoogleIDPAdded (.inst (.GoogleIDPAddedEvent e))) e.ID e.Aggregate.InstanceID
        .IDPTypeGoogle "google") ∧
    (∀ e : idp.LDAPIDPAddedEvent,
      IsAddedUnit (reduceLDAPIDPAdded (.org (.LDAPIDPAddedEvent e))) e.ID e.Aggregate.InstanceID
        .IDPTypeLDAP "ldap" ∧
      IsAddedUnit (reduceLDAPIDPAdded (.inst (.LDAPIDPAddedEvent e))) e.ID e.Aggregate.InstanceID
        .IDPTypeLDAP "ldap") := by
  refine ⟨fun e => ⟨?_, ?_⟩, fun e => ⟨?_, ?_⟩, fun e => ⟨?_, ?_⟩, fun e => ⟨?_, ?_⟩,
    fun e => ⟨?_, ?_⟩⟩ <;>
  exact ⟨_, _, _, rfl, rfl, rfl, rfl, rfl, rfl, rfl⟩


/-- C2: the dispatch table registers the JWT Added event type, for the instance and for the
org aggregate, also with `reduceJWTIDPChanged`; dispatching a JWT Added event of that
registered type to this registered reducer yields the unexpected-event-shape error. -/
theorem C2_jwt_added_type_registered_with_changed_reducer (e : idp.JWTIDPAddedEvent) :
    (∃ ar ∈ reducers, ar.Aggregate = .instanceAggregateType ∧ ∃ er ∈ ar.EventRedusers,
      er.Event = (eventstore.Event.inst (.JWTIDPAddedEvent e)).Type ∧
      er.Reduce (.inst (.JWTIDPAddedEvent e)) =
        .error ⟨"HANDL-p1582ks", "reduce.wrong.event.type %v",
          [.orgJWTIDPChangedEventType, .instanceJWTIDPChangedEventType]⟩) ∧
    (∃ ar ∈ reducers, ar.Aggregate = .orgAggregateType ∧ ∃ er ∈ ar.EventRedusers,
      er.Event = (eventstore.Event.org (.JWTIDPAddedEvent e)).Type ∧
      er.Reduce (.org (.JWTIDPAddedEvent e)) =
        .error ⟨"HANDL-p1582ks", "reduce.wrong.event.type %v",
          [.orgJWTIDPChangedEventType, .instanceJWTIDPChangedEventType]⟩) := by
  refine ⟨⟨_, List.mem_cons_self _ _, rfl,
      ⟨.instanceJWTIDPAddedEventType, reduceJWTIDPChanged⟩, ?_, rfl, rfl⟩,
    ⟨_, List.mem_cons_of_mem _ (List.mem_cons_self _ _), rfl,
      ⟨.orgJWTIDPAddedEventType, reduceJWTIDPChanged⟩, ?_, rfl, rfl⟩⟩ <;> simp

/-- C3: the JWT Changed event type is registered for neither aggregate, although
`reduceJWTIDPChanged` accepts the JWT Changed event of both scopes. -/
theorem C3_jwt_changed_type_not_registered :
    registeredTypes.contains .instanceJWTIDPChangedEventType = false ∧
    registeredTypes.contains .orgJWTIDPChangedEventType = false ∧
    (∀ e : idp.JWTIDPChangedEvent,
      (eventstore.Event.inst (.JWTIDPChangedEvent e)).Type = .instanceJWTIDPChangedEventType ∧
      (eventstore.Event.org (.JWTIDPChangedEvent e)).Type = .orgJWTIDPChangedEventType ∧
      (∃ s, reduceJWTIDPChanged (.inst (.JWTIDPChangedEvent e)) = .ok s) ∧
      (∃ s, reduceJWTIDPChanged (.org (.JWTIDPChangedEvent e)) = .ok s)) :=
  ⟨by decide, by decide, fun _ => ⟨rfl, rfl, ⟨_, rfl⟩, ⟨_, rfl⟩⟩⟩

/-- C4 (as stated, refuted): the OAuth Changed reducer is a reducer of the projection and, for
the event that sets only the client id, emits an Update against the oauth satellite
table that assigns neither `change_date` nor `sequence`. -/
theorem C4_satellite_update_without_audit_columns :
    reduceOAuthIDPChanged ∈ tableReducers ∧
    ∃ s values conds,
      reduceOAuthIDPChanged (.inst (.OAuthIDPChangedEvent sampleOAuthChangedClientID)) = .ok s ∧
      crdb.Exec.update (some "oauth") values conds ∈ s.Execute ∧
      "change_date" ∉ handler.namesOf values ∧ "sequence" ∉ handler.namesOf values := by
  refine ⟨by simp [tableReducers, reducers], _, [⟨"client_id", .text "c1"⟩], _, rfl,
    List.mem_cons_of_mem _ (List.mem_cons_self _ _), by decide, by decide⟩

/-- C4 (amended): every Update against the primary table emitted by any reducer of the
projection, for every accepted event, assigns both `change_date` and `sequence`. -/
theorem C4_primary_updates_assign_change_date_and_sequence (r : handler.Reduce)
    (hr : r ∈ tableReducers) (event : eventstore.Event) (s : handler.Statement)
    (h : r event = .ok s) : PrimaryUpdatesAudited s := by
  rcases tableReducers_cases hr with rfl | rfl | rfl | rfl | rfl | rfl | rfl | rfl | rfl | rfl |
    rfl | rfl | rfl | rfl | rfl | rfl | rfl | rfl | rfl
  · exact reduceOAuthIDPAdded_audited h
  · exact reduceOAuthIDPChanged_audited h
  · exact reduceOIDCIDPAdded_audited h
  · exact reduceOIDCIDPChanged_audited h
  · exact reduceJWTIDPAdded_audited h
  · exact reduceJWTIDPChanged_audited h
  · exact reduceOldConfigAdded_audited h
  · exact reduceOldConfigChanged_audited h
  · exact reduceOldOIDCConfigAdded_audited h
  · exact reduceOldOIDCConfigChanged_audited h
  · exact reduceOldJWTConfigAdded_audited h
  · exact reduceOldJWTConfigChanged_audited h
  · exact reduceGoogleIDPAdded_audited h
  · exact reduceGoogleIDPChanged_audited h
  · exact reduceLDAPIDPAdded_audited h
  · exact reduceLDAPIDPChanged_audited h
  · exact reduceIDPRemoved_audited h
  · exact reduceOwnerRemoved_audited h
  · exact reduceInstanceRemovedHelper_audited h

/-- C4 (amended), at the OAuth Changed event that sets only the client id: the reducer is
registered, returns its two Updates, and the primary one carries the audit columns. -/
theorem C4_primary_updates_witness :
    reduceOAuthIDPChanged ∈ tableReducers ∧
    reduceOAuthIDPChanged (.inst (.OAuthIDPChangedEvent sampleOAuthChangedClientID)) =
      .ok ⟨7, "inst1", [
        .update none [⟨"change_date", .timestamp 1000⟩, ⟨"sequence", .uint64 7⟩]
          [⟨"id", .text "idp1"⟩, ⟨"instance_id", .text "inst1"⟩],
        .update (some "oauth") [⟨"client_id", .text "c1"⟩]
          [⟨"idp_id", .text "idp1"⟩, ⟨"instance_id", .text "inst1"⟩]]⟩ ∧
    PrimaryUpdatesAudited ⟨7, "inst1", [
        .update none [⟨"change_date", .timestamp 1000⟩, ⟨"sequence", .uint64 7⟩]
          [⟨"id", .text "idp1"⟩, ⟨"instance_id", .text "inst1"⟩],
        .update (some "oauth") [⟨"client_id", .text "c1"⟩]
          [⟨"idp_id", .text "idp1"⟩, ⟨"instance_id", .text "inst1"⟩]]⟩ :=
  ⟨by simp [tableReducers, reducers], rfl,
    C4_primary_updates_assign_change_date_and_sequence reduceOAuthIDPChanged
      (by simp [tableReducers, reducers])
      (.inst (.OAuthIDPChangedEvent sampleOAuthChangedClientID)) _ rfl⟩

/-- C5: `reduceOAuthIDPChangedColumns` assigns each of the six satellite columns exactly when
the field is present, with the event's value, and no other column; a present empty
client id and a present empty scope list still yield their column.  For an event in
which only the client id is set, `reduceOAuthIDPChanged` returns exactly the primary
Update of `change_date` and `sequence` and the oauth Update of `client_id`. -/
theorem C5_oauth_changed_columns_follow_presence :
    (∀ e : idp.OAuthIDPChangedEvent,
      handler.valuesOf (reduceOAuthIDPChangedColumns e) "client_id"
        = (e.ClientID.map Value.text).toList ∧
      handler.valuesOf (reduceOAuthIDPChangedColumns e) "client_secret"
        = (e.ClientSecret.map (fun v => Value.crypto (some v))).toList ∧
      handler.valuesOf (reduceOAuthIDPChangedColumns e) "authorization_endpoint"
        = (e.AuthorizationEndpoint.map Value.text).toList ∧
      handler.valuesOf (reduceOAuthIDPChangedColumns e) "token_endpoint"
        = (e.TokenEndpoint.map Value.text).toList ∧
      handler.valuesOf (reduceOAuthIDPChangedColumns e) "user_endpoint"
        = (e.UserEndpoint.map Value.text).toList ∧
      handler.valuesOf (reduceOAuthIDPChangedColumns e) "scopes"
        = (e.Scopes.map (fun v => Value.stringArray (some v))).toList ∧
      handler.namesOf (reduceOAuthIDPChangedColumns e) ⊆
        ["client_id", "client_secret", "authorization_endpoint", "token_endpoint",
          "user_endpoint", "scopes"] ∧
      handler.valuesOf (reduceOAuthIDPChangedColumns { e with ClientID := some "" }) "client_id"
        = [.text ""] ∧
      handler.valuesOf (reduceOAuthIDPChangedColumns { e with Scopes := some [] }) "scopes"
        = [.stringArray (some [])]) ∧
    (∀ (b : eventstore.BaseEvent) (id c : String),
      reduceOAuthIDPChanged (.org (.OAuthIDPChangedEvent
          { unsetOAuthIDPChangedEvent b id with ClientID := some c })) =
        .ok ⟨b.Sequence, b.Aggregate.InstanceID, [
          .update none [⟨"change_date", .timestamp b.CreationDate⟩, ⟨"sequence", .uint64 b.Sequence⟩]
            [⟨"id", .text id⟩, ⟨"instance_id", .text b.Aggregate.InstanceID⟩],
          .update (some "oauth") [⟨"client_id", .text c⟩]
            [⟨"idp_id", .text id⟩, ⟨"instance_id", .text b.Aggregate.InstanceID⟩]]⟩ ∧
      reduceOAuthIDPChanged (.inst (.OAuthIDPChangedEvent
          { unsetOAuthIDPChangedEvent b id with ClientID := some c })) =
        .ok ⟨b.Sequence, b.Aggregate.InstanceID, [
          .update none [⟨"change_date", .timestamp b.CreationDate⟩, ⟨"sequence", .uint64 b.Sequence⟩]
            [⟨"id", .text id⟩, ⟨"instance_id", .text b.Aggregate.InstanceID⟩],
          .update (some "oauth") [⟨"client_id", .text c⟩]
            [⟨"idp_id", .text id⟩, ⟨"instance_id", .text b.Aggregate.InstanceID⟩]]⟩) := by
  refine ⟨fun e => ⟨?_, ?_, ?_, ?_, ?_, ?_, ?_, ?_, ?_⟩, fun b id c => ⟨rfl, rfl⟩⟩
  · simp [reduceOAuthIDPChangedColumns, appendIfNotNil_eq, valuesOf_append, valuesOf_optCol,
      valuesOf_nil, database.StringArray, OAuthClientIDCol, OAuthClientSecretCol,
      OAuthAuthorizationEndpointCol, OAuthTokenEndpointCol, OAuthUserEndpointCol, OAuthScopesCol]
  · simp [reduceOAuthIDPChangedColumns, appendIfNotNil_eq, valuesOf_append, valuesOf_optCol,
      valuesOf_nil, database.StringArray, OAuthClientIDCol, OAuthClientSecretCol,
      OAuthAuthorizationEndpointCol, OAuthTokenEndpointCol, OAuthUserEndpointCol, OAuthScopesCol]
  · simp [reduceOAuthIDPChangedColumns, appendIfNotNil_eq, valuesOf_append, valuesOf_optCol,
      valuesOf_nil, database.StringArray, OAuthClientIDCol, OAuthClientSecretCol,
      OAuthAuthorizationEndpointCol, OAuthTokenEndpointCol, OAuthUserEndpointCol, OAuthScopesCol]
  · simp [reduceOAuthIDPChangedColumns, appendIfNotNil_eq, valuesOf_append, valuesOf_optCol,
      valuesOf_nil, database.StringArray, OAuthClientIDCol, OAuthClientSecretCol,
      OAuthAuthorizationEndpointCol, OAuthTokenEndpointCol, OAuthUserEndpointCol, OAuthScopesCol]
  · simp [reduceOAuthIDPChangedColumns, appendIfNotNil_eq, valuesOf_append, valuesOf_optCol,
      valuesOf_nil, database.StringArray, OAuthClientIDCol, OAuthClientSecretCol,
      OAuthAuthorizationEndpointCol, OAuthTokenEndpointCol, OAuthUserEndpointCol, OAuthScopesCol]
  · simp [reduceOAuthIDPChangedColumns, appendIfNotNil_eq, valuesOf_append, valuesOf_optCol,
      valuesOf_nil, database.StringArray, OAuthClientIDCol, OAuthClientSecretCol,
      OAuthAuthorizationEndpointCol, OAuthTokenEndpointCol, OAuthUserEndpointCol, OAuthScopesCol]
  · simp only [reduceOAuthIDPChangedColumns, appendIfNotNil_eq, namesOf_append, List.nil_append,
      List.append_subset, OAuthClientIDCol, OAuthClientSecretCol, OAuthAuthorizationEndpointCol,
      OAuthTokenEndpointCol, OAuthUserEndpointCol, OAuthScopesCol]
    refine ⟨⟨⟨⟨⟨?_, ?_⟩, ?_⟩, ?_⟩, ?_⟩, ?_⟩ <;> exact namesOf_optCol_subset _ _ (by decide)
  · simp [reduceOAuthIDPChangedColumns, appendIfNotNil_eq, valuesOf_append, valuesOf_optCol,
      valuesOf_nil, database.StringArray, OAuthClientIDCol, OAuthClientSecretCol,
      OAuthAuthorizationEndpointCol, OAuthTokenEndpointCol, OAuthUserEndpointCol, OAuthScopesCol]
  · simp [reduceOAuthIDPChangedColumns, appendIfNotNil_eq, valuesOf_append, valuesOf_optCol,
      valuesOf_nil, database.StringArray, OAuthClientIDCol, OAuthClientSecretCol,
      OAuthAuthorizationEndpointCol, OAuthTokenEndpointCol, OAuthUserEndpointCol, OAuthScopesCol]

/-- C6: each typed Changed reducer, on the org-scoped and on the instance-scoped event in
which nothing is set, returns no error and a unit of exactly one statement: the
primary-table Update assigning exactly `change_date` (the event's creation date) and
`sequence` (the event's sequence), conditioned on `id` and `instance_id`. -/
theorem C6_changed_with_nothing_set_updates_audit_columns (b : eventstore.BaseEvent)
    (id : String) :
    reduceOAuthIDPChanged (.org (.OAuthIDPChangedEvent (unsetOAuthIDPChangedEvent b id)))
      = .ok (auditOnlyUnit b id) ∧
    reduceOAuthIDPChanged (.inst (.OAuthIDPChangedEvent (unsetOAuthIDPChangedEvent b id)))
      = .ok (auditOnlyUnit b id) ∧
    reduceOIDCIDPChanged (.org (.OIDCIDPChangedEvent (unsetOIDCIDPChangedEvent b id)))
      = .ok (auditOnlyUnit b id) ∧
    reduceOIDCIDPChanged (.inst (.OIDCIDPChangedEvent (unsetOIDCIDPChangedEvent b id)))
      = .ok (auditOnlyUnit b id) ∧
    reduceJWTIDPChanged (.org (.JWTIDPChangedEvent (unsetJWTIDPChangedEvent b id)))
      = .ok (auditOnlyUnit b id) ∧
    reduceJWTIDPChanged (.inst (.JWTIDPChangedEvent (unsetJWTIDPChangedEvent b id)))
      = .ok (auditOnlyUnit b id) ∧
    reduceGoogleIDPChanged (.org (.GoogleIDPChangedEvent (unsetGoogleIDPChangedEvent b id)))
      = .ok (auditOnlyUnit b id) ∧
    reduceGoogleIDPChanged (.inst (.GoogleIDPChangedEvent (unsetGoogleIDPChangedEvent b id)))
      = .ok (auditOnlyUnit b id) ∧
    reduceLDAPIDPChanged (.org (.LDAPIDPChangedEvent (unsetLDAPIDPChangedEvent b id)))
      = .ok (auditOnlyUnit b id) ∧
    reduceLDAPIDPChanged (.inst (.LDAPIDPChangedEvent (unsetLDAPIDPChangedEvent b id)))
      = .ok (auditOnlyUnit b id) ∧
    (auditOnlyUnit b id).Execute.length = 1 :=
  ⟨rfl, rfl, rfl, rfl, rfl, rfl, rfl, rfl, rfl, rfl, rfl⟩

/-- C7: for every generic legacy config-changed event the Update of `reduceOldConfigChanged`
targets the primary table and assigns `name` and `is_auto_creation` when present and
then `change_date` and `sequence`, but its conditions select the row by the column
`idp_id` (the satellite key column `OIDCIDCol`), not by the primary key column `id`. -/
theorem C7_old_config_changed_selects_by_idp_id (e : idpconfig.IDPConfigChangedEvent) :
    reduceOldConfigChanged (.org (.IDPConfigChangedEvent e)) =
      .ok ⟨e.Sequence, e.Aggregate.InstanceID, [
        .update none
          (optCol "name" e.Name Value.text ++ optCol "is_auto_creation" e.AutoRegister Value.bool ++
            [⟨"change_date", .timestamp e.CreationDate⟩, ⟨"sequence", .uint64 e.Sequence⟩])
          [⟨"idp_id", .text e.ConfigID⟩, ⟨"instance_id", .text e.Aggregate.InstanceID⟩]]⟩ ∧
    reduceOldConfigChanged (.inst (.IDPConfigChangedEvent e)) =
      .ok ⟨e.Sequence, e.Aggregate.InstanceID, [
        .update none
          (optCol "name" e.Name Value.text ++ optCol "is_auto_creation" e.AutoRegister Value.bool ++
            [⟨"change_date", .timestamp e.CreationDate⟩, ⟨"sequence", .uint64 e.Sequence⟩])
          [⟨"idp_id", .text e.ConfigID⟩, ⟨"instance_id", .text e.Aggregate.InstanceID⟩]]⟩ ∧
    IDPTemplateIDCol = "id" ∧ OIDCIDCol = "idp_id" ∧
    handler.NewCond IDPTemplateIDCol (.text e.ConfigID) ∉
      [handler.NewCond OIDCIDCol (.text e.ConfigID),
       handler.NewCond OIDCInstanceIDCol (.text e.Aggregate.InstanceID)] := by
  refine ⟨?_, ?_, rfl, rfl, ?_⟩
  · simp [reduceOldConfigChanged, appendIfNotNil_eq, crdb.NewUpdateStatement, crdb.tableSuffix,
      handler.NewCol, handler.NewCond, optCol, IDPTemplateNameCol, IDPTemplateIsAutoCreationCol,
      IDPTemplateChangeDateCol, IDPTemplateSequenceCol, OIDCIDCol, OIDCInstanceIDCol]
  · simp [reduceOldConfigChanged, appendIfNotNil_eq, crdb.NewUpdateStatement, crdb.tableSuffix,
      handler.NewCol, handler.NewCond, optCol, IDPTemplateNameCol, IDPTemplateIsAutoCreationCol,
      IDPTemplateChangeDateCol, IDPTemplateSequenceCol, OIDCIDCol, OIDCInstanceIDCol]
  · simp [handler.NewCond, IDPTemplateIDCol, OIDCIDCol, OIDCInstanceIDCol]

/-- C8: every reducer of the projection has declared shapes, and on every event it returns
an error (and so no statement) exactly when the event's shape is not declared, and a
statement (and so no error) exactly when it is. -/
theorem C8_error_iff_shape_not_declared (r : handler.Reduce) (hr : r ∈ tableReducers)
    (event : eventstore.Event) :
    ∃ d ∈ declaredShapes, d.1 = r ∧
      ((∃ err, r event = .error err) ↔ event.Type ∉ d.2) ∧
      ((∃ s, r event = .ok s) ↔ event.Type ∈ d.2) := by
  rcases tableReducers_cases hr with rfl | rfl | rfl | rfl | rfl | rfl | rfl | rfl | rfl | rfl |
    rfl | rfl | rfl | rfl | rfl | rfl | rfl | rfl | rfl
  · exact ⟨(reduceOAuthIDPAdded, _), by simp [declaredShapes], rfl, reduceOAuthIDPAdded_declared event⟩
  · exact ⟨(reduceOAuthIDPChanged, _), by simp [declaredShapes], rfl, reduceOAuthIDPChanged_declared event⟩
  · exact ⟨(reduceOIDCIDPAdded, _), by simp [declaredShapes], rfl, reduceOIDCIDPAdded_declared event⟩
  · exact ⟨(reduceOIDCIDPChanged, _), by simp [declaredShapes], rfl, reduceOIDCIDPChanged_declared event⟩
  · exact ⟨(reduceJWTIDPAdded, _), by simp [declaredShapes], rfl, reduceJWTIDPAdded_declared event⟩
  · exact ⟨(reduceJWTIDPChanged, _), by simp [declaredShapes], rfl, reduceJWTIDPChanged_declared event⟩
  · exact ⟨(reduceOldConfigAdded, _), by simp [declaredShapes], rfl, reduceOldConfigAdded_declared event⟩
  · exact ⟨(reduceOldConfigChanged, _), by simp [declaredShapes], rfl, reduceOldConfigChanged_declared event⟩
  · exact ⟨(reduceOldOIDCConfigAdded, _), by simp [declaredShapes], rfl, reduceOldOIDCConfigAdded_declared event⟩
  · exact ⟨(reduceOldOIDCConfigChanged, _), by simp [declaredShapes], rfl, reduceOldOIDCConfigChanged_declared event⟩
  · exact ⟨(reduceOldJWTConfigAdded, _), by simp [declaredShapes], rfl, reduceOldJWTConfigAdded_declared event⟩
  · exact ⟨(reduceOldJWTConfigChanged, _), by simp [declaredShapes], rfl, reduceOldJWTConfigChanged_declared event⟩
  · exact ⟨(reduceGoogleIDPAdded, _), by simp [declaredShapes], rfl, reduceGoogleIDPAdded_declared event⟩
  · exact ⟨(reduceGoogleIDPChanged, _), by simp [declaredShapes], rfl, reduceGoogleIDPChanged_declared event⟩
  · exact ⟨(reduceLDAPIDPAdded, _), by simp [declaredShapes], rfl, reduceLDAPIDPAdded_declared event⟩
  · exact ⟨(reduceLDAPIDPChanged, _), by simp [declaredShapes], rfl, reduceLDAPIDPChanged_declared event⟩
  · exact ⟨(reduceIDPRemoved, _), by simp [declaredShapes], rfl, reduceIDPRemoved_declared event⟩
  · exact ⟨(reduceOwnerRemoved, _), by simp [declaredShapes], rfl, reduceOwnerRemoved_declared event⟩
  · exact ⟨(reduceInstanceRemovedHelper IDPTemplateInstanceIDCol, _), by simp [declaredShapes], rfl,
      reduceInstanceRemovedHelper_declared _ event⟩

/-- C8, at the removed reducer and an org-removed event, whose shape it does not declare. -/
theorem C8_error_iff_shape_not_declared_witness :
    reduceIDPRemoved ∈ tableReducers ∧
    ∃ d ∈ declaredShapes, d.1 = reduceIDPRemoved ∧
      ((∃ err, reduceIDPRemoved (.OrgRemovedEvent sampleBase) = .error err) ↔
        (eventstore.Event.OrgRemovedEvent sampleBase).Type ∉ d.2) ∧
      ((∃ s, reduceIDPRemoved (.OrgRemovedEvent sampleBase) = .ok s) ↔
        (eventstore.Event.OrgRemovedEvent sampleBase).Type ∈ d.2) :=
  ⟨by simp [tableReducers, reducers],
    C8_error_iff_shape_not_declared reduceIDPRemoved (by simp [tableReducers, reducers])
      (.OrgRemovedEvent sampleBase)⟩

/-- C9: for every IDP Removed event of either scope, `reduceIDPRemoved` returns no error and
exactly one statement, a Delete against the primary table whose conditions are exactly
`id` = the event's ID and `instance_id` = the aggregate's instance id. -/
theorem C9_removed_deletes_primary_row_only (e : idp.RemovedEvent) :
    reduceIDPRemoved (.org (.IDPRemovedEvent e)) =
      .ok ⟨e.Sequence, e.Aggregate.InstanceID, [
        .delete none [⟨"id", .text e.ID⟩, ⟨"instance_id", .text e.Aggregate.InstanceID⟩]]⟩ ∧
    reduceIDPRemoved (.inst (.IDPRemovedEvent e)) =
      .ok ⟨e.Sequence, e.Aggregate.InstanceID, [
        .delete none [⟨"id", .text e.ID⟩, ⟨"instance_id", .text e.Aggregate.InstanceID⟩]]⟩ :=
  ⟨rfl, rfl⟩

/-- C10: for every generic legacy config-added event of either scope, `reduceOldConfigAdded`
returns exactly one Create, against the primary table, which sets `id` to the config
id, `type` to unspecified, `is_creation_allowed` and `is_linking_allowed` to true,
`is_auto_update` to false and `is_auto_creation` to the event's auto-register value. -/
theorem C10_old_config_added_creates_unspecified_primary_row (e : idpconfig.IDPConfigAddedEvent)
    (event : eventstore.Event)
    (hevent : event = .org (.IDPConfigAddedEvent e) ∨ event = .inst (.IDPConfigAddedEvent e)) :
    ∃ s cols, reduceOldConfigAdded event = .ok s ∧ s.Execute = [.create none cols] ∧
      handler.valuesOf cols "id" = [.text e.ConfigID] ∧
      handler.valuesOf cols "type" = [.idpType .IDPTypeUnspecified] ∧
      handler.valuesOf cols "is_creation_allowed" = [.bool true] ∧
      handler.valuesOf cols "is_linking_allowed" = [.bool true] ∧
      handler.valuesOf cols "is_auto_update" = [.bool false] ∧
      handler.valuesOf cols "is_auto_creation" = [.bool e.AutoRegister] := by
  rcases hevent with rfl | rfl <;> exact ⟨_, _, rfl, rfl, rfl, rfl, rfl, rfl, rfl, rfl⟩

/-- C10, at an instance-scoped config-added event with auto-register set. -/
theorem C10_old_config_added_witness :
    ∃ s cols,
      reduceOldConfigAdded (.inst (.IDPConfigAddedEvent
        { toBaseEvent := sampleBase, ConfigID := "cfg1", Name := "n", AutoRegister := true }))
        = .ok s ∧ s.Execute = [.create none cols] ∧
      handler.valuesOf cols "id" = [.text "cfg1"] ∧
      handler.valuesOf cols "type" = [.idpType .IDPTypeUnspecified] ∧
      handler.valuesOf cols "is_creation_allowed" = [.bool true] ∧
      handler.valuesOf cols "is_linking_allowed" = [.bool true] ∧
      handler.valuesOf cols "is_auto_update" = [.bool false] ∧
      handler.valuesOf cols "is_auto_creation" = [.bool true] :=
  C10_old_config_added_creates_unspecified_primary_row
    { toBaseEvent := sampleBase, ConfigID := "cfg1", Name := "n", AutoRegister := true } _
    (Or.inr rfl)

/-- C11: `reduceOldOIDCConfigAdded` (respectively `reduceOldJWTConfigAdded`), on the
org-scoped and on the instance-scoped event, returns one unit of exactly two statements:
the primary Update assigning exactly `change_date`, `sequence` and `type` = oidc
(respectively jwt), conditioned on `id` = the IDP config id and `instance_id`; then the
Create against the oidc (respectively jwt) satellite table, whose `idp_id` and
`instance_id` are the same values. -/
theorem C11_legacy_typed_added_updates_type_then_creates_satellite :
    (∀ e : idpconfig.OIDCConfigAddedEvent, ∃ satellite,
      reduceOldOIDCConfigAdded (.org (.IDPOIDCConfigAddedEvent e)) =
        .ok (legacyUpgradeUnit e.toBaseEvent e.IDPConfigID .IDPTypeOIDC "oidc" satellite) ∧
      reduceOldOIDCConfigAdded (.inst (.IDPOIDCConfigAddedEvent e)) =
        .ok (legacyUpgradeUnit e.toBaseEvent e.IDPConfigID .IDPTypeOIDC "oidc" satellite) ∧
      handler.valuesOf satellite "idp_id" = [.text e.IDPConfigID] ∧
      handler.valuesOf satellite "instance_id" = [.text e.Aggregate.InstanceID]) ∧
    (∀ e : idpconfig.JWTConfigAddedEvent, ∃ satellite,
      reduceOldJWTConfigAdded (.org (.IDPJWTConfigAddedEvent e)) =
        .ok (legacyUpgradeUnit e.toBaseEvent e.IDPConfigID .IDPTypeJWT "jwt" satellite) ∧
      reduceOldJWTConfigAdded (.inst (.IDPJWTConfigAddedEvent e)) =
        .ok (legacyUpgradeUnit e.toBaseEvent e.IDPConfigID .IDPTypeJWT "jwt" satellite) ∧
      handler.valuesOf satellite "idp_id" = [.text e.IDPConfigID] ∧
      handler.valuesOf satellite "instance_id" = [.text e.Aggregate.InstanceID]) :=
  ⟨fun _ => ⟨_, rfl, rfl, rfl, rfl⟩, fun _ => ⟨_, rfl, rfl, rfl, rfl⟩⟩

/-- C12: from empty tables, the unit of a generic legacy config-added event for config id X
followed by the unit of a legacy OIDC config-added event with the same IDP config id and
instance leaves exactly one primary row, for X, with `type` oidc, exactly one oidc
satellite row, for X, holding the issuer, client id, client secret and scopes of the
event, and no row in the oauth, jwt, google and ldap satellite tables. -/
theorem C12_legacy_upgrade_from_empty_tables (e1 : idpconfig.IDPConfigAddedEvent)
    (e2 : idpconfig.OIDCConfigAddedEvent) (ev1 ev2 : eventstore.Event)
    (hid : e2.IDPConfigID = e1.ConfigID)
    (hinst : e2.Aggregate.InstanceID = e1.Aggregate.InstanceID)
    (h1 : ev1 = .org (.IDPConfigAddedEvent e1) ∨ ev1 = .inst (.IDPConfigAddedEvent e1))
    (h2 : ev2 = .org (.IDPOIDCConfigAddedEvent e2) ∨ ev2 = .inst (.IDPOIDCConfigAddedEvent e2)) :
    (processEvents [] [(reduceOldConfigAdded, ev1), (reduceOldOIDCConfigAdded, ev2)]).project none
        ["instance_id", "id", "type"] =
      [[some (.text e1.Aggregate.InstanceID), some (.text e1.ConfigID),
        some (.idpType .IDPTypeOIDC)]] ∧
    (processEvents [] [(reduceOldConfigAdded, ev1), (reduceOldOIDCConfigAdded, ev2)]).project
        (some "oidc") ["instance_id", "idp_id", "issuer", "client_id", "client_secret", "scopes"] =
      [[some (.text e1.Aggregate.InstanceID), some (.text e1.ConfigID), some (.text e2.Issuer),
        some (.text e2.ClientID), some (.crypto e2.ClientSecret),
        some (.stringArray e2.Scopes)]] ∧
    (processEvents [] [(reduceOldConfigAdded, ev1), (reduceOldOIDCConfigAdded, ev2)]).project
        (some "oauth") [] = [] ∧
    (processEvents [] [(reduceOldConfigAdded, ev1), (reduceOldOIDCConfigAdded, ev2)]).project
        (some "jwt") [] = [] ∧
    (processEvents [] [(reduceOldConfigAdded, ev1), (reduceOldOIDCConfigAdded, ev2)]).project
        (some "google") [] = [] ∧
    (processEvents [] [(reduceOldConfigAdded, ev1), (reduceOldOIDCConfigAdded, ev2)]).project
        (some "ldap") [] = [] := by
  rcases h1 with rfl | rfl <;> rcases h2 with rfl | rfl <;>
  simp [reduceOldConfigAdded, reduceOldOIDCConfigAdded, hid, hinst,
    applyReduce, processEvents, applyStatement, applyExecs, applyExec, StoredRow.update, StoredRow.hit, Tables.removes, crdb.NewCreateStatement,
    crdb.NewUpdateStatement, crdb.NewDeleteStatement, crdb.NewMultiStatement,
    crdb.AddUpdateStatement, crdb.AddCreateStatement, crdb.tableSuffix, primaryKeyOf_none,
    primaryKeyOf_oauth, primaryKeyOf_oidc, primaryKeyOf_jwt, primaryKeyOf_google,
    primaryKeyOf_ldap, hasForeignKey_none, hasForeignKey_oauth, hasForeignKey_oidc,
    hasForeignKey_jwt, hasForeignKey_google, hasForeignKey_ldap, StoredRow.conflicts,
    StoredRow.owns, StoredRow.key, Row.ofColumns, Row.satisfies, Row.overwrite, Tables.project,
    handler.NewCol, handler.NewCond, database.StringArray,
    IDPTemplateIDCol, IDPTemplateCreationDateCol, IDPTemplateChangeDateCol,
    IDPTemplateSequenceCol, IDPTemplateResourceOwnerCol, IDPTemplateInstanceIDCol,
    IDPTemplateStateCol, IDPTemplateNameCol, IDPTemplateOwnerTypeCol, IDPTemplateTypeCol,
    IDPTemplateOwnerRemovedCol, IDPTemplateIsCreationAllowedCol, IDPTemplateIsLinkingAllowedCol,
    IDPTemplateIsAutoCreationCol, IDPTemplateIsAutoUpdateCol,
    OIDCIDCol, OIDCInstanceIDCol, OIDCIssuerCol, OIDCClientIDCol, OIDCClientSecretCol,
    OIDCScopesCol, IDPTemplateOIDCSuffix]

/-- C12, at the sample events for `cfg1`. -/
theorem C12_legacy_upgrade_witness :
    (processEvents [] [(reduceOldConfigAdded, .inst (.IDPConfigAddedEvent sampleConfigAdded)),
        (reduceOldOIDCConfigAdded, .inst (.IDPOIDCConfigAddedEvent sampleOIDCConfigAdded))]).project
        none ["instance_id", "id", "type"] =
      [[some (.text "inst1"), some (.text "cfg1"), some (.idpType .IDPTypeOIDC)]] ∧
    (processEvents [] [(reduceOldConfigAdded, .inst (.IDPConfigAddedEvent sampleConfigAdded)),
        (reduceOldOIDCConfigAdded, .inst (.IDPOIDCConfigAddedEvent sampleOIDCConfigAdded))]).project
        (some "oidc") ["instance_id", "idp_id", "issuer", "client_id", "client_secret", "scopes"] =
      [[some (.text "inst1"), some (.text "cfg1"), some (.text "https://issuer"),
        some (.text "c1"), some (.crypto none), some (.stringArray (some ["openid"]))]] ∧
    (processEvents [] [(reduceOldConfigAdded, .inst (.IDPConfigAddedEvent sampleConfigAdded)),
        (reduceOldOIDCConfigAdded, .inst (.IDPOIDCConfigAddedEvent sampleOIDCConfigAdded))]).project
        (some "oauth") [] = [] ∧
    (processEvents [] [(reduceOldConfigAdded, .inst (.IDPConfigAddedEvent sampleConfigAdded)),
        (reduceOldOIDCConfigAdded, .inst (.IDPOIDCConfigAddedEvent sampleOIDCConfigAdded))]).project
        (some "jwt") [] = [] ∧
    (processEvents [] [(reduceOldConfigAdded, .inst (.IDPConfigAddedEvent sampleConfigAdded)),
        (reduceOldOIDCConfigAdded, .inst (.IDPOIDCConfigAddedEvent sampleOIDCConfigAdded))]).project
        (some "google") [] = [] ∧
    (processEvents [] [(reduceOldConfigAdded, .inst (.IDPConfigAddedEvent sampleConfigAdded)),
        (reduceOldOIDCConfigAdded, .inst (.IDPOIDCConfigAddedEvent sampleOIDCConfigAdded))]).project
        (some "ldap") [] = [] :=
  C12_legacy_upgrade_from_empty_tables sampleConfigAdded sampleOIDCConfigAdded _ _ rfl rfl
    (Or.inr rfl) (Or.inr rfl)

/-- C13 (as stated, refuted): the generic legacy config-added event for `cfg1`, then the
legacy OIDC config-added event and the legacy JWT config-added event for the same
config, are accepted by three reducers of the dispatch table and leave a primary row
with `type` jwt together with a row for `cfg1` in the oidc satellite table and one in
the jwt satellite table, so the reached state has a row in another satellite table.
The third unit applies and retypes a row whose `type` is already concrete: the sequence
is not one of guarded upgrades, its first two events are. -/
theorem C13_second_legacy_upgrade_keeps_first_satellite :
    (∀ step ∈ sampleDoubleUpgrade, step.1 ∈ tableReducers ∧ ∃ s, step.1 step.2 = .ok s) ∧
    (processEvents [] sampleDoubleUpgrade).types =
      [[some (.text "inst1"), some (.text "cfg1"), some (.idpType .IDPTypeJWT)]] ∧
    (processEvents [] sampleDoubleUpgrade).project (some "oidc") ["instance_id", "idp_id"] =
      [[some (.text "inst1"), some (.text "cfg1")]] ∧
    (processEvents [] sampleDoubleUpgrade).project (some "jwt") ["instance_id", "idp_id"] =
      [[some (.text "inst1"), some (.text "cfg1")]] ∧
    ¬ Exclusive (processEvents [] sampleDoubleUpgrade) ∧
    guardedUpgrades [] sampleDoubleUpgrade = false ∧
    guardedUpgrades [] sampleLegacyUpgrade = true := by
  have h1 : (processEvents [] sampleDoubleUpgrade).types =
      [[some (.text "inst1"), some (.text "cfg1"), some (.idpType .IDPTypeJWT)]] := by decide
  have h2 : (processEvents [] sampleDoubleUpgrade).project (some "oidc")
      ["instance_id", "idp_id"] = [[some (.text "inst1"), some (.text "cfg1")]] := by decide
  have h3 : (processEvents [] sampleDoubleUpgrade).project (some "jwt")
      ["instance_id", "idp_id"] = [[some (.text "inst1"), some (.text "cfg1")]] := by decide
  refine ⟨?_, h1, h2, h3, ?_, by decide, by decide⟩
  · intro step hstep
    simp only [sampleDoubleUpgrade, List.mem_cons, List.mem_singleton, List.not_mem_nil,
      or_false] at hstep
    rcases hstep with rfl | rfl | rfl
    · exact ⟨by simp [tableReducers, reducers], _, rfl⟩
    · exact ⟨by simp [tableReducers, reducers], _, rfl⟩
    · exact ⟨by simp [tableReducers, reducers], _, rfl⟩
  · intro hex
    have hp : [some (Value.text "inst1"), some (Value.text "cfg1"),
        some (Value.idpType .IDPTypeJWT)] ∈ (processEvents [] sampleDoubleUpgrade).types := by
      rw [h1]; exact List.mem_singleton.2 rfl
    have hq : [some (Value.text "inst1"), some (Value.text "cfg1")] ∈
        (processEvents [] sampleDoubleUpgrade).project (some "oidc")
          ["instance_id", "idp_id"] := by
      rw [h2]; exact List.mem_singleton.2 rfl
    obtain ⟨p, hpt, hps, hpk⟩ := Tables.mem_types.1 hp
    obtain ⟨q, hqt, hqs, hqk⟩ := Tables.mem_project.1 hq
    simp only [List.cons.injEq, and_true] at hpk
    simp only [List.map_cons, List.map_nil, List.cons.injEq, and_true] at hqk
    have := hex p hpt hps .IDPTypeJWT "jwt" rfl hpk.2.2.symm q hqt .IDPTypeOIDC "oidc" rfl hqs
      (hqk.1.trans hpk.1) (hqk.2.trans hpk.2.1)
    cases this

/-- C13 (amended): starting from empty tables and applying, event by event, the units the
reducers of the projection return for any finite sequence of events, the reached state
satisfies (a) each primary row whose `type` is a concrete type has exactly one row
with its `(instance_id, id)` in the satellite table of that type, and (b) every
satellite row has a primary row with its `(instance_id, idp_id)`; when every unit whose
Update assigns `type` (a legacy typed config-added unit) is rejected by the store or
meets, in the state it is applied to, only primary rows whose `type` is unspecified,
also (c) no other satellite table holds a row with the `(instance_id, id)` of a primary
row with a concrete `type`.  Every sequence without a step of the two legacy typed
config-added reducers is such a sequence. -/
theorem C13_consistency_is_invariant_of_event_processing
    (steps : List (handler.Reduce × eventstore.Event))
    (hsteps : ∀ step ∈ steps, step.1 ∈ tableReducers) :
    Consistent (processEvents [] steps) ∧
    (guardedUpgrades [] steps = true → Exclusive (processEvents [] steps)) ∧
    ((∀ step ∈ steps,
        step.1 ≠ reduceOldOIDCConfigAdded ∧ step.1 ≠ reduceOldJWTConfigAdded) →
      guardedUpgrades [] steps = true) :=
  ⟨consistent_of_invariant (invariant_processEvents steps hsteps invariant_nil),
    fun hg => exclusive_of_matched (invariant_processEvents steps hsteps invariant_nil)
      (matched_processEvents_guarded steps hsteps hg matched_nil),
    fun hcur => guardedUpgrades_of_no_upgrade steps hsteps hcur []⟩

/-- C13 (amended), at the legacy upgrade path: the generic legacy config-added event for
`cfg1` followed by the legacy OIDC config-added event for the same config, which finds
the row with `type` unspecified; the reached state has the primary row with `type` oidc
and one satellite row, in the oidc table. -/
theorem C13_consistency_witness :
    (∀ step ∈ sampleLegacyUpgrade, step.1 ∈ tableReducers) ∧
    guardedUpgrades [] sampleLegacyUpgrade = true ∧
    (processEvents [] sampleLegacyUpgrade).types =
      [[some (.text "inst1"), some (.text "cfg1"), some (.idpType .IDPTypeOIDC)]] ∧
    (processEvents [] sampleLegacyUpgrade).project (some "oidc") ["instance_id", "idp_id"] =
      [[some (.text "inst1"), some (.text "cfg1")]] ∧
    Consistent (processEvents [] sampleLegacyUpgrade) ∧
    Exclusive (processEvents [] sampleLegacyUpgrade) :=
  have h := C13_consistency_is_invariant_of_event_processing sampleLegacyUpgrade
    (by simp [sampleLegacyUpgrade, tableReducers, reducers])
  ⟨by simp [sampleLegacyUpgrade, tableReducers, reducers], by decide, by decide, by decide,
    h.1, h.2.1 (by decide)⟩

/-- C14 (as stated, refuted): after the OAuth Added event for `idp1` the primary row has
`type` oauth; the unit `reduceOldOIDCConfigAdded` returns for a legacy OIDC config-added
event with the same id and instance changes the `type` of that row to oidc. -/
theorem C14_legacy_upgrade_retypes_concrete_row :
    reduceOAuthIDPAdded ∈ tableReducers ∧ reduceOldOIDCConfigAdded ∈ tableReducers ∧
    (processEvents [] [(reduceOAuthIDPAdded, .inst (.OAuthIDPAddedEvent sampleOAuthAdded))]).types =
      [[some (.text "inst1"), some (.text "idp1"), some (.idpType .IDPTypeOAuth)]] ∧
    (processEvents [] [(reduceOAuthIDPAdded, .inst (.OAuthIDPAddedEvent sampleOAuthAdded)),
        (reduceOldOIDCConfigAdded,
          .inst (.IDPOIDCConfigAddedEvent sampleOIDCConfigAddedForIdp1))]).types =
      [[some (.text "inst1"), some (.text "idp1"), some (.idpType .IDPTypeOIDC)]] :=
  ⟨by simp [tableReducers, reducers], by simp [tableReducers, reducers], by decide, by decide⟩

/-- C14 (amended): for every reducer of the projection, every table state and every event,
the `(instance_id, id, type)` of each primary row after the unit is that of a primary
row before it, or that of a row a Create of the unit inserts, or the key of the Update
of a legacy typed config-added unit with `type` oidc (from `reduceOldOIDCConfigAdded`)
or jwt (from `reduceOldJWTConfigAdded`). -/
theorem C14_type_changes_only_by_legacy_upgrade (r : handler.Reduce) (hr : r ∈ tableReducers)
    (event : eventstore.Event) (t : Tables) (k : List (Option Value))
    (hk : k ∈ (applyReduce t r event).types) :
    k ∈ t.types ∨
    (∃ s values, r event = .ok s ∧ crdb.Exec.create none values ∈ s.Execute ∧
      k = [Row.ofColumns values "instance_id", Row.ofColumns values "id",
        Row.ofColumns values "type"]) ∨
    (∃ s changeDate sequence ty inst id, r event = .ok s ∧
      upgradeUpdate changeDate sequence ty inst id ∈ s.Execute ∧
      ((r = reduceOldOIDCConfigAdded ∧ ty = .IDPTypeOIDC) ∨
        (r = reduceOldJWTConfigAdded ∧ ty = .IDPTypeJWT)) ∧
      k = [some (.text inst), some (.text id), some (.idpType ty)]) := by
  cases h : r event with
  | error err =>
    left
    simpa [applyReduce, h] using hk
  | ok s =>
    simp only [applyReduce, h] at hk
    obtain ⟨o, ho, hattr⟩ := unitShape_of_reducer hr h
    rcases types_of_shape ho t k hk with h1 | ⟨values, hv, hkv⟩ |
      ⟨changeDate, sequence, ty, inst, id, hu, hty, hku⟩
    · exact Or.inl h1
    · exact Or.inr (Or.inl ⟨s, values, rfl, hv, hkv⟩)
    · exact Or.inr (Or.inr ⟨s, changeDate, sequence, ty, inst, id, rfl, hu, hattr ty hty, hku⟩)

/-- C14 (amended), at the legacy OIDC config-added event for `idp1` applied to the tables
the OAuth Added event for `idp1` leaves. -/
theorem C14_type_changes_witness :
    reduceOldOIDCConfigAdded ∈ tableReducers ∧
    sampleUpgradedKey ∈
      (applyReduce
        (processEvents [] [(reduceOAuthIDPAdded, .inst (.OAuthIDPAddedEvent sampleOAuthAdded))])
        reduceOldOIDCConfigAdded
        (.inst (.IDPOIDCConfigAddedEvent sampleOIDCConfigAddedForIdp1))).types ∧
    (sampleUpgradedKey ∈
        (processEvents [] [(reduceOAuthIDPAdded,
          .inst (.OAuthIDPAddedEvent sampleOAuthAdded))]).types ∨
      (∃ s values, reduceOldOIDCConfigAdded
            (.inst (.IDPOIDCConfigAddedEvent sampleOIDCConfigAddedForIdp1)) = .ok s ∧
          crdb.Exec.create none values ∈ s.Execute ∧
          sampleUpgradedKey =
            [Row.ofColumns values "instance_id", Row.ofColumns values "id",
              Row.ofColumns values "type"]) ∨
      (∃ s changeDate sequence ty inst id, reduceOldOIDCConfigAdded
            (.inst (.IDPOIDCConfigAddedEvent sampleOIDCConfigAddedForIdp1)) = .ok s ∧
          upgradeUpdate changeDate sequence ty inst id ∈ s.Execute ∧
          ((reduceOldOIDCConfigAdded = reduceOldOIDCConfigAdded ∧ ty = .IDPTypeOIDC) ∨
            (reduceOldOIDCConfigAdded = reduceOldJWTConfigAdded ∧ ty = .IDPTypeJWT)) ∧
          sampleUpgradedKey = [some (.text inst), some (.text id), some (.idpType ty)])) :=
  ⟨by simp [tableReducers, reducers], by decide,
    C14_type_changes_only_by_legacy_upgrade reduceOldOIDCConfigAdded
      (by simp [tableReducers, reducers])
      (.inst (.IDPOIDCConfigAddedEvent sampleOIDCConfigAddedForIdp1)) _ _ (by decide)⟩

/-- C15: for every org-removed event `reduceOwnerRemoved` returns exactly one statement, the
primary Update of `change_date`, `sequence` and `owner_removed` = true conditioned on
`instance_id` = the aggregate's instance id and `resource_owner` = the aggregate's id.
Applied to any tables it keeps every row in place, sets `owner_removed` on the primary
rows of that instance and resource owner and leaves every other row unchanged.  The
unit of an IDP Removed event applied afterwards removes, among the primary rows,
exactly those with the event's `(instance_id, id)`. -/
theorem C15_owner_removed_marks_and_removed_deletes (e : eventstore.BaseEvent)
    (rm : idp.RemovedEvent) (ev : eventstore.Event) (t : Tables)
    (hev : ev = .org (.IDPRemovedEvent rm) ∨ ev = .inst (.IDPRemovedEvent rm)) :
    reduceOwnerRemoved (.OrgRemovedEvent e) =
      .ok ⟨e.Sequence, e.Aggregate.InstanceID, [
        .update none
          [⟨"change_date", .timestamp e.CreationDate⟩, ⟨"sequence", .uint64 e.Sequence⟩,
           ⟨"owner_removed", .bool true⟩]
          [⟨"instance_id", .text e.Aggregate.InstanceID⟩,
           ⟨"resource_owner", .text e.Aggregate.ID⟩]]⟩ ∧
    List.Forall₂ (OwnerRemovedEffect e.Aggregate.InstanceID e.Aggregate.ID e.CreationDate e.Sequence)
      t (applyReduce t reduceOwnerRemoved (.OrgRemovedEvent e)) ∧
    (applyReduce (applyReduce t reduceOwnerRemoved (.OrgRemovedEvent e)) reduceIDPRemoved
        ev).primaryRows =
      (applyReduce t reduceOwnerRemoved (.OrgRemovedEvent e)).primaryRows.filter
        (fun r => !(r.row "id" == some (.text rm.ID) &&
          r.row "instance_id" == some (.text rm.Aggregate.InstanceID))) := by
  refine ⟨rfl, ?_, ?_⟩
  · have happly : applyReduce t reduceOwnerRemoved (.OrgRemovedEvent e) =
        t.map (StoredRow.update none
          [⟨"change_date", .timestamp e.CreationDate⟩, ⟨"sequence", .uint64 e.Sequence⟩,
           ⟨"owner_removed", .bool true⟩]
          [⟨"instance_id", .text e.Aggregate.InstanceID⟩,
           ⟨"resource_owner", .text e.Aggregate.ID⟩]) := rfl
    rw [happly, List.forall₂_map_right_iff, List.forall₂_same]
    intro r _
    refine ⟨StoredRow.update_suffix _ _ _ _, ?_, ?_⟩
    · rintro ⟨h1, h2, h3⟩
      have hcond : (r.suffix == none && r.row.satisfies
          [⟨"instance_id", .text e.Aggregate.InstanceID⟩,
           ⟨"resource_owner", .text e.Aggregate.ID⟩]) = true := by
        simp [Row.satisfies, h1, h2, h3]
      simp only [StoredRow.update, hcond, if_true]
      refine ⟨rfl, rfl, rfl, ?_⟩
      intro name hname
      apply Row.overwrite_of_not_mem
      simpa [handler.namesOf] using hname
    · intro hno
      have hcond : (r.suffix == none && r.row.satisfies
          [⟨"instance_id", .text e.Aggregate.InstanceID⟩,
           ⟨"resource_owner", .text e.Aggregate.ID⟩]) = false := by
        apply Bool.eq_false_iff.2
        intro h
        apply hno
        simpa [Row.satisfies, and_assoc] using h
      simp [StoredRow.update, hcond]
  · generalize applyReduce t reduceOwnerRemoved (.OrgRemovedEvent e) = t'
    have happly : applyReduce t' reduceIDPRemoved ev =
        t'.filter (fun r => !t'.removes none
          [⟨"id", .text rm.ID⟩, ⟨"instance_id", .text rm.Aggregate.InstanceID⟩] r) := by
      rcases hev with rfl | rfl <;> rfl
    rw [happly]
    simp only [Tables.primaryRows, List.filter_filter]
    apply List.filter_congr
    intro r _
    by_cases hs : r.suffix = none
    · have hown : ∀ p : StoredRow, p.owns r = false := by
        intro p
        simp [StoredRow.owns, hs, hasForeignKey_none]
      simp [Tables.removes, StoredRow.hit, hs, hown, Row.satisfies]
    · have hb : (r.suffix == none) = false := by simpa using hs
      simp [hb]

/-- C15, at sample tables with a primary row owned by the removed org `agg1` and one owned
by another org, followed by the removal of `idp1`. -/
theorem C15_owner_removed_witness :
    reduceOwnerRemoved (.OrgRemovedEvent sampleBase) =
      .ok ⟨7, "inst1", [
        .update none
          [⟨"change_date", .timestamp 1000⟩, ⟨"sequence", .uint64 7⟩,
           ⟨"owner_removed", .bool true⟩]
          [⟨"instance_id", .text "inst1"⟩, ⟨"resource_owner", .text "agg1"⟩]]⟩ ∧
    List.Forall₂ (OwnerRemovedEffect "inst1" "agg1" 1000 7) sampleOwnedTables
      (applyReduce sampleOwnedTables reduceOwnerRemoved (.OrgRemovedEvent sampleBase)) ∧
    (applyReduce (applyReduce sampleOwnedTables reduceOwnerRemoved (.OrgRemovedEvent sampleBase))
        reduceIDPRemoved (.inst (.IDPRemovedEvent sampleRemoved))).primaryRows =
      (applyReduce sampleOwnedTables reduceOwnerRemoved
          (.OrgRemovedEvent sampleBase)).primaryRows.filter
        (fun r => !(r.row "id" == some (.text "idp1") &&
          r.row "instance_id" == some (.text "inst1"))) :=
  C15_owner_removed_marks_and_removed_deletes sampleBase sampleRemoved _ sampleOwnedTables
    (Or.inr rfl)

/-- C16: from empty tables, an OAuth Added event yields one primary row with `type` oauth
and one oauth satellite row with the event's client id; an OAuth Changed event for the
same provider carrying only scopes then sets the satellite row's `scopes` to that list,
sets the primary row's `change_date` and `sequence` to those of the Changed event and
leaves `client_id`; an IDP Removed event for the provider then leaves no row, the
satellite row going with its primary row. -/
theorem C16_oauth_added_changed_removed_scenario (e : idp.OAuthIDPAddedEvent)
    (b2 b3 : eventstore.BaseEvent) (scopes : List String) (ev1 ev2 ev3 : eventstore.Event)
    (hb2 : b2.Aggregate.InstanceID = e.Aggregate.InstanceID)
    (hb3 : b3.Aggregate.InstanceID = e.Aggregate.InstanceID)
    (h1 : ev1 = .org (.OAuthIDPAddedEvent e) ∨ ev1 = .inst (.OAuthIDPAddedEvent e))
    (h2 : ev2 = .org (.OAuthIDPChangedEvent
              { unsetOAuthIDPChangedEvent b2 e.ID with Scopes := some scopes }) ∨
          ev2 = .inst (.OAuthIDPChangedEvent
              { unsetOAuthIDPChangedEvent b2 e.ID with Scopes := some scopes }))
    (h3 : ev3 = .org (.IDPRemovedEvent { toBaseEvent := b3, ID := e.ID }) ∨
          ev3 = .inst (.IDPRemovedEvent { toBaseEvent := b3, ID := e.ID })) :
    (processEvents [] [(reduceOAuthIDPAdded, ev1)]).project none
        ["instance_id", "id", "type", "change_date", "sequence"] =
      [[some (.text e.Aggregate.InstanceID), some (.text e.ID), some (.idpType .IDPTypeOAuth),
        some (.timestamp e.CreationDate), some (.uint64 e.Sequence)]] ∧
    (processEvents [] [(reduceOAuthIDPAdded, ev1)]).project (some "oauth")
        ["instance_id", "idp_id", "client_id", "scopes"] =
      [[some (.text e.Aggregate.InstanceID), some (.text e.ID), some (.text e.ClientID),
        some (.stringArray e.Scopes)]] ∧
    (processEvents [] [(reduceOAuthIDPAdded, ev1), (reduceOAuthIDPChanged, ev2)]).project none
        ["instance_id", "id", "type", "change_date", "sequence"] =
      [[some (.text e.Aggregate.InstanceID), some (.text e.ID), some (.idpType .IDPTypeOAuth),
        some (.timestamp b2.CreationDate), some (.uint64 b2.Sequence)]] ∧
    (processEvents [] [(reduceOAuthIDPAdded, ev1), (reduceOAuthIDPChanged, ev2)]).project (some "oauth")
        ["instance_id", "idp_id", "client_id", "scopes"] =
      [[some (.text e.Aggregate.InstanceID), some (.text e.ID), some (.text e.ClientID),
        some (.stringArray (some scopes))]] ∧
    (processEvents [] [(reduceOAuthIDPAdded, ev1), (reduceOAuthIDPChanged, ev2),
        (reduceIDPRemoved, ev3)]).length = 0 := by
  rcases h1 with rfl | rfl <;> rcases h2 with rfl | rfl <;> rcases h3 with rfl | rfl <;>
  simp [reduceOAuthIDPAdded, reduceOAuthIDPChanged, reduceIDPRemoved,
    reduceIDPChangedTemplateColumns, reduceOAuthIDPChangedColumns, appendIfNotNil,
    unsetOAuthIDPChangedEvent, noOptionChanges, hb2, hb3,
    applyReduce, processEvents, applyStatement, applyExecs, applyExec, StoredRow.update, StoredRow.hit, Tables.removes, crdb.NewCreateStatement,
    crdb.NewUpdateStatement, crdb.NewDeleteStatement, crdb.NewMultiStatement,
    crdb.AddUpdateStatement, crdb.AddCreateStatement, crdb.tableSuffix, primaryKeyOf_none,
    primaryKeyOf_oauth, primaryKeyOf_oidc, primaryKeyOf_jwt, primaryKeyOf_google,
    primaryKeyOf_ldap, hasForeignKey_none, hasForeignKey_oauth, hasForeignKey_oidc,
    hasForeignKey_jwt, hasForeignKey_google, hasForeignKey_ldap, StoredRow.conflicts,
    StoredRow.owns, StoredRow.key, Row.ofColumns, Row.satisfies, Row.overwrite, Tables.project,
    handler.NewCol, handler.NewCond, database.StringArray,
    IDPTemplateIDCol, IDPTemplateCreationDateCol, IDPTemplateChangeDateCol,
    IDPTemplateSequenceCol, IDPTemplateResourceOwnerCol, IDPTemplateInstanceIDCol,
    IDPTemplateStateCol, IDPTemplateNameCol, IDPTemplateOwnerTypeCol, IDPTemplateTypeCol,
    IDPTemplateOwnerRemovedCol, IDPTemplateIsCreationAllowedCol, IDPTemplateIsLinkingAllowedCol,
    IDPTemplateIsAutoCreationCol, IDPTemplateIsAutoUpdateCol,
    OAuthIDCol, OAuthInstanceIDCol, OAuthClientIDCol, OAuthClientSecretCol,
    OAuthAuthorizationEndpointCol, OAuthTokenEndpointCol, OAuthUserEndpointCol, OAuthScopesCol,
    IDPTemplateOAuthSuffix]

/-- C16, at the scenario of the spec: provider `idp1` with client id `c1`, scopes changed to
openid and email, then removed. -/
theorem C16_scenario_witness :
    (processEvents [] [(reduceOAuthIDPAdded, .inst (.OAuthIDPAddedEvent sampleOAuthAdded))]).project
        none ["instance_id", "id", "type", "change_date", "sequence"] =
      [[some (.text "inst1"), some (.text "idp1"), some (.idpType .IDPTypeOAuth),
        some (.timestamp 1000), some (.uint64 7)]] ∧
    (processEvents [] [(reduceOAuthIDPAdded, .inst (.OAuthIDPAddedEvent sampleOAuthAdded))]).project
        (some "oauth") ["instance_id", "idp_id", "client_id", "scopes"] =
      [[some (.text "inst1"), some (.text "idp1"), some (.text "c1"),
        some (.stringArray none)]] ∧
    (processEvents [] [(reduceOAuthIDPAdded, .inst (.OAuthIDPAddedEvent sampleOAuthAdded)),
        (reduceOAuthIDPChanged, .inst (.OAuthIDPChangedEvent sampleOAuthChangedScopes))]).project
        none ["instance_id", "id", "type", "change_date", "sequence"] =
      [[some (.text "inst1"), some (.text "idp1"), some (.idpType .IDPTypeOAuth),
        some (.timestamp 2000), some (.uint64 8)]] ∧
    (processEvents [] [(reduceOAuthIDPAdded, .inst (.OAuthIDPAddedEvent sampleOAuthAdded)),
        (reduceOAuthIDPChanged, .inst (.OAuthIDPChangedEvent sampleOAuthChangedScopes))]).project
        (some "oauth") ["instance_id", "idp_id", "client_id", "scopes"] =
      [[some (.text "inst1"), some (.text "idp1"), some (.text "c1"),
        some (.stringArray (some ["openid", "email"]))]] ∧
    (processEvents [] [(reduceOAuthIDPAdded, .inst (.OAuthIDPAddedEvent sampleOAuthAdded)),
        (reduceOAuthIDPChanged, .inst (.OAuthIDPChangedEvent sampleOAuthChangedScopes)),
        (reduceIDPRemoved, .inst (.IDPRemovedEvent sampleRemoved))]).length = 0 :=
  C16_oauth_added_changed_removed_scenario sampleOAuthAdded
    { sampleBase with Sequence := 8, CreationDate := 2000 }
    { sampleBase with Sequence := 9, CreationDate := 3000 } ["openid", "email"] _ _ _ rfl rfl
    (Or.inr rfl) (Or.inr rfl) (Or.inr rfl)

/-- C18: for each typed Added reducer and for `reduceOldConfigAdded`, the org-scoped and the
instance-scoped event with the same payload and metadata produce units that are
identical except for the primary Create's `owner_type`, org for the org-scoped event
and system for the instance-scoped one. -/
theorem C18_added_units_differ_in_owner_type_only :
    (∀ e, SameUpToOwnerType (reduceOAuthIDPAdded (.org (.OAuthIDPAddedEvent e)))
      (reduceOAuthIDPAdded (.inst (.OAuthIDPAddedEvent e)))) ∧
    (∀ e, SameUpToOwnerType (reduceOIDCIDPAdded (.org (.OIDCIDPAddedEvent e)))
      (reduceOIDCIDPAdded (.inst (.OIDCIDPAddedEvent e)))) ∧
    (∀ e, SameUpToOwnerType (reduceJWTIDPAdded (.org (.JWTIDPAddedEvent e)))
      (reduceJWTIDPAdded (.inst (.JWTIDPAddedEvent e)))) ∧
    (∀ e, SameUpToOwnerType (reduceGoogleIDPAdded (.org (.GoogleIDPAddedEvent e)))
      (reduceGoogleIDPAdded (.inst (.GoogleIDPAddedEvent e)))) ∧
    (∀ e, SameUpToOwnerType (reduceLDAPIDPAdded (.org (.LDAPIDPAddedEvent e)))
      (reduceLDAPIDPAdded (.inst (.LDAPIDPAddedEvent e)))) ∧
    (∀ e, SameUpToOwnerType (reduceOldConfigAdded (.org (.IDPConfigAddedEvent e)))
      (reduceOldConfigAdded (.inst (.IDPConfigAddedEvent e)))) := by
  refine ⟨fun e => ?_, fun e => ?_, fun e => ?_, fun e => ?_, fun e => ?_, fun e => ?_⟩ <;>
  exact ⟨_, _, rfl, rfl, rfl, rfl, rfl, rfl⟩

/-- C19: the satellite column list of a legacy OIDC (JWT) config-changed event is the list
`reduceOIDCIDPChangedColumns` (`reduceJWTIDPChangedColumns`) builds for a current
Changed event with the same presence and values of the four satellite fields; the
legacy unit is the primary Update of exactly `change_date` and `sequence` followed by
the satellite Update of that list exactly when the list is not empty, which is exactly
when one of the four fields is present. -/
theorem C19_legacy_changed_follows_current_policy
    (e : idpconfig.OIDCConfigChangedEvent) (c : idp.OIDCIDPChangedEvent)
    (h1 : c.ClientID = e.ClientID) (h2 : c.ClientSecret = e.ClientSecret)
    (h3 : c.Issuer = e.Issuer) (h4 : c.Scopes = e.Scopes)
    (e' : idpconfig.JWTConfigChangedEvent) (c' : idp.JWTIDPChangedEvent)
    (h5 : c'.JWTEndpoint = e'.JWTEndpoint) (h6 : c'.KeysEndpoint = e'.KeysEndpoint)
    (h7 : c'.HeaderName = e'.HeaderName) (h8 : c'.Issuer = e'.Issuer) :
    (reduceOldOIDCConfigChanged (.org (.IDPOIDCConfigChangedEvent e)) =
        .ok (legacyChangedUnit e.toBaseEvent e.IDPConfigID "oidc" (reduceOIDCIDPChangedColumns c)) ∧
      reduceOldOIDCConfigChanged (.inst (.IDPOIDCConfigChangedEvent e)) =
        .ok (legacyChangedUnit e.toBaseEvent e.IDPConfigID "oidc" (reduceOIDCIDPChangedColumns c)) ∧
      (reduceOIDCIDPChangedColumns c = [] ↔
        e.ClientID = none ∧ e.ClientSecret = none ∧ e.Issuer = none ∧ e.Scopes = none)) ∧
    (reduceOldJWTConfigChanged (.org (.IDPJWTConfigChangedEvent e')) =
        .ok (legacyChangedUnit e'.toBaseEvent e'.IDPConfigID "jwt" (reduceJWTIDPChangedColumns c')) ∧
      reduceOldJWTConfigChanged (.inst (.IDPJWTConfigChangedEvent e')) =
        .ok (legacyChangedUnit e'.toBaseEvent e'.IDPConfigID "jwt" (reduceJWTIDPChangedColumns c')) ∧
      (reduceJWTIDPChangedColumns c' = [] ↔
        e'.JWTEndpoint = none ∧ e'.KeysEndpoint = none ∧ e'.HeaderName = none ∧
          e'.Issuer = none)) := by
  constructor
  · cases hc : e.ClientID <;> cases hs : e.ClientSecret <;> cases hi : e.Issuer <;>
      cases hsc : e.Scopes <;>
      simp [reduceOldOIDCConfigChanged, reduceOIDCIDPChangedColumns, legacyChangedUnit,
        appendIfNotNil, crdb.NewMultiStatement, crdb.AddUpdateStatement, crdb.tableSuffix,
        handler.NewCol, handler.NewCond, h1, h2, h3, h4, hc, hs, hi, hsc, IDPTemplateChangeDateCol,
        IDPTemplateSequenceCol, IDPTemplateIDCol, IDPTemplateInstanceIDCol, OIDCIDCol,
        OIDCInstanceIDCol, OIDCClientIDCol, OIDCClientSecretCol, OIDCIssuerCol, OIDCScopesCol,
        IDPTemplateOIDCSuffix]
  · cases hc : e'.JWTEndpoint <;> cases hs : e'.KeysEndpoint <;> cases hi : e'.HeaderName <;>
      cases hsc : e'.Issuer <;>
      simp [reduceOldJWTConfigChanged, reduceJWTIDPChangedColumns, legacyChangedUnit,
        appendIfNotNil, crdb.NewMultiStatement, crdb.AddUpdateStatement, crdb.tableSuffix,
        handler.NewCol, handler.NewCond, h5, h6, h7, h8, hc, hs, hi, hsc, IDPTemplateChangeDateCol,
        IDPTemplateSequenceCol, IDPTemplateIDCol, IDPTemplateInstanceIDCol, JWTIDCol,
        JWTInstanceIDCol, JWTEndpointCol, JWTKeysEndpointCol, JWTHeaderNameCol, JWTIssuerCol,
        IDPTemplateJWTSuffix]

/-- C19, at a legacy OIDC event that sets only the issuer and a legacy JWT event that sets
only the header name, against current Changed events with the same fields. -/
theorem C19_legacy_changed_witness :
    (reduceOldOIDCConfigChanged (.org (.IDPOIDCConfigChangedEvent sampleOIDCConfigChanged)) =
        .ok (legacyChangedUnit sampleBase "cfg1" "oidc" [⟨"issuer", .text "https://issuer"⟩]) ∧
      reduceOldOIDCConfigChanged (.inst (.IDPOIDCConfigChangedEvent sampleOIDCConfigChanged)) =
        .ok (legacyChangedUnit sampleBase "cfg1" "oidc" [⟨"issuer", .text "https://issuer"⟩]) ∧
      (([⟨"issuer", .text "https://issuer"⟩] : List handler.Column) = [] ↔
        (none : Option String) = none ∧ (none : Option crypto.CryptoValue) = none ∧
          some "https://issuer" = none ∧ (none : Option (List String)) = none)) ∧
    (reduceOldJWTConfigChanged (.org (.IDPJWTConfigChangedEvent sampleJWTConfigChanged)) =
        .ok (legacyChangedUnit sampleBase "cfg1" "jwt" [⟨"header_name", .text "x-auth"⟩]) ∧
      reduceOldJWTConfigChanged (.inst (.IDPJWTConfigChangedEvent sampleJWTConfigChanged)) =
        .ok (legacyChangedUnit sampleBase "cfg1" "jwt" [⟨"header_name", .text "x-auth"⟩]) ∧
      (([⟨"header_name", .text "x-auth"⟩] : List handler.Column) = [] ↔
        (none : Option String) = none ∧ (none : Option String) = none ∧
          some "x-auth" = none ∧ (none : Option String) = none)) :=
  C19_legacy_changed_follows_current_policy sampleOIDCConfigChanged
    { unsetOIDCIDPChangedEvent sampleBase "other" with Issuer := some "https://issuer" }
    rfl rfl rfl rfl sampleJWTConfigChanged
    { unsetJWTIDPChangedEvent sampleBase "other" with HeaderName := some "x-auth" }
    rfl rfl rfl rfl

/-- C20: the schema `newIDPTemplateProjection` declares is one primary table with primary
key `(instance_id, id)` and exactly two secondary indexes, on `resource_owner` and on
`owner_removed`, followed by exactly five satellite tables with the suffixes oauth,
oidc, jwt, google and ldap, each with primary key `(instance_id, idp_id)` and each
declaring a foreign key. -/
theorem C20_schema_primary_and_five_satellites :
    newIDPTemplateProjection.InitCheck.map (fun t => t.suffix) =
      [none, some "oauth", some "oidc", some "jwt", some "google", some "ldap"] ∧
    newIDPTemplateProjection.InitCheck.map (fun t => t.primaryKey) =
      [["instance_id", "id"], ["instance_id", "idp_id"], ["instance_id", "idp_id"],
       ["instance_id", "idp_id"], ["instance_id", "idp_id"], ["instance_id", "idp_id"]] ∧
    newIDPTemplateProjection.InitCheck.map (fun t => t.indices.map (fun i => i.Columns)) =
      [[["resource_owner"], ["owner_removed"]], [], [], [], [], []] ∧
    newIDPTemplateProjection.InitCheck.map (fun t => t.foreignKeys.length) =
      [0, 1, 1, 1, 1, 1] := by
  decide

/-- C21: for every reducer of the projection and every event it accepts, the reducer
returns one unit; the unit carries the sequence number of the event and the instance id
of its aggregate, and its statements are in one of the ordered forms of the reducers
(the primary-table statement first, the satellite statement after it). -/
theorem C21_unit_is_ordered_and_tagged_with_event_sequence (r : handler.Reduce)
    (hr : r ∈ tableReducers) (event : eventstore.Event) (s : handler.Statement)
    (h : r event = .ok s) :
    s.Sequence = event.toBaseEvent.Sequence ∧
    s.InstanceID = event.toBaseEvent.Aggregate.InstanceID ∧
    ∃ o, UnitShape o s.Execute :=
  ⟨(tags_of_reducer hr h).1, (tags_of_reducer hr h).2,
    (unitShape_of_reducer hr h).elim (fun o ho => ⟨o, ho.1⟩)⟩

/-- C21, at the OAuth Added event for `idp1`: the unit lists the primary Create, then the
oauth Create, and carries sequence 7 and instance `inst1`. -/
theorem C21_unit_tagged_witness :
    reduceOAuthIDPAdded ∈ tableReducers ∧
    reduceOAuthIDPAdded (.inst (.OAuthIDPAddedEvent sampleOAuthAdded)) = .ok sampleOAuthAddedUnit ∧
    sampleOAuthAddedUnit.Sequence = sampleOAuthAdded.Sequence ∧
    sampleOAuthAddedUnit.InstanceID = sampleOAuthAdded.Aggregate.InstanceID ∧
    ∃ o, UnitShape o sampleOAuthAddedUnit.Execute :=
  ⟨by simp [tableReducers, reducers], rfl,
    C21_unit_is_ordered_and_tagged_with_event_sequence reduceOAuthIDPAdded
      (by simp [tableReducers, reducers]) (.inst (.OAuthIDPAddedEvent sampleOAuthAdded))
      sampleOAuthAddedUnit rfl⟩

/-- C23 (refuted for `reduceOldConfigChanged`): `reduceOldConfigChanged` is one of the
listed reducers and accepts the generic legacy config-changed event for `cfg1` at
sequence 8 with creation date 2000; its Update assigns `change_date` 2000 and `sequence`
8 but is conditioned on `idp_id`, so after the config-added event for `cfg1` at
sequence 7 it reaches no row: the primary row keeps name `n`, change date 1000 and
sequence 7.  The sibling `reduceOldOIDCConfigChanged`, conditioned on `id`, leaves the
row at change date 2000 and sequence 8 for its event at sequence 8. -/
theorem C23_old_config_changed_leaves_row_sequence_behind :
    reduceOldConfigChanged ∈ primaryUpdateReducers ∧
    reduceOldConfigChanged (.inst (.IDPConfigChangedEvent sampleConfigRenamed)) =
      .ok ⟨8, "inst1", [.update none
        [⟨"name", .text "renamed"⟩, ⟨"change_date", .timestamp 2000⟩, ⟨"sequence", .uint64 8⟩]
        [⟨"idp_id", .text "cfg1"⟩, ⟨"instance_id", .text "inst1"⟩]]⟩ ∧
    (processEvents [] [(reduceOldConfigAdded, .inst (.IDPConfigAddedEvent sampleConfigAdded))]
      ).project none ["instance_id", "id", "name", "change_date", "sequence"] =
      [[some (.text "inst1"), some (.text "cfg1"), some (.text "n"), some (.timestamp 1000),
        some (.uint64 7)]] ∧
    (processEvents [] [(reduceOldConfigAdded, .inst (.IDPConfigAddedEvent sampleConfigAdded)),
        (reduceOldConfigChanged, .inst (.IDPConfigChangedEvent sampleConfigRenamed))]
      ).project none ["instance_id", "id", "name", "change_date", "sequence"] =
      [[some (.text "inst1"), some (.text "cfg1"), some (.text "n"), some (.timestamp 1000),
        some (.uint64 7)]] ∧
    reduceOldOIDCConfigChanged ∈ primaryUpdateReducers ∧
    (processEvents [] [(reduceOldConfigAdded, .inst (.IDPConfigAddedEvent sampleConfigAdded)),
        (reduceOldOIDCConfigChanged,
          .inst (.IDPOIDCConfigChangedEvent sampleOIDCConfigChangedLater))]
      ).project none ["instance_id", "id", "name", "change_date", "sequence"] =
      [[some (.text "inst1"), some (.text "cfg1"), some (.text "n"), some (.timestamp 2000),
        some (.uint64 8)]] :=
  ⟨by simp [primaryUpdateReducers], rfl, by decide, by decide, by simp [primaryUpdateReducers],
    by decide⟩

/-- C24: each typed Changed reducer returns, on both scopes, the primary Update keyed by
`id` = the event's ID and `instance_id` = the aggregate's instance id, followed by the
Update of the type-specific column list against the satellite table of the event's own
type, keyed by `idp_id` and `instance_id` with the same values, exactly when that list
is not empty; the list is empty exactly when no type-specific field is present, and
the primary column list is never empty. -/
theorem C24_typed_changed_updates_primary_then_own_satellite :
    (∀ e : idp.OAuthIDPChangedEvent,
      reduceOAuthIDPChanged (.org (.OAuthIDPChangedEvent e)) =
        .ok (typedChangedUnit e.toBaseEvent e.ID
          (reduceIDPChangedTemplateColumns e.Name e.CreationDate e.Sequence e.OptionChanges)
          "oauth" (reduceOAuthIDPChangedColumns e)) ∧
      reduceOAuthIDPChanged (.inst (.OAuthIDPChangedEvent e)) =
        .ok (typedChangedUnit e.toBaseEvent e.ID
          (reduceIDPChangedTemplateColumns e.Name e.CreationDate e.Sequence e.OptionChanges)
          "oauth" (reduceOAuthIDPChangedColumns e)) ∧
      (reduceOAuthIDPChangedColumns e = [] ↔
        e.ClientID = none ∧ e.ClientSecret = none ∧ e.AuthorizationEndpoint = none ∧
        e.TokenEndpoint = none ∧ e.UserEndpoint = none ∧ e.Scopes = none)) ∧
    (∀ e : idp.OIDCIDPChangedEvent,
      reduceOIDCIDPChanged (.org (.OIDCIDPChangedEvent e)) =
        .ok (typedChangedUnit e.toBaseEvent e.ID
          (reduceIDPChangedTemplateColumns e.Name e.CreationDate e.Sequence e.OptionChanges)
          "oidc" (reduceOIDCIDPChangedColumns e)) ∧
      reduceOIDCIDPChanged (.inst (.OIDCIDPChangedEvent e)) =
        .ok (typedChangedUnit e.toBaseEvent e.ID
          (reduceIDPChangedTemplateColumns e.Name e.CreationDate e.Sequence e.OptionChanges)
          "oidc" (reduceOIDCIDPChangedColumns e)) ∧
      (reduceOIDCIDPChangedColumns e = [] ↔
        e.ClientID = none ∧ e.ClientSecret = none ∧ e.Issuer = none ∧ e.Scopes = none)) ∧
    (∀ e : idp.JWTIDPChangedEvent,
      reduceJWTIDPChanged (.org (.JWTIDPChangedEvent e)) =
        .ok (typedChangedUnit e.toBaseEvent e.ID
          (reduceIDPChangedTemplateColumns e.Name e.CreationDate e.Sequence e.OptionChanges)
          "jwt" (reduceJWTIDPChangedColumns e)) ∧
      reduceJWTIDPChanged (.inst (.JWTIDPChangedEvent e)) =
        .ok (typedChangedUnit e.toBaseEvent e.ID
          (reduceIDPChangedTemplateColumns e.Name e.CreationDate e.Sequence e.OptionChanges)
          "jwt" (reduceJWTIDPChangedColumns e)) ∧
      (reduceJWTIDPChangedColumns e = [] ↔
        e.JWTEndpoint = none ∧ e.KeysEndpoint = none ∧ e.HeaderName = none ∧
        e.Issuer = none)) ∧
    (∀ e : idp.GoogleIDPChangedEvent,
      reduceGoogleIDPChanged (.org (.GoogleIDPChangedEvent e)) =
        .ok (typedChangedUnit e.toBaseEvent e.ID
          (reduceIDPChangedTemplateColumns e.Name e.CreationDate e.Sequence e.OptionChanges)
          "google" (reduceGoogleIDPChangedColumns e)) ∧
      reduceGoogleIDPChanged (.inst (.GoogleIDPChangedEvent e)) =
        .ok (typedChangedUnit e.toBaseEvent e.ID
          (reduceIDPChangedTemplateColumns e.Name e.CreationDate e.Sequence e.OptionChanges)
          "google" (reduceGoogleIDPChangedColumns e)) ∧
      (reduceGoogleIDPChangedColumns e = [] ↔
        e.ClientID = none ∧ e.ClientSecret = none ∧ e.Scopes = none)) ∧
    (∀ e : idp.LDAPIDPChangedEvent,
      reduceLDAPIDPChanged (.org (.LDAPIDPChangedEvent e)) =
        .ok (typedChangedUnit e.toBaseEvent e.ID
          (reduceIDPChangedTemplateColumns e.Name e.CreationDate e.Sequence e.OptionChanges)
          "ldap" (reduceLDAPIDPChangedColumns e)) ∧
      reduceLDAPIDPChanged (.inst (.LDAPIDPChangedEvent e)) =
        .ok (typedChangedUnit e.toBaseEvent e.ID
          (reduceIDPChangedTemplateColumns e.Name e.CreationDate e.Sequence e.OptionChanges)
          "ldap" (reduceLDAPIDPChangedColumns e)) ∧
      (reduceLDAPIDPChangedColumns e = [] ↔
        e.Host = none ∧ e.Port = none ∧ e.TLS = none ∧ e.BaseDN = none ∧
        e.UserObjectClass = none ∧ e.UserUniqueAttribute = none ∧ e.Admin = none ∧
        e.Password = none ∧ e.IDAttribute = none ∧ e.FirstNameAttribute = none ∧
        e.LastNameAttribute = none ∧ e.DisplayNameAttribute = none ∧
        e.NickNameAttribute = none ∧ e.PreferredUsernameAttribute = none ∧
        e.EmailAttribute = none ∧ e.EmailVerifiedAttribute = none ∧
        e.PhoneAttribute = none ∧ e.PhoneVerifiedAttribute = none ∧
        e.PreferredLanguageAttribute = none ∧ e.AvatarURLAttribute = none ∧
        e.ProfileAttribute = none)) ∧
    (∀ (name : Option String) (creationDate sequence : Nat) (optionChanges : idp.OptionChanges),
      reduceIDPChangedTemplateColumns name creationDate sequence optionChanges ≠ []) := by
  refine ⟨fun e => ⟨?_, ?_, ?_⟩, fun e => ⟨?_, ?_, ?_⟩, fun e => ⟨?_, ?_, ?_⟩,
    fun e => ⟨?_, ?_, ?_⟩, fun e => ⟨?_, ?_, ?_⟩, reduceIDPChangedTemplateColumns_ne_nil⟩
  · exact congrArg Except.ok (typedChangedUnit_of_length _ _ _ _ _)
  · exact congrArg Except.ok (typedChangedUnit_of_length _ _ _ _ _)
  · simp [reduceOAuthIDPChangedColumns, appendIfNotNil_eq, optCol_eq_nil, and_assoc]
  · exact congrArg Except.ok (typedChangedUnit_of_length _ _ _ _ _)
  · exact congrArg Except.ok (typedChangedUnit_of_length _ _ _ _ _)
  · simp [reduceOIDCIDPChangedColumns, appendIfNotNil_eq, optCol_eq_nil, and_assoc]
  · exact congrArg Except.ok (typedChangedUnit_of_length _ _ _ _ _)
  · exact congrArg Except.ok (typedChangedUnit_of_length _ _ _ _ _)
  · simp [reduceJWTIDPChangedColumns, appendIfNotNil_eq, optCol_eq_nil, and_assoc]
  · exact congrArg Except.ok (typedChangedUnit_of_length _ _ _ _ _)
  · exact congrArg Except.ok (typedChangedUnit_of_length _ _ _ _ _)
  · simp [reduceGoogleIDPChangedColumns, appendIfNotNil_eq, optCol_eq_nil, and_assoc]
  · exact congrArg Except.ok (typedChangedUnit_of_length _ _ _ _ _)
  · exact congrArg Except.ok (typedChangedUnit_of_length _ _ _ _ _)
  · simp [reduceLDAPIDPChangedColumns, appendIfNotNil_eq, optCol_eq_nil, and_assoc]

/-- C25: the primary Create of every typed Added event, on both scopes, assigns exactly the
fourteen columns id, creation_date, change_date, sequence, resource_owner, instance_id,
state, name, owner_type, type and the four capability flags, each once: the event's
ID, its creation date twice, its sequence, the resource owner and instance id of its
aggregate, state active, its name, the owner type of the scope, the discriminant of
its type, and its four flags; `owner_removed` is not among them. -/
theorem C25_added_primary_create_assigns_fourteen_columns :
    (∀ e : idp.OAuthIDPAddedEvent,
      CreatesPrimaryRow (reduceOAuthIDPAdded (.org (.OAuthIDPAddedEvent e))) e.toBaseEvent e.ID
        e.Name .IdentityProviderTypeOrg .IDPTypeOAuth e.toOptions "oauth" ∧
      CreatesPrimaryRow (reduceOAuthIDPAdded (.inst (.OAuthIDPAddedEvent e))) e.toBaseEvent e.ID
        e.Name .IdentityProviderTypeSystem .IDPTypeOAuth e.toOptions "oauth") ∧
    (∀ e : idp.OIDCIDPAddedEvent,
      CreatesPrimaryRow (reduceOIDCIDPAdded (.org (.OIDCIDPAddedEvent e))) e.toBaseEvent e.ID
        e.Name .IdentityProviderTypeOrg .IDPTypeOIDC e.toOptions "oidc" ∧
      CreatesPrimaryRow (reduceOIDCIDPAdded (.inst (.OIDCIDPAddedEvent e))) e.toBaseEvent e.ID
        e.Name .IdentityProviderTypeSystem .IDPTypeOIDC e.toOptions "oidc") ∧
    (∀ e : idp.JWTIDPAddedEvent,
      CreatesPrimaryRow (reduceJWTIDPAdded (.org (.JWTIDPAddedEvent e))) e.toBaseEvent e.ID
        e.Name .IdentityProviderTypeOrg .IDPTypeJWT e.toOptions "jwt" ∧
      CreatesPrimaryRow (reduceJWTIDPAdded (.inst (.JWTIDPAddedEvent e))) e.toBaseEvent e.ID
        e.Name .IdentityProviderTypeSystem .IDPTypeJWT e.toOptions "jwt") ∧
    (∀ e : idp.GoogleIDPAddedEvent,
      CreatesPrimaryRow (reduceGoogleIDPAdded (.org (.GoogleIDPAddedEvent e))) e.toBaseEvent e.ID
        e.Name .IdentityProviderTypeOrg .IDPTypeGoogle e.toOptions "google" ∧
      CreatesPrimaryRow (reduceGoogleIDPAdded (.inst (.GoogleIDPAddedEvent e))) e.toBaseEvent
        e.ID e.Name .IdentityProviderTypeSystem .IDPTypeGoogle e.toOptions "google") ∧
    (∀ e : idp.LDAPIDPAddedEvent,
      CreatesPrimaryRow (reduceLDAPIDPAdded (.org (.LDAPIDPAddedEvent e))) e.toBaseEvent e.ID
        e.Name .IdentityProviderTypeOrg .IDPTypeLDAP e.toOptions "ldap" ∧
      CreatesPrimaryRow (reduceLDAPIDPAdded (.inst (.LDAPIDPAddedEvent e))) e.toBaseEvent e.ID
        e.Name .IdentityProviderTypeSystem .IDPTypeLDAP e.toOptions "ldap") ∧
    (∀ (b : eventstore.BaseEvent) (id name : String) (ownerType : domain.IdentityProviderType)
        (ty : domain.IDPType) (o : idp.Options),
      handler.namesOf (addedPrimaryColumns b id name ownerType ty o) =
        ["id", "creation_date", "change_date", "sequence", "resource_owner", "instance_id",
         "state", "name", "owner_type", "type", "is_creation_allowed", "is_linking_allowed",
         "is_auto_creation", "is_auto_update"] ∧
      (handler.namesOf (addedPrimaryColumns b id name ownerType ty o)).Nodup ∧
      (handler.namesOf (addedPrimaryColumns b id name ownerType ty o)).length = 14 ∧
      "owner_removed" ∉ handler.namesOf (addedPrimaryColumns b id name ownerType ty o)) := by
  refine ⟨fun e => ⟨⟨_, rfl⟩, ⟨_, rfl⟩⟩, fun e => ⟨⟨_, rfl⟩, ⟨_, rfl⟩⟩,
    fun e => ⟨⟨_, rfl⟩, ⟨_, rfl⟩⟩, fun e => ⟨⟨_, rfl⟩, ⟨_, rfl⟩⟩,
    fun e => ⟨⟨_, rfl⟩, ⟨_, rfl⟩⟩, fun b id name ownerType ty o => ⟨rfl, ?_, rfl, ?_⟩⟩
  · simp [handler.namesOf, addedPrimaryColumns]
  · simp [handler.namesOf, addedPrimaryColumns]

/-- C26: `reduceLDAPIDPChangedColumns` returns, for each of the twenty-one LDAP fields, one
column with the event's value when the field is present and none when it is absent, in
the declared order of the fields, so each column at most once; `reduceLDAPIDPAdded`
writes the same twenty-one fields to the same columns, after the key. -/
theorem C26_ldap_changed_columns_follow_presence :
    (∀ e : idp.LDAPIDPChangedEvent,
      reduceLDAPIDPChangedColumns e = ldapChangedColumns e ∧
      (handler.namesOf (reduceLDAPIDPChangedColumns e)).Sublist ldapFieldColumns ∧
      (handler.namesOf (reduceLDAPIDPChangedColumns e)).Nodup) ∧
    ldapFieldColumns.length = 21 ∧ ldapFieldColumns.Nodup ∧
    (∀ a : idp.LDAPIDPAddedEvent,
      (∃ primary, reduceLDAPIDPAdded (.org (.LDAPIDPAddedEvent a)) =
        .ok ⟨a.Sequence, a.Aggregate.InstanceID,
          [.create none primary, .create (some "ldap") (ldapAddedColumns a)]⟩) ∧
      (∃ primary, reduceLDAPIDPAdded (.inst (.LDAPIDPAddedEvent a)) =
        .ok ⟨a.Sequence, a.Aggregate.InstanceID,
          [.create none primary, .create (some "ldap") (ldapAddedColumns a)]⟩) ∧
      handler.namesOf (ldapAddedColumns a) = "idp_id" :: "instance_id" :: ldapFieldColumns) := by
  have hchain : ∀ e : idp.LDAPIDPChangedEvent,
      reduceLDAPIDPChangedColumns e = ldapChangedColumns e := by
    intro e
    simp only [reduceLDAPIDPChangedColumns, ldapChangedColumns, appendIfNotNil_eq,
      List.nil_append, LDAPHostCol, LDAPPortCol, LDAPTlsCol, LDAPBaseDNCol,
      LDAPUserObjectClassCol, LDAPUserUniqueAttributeCol, LDAPAdminCol, LDAPPasswordCol,
      LDAPIDAttributeCol, LDAPFirstNameAttributeCol, LDAPLastNameAttributeCol,
      LDAPDisplayNameAttributeCol, LDAPNickNameAttributeCol, LDAPPreferredUsernameAttributeCol,
      LDAPEmailAttributeCol, LDAPEmailVerifiedAttributeCol, LDAPPhoneAttributeCol,
      LDAPPhoneVerifiedAttributeCol, LDAPPreferredLanguageAttributeCol,
      LDAPAvatarURLAttributeCol, LDAPProfileAttributeCol]
  have hnodup : ldapFieldColumns.Nodup := by decide
  have hsub : ∀ e : idp.LDAPIDPChangedEvent,
      (handler.namesOf (reduceLDAPIDPChangedColumns e)).Sublist ldapFieldColumns := by
    intro e
    rw [hchain e]
    simp only [ldapChangedColumns, namesOf_append]
    exact (((((((((((((((((((((namesOf_optCol_sublist _ _ _).append
      (namesOf_optCol_sublist _ _ _)).append (namesOf_optCol_sublist _ _ _)).append
      (namesOf_optCol_sublist _ _ _)).append (namesOf_optCol_sublist _ _ _)).append
      (namesOf_optCol_sublist _ _ _)).append (namesOf_optCol_sublist _ _ _)).append
      (namesOf_optCol_sublist _ _ _)).append (namesOf_optCol_sublist _ _ _)).append
      (namesOf_optCol_sublist _ _ _)).append (namesOf_optCol_sublist _ _ _)).append
      (namesOf_optCol_sublist _ _ _)).append (namesOf_optCol_sublist _ _ _)).append
      (namesOf_optCol_sublist _ _ _)).append (namesOf_optCol_sublist _ _ _)).append
      (namesOf_optCol_sublist _ _ _)).append (namesOf_optCol_sublist _ _ _)).append
      (namesOf_optCol_sublist _ _ _)).append (namesOf_optCol_sublist _ _ _)).append
      (namesOf_optCol_sublist _ _ _)).append (namesOf_optCol_sublist _ _ _))
  exact ⟨fun e => ⟨hchain e, hsub e, hnodup.sublist (hsub e)⟩, rfl, hnodup,
    fun a => ⟨⟨_, rfl⟩, ⟨_, rfl⟩, rfl⟩⟩

/-- C27: the column builders of the OIDC, JWT and Google Changed events return, field by
field in the order of the source, one column with the event's value for a present field
and none for an absent one; the length of the list is the number of present fields. -/
theorem C27_changed_columns_follow_presence :
    (∀ e : idp.OIDCIDPChangedEvent,
      reduceOIDCIDPChangedColumns e =
        optCol "client_id" e.ClientID Value.text ++
        optCol "client_secret" e.ClientSecret (fun v => Value.crypto (some v)) ++
        optCol "issuer" e.Issuer Value.text ++
        optCol "scopes" e.Scopes (fun v => Value.stringArray (some v)) ∧
      (reduceOIDCIDPChangedColumns e).length =
        e.ClientID.toList.length + e.ClientSecret.toList.length + e.Issuer.toList.length +
          e.Scopes.toList.length) ∧
    (∀ e : idp.JWTIDPChangedEvent,
      reduceJWTIDPChangedColumns e =
        optCol "jwt_endpoint" e.JWTEndpoint Value.text ++
        optCol "keys_endpoint" e.KeysEndpoint Value.text ++
        optCol "header_name" e.HeaderName Value.text ++
        optCol "issuer" e.Issuer Value.text ∧
      (reduceJWTIDPChangedColumns e).length =
        e.JWTEndpoint.toList.length + e.KeysEndpoint.toList.length +
          e.HeaderName.toList.length + e.Issuer.toList.length) ∧
    (∀ e : idp.GoogleIDPChangedEvent,
      reduceGoogleIDPChangedColumns e =
        optCol "client_id" e.ClientID Value.text ++
        optCol "client_secret" e.ClientSecret (fun v => Value.crypto (some v)) ++
        optCol "scopes" e.Scopes (fun v => Value.stringArray (some v)) ∧
      (reduceGoogleIDPChangedColumns e).length =
        e.ClientID.toList.length + e.ClientSecret.toList.length + e.Scopes.toList.length) := by
  refine ⟨fun e => ⟨?_, ?_⟩, fun e => ⟨?_, ?_⟩, fun e => ⟨?_, ?_⟩⟩
  · simp only [reduceOIDCIDPChangedColumns, appendIfNotNil_eq, List.nil_append, OIDCClientIDCol,
      OIDCClientSecretCol, OIDCIssuerCol, OIDCScopesCol, database.StringArray]
  · simp only [reduceOIDCIDPChangedColumns, appendIfNotNil_eq, List.nil_append,
      List.length_append, length_optCol]
  · simp only [reduceJWTIDPChangedColumns, appendIfNotNil_eq, List.nil_append, JWTEndpointCol,
      JWTKeysEndpointCol, JWTHeaderNameCol, JWTIssuerCol]
  · simp only [reduceJWTIDPChangedColumns, appendIfNotNil_eq, List.nil_append,
      List.length_append, length_optCol]
  · simp only [reduceGoogleIDPChangedColumns, appendIfNotNil_eq, List.nil_append,
      GoogleClientIDCol, GoogleClientSecretCol, GoogleScopesCol, database.StringArray]
  · simp only [reduceGoogleIDPChangedColumns, appendIfNotNil_eq, List.nil_append,
      List.length_append, length_optCol]

/-- C28: the dispatch table is not a function of its key: in the entry of the instance
aggregate and in the entry of the org aggregate the JWT Added event type is registered
twice, once with `reduceJWTIDPAdded` and once with `reduceJWTIDPChanged`, and the two
reducers differ: on the JWT Added event the first returns a unit and the second the
unexpected-event-shape error. -/
theorem C28_jwt_added_event_type_registered_twice :
    reducers.map (fun ar => (ar.Aggregate, decide ar.eventTypes.Nodup)) =
      [(.instanceAggregateType, false), (.orgAggregateType, false)] ∧
    reducers.map (fun ar => (ar.eventTypes.get? 4, ar.eventTypes.get? 5)) =
      [(some .instanceJWTIDPAddedEventType, some .instanceJWTIDPAddedEventType),
       (some .orgJWTIDPAddedEventType, some .orgJWTIDPAddedEventType)] ∧
    reducers.map (fun ar => (ar.EventRedusers.map (fun er => er.Reduce)).get? 4) =
      [some reduceJWTIDPAdded, some reduceJWTIDPAdded] ∧
    reducers.map (fun ar => (ar.EventRedusers.map (fun er => er.Reduce)).get? 5) =
      [some reduceJWTIDPChanged, some reduceJWTIDPChanged] ∧
    (∃ s, reduceJWTIDPAdded (.inst (.JWTIDPAddedEvent sampleJWTAdded)) = .ok s) ∧
    (∃ err, reduceJWTIDPChanged (.inst (.JWTIDPAddedEvent sampleJWTAdded)) = .error err) ∧
    reduceJWTIDPAdded ≠ reduceJWTIDPChanged := by
  refine ⟨by decide, by decide, rfl, rfl, ⟨_, rfl⟩, ⟨_, rfl⟩, ?_⟩
  intro h
  have h2 := congrFun h (.inst (.JWTIDPAddedEvent sampleJWTAdded))
  simp [reduceJWTIDPAdded, reduceJWTIDPChanged] at h2

/-- C29: `reduceOldConfigChanged` is a reducer of the dispatch table and, for every generic
legacy config-changed event on both scopes, its Update targets the primary table and
its condition names the column `idp_id`, which the schema does not declare for the
primary table; the statement does not agree with the declared schema. -/
theorem C29_old_config_changed_condition_names_undeclared_column
    (e : idpconfig.IDPConfigChangedEvent) :
    reduceOldConfigChanged ∈ tableReducers ∧
    declaredColumns none =
      some ["id", "creation_date", "change_date", "sequence", "resource_owner", "instance_id",
        "state", "name", "owner_type", "type", "owner_removed", "is_creation_allowed",
        "is_linking_allowed", "is_auto_creation", "is_auto_update"] ∧
    (∃ s, reduceOldConfigChanged (.org (.IDPConfigChangedEvent e)) = .ok s ∧
      s.Execute.map (fun x => (x.suffix, x.agreesWithSchema, x.undeclaredColumns)) =
        [(none, false, ["idp_id"])]) ∧
    (∃ s, reduceOldConfigChanged (.inst (.IDPConfigChangedEvent e)) = .ok s ∧
      s.Execute.map (fun x => (x.suffix, x.agreesWithSchema, x.undeclaredColumns)) =
        [(none, false, ["idp_id"])]) := by
  refine ⟨by simp [tableReducers, reducers], declaredColumns_none, ?_, ?_⟩ <;>
  · obtain ⟨b, id, name, auto⟩ := e
    cases name <;> cases auto <;> exact ⟨_, rfl, rfl⟩

/-- C30: for every reducer of the projection and every event it accepts, every Create of
the unit targets a declared table, assigns every column of that table the schema
declares neither nullable nor with a default, assigns every primary-key column, and
assigns no column twice; each of the eight reducers with a Create emits one. -/
theorem C30_every_create_is_complete_for_the_schema (r : handler.Reduce)
    (hr : r ∈ tableReducers) (event : eventstore.Event) (s : handler.Statement)
    (h : r event = .ok s) :
    (r ∈ createReducers → ∃ suffix values, crdb.Exec.create suffix values ∈ s.Execute) ∧
    ∀ suffix values, crdb.Exec.create suffix values ∈ s.Execute →
      CompleteCreate suffix values := by
  constructor
  · intro hc
    simp only [createReducers, List.mem_cons, List.mem_singleton, List.not_mem_nil,
      or_false] at hc
    rcases hc with rfl | rfl | rfl | rfl | rfl | rfl | rfl | rfl
    · exact (reduceOAuthIDPAdded_creates h).1
    · exact (reduceOIDCIDPAdded_creates h).1
    · exact (reduceJWTIDPAdded_creates h).1
    · exact (reduceGoogleIDPAdded_creates h).1
    · exact (reduceLDAPIDPAdded_creates h).1
    · exact (reduceOldConfigAdded_creates h).1
    · exact (reduceOldOIDCConfigAdded_creates h).1
    · exact (reduceOldJWTConfigAdded_creates h).1
  · intro suffix values hm
    rcases tableReducers_cases hr with rfl | rfl | rfl | rfl | rfl | rfl | rfl | rfl | rfl |
      rfl | rfl | rfl | rfl | rfl | rfl | rfl | rfl | rfl | rfl
    · exact (reduceOAuthIDPAdded_creates h).2 suffix values hm
    · exact absurd hm (reduceOAuthIDPChanged_creates h suffix values)
    · exact (reduceOIDCIDPAdded_creates h).2 suffix values hm
    · exact absurd hm (reduceOIDCIDPChanged_creates h suffix values)
    · exact (reduceJWTIDPAdded_creates h).2 suffix values hm
    · exact absurd hm (reduceJWTIDPChanged_creates h suffix values)
    · exact (reduceOldConfigAdded_creates h).2 suffix values hm
    · exact absurd hm (reduceOldConfigChanged_creates h suffix values)
    · exact (reduceOldOIDCConfigAdded_creates h).2 suffix values hm
    · exact absurd hm (reduceOldOIDCConfigChanged_creates h suffix values)
    · exact (reduceOldJWTConfigAdded_creates h).2 suffix values hm
    · exact absurd hm (reduceOldJWTConfigChanged_creates h suffix values)
    · exact (reduceGoogleIDPAdded_creates h).2 suffix values hm
    · exact absurd hm (reduceGoogleIDPChanged_creates h suffix values)
    · exact (reduceLDAPIDPAdded_creates h).2 suffix values hm
    · exact absurd hm (reduceLDAPIDPChanged_creates h suffix values)
    · exact absurd hm (reduceIDPRemoved_creates h suffix values)
    · exact absurd hm (reduceOwnerRemoved_creates h suffix values)
    · exact absurd hm (reduceInstanceRemovedHelper_creates h suffix values)

/-- C30, at the OAuth Added event for `idp1`: both Creates of its unit are complete. -/
theorem C30_every_create_is_complete_witness :
    reduceOAuthIDPAdded ∈ tableReducers ∧ reduceOAuthIDPAdded ∈ createReducers ∧
    reduceOAuthIDPAdded (.inst (.OAuthIDPAddedEvent sampleOAuthAdded)) = .ok sampleOAuthAddedUnit ∧
    (reduceOAuthIDPAdded ∈ createReducers →
      ∃ suffix values, crdb.Exec.create suffix values ∈ sampleOAuthAddedUnit.Execute) ∧
    ∀ suffix values, crdb.Exec.create suffix values ∈ sampleOAuthAddedUnit.Execute →
      CompleteCreate suffix values :=
  ⟨by simp [tableReducers, reducers], by simp [createReducers], rfl,
    C30_every_create_is_complete_for_the_schema reduceOAuthIDPAdded
      (by simp [tableReducers, reducers]) (.inst (.OAuthIDPAddedEvent sampleOAuthAdded))
      sampleOAuthAddedUnit rfl⟩

/-- C31: every statement of the unit a reducer of the dispatch table returns for an
accepted event is scoped to the instance of the event's aggregate (a Create assigns
`instance_id` that value, an Update and a Delete carry the equality condition on
`instance_id` with that value), and applying the unit, alone or through the reducer,
leaves the primary and satellite rows of every other instance as they were. -/
theorem C31_units_touch_only_the_event_instance (r : handler.Reduce) (hr : r ∈ tableReducers)
    (event : eventstore.Event) (s : handler.Statement) (h : r event = .ok s) (t : Tables) :
    (∀ x ∈ s.Execute, x.scopedTo event.toBaseEvent.Aggregate.InstanceID) ∧
    (applyStatement t s).ofOtherInstances event.toBaseEvent.Aggregate.InstanceID =
      t.ofOtherInstances event.toBaseEvent.Aggregate.InstanceID ∧
    (applyReduce t r event).ofOtherInstances event.toBaseEvent.Aggregate.InstanceID =
      t.ofOtherInstances event.toBaseEvent.Aggregate.InstanceID := by
  have hs := isolated_of_reducer hr h
  refine ⟨fun x hx => (hs x hx).1, frame_applyStatement hs t, ?_⟩
  simp only [applyReduce, h]
  exact frame_applyStatement hs t

/-- C31, at the removal of provider `idp1` of instance `inst1` from tables that also hold a
provider `idp1` of instance `inst2`: the row of `inst2` is the one that remains. -/
theorem C31_units_touch_only_the_event_instance_witness :
    reduceIDPRemoved ∈ tableReducers ∧
    (∃ s, reduceIDPRemoved (.inst (.IDPRemovedEvent sampleRemoved)) = .ok s) ∧
    (applyReduce sampleTwoInstances reduceIDPRemoved
        (.inst (.IDPRemovedEvent sampleRemoved))).ofOtherInstances "inst1" =
      sampleTwoInstances.ofOtherInstances "inst1" ∧
    (applyReduce sampleTwoInstances reduceIDPRemoved
        (.inst (.IDPRemovedEvent sampleRemoved))).project none ["id", "instance_id"] =
      [[some (.text "idp1"), some (.text "inst2")]] :=
  ⟨by simp [tableReducers, reducers], ⟨_, rfl⟩,
   (C31_units_touch_only_the_event_instance reduceIDPRemoved
      (by simp [tableReducers, reducers]) (.inst (.IDPRemovedEvent sampleRemoved)) _ rfl
      sampleTwoInstances).2.2,
   by decide⟩

/-- C32: for each of the five provider types, on empty tables, the unit of an Added event
with payload `p` followed by the unit of the Changed event `q.asChanged b` (same id and
instance, the name, the four option flags and every type-specific field present with the
values of the payload `q`, whatever the scopes of the three events) leaves the satellite
table with exactly the rows the Added event with payload `q` creates, one row, and a
primary row that agrees with that Added event's primary row on `name` and on the four
capability flags.  A secret, a scope list or a password is present in a Changed event only
when it is not nil, hence the hypotheses on `q`. -/
theorem C32_added_then_changed_equals_added :
    (∀ (p q : idp.OAuthIDPAddedEvent) (b : eventstore.BaseEvent)
        (k1 k2 k3 : Payload → eventstore.Event),
      k1 ∈ scopes → k2 ∈ scopes → k3 ∈ scopes → q.ID = p.ID →
      q.Aggregate.InstanceID = p.Aggregate.InstanceID →
      b.Aggregate.InstanceID = p.Aggregate.InstanceID →
      q.ClientSecret ≠ none →
      q.Scopes ≠ none →
      (processEvents [] [(reduceOAuthIDPAdded, k1 (.OAuthIDPAddedEvent p)),
          (reduceOAuthIDPChanged, k2 (.OAuthIDPChangedEvent (q.asChanged b)))]).satelliteRows
          "oauth" =
        (processEvents [] [(reduceOAuthIDPAdded, k3 (.OAuthIDPAddedEvent q))]).satelliteRows
          "oauth" ∧
      ((processEvents [] [(reduceOAuthIDPAdded, k3 (.OAuthIDPAddedEvent q))]).satelliteRows
          "oauth").length = 1 ∧
      (processEvents [] [(reduceOAuthIDPAdded, k1 (.OAuthIDPAddedEvent p)),
          (reduceOAuthIDPChanged, k2 (.OAuthIDPChangedEvent (q.asChanged b)))]).project none
          ["name", "is_creation_allowed", "is_linking_allowed", "is_auto_creation",
            "is_auto_update"] =
        (processEvents [] [(reduceOAuthIDPAdded, k3 (.OAuthIDPAddedEvent q))]).project none
          ["name", "is_creation_allowed", "is_linking_allowed", "is_auto_creation",
            "is_auto_update"]) ∧
    (∀ (p q : idp.OIDCIDPAddedEvent) (b : eventstore.BaseEvent)
        (k1 k2 k3 : Payload → eventstore.Event),
      k1 ∈ scopes → k2 ∈ scopes → k3 ∈ scopes → q.ID = p.ID →
      q.Aggregate.InstanceID = p.Aggregate.InstanceID →
      b.Aggregate.InstanceID = p.Aggregate.InstanceID →
      q.ClientSecret ≠ none →
      q.Scopes ≠ none →
      (processEvents [] [(reduceOIDCIDPAdded, k1 (.OIDCIDPAddedEvent p)),
          (reduceOIDCIDPChanged, k2 (.OIDCIDPChangedEvent (q.asChanged b)))]).satelliteRows
          "oidc" =
        (processEvents [] [(reduceOIDCIDPAdded, k3 (.OIDCIDPAddedEvent q))]).satelliteRows
          "oidc" ∧
      ((processEvents [] [(reduceOIDCIDPAdded, k3 (.OIDCIDPAddedEvent q))]).satelliteRows
          "oidc").length = 1 ∧
      (processEvents [] [(reduceOIDCIDPAdded, k1 (.OIDCIDPAddedEvent p)),
          (reduceOIDCIDPChanged, k2 (.OIDCIDPChangedEvent (q.asChanged b)))]).project none
          ["name", "is_creation_allowed", "is_linking_allowed", "is_auto_creation",
            "is_auto_update"] =
        (processEvents [] [(reduceOIDCIDPAdded, k3 (.OIDCIDPAddedEvent q))]).project none
          ["name", "is_creation_allowed", "is_linking_allowed", "is_auto_creation",
            "is_auto_update"]) ∧
    (∀ (p q : idp.JWTIDPAddedEvent) (b : eventstore.BaseEvent)
        (k1 k2 k3 : Payload → eventstore.Event),
      k1 ∈ scopes → k2 ∈ scopes → k3 ∈ scopes → q.ID = p.ID →
      q.Aggregate.InstanceID = p.Aggregate.InstanceID →
      b.Aggregate.InstanceID = p.Aggregate.InstanceID →
      (processEvents [] [(reduceJWTIDPAdded, k1 (.JWTIDPAddedEvent p)),
          (reduceJWTIDPChanged, k2 (.JWTIDPChangedEvent (q.asChanged b)))]).satelliteRows
          "jwt" =
        (processEvents [] [(reduceJWTIDPAdded, k3 (.JWTIDPAddedEvent q))]).satelliteRows
          "jwt" ∧
      ((processEvents [] [(reduceJWTIDPAdded, k3 (.JWTIDPAddedEvent q))]).satelliteRows
          "jwt").length = 1 ∧
      (processEvents [] [(reduceJWTIDPAdded, k1 (.JWTIDPAddedEvent p)),
          (reduceJWTIDPChanged, k2 (.JWTIDPChangedEvent (q.asChanged b)))]).project none
          ["name", "is_creation_allowed", "is_linking_allowed", "is_auto_creation",
            "is_auto_update"] =
        (processEvents [] [(reduceJWTIDPAdded, k3 (.JWTIDPAddedEvent q))]).project none
          ["name", "is_creation_allowed", "is_linking_allowed", "is_auto_creation",
            "is_auto_update"]) ∧
    (∀ (p q : idp.GoogleIDPAddedEvent) (b : eventstore.BaseEvent)
        (k1 k2 k3 : Payload → eventstore.Event),
      k1 ∈ scopes → k2 ∈ scopes → k3 ∈ scopes → q.ID = p.ID →
      q.Aggregate.InstanceID = p.Aggregate.InstanceID →
      b.Aggregate.InstanceID = p.Aggregate.InstanceID →
      q.ClientSecret ≠ none →
      q.Scopes ≠ none →
      (processEvents [] [(reduceGoogleIDPAdded, k1 (.GoogleIDPAddedEvent p)),
          (reduceGoogleIDPChanged, k2 (.GoogleIDPChangedEvent (q.asChanged b)))]).satelliteRows
          "google" =
        (processEvents [] [(reduceGoogleIDPAdded, k3 (.GoogleIDPAddedEvent q))]).satelliteRows
          "google" ∧
      ((processEvents [] [(reduceGoogleIDPAdded, k3 (.GoogleIDPAddedEvent q))]).satelliteRows
          "google").length = 1 ∧
      (processEvents [] [(reduceGoogleIDPAdded, k1 (.GoogleIDPAddedEvent p)),
          (reduceGoogleIDPChanged, k2 (.GoogleIDPChangedEvent (q.asChanged b)))]).project none
          ["name", "is_creation_allowed", "is_linking_allowed", "is_auto_creation",
            "is_auto_update"] =
        (processEvents [] [(reduceGoogleIDPAdded, k3 (.GoogleIDPAddedEvent q))]).project none
          ["name", "is_creation_allowed", "is_linking_allowed", "is_auto_creation",
            "is_auto_update"]) ∧
    (∀ (p q : idp.LDAPIDPAddedEvent) (b : eventstore.BaseEvent)
        (k1 k2 k3 : Payload → eventstore.Event),
      k1 ∈ scopes → k2 ∈ scopes → k3 ∈ scopes → q.ID = p.ID →
      q.Aggregate.InstanceID = p.Aggregate.InstanceID →
      b.Aggregate.InstanceID = p.Aggregate.InstanceID →
      q.Password ≠ none →
      (processEvents [] [(reduceLDAPIDPAdded, k1 (.LDAPIDPAddedEvent p)),
          (reduceLDAPIDPChanged, k2 (.LDAPIDPChangedEvent (q.asChanged b)))]).satelliteRows
          "ldap" =
        (processEvents [] [(reduceLDAPIDPAdded, k3 (.LDAPIDPAddedEvent q))]).satelliteRows
          "ldap" ∧
      ((processEvents [] [(reduceLDAPIDPAdded, k3 (.LDAPIDPAddedEvent q))]).satelliteRows
          "ldap").length = 1 ∧
      (processEvents [] [(reduceLDAPIDPAdded, k1 (.LDAPIDPAddedEvent p)),
          (reduceLDAPIDPChanged, k2 (.LDAPIDPChangedEvent (q.asChanged b)))]).project none
          ["name", "is_creation_allowed", "is_linking_allowed", "is_auto_creation",
            "is_auto_update"] =
        (processEvents [] [(reduceLDAPIDPAdded, k3 (.LDAPIDPAddedEvent q))]).project none
          ["name", "is_creation_allowed", "is_linking_allowed", "is_auto_creation",
            "is_auto_update"]) :=
  ⟨fun p q b _ _ _ hk1 hk2 hk3 hid hinst hb h0 h1 =>
      oauth_added_then_changed p q b hk1 hk2 hk3 hid hinst hb h0 h1,
   fun p q b _ _ _ hk1 hk2 hk3 hid hinst hb h0 h1 =>
      oidc_added_then_changed p q b hk1 hk2 hk3 hid hinst hb h0 h1,
   fun p q b _ _ _ hk1 hk2 hk3 hid hinst hb =>
      jwt_added_then_changed p q b hk1 hk2 hk3 hid hinst hb,
   fun p q b _ _ _ hk1 hk2 hk3 hid hinst hb h0 h1 =>
      google_added_then_changed p q b hk1 hk2 hk3 hid hinst hb h0 h1,
   fun p q b _ _ _ hk1 hk2 hk3 hid hinst hb h0 =>
      ldap_added_then_changed p q b hk1 hk2 hk3 hid hinst hb h0⟩

/-- C32, at the OAuth provider `idp1`: added from the org scope with `sampleOAuthAdded`, then
changed from the instance scope to the values of `sampleOAuthReplacement`. -/
theorem C32_added_then_changed_equals_added_witness :
    sampleOAuthReplacement.ClientSecret ≠ none ∧ sampleOAuthReplacement.Scopes ≠ none ∧
    (processEvents []
        [(reduceOAuthIDPAdded, .org (.OAuthIDPAddedEvent sampleOAuthAdded)),
         (reduceOAuthIDPChanged, .inst (.OAuthIDPChangedEvent
            (sampleOAuthReplacement.asChanged
              sampleOAuthChangedScopes.toBaseEvent)))]).satelliteRows
        "oauth" =
      (processEvents []
        [(reduceOAuthIDPAdded, .org (.OAuthIDPAddedEvent sampleOAuthReplacement))]).satelliteRows
        "oauth" :=
  ⟨by decide, by decide,
   (C32_added_then_changed_equals_added.1 sampleOAuthAdded sampleOAuthReplacement
      sampleOAuthChangedScopes.toBaseEvent .org .inst .org (by simp [scopes]) (by simp [scopes])
      (by simp [scopes]) rfl rfl rfl (by decide) (by decide)).1⟩

/-- C33: each of the five typed Changed reducers, of the five legacy reducers that do not
write `owner_type` and `reduceIDPRemoved` accepts the org-scoped and the
instance-scoped event with one payload and returns the same unit for both. -/
theorem C33_changed_removed_and_legacy_units_ignore_scope :
    (∀ e : idp.OAuthIDPChangedEvent,
      SameUnit (reduceOAuthIDPChanged (.org (.OAuthIDPChangedEvent e)))
        (reduceOAuthIDPChanged (.inst (.OAuthIDPChangedEvent e)))) ∧
    (∀ e : idp.OIDCIDPChangedEvent,
      SameUnit (reduceOIDCIDPChanged (.org (.OIDCIDPChangedEvent e)))
        (reduceOIDCIDPChanged (.inst (.OIDCIDPChangedEvent e)))) ∧
    (∀ e : idp.JWTIDPChangedEvent,
      SameUnit (reduceJWTIDPChanged (.org (.JWTIDPChangedEvent e)))
        (reduceJWTIDPChanged (.inst (.JWTIDPChangedEvent e)))) ∧
    (∀ e : idp.GoogleIDPChangedEvent,
      SameUnit (reduceGoogleIDPChanged (.org (.GoogleIDPChangedEvent e)))
        (reduceGoogleIDPChanged (.inst (.GoogleIDPChangedEvent e)))) ∧
    (∀ e : idp.LDAPIDPChangedEvent,
      SameUnit (reduceLDAPIDPChanged (.org (.LDAPIDPChangedEvent e)))
        (reduceLDAPIDPChanged (.inst (.LDAPIDPChangedEvent e)))) ∧
    (∀ e : idpconfig.IDPConfigChangedEvent,
      SameUnit (reduceOldConfigChanged (.org (.IDPConfigChangedEvent e)))
        (reduceOldConfigChanged (.inst (.IDPConfigChangedEvent e)))) ∧
    (∀ e : idpconfig.OIDCConfigAddedEvent,
      SameUnit (reduceOldOIDCConfigAdded (.org (.IDPOIDCConfigAddedEvent e)))
        (reduceOldOIDCConfigAdded (.inst (.IDPOIDCConfigAddedEvent e)))) ∧
    (∀ e : idpconfig.OIDCConfigChangedEvent,
      SameUnit (reduceOldOIDCConfigChanged (.org (.IDPOIDCConfigChangedEvent e)))
        (reduceOldOIDCConfigChanged (.inst (.IDPOIDCConfigChangedEvent e)))) ∧
    (∀ e : idpconfig.JWTConfigAddedEvent,
      SameUnit (reduceOldJWTConfigAdded (.org (.IDPJWTConfigAddedEvent e)))
        (reduceOldJWTConfigAdded (.inst (.IDPJWTConfigAddedEvent e)))) ∧
    (∀ e : idpconfig.JWTConfigChangedEvent,
      SameUnit (reduceOldJWTConfigChanged (.org (.IDPJWTConfigChangedEvent e)))
        (reduceOldJWTConfigChanged (.inst (.IDPJWTConfigChangedEvent e)))) ∧
    (∀ e : idp.RemovedEvent,
      SameUnit (reduceIDPRemoved (.org (.IDPRemovedEvent e)))
        (reduceIDPRemoved (.inst (.IDPRemovedEvent e)))) :=
  ⟨fun _ => ⟨_, rfl, rfl⟩, fun _ => ⟨_, rfl, rfl⟩, fun _ => ⟨_, rfl, rfl⟩, fun _ => ⟨_, rfl, rfl⟩,
    fun _ => ⟨_, rfl, rfl⟩, fun _ => ⟨_, rfl, rfl⟩, fun _ => ⟨_, rfl, rfl⟩, fun _ => ⟨_, rfl, rfl⟩,
    fun _ => ⟨_, rfl, rfl⟩, fun _ => ⟨_, rfl, rfl⟩, fun _ => ⟨_, rfl, rfl⟩⟩

/-- C34: no Update of the unit a reducer of the dispatch table returns for an accepted event
assigns `id`, `instance_id`, `creation_date`, `resource_owner`, `owner_type` or `state` on
the primary table, nor `idp_id` or `instance_id` on a satellite table; a Delete assigns
nothing, so only a Create sets these columns. -/
theorem C34_updates_never_assign_identity_columns (r : handler.Reduce)
    (hr : r ∈ tableReducers) (event : eventstore.Event) (s : handler.Statement)
    (h : r event = .ok s) :
    (∀ values conditions, crdb.Exec.update none values conditions ∈ s.Execute →
      ∀ n ∈ ["id", "instance_id", "creation_date", "resource_owner", "owner_type", "state"],
        n ∉ handler.namesOf values) ∧
    (∀ suffix values conditions,
      crdb.Exec.update (some suffix) values conditions ∈ s.Execute →
      ∀ n ∈ ["idp_id", "instance_id"], n ∉ handler.namesOf values) :=
  ⟨fun _ _ hx _ hn => not_mem_of_keepsIdentity (isolated_of_reducer hr h _ hx).2 hn,
   fun _ _ _ hx _ hn => not_mem_of_keepsIdentity (isolated_of_reducer hr h _ hx).2 hn⟩

/-- C34, at the OAuth Changed event that replaces the scopes of `idp1`: its unit has two
Updates, neither of which assigns an identity or provenance column. -/
theorem C34_updates_never_assign_identity_columns_witness :
    reduceOAuthIDPChanged ∈ tableReducers ∧
    ∃ s, reduceOAuthIDPChanged (.inst (.OAuthIDPChangedEvent sampleOAuthChangedScopes)) = .ok s ∧
      s.Execute.length = 2 ∧
      (∀ values conditions, crdb.Exec.update none values conditions ∈ s.Execute →
        ∀ n ∈ ["id", "instance_id", "creation_date", "resource_owner", "owner_type", "state"],
          n ∉ handler.namesOf values) ∧
      (∀ suffix values conditions,
        crdb.Exec.update (some suffix) values conditions ∈ s.Execute →
        ∀ n ∈ ["idp_id", "instance_id"], n ∉ handler.namesOf values) :=
  ⟨by simp [tableReducers, reducers], _, rfl, rfl,
   C34_updates_never_assign_identity_columns reduceOAuthIDPChanged
     (by simp [tableReducers, reducers])
     (.inst (.OAuthIDPChangedEvent sampleOAuthChangedScopes)) _ rfl⟩

end projection
